import Mathlib

/-!
# Deferred rendering example (`src/deferred_rendering.c`)

A shallow embedding of the WebGPU deferred-rendering example: its module state,
the one-time setup path, the per-frame command recording and the camera orbit.

Conventions of the embedding.

* C `float`/`double` values are elements of a field `K` (the theorems about
  numbers instantiate `K` with the reals); the C library functions `sin`, `cos`
  and the constant `PI` are parameters, as are the cglm functions that need them.
* A GPU handle is `Option Nat`; `none` is the `NULL` handle.
* Everything the program does to the outside world (buffer uploads, queue writes,
  submissions, object creation) is appended to a log kept in the context.
* Machine integers are naturals or integers reduced modulo `2 ^ w` where the C
  code computes in a `w`-bit unsigned type.
* A step that can stop at an `ASSERT` or at a `NULL` dereference returns
  `Except Abort`; the frame path is such a step, since `build_command_buffer`
  asserts the command buffer it obtained from the encoder.
* What the user-interface overlay does in a frame (its widgets and the calls it
  records into the command encoder) is an input of the frame.
-/

namespace DeferredRendering

/-! ## Scalars, vectors, matrices -/

/-- GPU object handle; `none` is `NULL`. -/
abbrev Handle := Option Nat

/-- cglm `vec2`. -/
abbrev Vec2 (K : Type) := Fin 2 → K
/-- cglm `vec3`. -/
abbrev Vec3 (K : Type) := Fin 3 → K
/-- cglm `vec4`. -/
abbrev Vec4 (K : Type) := Fin 4 → K
/-- cglm `mat4`, column major as in C: `m c r` is `m[c][r]`, column `c`, row `r`. -/
abbrev Mat4 (K : Type) := Fin 4 → Fin 4 → K

/-- The macro `MAX_NUM_LIGHTS`, `1024u`. -/
def MAX_NUM_LIGHTS : Nat := 1024

/-- The constant `static const uint32_t max_num_lights = (uint32_t)MAX_NUM_LIGHTS`. -/
def max_num_lights : Nat := MAX_NUM_LIGHTS % 2 ^ 32

/-- The constant `static const uint8_t light_data_stride = 8`. -/
def light_data_stride : Nat := 8

/-- The corner `static vec3 light_extent_min = {-50.f, -30.f, -50.f}`. -/
def light_extent_min {K : Type} [Field K] : Vec3 K := ![-50, -30, -50]

/-- The corner `static vec3 light_extent_max = {50.f, 30.f, 50.f}`. -/
def light_extent_max {K : Type} [Field K] : Vec3 K := ![50, 30, 50]

/-- Size in bytes of a `float` and of a `uint32_t`. -/
def sizeof_float : Nat := 4

/-- Size in bytes of a `uint16_t`. -/
def sizeof_uint16 : Nat := 2

/-- Size in bytes of a `mat4`: sixteen floats. -/
def sizeof_mat4 : Nat := 16 * sizeof_float

/-- cglm `glm_vec3_sub(a, b, dest)`: component-wise difference. -/
def glm_vec3_sub {K : Type} [Field K] (a b : Vec3 K) : Vec3 K := fun j => a j - b j

/-- cglm `glm_vec3_copy(a, dest)`. -/
def glm_vec3_copy {K : Type} (a : Vec3 K) : Vec3 K := a

/-- The identity matrix, `GLM_MAT4_IDENTITY_INIT` / `glm_mat4_identity`. -/
def glm_mat4_identity {K : Type} [Field K] : Mat4 K := fun c r => if c = r then 1 else 0

/-- cglm `glm_mat4_mul(m1, m2, dest)`: `dest = m1 * m2` for column-major operands,
`dest[c][r] = sum over k of m1[k][r] * m2[c][k]`. -/
def glm_mat4_mul {K : Type} [Field K] (m1 m2 : Mat4 K) : Mat4 K :=
  fun c r => m1 0 r * m2 c 0 + m1 1 r * m2 c 1 + m1 2 r * m2 c 2 + m1 3 r * m2 c 3

/-- cglm `glm_mat4_mulN(matrices, len, dest)`: the product of the listed matrices from
left to right, starting with the first two. -/
def glm_mat4_mulN {K : Type} [Field K] : List (Mat4 K) → Mat4 K
  | m0 :: m1 :: rest => rest.foldl glm_mat4_mul (glm_mat4_mul m0 m1)
  | [m0] => m0
  | [] => glm_mat4_identity

/-- cglm `glm_translate(m, v)`: `m[3] += m[0]*v[0] + m[1]*v[1] + m[2]*v[2]`. -/
def glm_translate {K : Type} [Field K] (m : Mat4 K) (v : Vec3 K) : Mat4 K :=
  fun c r => if c = 3 then m 0 r * v 0 + m 1 r * v 1 + m 2 r * v 2 + m 3 r else m c r

/-- cglm `glm_mat4_transpose(m)`. -/
def glm_mat4_transpose {K : Type} (m : Mat4 K) : Mat4 K := fun c r => m r c

/-- The sixteen floats of a `mat4` in memory order. -/
def mat4_floats {K : Type} (m : Mat4 K) : List K :=
  (List.finRange 4).flatMap fun c => List.ofFn (m c)

/-- The mathematical matrix a column-major `mat4` stands for (entry at row `r`,
column `c` is `m[c][r]`). -/
def Mat4.toMatrix {K : Type} (m : Mat4 K) : Matrix (Fin 4) (Fin 4) K :=
  Matrix.of fun r c => m c r

/-- The functions of the C math library and of cglm that the example calls and that
are not determined by field arithmetic alone. -/
structure ExternMath (K : Type) where
  /-- The constant `PI`. -/
  PI : K
  /-- C `sin`. -/
  sin : K → K
  /-- C `cos`. -/
  cos : K → K
  /-- cglm `glm_perspective(fovy, aspect, nearZ, farZ, dest)`. -/
  glm_perspective : K → K → K → K → Mat4 K
  /-- cglm `glm_lookat(eye, center, up, dest)`. -/
  glm_lookat : Vec3 K → Vec3 K → Vec3 K → Mat4 K
  /-- cglm `glm_mat4_inv(mat, dest)`. -/
  glm_mat4_inv : Mat4 K → Mat4 K

/-! ## Mapped buffer ranges -/

/-- A mapped buffer range seen as an array of elements; `none` marks an element the
program has not written. -/
abbrev Mapping (α : Type) := Nat → Option α

/-- A freshly mapped range: nothing written yet. -/
def Mapping.fresh {α : Type} : Mapping α := fun _ => none

/-- The call `memcpy(&mapping[off], src, sizeof src)`, in units of elements. -/
def memcpy {α : Type} (dst : Mapping α) (off : Nat) (src : List α) : Mapping α :=
  fun k => if off ≤ k ∧ k < off + src.length then src[k - off]? else dst k

/-! ## `prepare_lights`: the light records -/

/-- The successive results of `random_float_min_max(min, max)`: the result of call
number `n` (counted from `0`) with arguments `min`, `max`. -/
abbrev RandomFloat (K : Type) := Nat → K → K → K

/-- Local variables of the fill loop of `prepare_lights`. -/
structure LightFill (K : Type) where
  /-- `light_data`, the mapped range of `lights.buffer`, in floats. -/
  light_data : Mapping K
  /-- `tmp_vec4`. -/
  tmp_vec4 : Vec4 K
  /-- Number of calls made to `random_float_min_max` so far. -/
  calls : Nat

/-- One round of `for (uint8_t j = 0; j < 3; j++)`:
`tmp_vec4[j] = random_float_min_max(0.0f, 1.0f) * extent[j] + light_extent_min[j]`. -/
def prepare_lights_position {K : Type} [Field K] (rand : RandomFloat K) (extent : Vec3 K)
    (st : LightFill K) (j : Fin 3) : LightFill K :=
  { st with
    tmp_vec4 := Function.update st.tmp_vec4 j.castSucc
      (rand st.calls 0 1 * extent j + light_extent_min j)
    calls := st.calls + 1 }

/-- The body of `for (uint32_t i = 0, offset = 0; i < max_num_lights; ++i)`. -/
def prepare_lights_body {K : Type} [Field K] (rand : RandomFloat K) (extent : Vec3 K)
    (st : LightFill K) (i : Nat) : LightFill K :=
  let offset := (light_data_stride * i) % 2 ^ 32
  -- position
  let st := [0, 1, 2].foldl (prepare_lights_position rand extent) st
  let st := { st with tmp_vec4 := Function.update st.tmp_vec4 3 1 }
  let st := { st with light_data := memcpy st.light_data offset (List.ofFn st.tmp_vec4) }
  -- color
  let st := { st with tmp_vec4 := Function.update st.tmp_vec4 0 (rand st.calls 0 1 * 2)
                      calls := st.calls + 1 }
  let st := { st with tmp_vec4 := Function.update st.tmp_vec4 1 (rand st.calls 0 1 * 2)
                      calls := st.calls + 1 }
  let st := { st with tmp_vec4 := Function.update st.tmp_vec4 2 (rand st.calls 0 1 * 2)
                      calls := st.calls + 1 }
  -- radius
  let st := { st with tmp_vec4 := Function.update st.tmp_vec4 3 20 }
  { st with light_data := memcpy st.light_data (offset + 4) (List.ofFn st.tmp_vec4) }

/-- The first `n` rounds of the fill loop of `prepare_lights`. -/
def prepare_lights_loop {K : Type} [Field K] (rand : RandomFloat K) (extent : Vec3 K)
    (n : Nat) (st : LightFill K) : LightFill K :=
  (List.range n).foldl (prepare_lights_body rand extent) st

/-- What `prepare_lights` leaves in the mapped range of `lights.buffer` before it
unmaps it: `extent = light_extent_max - light_extent_min`, `tmp_vec4` zeroed, then
the loop over all `max_num_lights` lights. -/
def prepare_lights_data {K : Type} [Field K] (rand : RandomFloat K) : Mapping K :=
  (prepare_lights_loop rand (glm_vec3_sub light_extent_max light_extent_min) max_num_lights
    { light_data := Mapping.fresh, tmp_vec4 := fun _ => 0, calls := 0 }).light_data

/-- The size `lights.buffer_size = sizeof(float) * light_data_stride * max_num_lights`
(computed in `size_t`, stored in a `uint64_t`). -/
def lights_buffer_size : Nat := (sizeof_float * light_data_stride * max_num_lights) % 2 ^ 64

/-- The eight floats one round of the fill loop writes for a light, when the round
starts after `c` calls of `random_float_min_max`. -/
def light_record {K : Type} [Field K] (rand : RandomFloat K) (extent : Vec3 K) (c : Nat) :
    List K :=
  [rand c 0 1 * extent 0 + light_extent_min 0,
   rand (c + 1) 0 1 * extent 1 + light_extent_min 1,
   rand (c + 2) 0 1 * extent 2 + light_extent_min 2,
   1,
   rand (c + 3) 0 1 * 2,
   rand (c + 4) 0 1 * 2,
   rand (c + 5) 0 1 * 2,
   20]

/-! ## WebGPU descriptors and recorded commands -/

/-- Values of `WGPULoadOp` the example uses; `Undefined` is the zero value. -/
inductive LoadOp
  | Undefined
  | Clear
  | Load
  deriving DecidableEq

/-- Values of `WGPUStoreOp` the example uses; `Undefined` is the zero value. -/
inductive StoreOp
  | Undefined
  | Store
  | Discard
  deriving DecidableEq

/-- Values of `WGPUTextureFormat` the example uses; `SwapChain` is whatever format
`wgpu_context->swap_chain.format` holds. -/
inductive TextureFormat
  | Undefined
  | RGBA16Float
  | BGRA8Unorm
  | Depth24Plus
  | SwapChain
  deriving DecidableEq

/-- Values of `WGPUIndexFormat`. -/
inductive IndexFormat
  | Undefined
  | Uint16
  | Uint32
  deriving DecidableEq

/-- Shader stages of a binding's `visibility`. -/
inductive ShaderStage
  | Vertex
  | Fragment
  | Compute
  deriving DecidableEq

/-- Values of `WGPUTextureSampleType` the example uses. -/
inductive TextureSampleType
  | UnfilterableFloat
  | Depth
  deriving DecidableEq

/-- Values of `WGPUBufferBindingType` the example uses. -/
inductive BufferBindingType
  | Uniform
  | Storage
  | ReadOnlyStorage
  deriving DecidableEq

/-- The constant `WGPU_WHOLE_SIZE` of `webgpu.h`, the largest `uint64_t`. -/
def WGPU_WHOLE_SIZE : Nat := 2 ^ 64 - 1

/-- A `WGPUColor`; the example only stores literal values. -/
structure WGPUColor where
  r : ℚ
  g : ℚ
  b : ℚ
  a : ℚ
  deriving DecidableEq

/-- A `WGPURenderPassColorAttachment`, the fields the example sets. -/
structure RenderPassColorAttachment where
  view : Handle
  loadOp : LoadOp
  storeOp : StoreOp
  clearValue : WGPUColor
  deriving DecidableEq

/-- A `WGPURenderPassDepthStencilAttachment`, the fields the example sets. -/
structure RenderPassDepthStencilAttachment where
  view : Handle
  depthLoadOp : LoadOp
  depthStoreOp : StoreOp
  depthClearValue : ℚ
  stencilClearValue : Nat
  deriving DecidableEq

/-- A `WGPURenderPassDescriptor` as the example fills it. Its two pointers can only
point at the attachment storage of the pass structure the descriptor lives in, so each
is a flag: `true` for that storage, `false` for `NULL`. -/
structure RenderPassDescriptor where
  colorAttachmentCount : Nat
  colorAttachments : Bool
  depthStencilAttachment : Bool
  deriving DecidableEq

/-- What `wgpuCommandEncoderBeginRenderPass` reads through a descriptor at the moment
of the call: the attachments the descriptor points at. -/
structure RenderPassInfo where
  colorAttachments : List RenderPassColorAttachment
  depthStencilAttachment : Option RenderPassDepthStencilAttachment
  deriving DecidableEq

/-- The module variable `write_gbuffer_pass`. -/
structure WriteGBufferPass where
  color_attachments_0 : RenderPassColorAttachment
  color_attachments_1 : RenderPassColorAttachment
  depth_stencil_attachment : RenderPassDepthStencilAttachment
  descriptor : RenderPassDescriptor
  deriving DecidableEq

/-- The module variable `texture_quad_pass`. -/
structure TextureQuadPass where
  color_attachments_0 : RenderPassColorAttachment
  descriptor : RenderPassDescriptor
  deriving DecidableEq

/-- The attachments `&write_gbuffer_pass.descriptor` points at. -/
def WriteGBufferPass.info (p : WriteGBufferPass) : RenderPassInfo :=
  { colorAttachments :=
      if p.descriptor.colorAttachments then
        [p.color_attachments_0, p.color_attachments_1].take p.descriptor.colorAttachmentCount
      else []
    depthStencilAttachment :=
      if p.descriptor.depthStencilAttachment then some p.depth_stencil_attachment else none }

/-- The attachments `&texture_quad_pass.descriptor` points at. -/
def TextureQuadPass.info (p : TextureQuadPass) : RenderPassInfo :=
  { colorAttachments :=
      if p.descriptor.colorAttachments then
        [p.color_attachments_0].take p.descriptor.colorAttachmentCount
      else []
    depthStencilAttachment := none }

/-- One call recorded on a command encoder or on one of its pass encoders, with the
arguments of the call. -/
inductive Cmd
  | BeginRenderPass (descriptor : RenderPassInfo)
  | RenderPassSetPipeline (pipeline : Handle)
  | RenderPassSetBindGroup (groupIndex : Nat) (group : Handle) (dynamicOffsetCount : Nat)
  | RenderPassSetVertexBuffer (slot : Nat) (buffer : Handle) (offset size : Nat)
  | RenderPassSetIndexBuffer (buffer : Handle) (format : IndexFormat) (offset size : Nat)
  | RenderPassDrawIndexed (indexCount instanceCount firstIndex : Nat) (baseVertex : Int)
      (firstInstance : Nat)
  | RenderPassDraw (vertexCount instanceCount firstVertex firstInstance : Nat)
  | RenderPassEnd
  | BeginComputePass
  | ComputePassSetPipeline (pipeline : Handle)
  | ComputePassSetBindGroup (groupIndex : Nat) (group : Handle) (dynamicOffsetCount : Nat)
  | ComputePassDispatchWorkgroups (x y z : Nat)
  | ComputePassEnd
  deriving DecidableEq

/-- A finished command buffer: the calls recorded on its encoder, in order. -/
abbrev CommandBuffer := List Cmd

/-- Whether a recorded call begins a pass. -/
def Cmd.isBegin : Cmd → Bool
  | .BeginRenderPass _ => true
  | .BeginComputePass => true
  | _ => false

/-- Whether a recorded call ends a pass. -/
def Cmd.isEnd : Cmd → Bool
  | .RenderPassEnd => true
  | .ComputePassEnd => true
  | _ => false

/-- Splits recorded calls into passes; `cur` is the pass being recorded, if any. -/
def passesAux : Option (List Cmd) → List Cmd → List (List Cmd)
  | _, [] => []
  | none, c :: cs => if c.isBegin then passesAux (some [c]) cs else passesAux none cs
  | some p, c :: cs =>
    if c.isEnd then (p ++ [c]) :: passesAux none cs else passesAux (some (p ++ [c])) cs

/-- The passes of a command buffer, in order: each runs from a `Begin...Pass` call to
the matching `End` call. Calls outside a pass are not part of any pass. -/
def passes (cb : CommandBuffer) : List (List Cmd) := passesAux none cb

/-- A `WGPUBindGroupLayoutEntry`: a texture binding or a buffer binding. -/
inductive BindingLayout
  | texture (sampleType : TextureSampleType)
  | buffer (type : BufferBindingType) (minBindingSize : Nat)
  deriving DecidableEq

/-- A `WGPUBindGroupLayoutEntry`, the fields the example sets. -/
structure BindGroupLayoutEntry where
  binding : Nat
  visibility : List ShaderStage
  layout : BindingLayout
  deriving DecidableEq

/-- A `WGPUBindGroupEntry`, the fields the example sets (the others are zero). -/
structure BindGroupEntry where
  binding : Nat
  buffer : Handle
  size : Nat
  textureView : Handle
  deriving DecidableEq

/-! ## Creation sites and the device -/

/-- The calls of the setup path that return a GPU object or a mapped pointer, one
constructor per call site, in the order `example_initialize` reaches them. -/
inductive Site
  | vertex_buffer
  | vertex_buffer_mapping
  | index_buffer
  | index_buffer_mapping
  | texture_2d_float16
  | texture_albedo
  | texture_depth
  | texture_view_0
  | texture_view_1
  | texture_view_2
  | gbuffer_textures_bind_group_layout
  | lights_buffer_bind_group_layout
  | scene_uniform_bind_group_layout
  | lights_buffer_compute_bind_group_layout
  | write_gbuffers_pipeline_layout
  | gbuffers_debug_view_pipeline_layout
  | deferred_render_pipeline_layout
  | write_gbuffers_vertex_shader
  | write_gbuffers_fragment_shader
  | write_gbuffers_pipeline
  | gbuffers_debug_view_vertex_shader
  | gbuffers_debug_view_fragment_shader
  | gbuffers_debug_view_pipeline
  | deferred_render_vertex_shader
  | deferred_render_fragment_shader
  | deferred_render_pipeline
  | config_uniform_buffer
  | config_uniform_buffer_mapping
  | model_uniform_buffer
  | camera_uniform_buffer
  | write_gbuffers_pipeline_bind_group_layout_0
  | scene_uniform_bind_group
  | gbuffer_textures_bind_group
  | light_update_compute_pipeline_layout
  | light_update_compute_shader
  | light_update_compute_pipeline
  | lights_buffer
  | lights_buffer_mapping
  | lights_extent_buffer
  | lights_buffer_bind_group
  | light_update_compute_pipeline_bind_group_layout_0
  | lights_buffer_compute_bind_group
  deriving DecidableEq

/-- The GPU device as the setup path sees it: what each creating call returns.
Returning `none` is the call failing with a `NULL` result. -/
abbrev Device := Site → Handle

/-! ## Effects on the outside world -/

/-- What the program does to the GPU and the window system, in the order it happens.
Creation calls keep the descriptor fields that sizes and bindings depend on (usage
flags, labels and fixed-function pipeline state are left out). `release site handle`
is the release of the object held in the module variable that `site` fills. -/
inductive Effect (K : Type)
  | create_buffer (site : Site) (size : Nat) (mappedAtCreation : Bool) (result : Handle)
  | get_mapped_range (site : Site) (buffer : Handle) (offset size : Nat) (result : Handle)
  | unmap_floats (buffer : Handle) (contents : Mapping K)
  | unmap_uint16 (buffer : Handle) (contents : Mapping Nat)
  | unmap_uint32 (buffer : Handle) (contents : Mapping Nat)
  | create_texture (site : Site) (width height depthOrArrayLayers : Nat)
      (format : TextureFormat) (result : Handle)
  | create_texture_view (site : Site) (texture : Handle) (format : TextureFormat)
      (result : Handle)
  | create_bind_group_layout (site : Site) (entries : List BindGroupLayoutEntry)
      (result : Handle)
  | create_pipeline_layout (site : Site) (bindGroupLayouts : List Handle) (result : Handle)
  | create_shader (site : Site) (file : String) (result : Handle)
  | create_render_pipeline (site : Site) (layout vertexModule fragmentModule : Handle)
      (vertexBufferCount : Nat) (targets : List TextureFormat) (result : Handle)
  | create_compute_pipeline (site : Site) (layout computeModule : Handle) (result : Handle)
  | get_bind_group_layout (site : Site) (pipeline : Handle) (groupIndex : Nat)
      (result : Handle)
  | create_bind_group (site : Site) (layout : Handle) (entries : List BindGroupEntry)
      (result : Handle)
  | release_shader (module : Handle)
  | release (site : Site) (handle : Handle)
  | queue_write_floats (buffer : Handle) (offset : Nat) (data : List K) (size : Nat)
  | queue_write_uint32 (buffer : Handle) (offset : Nat) (data : List Nat) (size : Nat)
  | prepare_frame (frame_buffer : Handle)
  | create_command_encoder (result : Handle)
  | release_command_encoder (encoder : Handle)
  | submit (command_buffers : List (Option CommandBuffer))
  | submit_frame

/-! ## Context and module state -/

/-- What the example reads and writes through `wgpu_example_context_t* context` and
`context->wgpu_context`. `log` records the effects on the device and the queue. -/
structure Context (K : Type) where
  /-- Field `wgpu_context->surface.width`. -/
  surface_width : Nat
  /-- Field `wgpu_context->surface.height`. -/
  surface_height : Nat
  /-- Field `wgpu_context->swap_chain.frame_buffer`. -/
  swap_chain_frame_buffer : Handle
  /-- Field `wgpu_context->cmd_enc`: the handle of the command encoder. -/
  cmd_enc_handle : Handle
  /-- The calls recorded so far through `wgpu_context->cmd_enc`. -/
  cmd_enc : List Cmd
  /-- Field `wgpu_context->submit_info.command_buffers`, the first
  `command_buffer_count` entries; `none` is a `NULL` command buffer. -/
  submit_info_command_buffers : List (Option CommandBuffer)
  /-- Field `context->paused`. -/
  paused : Bool
  /-- Field `context->frame.timestamp_millis`. -/
  frame_timestamp_millis : K
  /-- Effects on the device, the queue and the swap chain so far. -/
  log : List (Effect K)

/-- The mesh type `stanford_dragon_mesh_t`: counted arrays of positions, normals,
uvs and triangles (triangle corners are `uint16_t` vertex indices). -/
structure StanfordDragonMesh (K : Type) where
  positions_count : Nat
  positions_data : Nat → Vec3 K
  normals_count : Nat
  normals_data : Nat → Vec3 K
  uvs_count : Nat
  uvs_data : Nat → Vec2 K
  triangles_count : Nat
  triangles_data : Nat → Fin 3 → Nat

/-- The helper type `wgpu_buffer_t`: a buffer handle with its size. -/
structure WgpuBuffer where
  buffer : Handle
  size : Nat
  deriving DecidableEq

/-- The module variable `view_matrices`. -/
structure ViewMatrices (K : Type) where
  up_vector : Vec3 K
  origin : Vec3 K
  projection_matrix : Mat4 K
  view_proj_matrix : Mat4 K

/-- The module variable `gbuffer`. -/
structure GBuffer where
  texture_2d_float16 : Handle
  texture_albedo : Handle
  texture_depth : Handle
  texture_views : Fin 3 → Handle

/-- The module variable `lights`. -/
structure Lights where
  buffer : Handle
  buffer_size : Nat
  extent_buffer : Handle
  extent_buffer_size : Nat
  config_uniform_buffer : Handle
  config_uniform_buffer_size : Nat
  buffer_bind_group : Handle
  buffer_bind_group_layout : Handle
  buffer_compute_bind_group : Handle
  buffer_compute_bind_group_layout : Handle
  deriving DecidableEq

/-- The value `RenderMode_Rendering` of `render_mode_enum`. -/
def RenderMode_Rendering : Int := 0

/-- The value `RenderMode_GBuffer_View` of `render_mode_enum`. -/
def RenderMode_GBuffer_View : Int := 1

/-- The module variable `settings`. The render mode is kept as the integer the C enum
variable holds: the overlay stores `(render_mode_enum)item_index` into it. -/
structure Settings where
  current_render_mode : Int
  num_lights : Int
  deriving DecidableEq

/-- The static variables of `deferred_rendering.c`. -/
structure State (K : Type) where
  view_matrices : ViewMatrices K
  stanford_dragon_mesh : StanfordDragonMesh K
  vertex_buffer : Handle
  index_buffer : Handle
  index_count : Nat
  gbuffer : GBuffer
  model_uniform_buffer : WgpuBuffer
  camera_uniform_buffer : WgpuBuffer
  camera_uniform_buffer_size : Nat
  lights : Lights
  scene_uniform_bind_group : Handle
  gbuffer_textures_bind_group : Handle
  scene_uniform_bind_group_layout : Handle
  gbuffer_textures_bind_group_layout : Handle
  write_gbuffers_pipeline : Handle
  gbuffers_debug_view_pipeline : Handle
  deferred_render_pipeline : Handle
  light_update_compute_pipeline : Handle
  write_gbuffers_pipeline_layout : Handle
  gbuffers_debug_view_pipeline_layout : Handle
  deferred_render_pipeline_layout : Handle
  light_update_compute_pipeline_layout : Handle
  write_gbuffer_pass : WriteGBufferPass
  texture_quad_pass : TextureQuadPass
  settings : Settings
  prepared : Bool

/-- A zero-initialised colour attachment. -/
def RenderPassColorAttachment.zero : RenderPassColorAttachment :=
  { view := none, loadOp := .Undefined, storeOp := .Undefined,
    clearValue := { r := 0, g := 0, b := 0, a := 0 } }

/-- A zero-initialised render pass descriptor. -/
def RenderPassDescriptor.zero : RenderPassDescriptor :=
  { colorAttachmentCount := 0, colorAttachments := false, depthStencilAttachment := false }

/-- The static variables as the program starts: everything zero or `NULL`, except
`settings`, which starts in rendering mode with 128 lights, and `prepared = false`. -/
def State.initial {K : Type} [Field K] : State K :=
  { view_matrices :=
      { up_vector := fun _ => 0, origin := fun _ => 0,
        projection_matrix := fun _ _ => 0, view_proj_matrix := fun _ _ => 0 }
    stanford_dragon_mesh :=
      { positions_count := 0, positions_data := fun _ _ => 0,
        normals_count := 0, normals_data := fun _ _ => 0,
        uvs_count := 0, uvs_data := fun _ _ => 0,
        triangles_count := 0, triangles_data := fun _ _ => 0 }
    vertex_buffer := none
    index_buffer := none
    index_count := 0
    gbuffer :=
      { texture_2d_float16 := none, texture_albedo := none, texture_depth := none,
        texture_views := fun _ => none }
    model_uniform_buffer := { buffer := none, size := 0 }
    camera_uniform_buffer := { buffer := none, size := 0 }
    camera_uniform_buffer_size := 0
    lights :=
      { buffer := none, buffer_size := 0, extent_buffer := none, extent_buffer_size := 0,
        config_uniform_buffer := none, config_uniform_buffer_size := 0,
        buffer_bind_group := none, buffer_bind_group_layout := none,
        buffer_compute_bind_group := none, buffer_compute_bind_group_layout := none }
    scene_uniform_bind_group := none
    gbuffer_textures_bind_group := none
    scene_uniform_bind_group_layout := none
    gbuffer_textures_bind_group_layout := none
    write_gbuffers_pipeline := none
    gbuffers_debug_view_pipeline := none
    deferred_render_pipeline := none
    light_update_compute_pipeline := none
    write_gbuffers_pipeline_layout := none
    gbuffers_debug_view_pipeline_layout := none
    deferred_render_pipeline_layout := none
    light_update_compute_pipeline_layout := none
    write_gbuffer_pass :=
      { color_attachments_0 := .zero, color_attachments_1 := .zero,
        depth_stencil_attachment :=
          { view := none, depthLoadOp := .Undefined, depthStoreOp := .Undefined,
            depthClearValue := 0, stencilClearValue := 0 }
        descriptor := .zero }
    texture_quad_pass := { color_attachments_0 := .zero, descriptor := .zero }
    settings := { current_render_mode := RenderMode_Rendering, num_lights := 128 }
    prepared := false }

/-- Why a run of the program stopped before returning. -/
inductive Abort
  /-- A failed `ASSERT`, when the macro stops the program. -/
  | assertion (what : String)
  /-- A write through a `NULL` mapped pointer. -/
  | null_pointer (what : String)
  deriving DecidableEq

/-- Everything the setup path takes from outside `deferred_rendering.c`; the frame
path reads the `ASSERT` macro and the math functions from it. -/
structure Env (K : Type) where
  /-- Whether a failed `ASSERT` stops the program (the macro is defined in the example
  framework, outside the sources; `false` is a macro that only reports). -/
  assert_stops : Bool
  /-- The math functions. -/
  math : ExternMath K
  /-- The device. -/
  device : Device
  /-- The results of `random_float_min_max`. -/
  rand : RandomFloat K
  /-- The mesh `stanford_dragon_mesh_init` loads. -/
  dragon : StanfordDragonMesh K
  /-- The macro `STANFORD_DRAGON_POSITION_COUNT_RES_4` of `meshes.h`. -/
  STANFORD_DRAGON_POSITION_COUNT_RES_4 : Nat

/-- The macro `ASSERT(expr)`: continue when `expr` holds; when it fails, stop the
program if the macro is one that stops, else carry on. -/
def ASSERT {K : Type} (env : Env K) (expr : Bool) (what : String) : Except Abort Unit :=
  if expr || !env.assert_stops then .ok () else .error (.assertion what)

/-- Appends an effect to the log of a context. -/
def Context.emit {K : Type} (ctx : Context K) (e : Effect K) : Context K :=
  { ctx with log := ctx.log ++ [e] }

/-! ## One-time setup -/

/-- A write through a mapped pointer: fails when the pointer is `NULL`. -/
def deref (mapping : Handle) (what : String) : Except Abort Unit :=
  if mapping.isSome then .ok () else .error (.null_pointer what)

/-- The macro `WGPU_RELEASE_RESOURCE(ShaderModule, module)`: releases a non-`NULL`
shader module. -/
def release_shader_module {K : Type} (ctx : Context K) (module : Handle) : Context K :=
  if module.isSome then ctx.emit (.release_shader module) else ctx

/-- The framework call `stanford_dragon_mesh_init(&stanford_dragon_mesh)`: fills the
static mesh with the loaded dragon. -/
def stanford_dragon_mesh_init {K : Type} (env : Env K) (cs : Context K × State K) :
    Except Abort (Context K × State K) :=
  .ok (cs.1, { cs.2 with stanford_dragon_mesh := env.dragon })

/-- The table `ground_plane_positions`. -/
def ground_plane_positions {K : Type} [Field K] : Fin 4 → Vec3 K :=
  ![![-100, 20, -100], ![100, 20, 100], ![-100, 20, 100], ![100, 20, -100]]

/-- The table `ground_plane_normals`. -/
def ground_plane_normals {K : Type} [Field K] : Fin 4 → Vec3 K :=
  ![![0, 1, 0], ![0, 1, 0], ![0, 1, 0], ![0, 1, 0]]

/-- The table `ground_plane_uvs`. -/
def ground_plane_uvs {K : Type} [Field K] : Fin 4 → Vec2 K :=
  ![![0, 0], ![1, 1], ![0, 1], ![1, 0]]

/-- The table `ground_plane_indices`, `uint16_t` entries built from the macro
`STANFORD_DRAGON_POSITION_COUNT_RES_4`, here `P`. -/
def ground_plane_indices (P : Nat) : Fin 2 → Fin 3 → Nat :=
  ![![P % 2 ^ 16, (P + 2) % 2 ^ 16, (P + 1) % 2 ^ 16],
    ![P % 2 ^ 16, (P + 1) % 2 ^ 16, (P + 3) % 2 ^ 16]]

/-- The constant `vertex_stride = 8` of `prepare_vertex_and_index_buffers`. -/
def vertex_stride : Nat := 8

/-- A `memcpy` into a mapped range: the destination offset, in elements, and the
elements copied. -/
abbrev Write (α : Type) := Nat × List α

/-- The mapped range after a sequence of `memcpy` calls, applied in order. -/
def apply_writes {α : Type} (ws : List (Write α)) (mapping : Mapping α) : Mapping α :=
  ws.foldl (fun m w => memcpy m w.1 w.2) mapping

/-- Whether a `memcpy` call writes element `k` of the mapped range. -/
def Write.covers {α : Type} (w : Write α) (k : Nat) : Bool :=
  decide (w.1 ≤ k ∧ k < w.1 + w.2.length)

/-- How many of the `memcpy` calls write element `k`. -/
def write_count {α : Type} (ws : List (Write α)) (k : Nat) : Nat :=
  ws.countP fun w => w.covers k

/-- Body of the loop copying dragon vertex `i` into the mapped vertex buffer: three
`memcpy` calls, for position, normal and uv (offsets are computed in `uint64_t`). -/
def vertex_copy_body {K : Type} (dragon_mesh : StanfordDragonMesh K) (i : Nat) :
    List (Write K) :=
  [((vertex_stride * i) % 2 ^ 64, List.ofFn (dragon_mesh.positions_data i)),
   ((vertex_stride * i + 3) % 2 ^ 64, List.ofFn (dragon_mesh.normals_data i)),
   ((vertex_stride * i + 6) % 2 ^ 64, List.ofFn (dragon_mesh.uvs_data i))]

/-- Body of the loop copying ground-plane vertex `i` behind the dragon vertices. -/
def ground_plane_vertex_body {K : Type} [Field K] (offset : Nat) (i : Fin 4) :
    List (Write K) :=
  [((offset + vertex_stride * i) % 2 ^ 64, List.ofFn (ground_plane_positions i)),
   ((offset + vertex_stride * i + 3) % 2 ^ 64, List.ofFn (ground_plane_normals i)),
   ((offset + vertex_stride * i + 6) % 2 ^ 64, List.ofFn (ground_plane_uvs i))]

/-- The `memcpy` calls of `prepare_vertex_and_index_buffers` into the mapped vertex
buffer, in order: the loop over the dragon vertices, then the loop over the four
ground-plane vertices at `offset = positions.count * vertex_stride`. -/
def vertex_buffer_writes {K : Type} [Field K] (dragon_mesh : StanfordDragonMesh K) :
    List (Write K) :=
  (List.range dragon_mesh.positions_count).flatMap (vertex_copy_body dragon_mesh)
    ++ [0, 1, 2, 3].flatMap
        (ground_plane_vertex_body ((dragon_mesh.positions_count * vertex_stride) % 2 ^ 64))

/-- The floats `prepare_vertex_and_index_buffers` leaves in the mapped vertex buffer. -/
def vertex_buffer_data {K : Type} [Field K] (dragon_mesh : StanfordDragonMesh K) :
    Mapping K :=
  apply_writes (vertex_buffer_writes dragon_mesh) Mapping.fresh

/-- The `memcpy` calls of `prepare_vertex_and_index_buffers` into the mapped index
buffer, in order: one per dragon triangle, then one per ground-plane triangle at
`offset = triangles.count * 3`. -/
def index_buffer_writes {K : Type} (P : Nat) (dragon_mesh : StanfordDragonMesh K) :
    List (Write Nat) :=
  (List.range dragon_mesh.triangles_count).map
      (fun i => ((3 * i) % 2 ^ 64, List.ofFn (dragon_mesh.triangles_data i)))
    ++ [0, 1].map
        (fun (i : Fin 2) =>
          (((dragon_mesh.triangles_count * 3) % 2 ^ 64 + 3 * i) % 2 ^ 64,
           List.ofFn (ground_plane_indices P i)))

/-- The `uint16_t` values `prepare_vertex_and_index_buffers` leaves in the mapped index
buffer. -/
def index_buffer_data {K : Type} (P : Nat) (dragon_mesh : StanfordDragonMesh K) :
    Mapping Nat :=
  apply_writes (index_buffer_writes P dragon_mesh) Mapping.fresh

/-- The function `prepare_vertex_and_index_buffers(wgpu_context, dragon_mesh)`, called
with `&stanford_dragon_mesh`. -/
def prepare_vertex_and_index_buffers {K : Type} [Field K] (env : Env K)
    (cs : Context K × State K) : Except Abort (Context K × State K) := do
  let ctx : Context K := cs.1
  let s : State K := cs.2
  let dragon_mesh := s.stanford_dragon_mesh
  -- Create the model vertex buffer
  let ground_plane_vertex_count := 4
  let vertex_buffer_size :=
    ((dragon_mesh.positions_count + ground_plane_vertex_count) * vertex_stride * sizeof_float)
      % 2 ^ 64
  let s : State K := { s with vertex_buffer := env.device .vertex_buffer }
  let ctx : Context K := ctx.emit
    (.create_buffer .vertex_buffer vertex_buffer_size true s.vertex_buffer)
  ASSERT env s.vertex_buffer.isSome "vertex_buffer"
  let mapping := env.device .vertex_buffer_mapping
  let ctx : Context K := ctx.emit
    (.get_mapped_range .vertex_buffer_mapping s.vertex_buffer 0 vertex_buffer_size mapping)
  ASSERT env mapping.isSome "mapping"
  deref mapping "vertex buffer mapping"
  let ctx : Context K := ctx.emit (.unmap_floats s.vertex_buffer (vertex_buffer_data dragon_mesh))
  -- Create the model index buffer
  let ground_plane_index_count := 2
  let s : State K := { s with
    index_count := ((dragon_mesh.triangles_count + ground_plane_index_count) * 3) % 2 ^ 32 }
  let index_buffer_size := (s.index_count * sizeof_uint16) % 2 ^ 64
  let s : State K := { s with index_buffer := env.device .index_buffer }
  let ctx : Context K := ctx.emit (.create_buffer .index_buffer index_buffer_size true s.index_buffer)
  ASSERT env s.index_buffer.isSome "index_buffer"
  let mapping := env.device .index_buffer_mapping
  let ctx : Context K := ctx.emit
    (.get_mapped_range .index_buffer_mapping s.index_buffer 0 index_buffer_size mapping)
  ASSERT env mapping.isSome "mapping"
  deref mapping "index buffer mapping"
  let ctx : Context K := ctx.emit
    (.unmap_uint16 s.index_buffer
      (index_buffer_data env.STANFORD_DRAGON_POSITION_COUNT_RES_4 dragon_mesh))
  pure (ctx, s)

/-- The function `prepare_gbuffer_texture_render_targets(wgpu_context)`. -/
def prepare_gbuffer_texture_render_targets {K : Type} (env : Env K)
    (cs : Context K × State K) : Except Abort (Context K × State K) := do
  let ctx : Context K := cs.1
  let s : State K := cs.2
  let s : State K := { s with gbuffer.texture_2d_float16 := env.device .texture_2d_float16 }
  let ctx : Context K := ctx.emit
    (.create_texture .texture_2d_float16 ctx.surface_width ctx.surface_height 2
      .RGBA16Float s.gbuffer.texture_2d_float16)
  ASSERT env s.gbuffer.texture_2d_float16.isSome "gbuffer.texture_2d_float16 != NULL"
  let s : State K := { s with gbuffer.texture_albedo := env.device .texture_albedo }
  let ctx : Context K := ctx.emit
    (.create_texture .texture_albedo ctx.surface_width ctx.surface_height 1
      .BGRA8Unorm s.gbuffer.texture_albedo)
  ASSERT env s.gbuffer.texture_albedo.isSome "gbuffer.texture_albedo != NULL"
  let s : State K := { s with gbuffer.texture_depth := env.device .texture_depth }
  let ctx : Context K := ctx.emit
    (.create_texture .texture_depth ctx.surface_width ctx.surface_height 2
      .Depth24Plus s.gbuffer.texture_depth)
  ASSERT env s.gbuffer.texture_depth.isSome "gbuffer.texture_depth != NULL"
  let views : Fin 3 → Handle := Function.update s.gbuffer.texture_views 0 (env.device .texture_view_0)
  let s : State K := { s with gbuffer.texture_views := views }
  let ctx : Context K := ctx.emit
    (.create_texture_view .texture_view_0 s.gbuffer.texture_2d_float16 .RGBA16Float
      (s.gbuffer.texture_views 0))
  ASSERT env (s.gbuffer.texture_views 0).isSome "gbuffer.texture_views[0] != NULL"
  let views : Fin 3 → Handle := Function.update s.gbuffer.texture_views 1 (env.device .texture_view_1)
  let s : State K := { s with gbuffer.texture_views := views }
  let ctx : Context K := ctx.emit
    (.create_texture_view .texture_view_1 s.gbuffer.texture_albedo .BGRA8Unorm
      (s.gbuffer.texture_views 1))
  ASSERT env (s.gbuffer.texture_views 1).isSome "gbuffer.texture_views[1] != NULL"
  let views : Fin 3 → Handle := Function.update s.gbuffer.texture_views 2 (env.device .texture_view_2)
  let s : State K := { s with gbuffer.texture_views := views }
  let ctx : Context K := ctx.emit
    (.create_texture_view .texture_view_2 s.gbuffer.texture_depth .Depth24Plus
      (s.gbuffer.texture_views 2))
  ASSERT env (s.gbuffer.texture_views 2).isSome "gbuffer.texture_views[2] != NULL"
  pure (ctx, s)

/-- The function `prepare_bind_group_layouts(wgpu_context)`. -/
def prepare_bind_group_layouts {K : Type} (env : Env K) (cs : Context K × State K) :
    Except Abort (Context K × State K) := do
  let ctx : Context K := cs.1
  let s : State K := cs.2
  -- GBuffer textures bind group layout
  let bgl_entries : List BindGroupLayoutEntry :=
    [{ binding := 0, visibility := [.Fragment], layout := .texture .UnfilterableFloat },
     { binding := 1, visibility := [.Fragment], layout := .texture .UnfilterableFloat },
     { binding := 2, visibility := [.Fragment], layout := .texture .Depth }]
  let s : State K := { s with
    gbuffer_textures_bind_group_layout := env.device .gbuffer_textures_bind_group_layout }
  let ctx : Context K := ctx.emit
    (.create_bind_group_layout .gbuffer_textures_bind_group_layout bgl_entries
      s.gbuffer_textures_bind_group_layout)
  ASSERT env s.gbuffer_textures_bind_group_layout.isSome
    "gbuffer_textures_bind_group_layout != NULL"
  -- Lights buffer bind group layout
  let bgl_entries : List BindGroupLayoutEntry :=
    [{ binding := 0, visibility := [.Fragment, .Compute],
       layout := .buffer .ReadOnlyStorage (sizeof_float * light_data_stride * max_num_lights) },
     { binding := 1, visibility := [.Fragment, .Compute],
       layout := .buffer .Uniform sizeof_float },
     { binding := 2, visibility := [.Fragment],
       layout := .buffer .Uniform (sizeof_mat4 * 2) }]
  let s : State K := { s with
    lights.buffer_bind_group_layout := env.device .lights_buffer_bind_group_layout }
  let ctx : Context K := ctx.emit
    (.create_bind_group_layout .lights_buffer_bind_group_layout bgl_entries
      s.lights.buffer_bind_group_layout)
  ASSERT env s.lights.buffer_bind_group_layout.isSome
    "lights.buffer_bind_group_layout != NULL"
  -- Scene uniform bind group layout
  let bgl_entries : List BindGroupLayoutEntry :=
    [{ binding := 0, visibility := [.Vertex], layout := .buffer .Uniform (4 * 16 * 2) },
     { binding := 1, visibility := [.Vertex], layout := .buffer .Uniform (4 * 16 * 2) }]
  let s : State K := { s with
    scene_uniform_bind_group_layout := env.device .scene_uniform_bind_group_layout }
  let ctx : Context K := ctx.emit
    (.create_bind_group_layout .scene_uniform_bind_group_layout bgl_entries
      s.scene_uniform_bind_group_layout)
  ASSERT env s.scene_uniform_bind_group_layout.isSome
    "scene_uniform_bind_group_layout != NULL"
  -- Lights buffer compute bind group layout
  let bgl_entries : List BindGroupLayoutEntry :=
    [{ binding := 0, visibility := [.Compute],
       layout := .buffer .Storage (sizeof_float * light_data_stride * max_num_lights) },
     { binding := 1, visibility := [.Compute], layout := .buffer .Uniform sizeof_float },
     { binding := 2, visibility := [.Compute],
       layout := .buffer .Uniform s.camera_uniform_buffer_size }]
  let layout := env.device .lights_buffer_compute_bind_group_layout
  let s : State K := { s with lights.buffer_compute_bind_group_layout := layout }
  let ctx : Context K := ctx.emit
    (.create_bind_group_layout .lights_buffer_compute_bind_group_layout bgl_entries
      s.lights.buffer_compute_bind_group_layout)
  ASSERT env s.lights.buffer_compute_bind_group_layout.isSome
    "lights.buffer_compute_bind_group_layout != NULL"
  pure (ctx, s)

/-- The function `prepare_render_pipeline_layouts(wgpu_context)`. -/
def prepare_render_pipeline_layouts {K : Type} (env : Env K) (cs : Context K × State K) :
    Except Abort (Context K × State K) := do
  let ctx : Context K := cs.1
  let s : State K := cs.2
  -- Write GBuffers pipeline layout
  let s : State K := { s with
    write_gbuffers_pipeline_layout := env.device .write_gbuffers_pipeline_layout }
  let ctx : Context K := ctx.emit
    (.create_pipeline_layout .write_gbuffers_pipeline_layout
      [s.scene_uniform_bind_group_layout] s.write_gbuffers_pipeline_layout)
  ASSERT env s.write_gbuffers_pipeline_layout.isSome "write_gbuffers_pipeline_layout != NULL"
  -- GBuffers debug view pipeline layout
  let s : State K := { s with
    gbuffers_debug_view_pipeline_layout := env.device .gbuffers_debug_view_pipeline_layout }
  let ctx : Context K := ctx.emit
    (.create_pipeline_layout .gbuffers_debug_view_pipeline_layout
      [s.gbuffer_textures_bind_group_layout] s.gbuffers_debug_view_pipeline_layout)
  ASSERT env s.gbuffers_debug_view_pipeline_layout.isSome
    "gbuffers_debug_view_pipeline_layout != NULL"
  -- Deferred render pipeline layout
  let s : State K := { s with
    deferred_render_pipeline_layout := env.device .deferred_render_pipeline_layout }
  let ctx : Context K := ctx.emit
    (.create_pipeline_layout .deferred_render_pipeline_layout
      [s.gbuffer_textures_bind_group_layout, s.lights.buffer_bind_group_layout]
      s.deferred_render_pipeline_layout)
  ASSERT env s.deferred_render_pipeline_layout.isSome "deferred_render_pipeline_layout != NULL"
  pure (ctx, s)

/-- The function `prepare_write_gbuffers_pipeline(wgpu_context)`. The created
pipeline is stored unchecked. -/
def prepare_write_gbuffers_pipeline {K : Type} (env : Env K) (cs : Context K × State K) :
    Except Abort (Context K × State K) := do
  let ctx : Context K := cs.1
  let s : State K := cs.2
  let vertex_module := env.device .write_gbuffers_vertex_shader
  let ctx : Context K := ctx.emit
    (.create_shader .write_gbuffers_vertex_shader
      "shaders/deferred_rendering/vertexWriteGBuffers.wgsl" vertex_module)
  let fragment_module := env.device .write_gbuffers_fragment_shader
  let ctx : Context K := ctx.emit
    (.create_shader .write_gbuffers_fragment_shader
      "shaders/deferred_rendering/fragmentWriteGBuffers.wgsl" fragment_module)
  let s : State K := { s with write_gbuffers_pipeline := env.device .write_gbuffers_pipeline }
  let ctx : Context K := ctx.emit
    (.create_render_pipeline .write_gbuffers_pipeline s.write_gbuffers_pipeline_layout
      vertex_module fragment_module 1 [.RGBA16Float, .BGRA8Unorm] s.write_gbuffers_pipeline)
  -- Partial cleanup
  let ctx : Context K := release_shader_module ctx vertex_module
  let ctx : Context K := release_shader_module ctx fragment_module
  pure (ctx, s)

/-- The function `prepare_gbuffers_debug_view_pipeline(wgpu_context)`. The created
pipeline is stored unchecked. -/
def prepare_gbuffers_debug_view_pipeline {K : Type} (env : Env K)
    (cs : Context K × State K) : Except Abort (Context K × State K) := do
  let ctx : Context K := cs.1
  let s : State K := cs.2
  let vertex_module := env.device .gbuffers_debug_view_vertex_shader
  let ctx : Context K := ctx.emit
    (.create_shader .gbuffers_debug_view_vertex_shader
      "shaders/deferred_rendering/vertexTextureQuad.wgsl" vertex_module)
  let fragment_module := env.device .gbuffers_debug_view_fragment_shader
  let ctx : Context K := ctx.emit
    (.create_shader .gbuffers_debug_view_fragment_shader
      "shaders/deferred_rendering/fragmentGBuffersDebugView.wgsl" fragment_module)
  let s : State K := { s with gbuffers_debug_view_pipeline := env.device .gbuffers_debug_view_pipeline }
  let ctx : Context K := ctx.emit
    (.create_render_pipeline .gbuffers_debug_view_pipeline
      s.gbuffers_debug_view_pipeline_layout vertex_module fragment_module 0 [.SwapChain]
      s.gbuffers_debug_view_pipeline)
  -- Partial cleanup
  let ctx : Context K := release_shader_module ctx vertex_module
  let ctx : Context K := release_shader_module ctx fragment_module
  pure (ctx, s)

/-- The function `prepare_deferred_render_pipeline(wgpu_context)`. The created
pipeline is stored unchecked. -/
def prepare_deferred_render_pipeline {K : Type} (env : Env K) (cs : Context K × State K) :
    Except Abort (Context K × State K) := do
  let ctx : Context K := cs.1
  let s : State K := cs.2
  let vertex_module := env.device .deferred_render_vertex_shader
  let ctx : Context K := ctx.emit
    (.create_shader .deferred_render_vertex_shader
      "shaders/deferred_rendering/vertexTextureQuad.wgsl" vertex_module)
  let fragment_module := env.device .deferred_render_fragment_shader
  let ctx : Context K := ctx.emit
    (.create_shader .deferred_render_fragment_shader
      "shaders/deferred_rendering/fragmentDeferredRendering.wgsl" fragment_module)
  let s : State K := { s with deferred_render_pipeline := env.device .deferred_render_pipeline }
  let ctx : Context K := ctx.emit
    (.create_render_pipeline .deferred_render_pipeline s.deferred_render_pipeline_layout
      vertex_module fragment_module 0 [.BGRA8Unorm] s.deferred_render_pipeline)
  -- Partial cleanup
  let ctx : Context K := release_shader_module ctx vertex_module
  let ctx : Context K := release_shader_module ctx fragment_module
  pure (ctx, s)

/-- The function `setup_render_passes()`. -/
def setup_render_passes {K : Type} (_env : Env K) (cs : Context K × State K) :
    Except Abort (Context K × State K) :=
  let ctx : Context K := cs.1
  let s : State K := cs.2
  -- Write GBuffer pass
  let s : State K := { s with write_gbuffer_pass.color_attachments_0 :=
    { view := s.gbuffer.texture_views 0, loadOp := .Clear, storeOp := .Store,
      clearValue := { r := 0, g := 0, b := 1, a := 1 } } }
  let s : State K := { s with write_gbuffer_pass.color_attachments_1 :=
    { view := s.gbuffer.texture_views 1, loadOp := .Clear, storeOp := .Store,
      clearValue := { r := 0, g := 0, b := 0, a := 1 } } }
  let s : State K := { s with write_gbuffer_pass.depth_stencil_attachment :=
    { view := s.gbuffer.texture_views 2, depthLoadOp := .Clear, depthStoreOp := .Store,
      depthClearValue := 1, stencilClearValue := 1 } }
  let s : State K := { s with write_gbuffer_pass.descriptor :=
    { colorAttachmentCount := 2, colorAttachments := true, depthStencilAttachment := true } }
  -- Texture Quad Pass
  let s : State K := { s with texture_quad_pass.color_attachments_0 :=
    { view := none, loadOp := .Clear, storeOp := .Store,
      clearValue := { r := 0, g := 0, b := 0, a := 1 } } }
  let s : State K := { s with texture_quad_pass.descriptor :=
    { colorAttachmentCount := 1, colorAttachments := true, depthStencilAttachment := false } }
  .ok (ctx, s)

/-- The framework helper `wgpu_create_buffer(wgpu_context, desc)`, declared outside
the sources: creates a buffer of the requested size and reports that size in the
returned `wgpu_buffer_t`. -/
def wgpu_create_buffer {K : Type} (env : Env K) (ctx : Context K) (site : Site)
    (size : Nat) : Context K × WgpuBuffer :=
  (ctx.emit (.create_buffer site size false (env.device site)),
   { buffer := env.device site, size := size })

/-- First block of `prepare_uniform_buffers`: the config uniform buffer, created mapped
and filled with `settings.num_lights` converted to `uint32_t`. -/
def prepare_config_uniform_buffer {K : Type} (env : Env K) (cs : Context K × State K) :
    Except Abort (Context K × State K) := do
  let ctx : Context K := cs.1
  let s : State K := cs.2
  let s : State K := { s with lights.config_uniform_buffer_size := sizeof_float }
  let s : State K := { s with lights.config_uniform_buffer := env.device .config_uniform_buffer }
  let ctx : Context K := ctx.emit
    (.create_buffer .config_uniform_buffer s.lights.config_uniform_buffer_size true
      s.lights.config_uniform_buffer)
  ASSERT env s.lights.config_uniform_buffer.isSome "lights.config_uniform_buffer"
  let config_data := env.device .config_uniform_buffer_mapping
  let ctx : Context K := ctx.emit
    (.get_mapped_range .config_uniform_buffer_mapping s.lights.config_uniform_buffer 0
      s.lights.config_uniform_buffer_size config_data)
  ASSERT env config_data.isSome "config_data"
  deref config_data "config_data"
  let ctx : Context K := ctx.emit
    (.unmap_uint32 s.lights.config_uniform_buffer
      (memcpy Mapping.fresh 0 [(s.settings.num_lights % 2 ^ 32).toNat]))
  pure (ctx, s)

/-- Second and third block of `prepare_uniform_buffers`: the model and the camera
uniform buffer, each of two `mat4`. -/
def prepare_model_camera_uniform_buffers {K : Type} (env : Env K)
    (cs : Context K × State K) : Except Abort (Context K × State K) := do
  let ctx : Context K := cs.1
  let s : State K := cs.2
  -- Model uniform buffer
  let r := wgpu_create_buffer env ctx .model_uniform_buffer (sizeof_mat4 * 2)
  let ctx : Context K := r.1
  let s : State K := { s with model_uniform_buffer := r.2 }
  ASSERT env s.model_uniform_buffer.buffer.isSome "model_uniform_buffer.buffer"
  -- Camera uniform buffer
  let r := wgpu_create_buffer env ctx .camera_uniform_buffer (sizeof_mat4 * 2)
  let ctx : Context K := r.1
  let s : State K := { s with camera_uniform_buffer := r.2 }
  ASSERT env s.camera_uniform_buffer.buffer.isSome "camera_uniform_buffer.buffer"
  pure (ctx, s)

/-- The entries of the scene uniform bind group. -/
def scene_uniform_bind_group_entries {K : Type} (s : State K) : List BindGroupEntry :=
  [{ binding := 0, buffer := s.model_uniform_buffer.buffer,
     size := s.model_uniform_buffer.size, textureView := none },
   { binding := 1, buffer := s.camera_uniform_buffer.buffer,
     size := s.camera_uniform_buffer.size, textureView := none }]

/-- The entries of the G-buffer textures bind group. -/
def gbuffer_textures_bind_group_entries {K : Type} (s : State K) : List BindGroupEntry :=
  [{ binding := 0, buffer := none, size := 0, textureView := s.gbuffer.texture_views 0 },
   { binding := 1, buffer := none, size := 0, textureView := s.gbuffer.texture_views 1 },
   { binding := 2, buffer := none, size := 0, textureView := s.gbuffer.texture_views 2 }]

/-- Last two blocks of `prepare_uniform_buffers`: the scene uniform bind group, whose
layout is taken from the write-gbuffers pipeline, and the G-buffer textures bind
group. -/
def prepare_uniform_bind_groups {K : Type} (env : Env K) (cs : Context K × State K) :
    Except Abort (Context K × State K) := do
  let ctx : Context K := cs.1
  let s : State K := cs.2
  -- Scene uniform bind group
  let layout := env.device .write_gbuffers_pipeline_bind_group_layout_0
  let ctx : Context K := ctx.emit
    (.get_bind_group_layout .write_gbuffers_pipeline_bind_group_layout_0
      s.write_gbuffers_pipeline 0 layout)
  let s : State K := { s with scene_uniform_bind_group := env.device .scene_uniform_bind_group }
  let ctx : Context K := ctx.emit
    (.create_bind_group .scene_uniform_bind_group layout
      (scene_uniform_bind_group_entries s) s.scene_uniform_bind_group)
  ASSERT env s.scene_uniform_bind_group.isSome "scene_uniform_bind_group != NULL"
  -- GBuffer textures bind group
  let s : State K := { s with gbuffer_textures_bind_group := env.device .gbuffer_textures_bind_group }
  let ctx : Context K := ctx.emit
    (.create_bind_group .gbuffer_textures_bind_group s.gbuffer_textures_bind_group_layout
      (gbuffer_textures_bind_group_entries s) s.gbuffer_textures_bind_group)
  ASSERT env s.gbuffer_textures_bind_group.isSome "gbuffer_textures_bind_group != NULL"
  pure (ctx, s)

/-- The function `prepare_uniform_buffers(wgpu_context)`: its blocks in order. -/
def prepare_uniform_buffers {K : Type} (env : Env K) (cs : Context K × State K) :
    Except Abort (Context K × State K) := do
  let cs ← prepare_config_uniform_buffer env cs
  let cs ← prepare_model_camera_uniform_buffers env cs
  prepare_uniform_bind_groups env cs

/-- The function `prepare_compute_pipeline_layout(wgpu_context)`. -/
def prepare_compute_pipeline_layout {K : Type} (env : Env K) (cs : Context K × State K) :
    Except Abort (Context K × State K) := do
  let ctx : Context K := cs.1
  let s : State K := cs.2
  let s : State K := { s with
    light_update_compute_pipeline_layout := env.device .light_update_compute_pipeline_layout }
  let ctx : Context K := ctx.emit
    (.create_pipeline_layout .light_update_compute_pipeline_layout
      [s.lights.buffer_compute_bind_group_layout] s.light_update_compute_pipeline_layout)
  ASSERT env s.light_update_compute_pipeline_layout.isSome
    "light_update_compute_pipeline_layout != NULL"
  pure (ctx, s)

/-- The function `prepare_light_update_compute_pipeline(wgpu_context)`. The created
pipeline is stored unchecked. -/
def prepare_light_update_compute_pipeline {K : Type} (env : Env K)
    (cs : Context K × State K) : Except Abort (Context K × State K) := do
  let ctx : Context K := cs.1
  let s : State K := cs.2
  let light_update_comp_shader := env.device .light_update_compute_shader
  let ctx : Context K := ctx.emit
    (.create_shader .light_update_compute_shader
      "shaders/deferred_rendering/lightUpdate.wgsl" light_update_comp_shader)
  let s : State K := { s with light_update_compute_pipeline := env.device .light_update_compute_pipeline }
  let ctx : Context K := ctx.emit
    (.create_compute_pipeline .light_update_compute_pipeline
      s.light_update_compute_pipeline_layout light_update_comp_shader
      s.light_update_compute_pipeline)
  -- Partial clean-up
  let ctx : Context K := release_shader_module ctx light_update_comp_shader
  pure (ctx, s)

/-- First block of `prepare_lights`: the lights storage buffer, created mapped and
filled by the loop over all lights. -/
def prepare_lights_buffer {K : Type} [Field K] (env : Env K) (cs : Context K × State K) :
    Except Abort (Context K × State K) := do
  let ctx : Context K := cs.1
  let s : State K := cs.2
  let s : State K := { s with lights.buffer_size := lights_buffer_size }
  let s : State K := { s with lights.buffer := env.device .lights_buffer }
  let ctx : Context K := ctx.emit (.create_buffer .lights_buffer s.lights.buffer_size true s.lights.buffer)
  ASSERT env s.lights.buffer.isSome "lights.buffer"
  let light_data := env.device .lights_buffer_mapping
  let ctx : Context K := ctx.emit
    (.get_mapped_range .lights_buffer_mapping s.lights.buffer 0 s.lights.buffer_size
      light_data)
  ASSERT env light_data.isSome "light_data"
  deref light_data "light_data"
  let ctx : Context K := ctx.emit (.unmap_floats s.lights.buffer (prepare_lights_data env.rand))
  pure (ctx, s)

/-- The array `light_extent_data`: the two corners, each padded to four floats. -/
def light_extent_data {K : Type} [Field K] : List K :=
  [light_extent_min 0, light_extent_min 1, light_extent_min 2, 0,
   light_extent_max 0, light_extent_max 1, light_extent_max 2, 0]

/-- Second block of `prepare_lights`: the lights extent buffer, created unchecked and
written through the queue. -/
def prepare_lights_extent_buffer {K : Type} [Field K] (env : Env K)
    (cs : Context K × State K) : Except Abort (Context K × State K) :=
  let ctx : Context K := cs.1
  let s : State K := cs.2
  let s : State K := { s with lights.extent_buffer_size := 4 * 8 }
  let s : State K := { s with lights.extent_buffer := env.device .lights_extent_buffer }
  let ctx : Context K := ctx.emit
    (.create_buffer .lights_extent_buffer s.lights.extent_buffer_size false
      s.lights.extent_buffer)
  let ctx : Context K := ctx.emit
    (.queue_write_floats s.lights.extent_buffer 0 light_extent_data
      s.lights.extent_buffer_size)
  .ok (ctx, s)

/-- The entries of the lights buffer bind group, read by the fragment stage. -/
def lights_buffer_bind_group_entries {K : Type} (s : State K) : List BindGroupEntry :=
  [{ binding := 0, buffer := s.lights.buffer, size := s.lights.buffer_size,
     textureView := none },
   { binding := 1, buffer := s.lights.config_uniform_buffer,
     size := s.lights.config_uniform_buffer_size, textureView := none },
   { binding := 2, buffer := s.camera_uniform_buffer.buffer,
     size := s.camera_uniform_buffer.size, textureView := none }]

/-- The entries of the lights buffer compute bind group. -/
def lights_buffer_compute_bind_group_entries {K : Type} (s : State K) :
    List BindGroupEntry :=
  [{ binding := 0, buffer := s.lights.buffer, size := s.lights.buffer_size,
     textureView := none },
   { binding := 1, buffer := s.lights.config_uniform_buffer,
     size := s.lights.config_uniform_buffer_size, textureView := none },
   { binding := 2, buffer := s.lights.extent_buffer,
     size := s.lights.extent_buffer_size, textureView := none }]

/-- Last two blocks of `prepare_lights`: the lights buffer bind group and the lights
buffer compute bind group, whose layout is taken from the compute pipeline. -/
def prepare_lights_bind_groups {K : Type} (env : Env K) (cs : Context K × State K) :
    Except Abort (Context K × State K) := do
  let ctx : Context K := cs.1
  let s : State K := cs.2
  -- Lights buffer bind group
  let s : State K := { s with lights.buffer_bind_group := env.device .lights_buffer_bind_group }
  let ctx : Context K := ctx.emit
    (.create_bind_group .lights_buffer_bind_group s.lights.buffer_bind_group_layout
      (lights_buffer_bind_group_entries s) s.lights.buffer_bind_group)
  ASSERT env s.lights.buffer_bind_group.isSome "lights.buffer_bind_group != NULL"
  -- Lights buffer compute bind group
  let layout := env.device .light_update_compute_pipeline_bind_group_layout_0
  let ctx : Context K := ctx.emit
    (.get_bind_group_layout .light_update_compute_pipeline_bind_group_layout_0
      s.light_update_compute_pipeline 0 layout)
  let group := env.device .lights_buffer_compute_bind_group
  let s : State K := { s with lights.buffer_compute_bind_group := group }
  let ctx : Context K := ctx.emit
    (.create_bind_group .lights_buffer_compute_bind_group layout
      (lights_buffer_compute_bind_group_entries s) s.lights.buffer_compute_bind_group)
  ASSERT env s.lights.buffer_compute_bind_group.isSome
    "lights.buffer_compute_bind_group != NULL"
  pure (ctx, s)

/-- The function `prepare_lights(wgpu_context)`: its blocks in order. -/
def prepare_lights {K : Type} [Field K] (env : Env K) (cs : Context K × State K) :
    Except Abort (Context K × State K) := do
  let cs ← prepare_lights_buffer env cs
  let cs ← prepare_lights_extent_buffer env cs
  prepare_lights_bind_groups env cs

/-- The function `prepare_view_matrices(wgpu_context)`. The view and view-projection
matrices it computes are locals and are not stored. -/
def prepare_view_matrices {K : Type} [Field K] (env : Env K) (cs : Context K × State K) :
    Except Abort (Context K × State K) :=
  let ctx : Context K := cs.1
  let s : State K := cs.2
  let aspect : K := (ctx.surface_width : K) / (ctx.surface_height : K)
  -- Scene matrices
  let s : State K := { s with view_matrices.up_vector := glm_vec3_copy ![0, 1, 0] }
  let s : State K := { s with view_matrices.origin := glm_vec3_copy ![0, 0, 0] }
  let s : State K := { s with view_matrices.projection_matrix := glm_mat4_identity }
  let projection := env.math.glm_perspective ((2 * env.math.PI) / 5) aspect 1 2000
  let s : State K := { s with view_matrices.projection_matrix := projection }
  -- Move the model so it's centered.
  let model_matrix : Mat4 K := glm_translate glm_mat4_identity ![0, -45, 0]
  -- Write data to buffers
  let ctx : Context K := ctx.emit
    (.queue_write_floats s.model_uniform_buffer.buffer 0 (mat4_floats model_matrix)
      sizeof_mat4)
  -- Normal model data
  let invert_transpose_model_matrix :=
    glm_mat4_transpose (env.math.glm_mat4_inv model_matrix)
  let ctx : Context K := ctx.emit
    (.queue_write_floats s.model_uniform_buffer.buffer 64
      (mat4_floats invert_transpose_model_matrix) sizeof_mat4)
  .ok (ctx, s)

/-- The function `example_initialize(context)`: with a context, the dragon mesh is
loaded, the thirteen `prepare_...`/`setup_...` steps run in order, `prepared` is set
and `0` is returned; with a `NULL` context, `1` is returned. -/
def example_initialize {K : Type} [Field K] (env : Env K) (context : Option (Context K))
    (s : State K) : Except Abort (Int × Option (Context K) × State K) :=
  match context with
  | some ctx => do
    let cs ← stanford_dragon_mesh_init env (ctx, s)
    let cs ← prepare_vertex_and_index_buffers env cs
    let cs ← prepare_gbuffer_texture_render_targets env cs
    let cs ← prepare_bind_group_layouts env cs
    let cs ← prepare_render_pipeline_layouts env cs
    let cs ← prepare_write_gbuffers_pipeline env cs
    let cs ← prepare_gbuffers_debug_view_pipeline env cs
    let cs ← prepare_deferred_render_pipeline env cs
    let cs ← setup_render_passes env cs
    let cs ← prepare_uniform_buffers env cs
    let cs ← prepare_compute_pipeline_layout env cs
    let cs ← prepare_light_update_compute_pipeline env cs
    let cs ← prepare_lights env cs
    let cs ← prepare_view_matrices env cs
    pure (0, some cs.1, { cs.2 with prepared := true })
  | none => pure (1, none, s)

/-! ## Camera -/

/-- The function `glm_vec3_rotate_y(a, b, rad, out)`: rotates `a` about the vertical
axis through `b`. The result is returned instead of stored through `out`; the C code
reads all of `a` into `p` before it writes `out`, so `out` may alias `a`. -/
def glm_vec3_rotate_y {K : Type} [Field K] (M : ExternMath K) (a b : Vec3 K) (rad : K) :
    Vec3 K :=
  -- Translate point to the origin
  let p : Vec3 K := ![a 0 - b 0, a 1 - b 1, a 2 - b 2]
  -- perform rotation
  let r : Vec3 K :=
    ![p 2 * M.sin rad + p 0 * M.cos rad, p 1, p 2 * M.cos rad - p 0 * M.sin rad]
  -- translate to correct position
  ![r 0 + b 0, r 1 + b 1, r 2 + b 2]

/-- The eye position `get_camera_view_proj_matrix` computes for the frame timestamp of
`ctx`: the fixed eye `(0, 50, -100)` rotated about `view_matrices.origin` by
`PI * (timestamp_millis / 5000)`. -/
def camera_eye_position {K : Type} [Field K] (M : ExternMath K) (ctx : Context K)
    (s : State K) : Vec3 K :=
  let eye_position : Vec3 K := ![0, 50, -100]
  let rad := M.PI * (ctx.frame_timestamp_millis / 5000)
  glm_vec3_rotate_y M eye_position s.view_matrices.origin rad

/-- The function `get_camera_view_proj_matrix(context)`: returns the matrix it stores
in `view_matrices.view_proj_matrix`, together with the updated module state. -/
def get_camera_view_proj_matrix {K : Type} [Field K] (M : ExternMath K) (ctx : Context K)
    (s : State K) : Mat4 K × State K :=
  let eye_position := camera_eye_position M ctx s
  let view_matrix :=
    M.glm_lookat eye_position s.view_matrices.origin s.view_matrices.up_vector
  let view_proj := glm_mat4_mulN [s.view_matrices.projection_matrix, view_matrix]
  let s : State K := { s with view_matrices.view_proj_matrix := view_proj }
  (s.view_matrices.view_proj_matrix, s)

/-- The function `update_uniform_buffers(context)`. -/
def update_uniform_buffers {K : Type} [Field K] (M : ExternMath K)
    (cs : Context K × State K) : Context K × State K :=
  let ctx : Context K := cs.1
  let r := get_camera_view_proj_matrix M ctx cs.2
  let camera_view_proj := r.1
  let s : State K := r.2
  let ctx : Context K := ctx.emit
    (.queue_write_floats s.camera_uniform_buffer.buffer 0 (mat4_floats camera_view_proj)
      sizeof_mat4)
  let camera_inv_view_proj := M.glm_mat4_inv camera_view_proj
  let ctx : Context K := ctx.emit
    (.queue_write_floats s.camera_uniform_buffer.buffer 64
      (mat4_floats camera_inv_view_proj) sizeof_mat4)
  (ctx, s)

/-! ## Overlay -/

/-- What the overlay does during one frame. The widgets and the drawing of the
overlay belong to the example framework, outside the sources; each widget is given by
what it does to the variable it is handed and what it returns, the drawing by the
calls it records. -/
structure Overlay where
  /-- Whether `draw_ui` shows the overlay, and so calls the update callback. -/
  shown : Bool
  /-- Result of `imgui_overlay_header("Settings")`. -/
  header : Bool
  /-- New value of `context->paused` after `imgui_overlay_checkBox`, from the old. -/
  checkBox : Bool → Bool
  /-- Result and new `item_index` of `imgui_overlay_combo_box`, from the old index. -/
  combo_box : Int → Bool × Int
  /-- Result and new value of `imgui_overlay_slider_int`, from the old value and the
  bounds `min`, `max`. -/
  slider_int : Int → Int → Int → Bool × Int
  /-- The calls the framework records through `wgpu_context->cmd_enc` to draw the
  overlay: any calls, passes of its own included. -/
  draw : List Cmd

/-- The function `example_on_update_ui_overlay(context)`. -/
def example_on_update_ui_overlay {K : Type} (ui : Overlay) (cs : Context K × State K) :
    Context K × State K :=
  let ctx : Context K := cs.1
  let s : State K := cs.2
  if ui.header then
    let ctx : Context K := { ctx with paused := ui.checkBox ctx.paused }
    let item_index := s.settings.current_render_mode
    let combo := ui.combo_box item_index
    let s : State K := if combo.1 then { s with settings.current_render_mode := combo.2 } else s
    let slider := ui.slider_int s.settings.num_lights 1 max_num_lights
    let s : State K := { s with settings.num_lights := slider.2 }
    let ctx : Context K :=
      if slider.1 then
        ctx.emit
          (.queue_write_uint32 s.lights.config_uniform_buffer 0
            [(s.settings.num_lights % 2 ^ 32).toNat] sizeof_float)
      else ctx
    (ctx, s)
  else (ctx, s)

/-! ## Per-frame recording -/

/-- Records one call through `wgpu_context->cmd_enc`. -/
def Context.record {K : Type} (ctx : Context K) (c : Cmd) : Context K :=
  { ctx with cmd_enc := ctx.cmd_enc ++ [c] }

/-- The framework call `draw_ui(context, example_on_update_ui_overlay)`, declared
outside the sources and handed the update callback: when the overlay is shown, the
callback runs once and the framework records the calls that draw the overlay. Which
calls these are is for the framework to say: they are the parameter `ui.draw`. -/
def draw_ui {K : Type} (ui : Overlay) (cs : Context K × State K) : Context K × State K :=
  if ui.shown then
    let cs : Context K × State K := example_on_update_ui_overlay ui cs
    ({ cs.1 with cmd_enc := cs.1.cmd_enc ++ ui.draw }, cs.2)
  else cs

/-- The dispatch size `(uint32_t)ceil(max_num_lights / 64.f)`; the quotient is exact
in `float` and is taken in the rationals. -/
def light_update_workgroups : Nat := ⌈(max_num_lights : ℚ) / 64⌉₊ % 2 ^ 32

/-- The three pass blocks of `build_command_buffer`, recorded on a fresh encoder:
the G-buffer write pass, the light-update compute pass and the composite pass the
render mode selects. -/
def record_passes {K : Type} (cs : Context K × State K) : Context K × State K :=
  let ctx : Context K := cs.1
  let s : State K := cs.2
  let ctx : Context K := { ctx with cmd_enc := [] }
  -- Write position, normal, albedo etc. data to gBuffers
  let ctx : Context K := ctx.record (.BeginRenderPass s.write_gbuffer_pass.info)
  let ctx : Context K := ctx.record (.RenderPassSetPipeline s.write_gbuffers_pipeline)
  let ctx : Context K := ctx.record (.RenderPassSetBindGroup 0 s.scene_uniform_bind_group 0)
  let ctx : Context K := ctx.record (.RenderPassSetVertexBuffer 0 s.vertex_buffer 0 WGPU_WHOLE_SIZE)
  let ctx : Context K :=
    ctx.record (.RenderPassSetIndexBuffer s.index_buffer .Uint16 0 WGPU_WHOLE_SIZE)
  let ctx : Context K := ctx.record (.RenderPassDrawIndexed s.index_count 1 0 0 0)
  let ctx : Context K := ctx.record .RenderPassEnd
  -- Update lights position
  let ctx : Context K := ctx.record .BeginComputePass
  let ctx : Context K := ctx.record (.ComputePassSetPipeline s.light_update_compute_pipeline)
  let ctx : Context K :=
    ctx.record (.ComputePassSetBindGroup 0 s.lights.buffer_compute_bind_group 0)
  let ctx : Context K :=
    ctx.record (.ComputePassDispatchWorkgroups light_update_workgroups 1 1)
  let ctx : Context K := ctx.record .ComputePassEnd
  if s.settings.current_render_mode = RenderMode_GBuffer_View then
    -- GBuffers debug view
    let s : State K := { s with texture_quad_pass.color_attachments_0.view :=
                        ctx.swap_chain_frame_buffer }
    let ctx : Context K := ctx.record (.BeginRenderPass s.texture_quad_pass.info)
    let ctx : Context K := ctx.record (.RenderPassSetPipeline s.gbuffers_debug_view_pipeline)
    let ctx : Context K := ctx.record (.RenderPassSetBindGroup 0 s.gbuffer_textures_bind_group 0)
    let ctx : Context K := ctx.record (.RenderPassDraw 6 1 0 0)
    let ctx : Context K := ctx.record .RenderPassEnd
    (ctx, s)
  else
    -- Deferred rendering
    let s : State K := { s with texture_quad_pass.color_attachments_0.view :=
                        ctx.swap_chain_frame_buffer }
    let ctx : Context K := ctx.record (.BeginRenderPass s.texture_quad_pass.info)
    let ctx : Context K := ctx.record (.RenderPassSetPipeline s.deferred_render_pipeline)
    let ctx : Context K := ctx.record (.RenderPassSetBindGroup 0 s.gbuffer_textures_bind_group 0)
    let ctx : Context K := ctx.record (.RenderPassSetBindGroup 1 s.lights.buffer_bind_group 0)
    let ctx : Context K := ctx.record (.RenderPassDraw 6 1 0 0)
    let ctx : Context K := ctx.record .RenderPassEnd
    (ctx, s)

/-- What the window system, the device and the user supply for one frame. -/
structure FrameInput where
  /-- The overlay of this frame. -/
  overlay : Overlay
  /-- The swap-chain view `prepare_frame` acquires. -/
  frame_buffer : Handle
  /-- The encoder `wgpuDeviceCreateCommandEncoder` returns; `none` is `NULL`. -/
  command_encoder : Handle
  /-- Whether `wgpu_get_command_buffer` returns a command buffer, not `NULL`. -/
  finished : Bool

/-- The framework call `wgpu_get_command_buffer(cmd_enc)`, declared outside the
sources: finishes the encoder and returns the command buffer, which holds the calls
recorded through the encoder, or returns `NULL`. -/
def wgpu_get_command_buffer {K : Type} (inp : FrameInput) (ctx : Context K) :
    Option CommandBuffer :=
  if inp.finished then some ctx.cmd_enc else none

/-- The macro `WGPU_RELEASE_RESOURCE(CommandEncoder, wgpu_context->cmd_enc)`: releases
the encoder if the field is not `NULL` and sets the field to `NULL`. -/
def release_command_encoder {K : Type} (ctx : Context K) : Context K :=
  let ctx : Context K :=
    if ctx.cmd_enc_handle.isSome then ctx.emit (.release_command_encoder ctx.cmd_enc_handle)
    else ctx
  { ctx with cmd_enc_handle := none, cmd_enc := [] }

/-- The function `build_command_buffer(wgpu_context)`: creates the encoder (the result
is stored unchecked), records the three passes, lets the overlay draw, gets the
command buffer, asserts that it is not `NULL`, releases the encoder and returns the
command buffer. -/
def build_command_buffer {K : Type} (env : Env K) (inp : FrameInput)
    (cs : Context K × State K) : Except Abort (Option CommandBuffer × Context K × State K) := do
  let ctx : Context K := cs.1
  let ctx : Context K := { ctx with cmd_enc_handle := inp.command_encoder }
  let ctx : Context K := ctx.emit (.create_command_encoder inp.command_encoder)
  let r : Context K × State K := record_passes (ctx, cs.2)
  -- Draw ui overlay
  let r : Context K × State K := draw_ui inp.overlay r
  -- Get command buffer
  let command_buffer : Option CommandBuffer := wgpu_get_command_buffer inp r.1
  ASSERT env command_buffer.isSome "command_buffer != NULL"
  let ctx : Context K := release_command_encoder r.1
  pure (command_buffer, ctx, r.2)

/-- The framework call `prepare_frame(context)`, declared outside the sources:
acquires the frame buffer of the frame. -/
def prepare_frame {K : Type} (inp : FrameInput) (ctx : Context K) : Context K :=
  ({ ctx with swap_chain_frame_buffer := inp.frame_buffer }).emit
    (.prepare_frame inp.frame_buffer)

/-- The framework call `submit_command_buffers(context)`, declared outside the
sources: submits the command buffers of `submit_info` to the queue. -/
def submit_command_buffers {K : Type} (ctx : Context K) : Context K :=
  ctx.emit (.submit ctx.submit_info_command_buffers)

/-- The framework call `submit_frame(context)`, declared outside the sources:
presents the frame. -/
def submit_frame {K : Type} (ctx : Context K) : Context K :=
  ctx.emit .submit_frame

/-- The value `EXIT_SUCCESS`. -/
def EXIT_SUCCESS : Int := 0

/-- The value `EXIT_FAILURE`. -/
def EXIT_FAILURE : Int := 1

/-- The function `example_draw(context)`. -/
def example_draw {K : Type} (env : Env K) (inp : FrameInput) (cs : Context K × State K) :
    Except Abort (Int × Context K × State K) := do
  -- Prepare frame
  let ctx : Context K := prepare_frame inp cs.1
  -- Command buffer to be submitted to the queue
  let r ← build_command_buffer env inp (ctx, cs.2)
  let ctx : Context K := { r.2.1 with submit_info_command_buffers := [r.1] }
  -- Submit command buffer to queue
  let ctx : Context K := submit_command_buffers ctx
  -- Submit frame
  let ctx : Context K := submit_frame ctx
  pure (EXIT_SUCCESS, ctx, r.2.2)

/-- The function `example_render(context)`. -/
def example_render {K : Type} [Field K] (env : Env K) (inp : FrameInput)
    (cs : Context K × State K) : Except Abort (Int × Context K × State K) :=
  if !cs.2.prepared then pure (EXIT_FAILURE, cs.1, cs.2)
  else do
    let r ← example_draw env inp cs
    let draw_result := r.1
    let cs : Context K × State K := r.2
    let cs : Context K × State K :=
      if !cs.1.paused then update_uniform_buffers env.math cs else cs
    pure (draw_result, cs.1, cs.2)

/-! ## Teardown -/

/-- The macro `WGPU_RELEASE_RESOURCE(Type, Name)` of the example framework, declared
outside the sources: releases the object if the variable is not `NULL` and sets the
variable to `NULL`. Returns the new log and the new value of the variable. -/
def WGPU_RELEASE_RESOURCE {K : Type} (ctx : Context K) (site : Site) (h : Handle) :
    Context K × Handle :=
  if h.isSome then (ctx.emit (.release site h), none) else (ctx, h)

/-- The module variables `example_destroy` releases, each named by the site that
fills it, in the order of the release statements. -/
def destroy_order : List Site :=
  [.vertex_buffer, .index_buffer,
   .texture_2d_float16, .texture_albedo, .texture_depth,
   .texture_view_0, .texture_view_1, .texture_view_2,
   .model_uniform_buffer, .camera_uniform_buffer,
   .lights_buffer, .lights_extent_buffer, .config_uniform_buffer,
   .lights_buffer_bind_group, .lights_buffer_compute_bind_group,
   .scene_uniform_bind_group, .gbuffer_textures_bind_group,
   .lights_buffer_bind_group_layout, .lights_buffer_compute_bind_group_layout,
   .scene_uniform_bind_group_layout, .gbuffer_textures_bind_group_layout,
   .write_gbuffers_pipeline, .gbuffers_debug_view_pipeline, .deferred_render_pipeline,
   .light_update_compute_pipeline,
   .write_gbuffers_pipeline_layout, .gbuffers_debug_view_pipeline_layout,
   .deferred_render_pipeline_layout, .light_update_compute_pipeline_layout]

/-- The module variable a site fills, read from the state; sites whose result is a
local of the setup path (mapped pointers, shader modules, layouts taken from a
pipeline) fill no module variable. -/
def State.handle {K : Type} (s : State K) : Site → Handle
  | .vertex_buffer => s.vertex_buffer
  | .index_buffer => s.index_buffer
  | .texture_2d_float16 => s.gbuffer.texture_2d_float16
  | .texture_albedo => s.gbuffer.texture_albedo
  | .texture_depth => s.gbuffer.texture_depth
  | .texture_view_0 => s.gbuffer.texture_views 0
  | .texture_view_1 => s.gbuffer.texture_views 1
  | .texture_view_2 => s.gbuffer.texture_views 2
  | .model_uniform_buffer => s.model_uniform_buffer.buffer
  | .camera_uniform_buffer => s.camera_uniform_buffer.buffer
  | .lights_buffer => s.lights.buffer
  | .lights_extent_buffer => s.lights.extent_buffer
  | .config_uniform_buffer => s.lights.config_uniform_buffer
  | .lights_buffer_bind_group => s.lights.buffer_bind_group
  | .lights_buffer_compute_bind_group => s.lights.buffer_compute_bind_group
  | .scene_uniform_bind_group => s.scene_uniform_bind_group
  | .gbuffer_textures_bind_group => s.gbuffer_textures_bind_group
  | .lights_buffer_bind_group_layout => s.lights.buffer_bind_group_layout
  | .lights_buffer_compute_bind_group_layout => s.lights.buffer_compute_bind_group_layout
  | .scene_uniform_bind_group_layout => s.scene_uniform_bind_group_layout
  | .gbuffer_textures_bind_group_layout => s.gbuffer_textures_bind_group_layout
  | .write_gbuffers_pipeline => s.write_gbuffers_pipeline
  | .gbuffers_debug_view_pipeline => s.gbuffers_debug_view_pipeline
  | .deferred_render_pipeline => s.deferred_render_pipeline
  | .light_update_compute_pipeline => s.light_update_compute_pipeline
  | .write_gbuffers_pipeline_layout => s.write_gbuffers_pipeline_layout
  | .gbuffers_debug_view_pipeline_layout => s.gbuffers_debug_view_pipeline_layout
  | .deferred_render_pipeline_layout => s.deferred_render_pipeline_layout
  | .light_update_compute_pipeline_layout => s.light_update_compute_pipeline_layout
  | _ => none

/-- Stores `h` in the module variable a site fills. -/
def State.set_handle {K : Type} (s : State K) (site : Site) (h : Handle) : State K :=
  match site with
  | .vertex_buffer => { s with vertex_buffer := h }
  | .index_buffer => { s with index_buffer := h }
  | .texture_2d_float16 => { s with gbuffer.texture_2d_float16 := h }
  | .texture_albedo => { s with gbuffer.texture_albedo := h }
  | .texture_depth => { s with gbuffer.texture_depth := h }
  | .texture_view_0 =>
    { s with gbuffer.texture_views := Function.update s.gbuffer.texture_views 0 h }
  | .texture_view_1 =>
    { s with gbuffer.texture_views := Function.update s.gbuffer.texture_views 1 h }
  | .texture_view_2 =>
    { s with gbuffer.texture_views := Function.update s.gbuffer.texture_views 2 h }
  | .model_uniform_buffer => { s with model_uniform_buffer.buffer := h }
  | .camera_uniform_buffer => { s with camera_uniform_buffer.buffer := h }
  | .lights_buffer => { s with lights.buffer := h }
  | .lights_extent_buffer => { s with lights.extent_buffer := h }
  | .config_uniform_buffer => { s with lights.config_uniform_buffer := h }
  | .lights_buffer_bind_group => { s with lights.buffer_bind_group := h }
  | .lights_buffer_compute_bind_group => { s with lights.buffer_compute_bind_group := h }
  | .scene_uniform_bind_group => { s with scene_uniform_bind_group := h }
  | .gbuffer_textures_bind_group => { s with gbuffer_textures_bind_group := h }
  | .lights_buffer_bind_group_layout => { s with lights.buffer_bind_group_layout := h }
  | .lights_buffer_compute_bind_group_layout =>
    { s with lights.buffer_compute_bind_group_layout := h }
  | .scene_uniform_bind_group_layout => { s with scene_uniform_bind_group_layout := h }
  | .gbuffer_textures_bind_group_layout => { s with gbuffer_textures_bind_group_layout := h }
  | .write_gbuffers_pipeline => { s with write_gbuffers_pipeline := h }
  | .gbuffers_debug_view_pipeline => { s with gbuffers_debug_view_pipeline := h }
  | .deferred_render_pipeline => { s with deferred_render_pipeline := h }
  | .light_update_compute_pipeline => { s with light_update_compute_pipeline := h }
  | .write_gbuffers_pipeline_layout => { s with write_gbuffers_pipeline_layout := h }
  | .gbuffers_debug_view_pipeline_layout => { s with gbuffers_debug_view_pipeline_layout := h }
  | .deferred_render_pipeline_layout => { s with deferred_render_pipeline_layout := h }
  | .light_update_compute_pipeline_layout =>
    { s with light_update_compute_pipeline_layout := h }
  | _ => s

/-- One release statement of `example_destroy`: `WGPU_RELEASE_RESOURCE` on the module
variable of `site` (for the model and camera uniform buffers, the framework call
`wgpu_destroy_buffer`, taken to release the buffer it is given in the same way). -/
def release_variable {K : Type} (cs : Context K × State K) (site : Site) :
    Context K × State K :=
  let r := WGPU_RELEASE_RESOURCE cs.1 site (cs.2.handle site)
  (r.1, cs.2.set_handle site r.2)

/-- The function `example_destroy(context)`: the release statements in order. -/
def example_destroy {K : Type} (cs : Context K × State K) : Context K × State K :=
  destroy_order.foldl release_variable cs

/-! ## Reference values for the recorded passes -/

/-- The calls of the G-buffer write pass, as read off the module state. -/
def recorded_gbuffer_pass {K : Type} (s : State K) : List Cmd :=
  [.BeginRenderPass s.write_gbuffer_pass.info,
   .RenderPassSetPipeline s.write_gbuffers_pipeline,
   .RenderPassSetBindGroup 0 s.scene_uniform_bind_group 0,
   .RenderPassSetVertexBuffer 0 s.vertex_buffer 0 WGPU_WHOLE_SIZE,
   .RenderPassSetIndexBuffer s.index_buffer .Uint16 0 WGPU_WHOLE_SIZE,
   .RenderPassDrawIndexed s.index_count 1 0 0 0,
   .RenderPassEnd]

/-- The calls of the light-update compute pass, as read off the module state. -/
def recorded_light_pass {K : Type} (s : State K) : List Cmd :=
  [.BeginComputePass,
   .ComputePassSetPipeline s.light_update_compute_pipeline,
   .ComputePassSetBindGroup 0 s.lights.buffer_compute_bind_group 0,
   .ComputePassDispatchWorkgroups 16 1 1,
   .ComputePassEnd]

/-- The attachments of the texture quad pass once its colour attachment views
`frame_buffer`. -/
def quad_pass_info {K : Type} (frame_buffer : Handle) (s : State K) : RenderPassInfo :=
  TextureQuadPass.info
    { s.texture_quad_pass with
      color_attachments_0 := { s.texture_quad_pass.color_attachments_0 with
                               view := frame_buffer } }

/-- The calls of the G-buffer debug view pass. -/
def recorded_debug_view_pass {K : Type} (frame_buffer : Handle) (s : State K) : List Cmd :=
  [.BeginRenderPass (quad_pass_info frame_buffer s),
   .RenderPassSetPipeline s.gbuffers_debug_view_pipeline,
   .RenderPassSetBindGroup 0 s.gbuffer_textures_bind_group 0,
   .RenderPassDraw 6 1 0 0,
   .RenderPassEnd]

/-- The calls of the deferred rendering pass. -/
def recorded_deferred_pass {K : Type} (frame_buffer : Handle) (s : State K) : List Cmd :=
  [.BeginRenderPass (quad_pass_info frame_buffer s),
   .RenderPassSetPipeline s.deferred_render_pipeline,
   .RenderPassSetBindGroup 0 s.gbuffer_textures_bind_group 0,
   .RenderPassSetBindGroup 1 s.lights.buffer_bind_group 0,
   .RenderPassDraw 6 1 0 0,
   .RenderPassEnd]

/-- The calls of the composite pass the render mode selects. -/
def recorded_composite_pass {K : Type} (frame_buffer : Handle) (s : State K) : List Cmd :=
  if s.settings.current_render_mode = RenderMode_GBuffer_View then
    recorded_debug_view_pass frame_buffer s
  else recorded_deferred_pass frame_buffer s

/-- The context and module state once the three passes are recorded: the encoder
holds the three passes and the quad pass colour attachment views the frame buffer. -/
def passes_recorded {K : Type} (ctx : Context K) (s : State K) : Context K × State K :=
  ({ ctx with
      cmd_enc := recorded_gbuffer_pass s ++ recorded_light_pass s
        ++ recorded_composite_pass ctx.swap_chain_frame_buffer s },
   { s with
      texture_quad_pass := { s.texture_quad_pass with
        color_attachments_0 := { s.texture_quad_pass.color_attachments_0 with
          view := ctx.swap_chain_frame_buffer } } })

/-- The calls `build_command_buffer` records itself: the G-buffer write pass, the
light-update compute pass and the composite pass, in this order. -/
def recorded_three_passes {K : Type} (frame_buffer : Handle) (s : State K) : List Cmd :=
  recorded_gbuffer_pass s ++ recorded_light_pass s ++ recorded_composite_pass frame_buffer s

/-- The calls `draw_ui` adds to the encoder: those that draw the overlay when it is
shown, none when it is not. -/
def Overlay.recorded (ui : Overlay) : List Cmd := if ui.shown then ui.draw else []

/-- Whether a recorded call is a compute dispatch. -/
def Cmd.isDispatch : Cmd → Bool
  | .ComputePassDispatchWorkgroups _ _ _ => true
  | _ => false

/-! ## A concrete run, used to instantiate the theorems -/

/-- A stand-in math library over the rationals: `PI` is `3`, the angle functions are
constant and the matrix functions return the identity or their argument. -/
def sample_math : ExternMath ℚ :=
  { PI := 3
    sin := fun _ => 0
    cos := fun _ => 1
    glm_perspective := fun _ _ _ _ => glm_mat4_identity
    glm_lookat := fun _ _ _ => glm_mat4_identity
    glm_mat4_inv := fun m => m }

/-- A dragon of one triangle with corners `(0,0,0)`, `(1,0,0)`, `(0,1,0)`. -/
def sample_dragon : StanfordDragonMesh ℚ :=
  { positions_count := 3
    positions_data := fun i => if i = 1 then ![1, 0, 0] else if i = 2 then ![0, 1, 0] else ![0, 0, 0]
    normals_count := 3
    normals_data := fun _ => ![0, 0, 1]
    uvs_count := 3
    uvs_data := fun i => if i = 1 then ![1, 0] else if i = 2 then ![0, 1] else ![0, 0]
    triangles_count := 1
    triangles_data := fun _ => ![0, 1, 2] }

/-- A device on which every creation succeeds, each site with a handle of its own. -/
def sample_device : Device := fun site => some (site.toCtorIdx + 1)

/-- A device on which only the creation of the deferred render pipeline fails. -/
def failing_device : Device := fun site =>
  if site = .deferred_render_pipeline then none else some (site.toCtorIdx + 1)

/-- A run environment: stopping `ASSERT`, the sample device and dragon, and the
sample stream `1 / (n + 2)` for `random_float_min_max`. -/
def sample_env : Env ℚ :=
  { assert_stops := true
    math := sample_math
    device := sample_device
    rand := fun n _ _ => 1 / ((n : ℚ) + 2)
    dragon := sample_dragon
    STANFORD_DRAGON_POSITION_COUNT_RES_4 := 3 }

/-- A context for a 1280 x 720 surface at time 0, not paused, nothing logged. -/
def sample_context : Context ℚ :=
  { surface_width := 1280
    surface_height := 720
    swap_chain_frame_buffer := none
    cmd_enc_handle := none
    cmd_enc := []
    submit_info_command_buffers := []
    paused := false
    frame_timestamp_millis := 0
    log := [] }

/-- An overlay frame in which the user opens the settings and moves the slider to 256,
and the overlay is drawn in a render pass of its own that loads the frame buffer 100. -/
def sample_overlay : Overlay :=
  { shown := true
    header := true
    checkBox := fun b => b
    combo_box := fun i => (false, i)
    slider_int := fun _ _ _ => (true, 256)
    draw :=
      [.BeginRenderPass
          { colorAttachments :=
              [{ view := some 100, loadOp := .Load, storeOp := .Store,
                 clearValue := { r := 0, g := 0, b := 0, a := 0 } }]
            depthStencilAttachment := none },
       .RenderPassDraw 3 1 0 0,
       .RenderPassEnd] }

/-- A frame input with the sample overlay, frame buffer handle 100, encoder handle
101 and a command buffer that finishes. -/
def sample_frame : FrameInput :=
  { overlay := sample_overlay, frame_buffer := some 100, command_encoder := some 101,
    finished := true }

/-- The sample frame when `wgpu_get_command_buffer` returns `NULL`. -/
def unfinished_frame : FrameInput := { sample_frame with finished := false }

/-- The context and module state after `example_initialize` in the sample run. -/
def sample_ready : Context ℚ × State ℚ :=
  match example_initialize sample_env (some sample_context) State.initial with
  | .ok (_, some ctx, s) => (ctx, s)
  | _ => (sample_context, State.initial)

/-! ## The setup path as a list of steps -/

/-- A setup step: a function of the environment, the context and the module state that
returns the new context and state, or stops the program. -/
abbrev SetupStep (K : Type) := Env K → Context K × State K → Except Abort (Context K × State K)

/-- The thirteen `prepare_...`/`setup_...` calls of `example_initialize`, in call
order. -/
def setup_steps {K : Type} [Field K] : List (SetupStep K) :=
  [prepare_vertex_and_index_buffers,
   prepare_gbuffer_texture_render_targets,
   prepare_bind_group_layouts,
   prepare_render_pipeline_layouts,
   prepare_write_gbuffers_pipeline,
   prepare_gbuffers_debug_view_pipeline,
   prepare_deferred_render_pipeline,
   setup_render_passes,
   prepare_uniform_buffers,
   prepare_compute_pipeline_layout,
   prepare_light_update_compute_pipeline,
   prepare_lights,
   prepare_view_matrices]

/-- Runs setup steps one after the other; a step that stops the program stops the run. -/
def run_steps {K : Type} (env : Env K) :
    List (SetupStep K) → Context K × State K → Except Abort (Context K × State K)
  | [], cs => .ok cs
  | f :: fs, cs => f env cs >>= run_steps env fs

/-- The creation site an effect belongs to, for the effects that are calls returning
an object or a mapped pointer. -/
def Effect.site? {K : Type} : Effect K → Option Site
  | .create_buffer site _ _ _ => some site
  | .get_mapped_range site _ _ _ _ => some site
  | .create_texture site _ _ _ _ _ => some site
  | .create_texture_view site _ _ _ => some site
  | .create_bind_group_layout site _ _ => some site
  | .create_pipeline_layout site _ _ => some site
  | .create_shader site _ _ => some site
  | .create_render_pipeline site _ _ _ _ _ _ => some site
  | .create_compute_pipeline site _ _ _ => some site
  | .get_bind_group_layout site _ _ _ => some site
  | .create_bind_group site _ _ _ => some site
  | _ => none

/-- The module variable an effect releases, for the release effects. -/
def Effect.released? {K : Type} : Effect K → Option Site
  | .release site _ => some site
  | _ => none

/-- The sites of the setup path in the order `example_initialize` reaches them. -/
def creation_order : List Site :=
  [.vertex_buffer, .vertex_buffer_mapping, .index_buffer, .index_buffer_mapping,
   .texture_2d_float16, .texture_albedo, .texture_depth,
   .texture_view_0, .texture_view_1, .texture_view_2,
   .gbuffer_textures_bind_group_layout, .lights_buffer_bind_group_layout,
   .scene_uniform_bind_group_layout, .lights_buffer_compute_bind_group_layout,
   .write_gbuffers_pipeline_layout, .gbuffers_debug_view_pipeline_layout,
   .deferred_render_pipeline_layout,
   .write_gbuffers_vertex_shader, .write_gbuffers_fragment_shader, .write_gbuffers_pipeline,
   .gbuffers_debug_view_vertex_shader, .gbuffers_debug_view_fragment_shader,
   .gbuffers_debug_view_pipeline,
   .deferred_render_vertex_shader, .deferred_render_fragment_shader,
   .deferred_render_pipeline,
   .config_uniform_buffer, .config_uniform_buffer_mapping,
   .model_uniform_buffer, .camera_uniform_buffer,
   .write_gbuffers_pipeline_bind_group_layout_0, .scene_uniform_bind_group,
   .gbuffer_textures_bind_group,
   .light_update_compute_pipeline_layout,
   .light_update_compute_shader, .light_update_compute_pipeline,
   .lights_buffer, .lights_buffer_mapping, .lights_extent_buffer,
   .lights_buffer_bind_group,
   .light_update_compute_pipeline_bind_group_layout_0, .lights_buffer_compute_bind_group]

/-- What a setup step may do to the context: only append to the log, with creation
calls at the listed sites and no release of a module variable. -/
def StepLog {K : Type} (cs cs' : Context K × State K) (sites : List Site) : Prop :=
  cs'.1 = { cs.1 with log := cs'.1.log }
    ∧ cs'.1.log.filterMap Effect.site? = cs.1.log.filterMap Effect.site? ++ sites
    ∧ cs'.1.log.filterMap Effect.released? = cs.1.log.filterMap Effect.released?

/-- The module state a run of `example_initialize` that returns leaves behind, from
the environment, the context and the state it started with: every handle variable
holds what the device returned at its site. -/
def initialized_state {K : Type} [Field K] (env : Env K) (ctx : Context K) (s : State K) :
    State K :=
  { view_matrices :=
      { up_vector := ![0, 1, 0]
        origin := ![0, 0, 0]
        projection_matrix :=
          env.math.glm_perspective ((2 * env.math.PI) / 5)
            ((ctx.surface_width : K) / (ctx.surface_height : K)) 1 2000
        view_proj_matrix := s.view_matrices.view_proj_matrix }
    stanford_dragon_mesh := env.dragon
    vertex_buffer := env.device .vertex_buffer
    index_buffer := env.device .index_buffer
    index_count := ((env.dragon.triangles_count + 2) * 3) % 2 ^ 32
    gbuffer :=
      { texture_2d_float16 := env.device .texture_2d_float16
        texture_albedo := env.device .texture_albedo
        texture_depth := env.device .texture_depth
        texture_views :=
          Function.update
            (Function.update
              (Function.update s.gbuffer.texture_views 0 (env.device .texture_view_0))
              1 (env.device .texture_view_1))
            2 (env.device .texture_view_2) }
    model_uniform_buffer :=
      { buffer := env.device .model_uniform_buffer, size := sizeof_mat4 * 2 }
    camera_uniform_buffer :=
      { buffer := env.device .camera_uniform_buffer, size := sizeof_mat4 * 2 }
    camera_uniform_buffer_size := s.camera_uniform_buffer_size
    lights :=
      { buffer := env.device .lights_buffer
        buffer_size := lights_buffer_size
        extent_buffer := env.device .lights_extent_buffer
        extent_buffer_size := 4 * 8
        config_uniform_buffer := env.device .config_uniform_buffer
        config_uniform_buffer_size := sizeof_float
        buffer_bind_group := env.device .lights_buffer_bind_group
        buffer_bind_group_layout := env.device .lights_buffer_bind_group_layout
        buffer_compute_bind_group := env.device .lights_buffer_compute_bind_group
        buffer_compute_bind_group_layout :=
          env.device .lights_buffer_compute_bind_group_layout }
    scene_uniform_bind_group := env.device .scene_uniform_bind_group
    gbuffer_textures_bind_group := env.device .gbuffer_textures_bind_group
    scene_uniform_bind_group_layout := env.device .scene_uniform_bind_group_layout
    gbuffer_textures_bind_group_layout := env.device .gbuffer_textures_bind_group_layout
    write_gbuffers_pipeline := env.device .write_gbuffers_pipeline
    gbuffers_debug_view_pipeline := env.device .gbuffers_debug_view_pipeline
    deferred_render_pipeline := env.device .deferred_render_pipeline
    light_update_compute_pipeline := env.device .light_update_compute_pipeline
    write_gbuffers_pipeline_layout := env.device .write_gbuffers_pipeline_layout
    gbuffers_debug_view_pipeline_layout := env.device .gbuffers_debug_view_pipeline_layout
    deferred_render_pipeline_layout := env.device .deferred_render_pipeline_layout
    light_update_compute_pipeline_layout := env.device .light_update_compute_pipeline_layout
    write_gbuffer_pass :=
      { color_attachments_0 :=
          { view := env.device .texture_view_0, loadOp := .Clear, storeOp := .Store,
            clearValue := { r := 0, g := 0, b := 1, a := 1 } }
        color_attachments_1 :=
          { view := env.device .texture_view_1, loadOp := .Clear, storeOp := .Store,
            clearValue := { r := 0, g := 0, b := 0, a := 1 } }
        depth_stencil_attachment :=
          { view := env.device .texture_view_2, depthLoadOp := .Clear,
            depthStoreOp := .Store, depthClearValue := 1, stencilClearValue := 1 }
        descriptor :=
          { colorAttachmentCount := 2, colorAttachments := true,
            depthStencilAttachment := true } }
    texture_quad_pass :=
      { color_attachments_0 :=
          { view := none, loadOp := .Clear, storeOp := .Store,
            clearValue := { r := 0, g := 0, b := 0, a := 1 } }
        descriptor :=
          { colorAttachmentCount := 1, colorAttachments := true,
            depthStencilAttachment := false } }
    settings := s.settings
    prepared := true }

/-! ## Reference values for the overlay -/

/-- The settings after one run of the overlay callback, from the settings before. -/
def overlay_settings (ui : Overlay) (st : Settings) : Settings :=
  if ui.header then
    { current_render_mode :=
        if (ui.combo_box st.current_render_mode).1 then (ui.combo_box st.current_render_mode).2
        else st.current_render_mode
      num_lights := (ui.slider_int st.num_lights 1 max_num_lights).2 }
  else st

/-- The pause flag after one run of the overlay callback, from the flag before. -/
def overlay_paused (ui : Overlay) (paused : Bool) : Bool :=
  if ui.header then ui.checkBox paused else paused

/-- The settings after `draw_ui`: the overlay callback runs only when the overlay is
shown. -/
def overlay_settings_shown (ui : Overlay) (st : Settings) : Settings :=
  if ui.shown then overlay_settings ui st else st

/-- The pause flag after `draw_ui`. -/
def overlay_paused_shown (ui : Overlay) (paused : Bool) : Bool :=
  if ui.shown then overlay_paused ui paused else paused

/-- A context for a 1280 x 720 surface at frame time `t`, not paused, nothing logged. -/
def context_at {K : Type} (t : K) : Context K :=
  { surface_width := 1280
    surface_height := 720
    swap_chain_frame_buffer := none
    cmd_enc_handle := none
    cmd_enc := []
    submit_info_command_buffers := []
    paused := false
    frame_timestamp_millis := t
    log := [] }

/-- The initial module state with the view matrices as `prepare_view_matrices` leaves
them for the projection matrix `projection`. -/
def camera_state {K : Type} [Field K] (projection : Mat4 K) : State K :=
  { (State.initial : State K) with
    view_matrices :=
      { up_vector := ![0, 1, 0]
        origin := ![0, 0, 0]
        projection_matrix := projection
        view_proj_matrix := fun _ _ => 0 } }

/-! ## Runs of frames and of overlay updates -/

/-- The frame loop of the example framework, outside the sources: for each frame it
sets the frame timestamp and calls `example_render`, whose result it drops; a frame
that stops the program ends the run. -/
def run_frames {K : Type} [Field K] (env : Env K) :
    List (K × FrameInput) → Context K × State K → Except Abort (Context K × State K)
  | [], cs => pure cs
  | f :: frames, cs => do
    let r ← example_render env f.2 ({ cs.1 with frame_timestamp_millis := f.1 }, cs.2)
    run_frames env frames r.2

/-- A sequence of calls of `example_on_update_ui_overlay`, one per listed overlay. -/
def run_overlay {K : Type} (uis : List Overlay) (cs : Context K × State K) :
    Context K × State K :=
  uis.foldl (fun cs ui => example_on_update_ui_overlay ui cs) cs

/-- The assumption on `imgui_overlay_slider_int`, as the callback calls it: handed a
value within the bounds `1` and `max_num_lights`, it leaves a value within them. -/
def Overlay.slider_within_bounds (ui : Overlay) : Prop :=
  ∀ v : Int, 1 ≤ v → v ≤ max_num_lights →
    1 ≤ (ui.slider_int v 1 max_num_lights).2
      ∧ (ui.slider_int v 1 max_num_lights).2 ≤ max_num_lights

/-- The assumption on `imgui_overlay_slider_int` that it returns `true` whenever it
changes the value: when it returns `false` the value is the one it was handed. -/
def Overlay.slider_reports_change (ui : Overlay) : Prop :=
  ∀ v lo hi : Int, (ui.slider_int v lo hi).1 = false → (ui.slider_int v lo hi).2 = v

/-- The `uint32_t` an effect stores at offset 0 of a buffer, with the buffer: the
first element of an unmapped `uint32_t` range or of a queue write at offset 0. -/
def Effect.uint32_write? {K : Type} : Effect K → Option (Handle × Nat)
  | .unmap_uint32 b contents => (contents 0).map fun v => (b, v)
  | .queue_write_uint32 b 0 (v :: _) _ => some (b, v)
  | _ => none

/-- The `uint32_t` at offset 0 of `buffer` after the effects of a log: the value of
the last write to it. -/
def uint32_content {K : Type} (log : List (Effect K)) (buffer : Handle) : Option Nat :=
  (((log.filterMap Effect.uint32_write?).filter fun w => w.1 = buffer).getLast?).map
    fun w => w.2

/-- What a setup step writes as `uint32_t` values: the listed buffer and value pairs,
after what was written before. -/
def StepWrites {K : Type} (cs cs' : Context K × State K) (ws : List (Handle × Nat)) : Prop :=
  cs'.1.log.filterMap Effect.uint32_write? = cs.1.log.filterMap Effect.uint32_write? ++ ws

/-- The config uniform buffer holds the active count: the `uint32_t` at offset 0 of
`lights.config_uniform_buffer` is `(uint32_t)settings.num_lights`. -/
def config_holds_num_lights {K : Type} (cs : Context K × State K) : Prop :=
  uint32_content cs.1.log cs.2.lights.config_uniform_buffer
    = some (cs.2.settings.num_lights % 2 ^ 32).toNat

/-- The sample run once `stanford_dragon_mesh_init` has loaded the dragon. -/
def sample_loaded : Context ℚ × State ℚ :=
  (sample_context, { (State.initial : State ℚ) with stanford_dragon_mesh := sample_dragon })

/-- The sample run once `prepare_vertex_and_index_buffers` has returned. -/
def sample_buffers : Context ℚ × State ℚ :=
  match prepare_vertex_and_index_buffers sample_env sample_loaded with
  | .ok cs => cs
  | .error _ => sample_loaded

/-- Whether a recorded call is an indexed draw. -/
def Cmd.isDrawIndexed : Cmd → Bool
  | .RenderPassDrawIndexed _ _ _ _ _ => true
  | _ => false

/-- The releases of the listed module variables on a state, in list order: one for
each variable that is not `NULL`. -/
def releases_of {K : Type} (s : State K) (l : List Site) : List (Effect K) :=
  (l.filter fun a => (s.handle a).isSome).map fun a => Effect.release a (s.handle a)

/-- What it means for a step to neither release nor recreate a module object: every
module handle is the one it was, and the log gains no creation and no release. -/
def keeps_handles {K : Type} (cs cs' : Context K × State K) : Prop :=
  (∀ a, cs'.2.handle a = cs.2.handle a)
    ∧ cs'.1.log.filterMap Effect.site? = cs.1.log.filterMap Effect.site?
    ∧ cs'.1.log.filterMap Effect.released? = cs.1.log.filterMap Effect.released?

/-! ## Reference notions for the draws, the ground plane and the bindings -/

/-- Whether a recorded call is a non-indexed draw. -/
def Cmd.isDraw : Cmd → Bool
  | .RenderPassDraw _ _ _ _ => true
  | _ => false

/-- Whether a recorded call binds a vertex buffer. -/
def Cmd.isSetVertexBuffer : Cmd → Bool
  | .RenderPassSetVertexBuffer _ _ _ _ => true
  | _ => false

/-- The cross product of two vectors. -/
def cross_product {K : Type} [Field K] (a b : Vec3 K) : Vec3 K :=
  ![a 1 * b 2 - a 2 * b 1, a 2 * b 0 - a 0 * b 2, a 0 * b 1 - a 1 * b 0]

/-- The ground-plane vertex that corner `j` of ground-plane triangle `k` refers to:
the index the table `ground_plane_indices` holds, counted from the first ground-plane
vertex `P`. -/
def ground_plane_corner (P : Nat) (k : Fin 2) (j : Fin 3) : Nat :=
  ground_plane_indices P k j - P

/-- The winding vector `(b - a) x (c - a)` of ground-plane triangle `k`, with `a`,
`b`, `c` the positions of its corners in index order. -/
def ground_plane_winding {K : Type} [Field K] (P : Nat) (k : Fin 2) : Vec3 K :=
  cross_product
    (glm_vec3_sub (ground_plane_positions (Fin.ofNat (ground_plane_corner P k 1)))
      (ground_plane_positions (Fin.ofNat (ground_plane_corner P k 0))))
    (glm_vec3_sub (ground_plane_positions (Fin.ofNat (ground_plane_corner P k 2)))
      (ground_plane_positions (Fin.ofNat (ground_plane_corner P k 0))))

/-- The minimum binding size a bind group layout declares for a binding number, for
the buffer bindings. -/
def min_binding_size (layout : List BindGroupLayoutEntry) (binding : Nat) : Option Nat :=
  match layout.find? fun l => l.binding = binding with
  | some { layout := .buffer _ size, .. } => some size
  | _ => none

/-- Whether every entry of a bind group binds at least the minimum binding size the
layout declares for its binding number. -/
def bindings_fit (layout : List BindGroupLayoutEntry) (entries : List BindGroupEntry) : Bool :=
  entries.all fun e =>
    match min_binding_size layout e.binding with
    | some size => decide (size ≤ e.size)
    | none => false

/-- The log of a step only grows: what was logged before is still there, in front. -/
def log_grows {K : Type} (cs cs' : Context K × State K) : Prop :=
  ∃ delta : List (Effect K), cs'.1.log = cs.1.log ++ delta

/-- The entries `prepare_bind_group_layouts` gives the lights buffer bind group
layout, read by the fragment stage. -/
def lights_buffer_layout_entries : List BindGroupLayoutEntry :=
  [{ binding := 0, visibility := [.Fragment, .Compute],
     layout := .buffer .ReadOnlyStorage (sizeof_float * light_data_stride * max_num_lights) },
   { binding := 1, visibility := [.Fragment, .Compute],
     layout := .buffer .Uniform sizeof_float },
   { binding := 2, visibility := [.Fragment],
     layout := .buffer .Uniform (sizeof_mat4 * 2) }]

/-- The entries `prepare_bind_group_layouts` gives the lights buffer compute bind
group layout, from the value `camera_uniform_buffer_size` has at that time. -/
def lights_buffer_compute_layout_entries (camera_uniform_buffer_size : Nat) :
    List BindGroupLayoutEntry :=
  [{ binding := 0, visibility := [.Compute],
     layout := .buffer .Storage (sizeof_float * light_data_stride * max_num_lights) },
   { binding := 1, visibility := [.Compute], layout := .buffer .Uniform sizeof_float },
   { binding := 2, visibility := [.Compute],
     layout := .buffer .Uniform camera_uniform_buffer_size }]

/-! ## cglm's camera functions and a run over the reals

cglm and the macro `PI` are outside the sources: in the embedding they are the
parameters `ExternMath`, and every theorem about the program holds for all values of
them, or says which it assumes. The definitions of this section give the parameters
the values they have in cglm (`glm_perspective`, `glm_lookat`) and in a `float`
constant (`PI`), so that concrete runs of setup can be exhibited. -/

/-- cglm `glm_vec3_dot(a, b)`. -/
def glm_vec3_dot {K : Type} [Field K] (a b : Vec3 K) : K := a 0 * b 0 + a 1 * b 1 + a 2 * b 2

/-- cglm `glm_vec3_normalize(v)`, for a given C `sqrtf`: `v` scaled by `1 / norm`, where
`norm = sqrtf(dot(v, v))`. For a zero norm cglm returns the zero vector, which is also
what the division by zero of a field gives. -/
def glm_vec3_normalize {K : Type} [Field K] (sqrt : K → K) (v : Vec3 K) : Vec3 K :=
  fun j => v j * (1 / sqrt (glm_vec3_dot v v))

/-- cglm `glm_lookat(eye, center, up, dest)`, for a given C `sqrtf`:
`f = normalize(center - eye)`, `s = normalize(cross(f, up))`, `u = cross(s, f)`, and the
columns of `dest` are `(s0, u0, -f0, 0)`, `(s1, u1, -f1, 0)`, `(s2, u2, -f2, 0)` and
`(-dot(s, eye), -dot(u, eye), dot(f, eye), 1)`. -/
def cglm_lookat {K : Type} [Field K] (sqrt : K → K) (eye center up : Vec3 K) : Mat4 K :=
  let f : Vec3 K := glm_vec3_normalize sqrt (glm_vec3_sub center eye)
  let s : Vec3 K := glm_vec3_normalize sqrt (cross_product f up)
  let u : Vec3 K := cross_product s f
  ![![s 0, u 0, -f 0, 0],
    ![s 1, u 1, -f 1, 0],
    ![s 2, u 2, -f 2, 0],
    ![-glm_vec3_dot s eye, -glm_vec3_dot u eye, glm_vec3_dot f eye, 1]]

/-- cglm `glm_perspective(fovy, aspect, nearZ, farZ, dest)`, for a given C `tanf`: with
`f = 1 / tanf(fovy * 0.5)` and `fn = 1 / (nearZ - farZ)`, the entries `dest[0][0] =
f / aspect`, `dest[1][1] = f`, `dest[2][2] = (nearZ + farZ) * fn`, `dest[2][3] = -1`,
`dest[3][2] = 2 * nearZ * farZ * fn`, and zero elsewhere. -/
def cglm_perspective {K : Type} [Field K] (tan : K → K) (fovy aspect nearZ farZ : K) :
    Mat4 K :=
  let f : K := 1 / tan (fovy * (1 / 2))
  let fn : K := 1 / (nearZ - farZ)
  ![![f / aspect, 0, 0, 0],
    ![0, f, 0, 0],
    ![0, 0, (nearZ + farZ) * fn, -1],
    ![0, 0, 2 * nearZ * farZ * fn, 0]]

/-- The math library with cglm's `glm_perspective` and `glm_lookat`, over a given value
of `PI` and given functions `sin`, `cos`, `tan`, `sqrt` and matrix inverse. -/
def cglm_math {K : Type} [Field K] (PI : K) (sin cos tan sqrt : K → K)
    (inv : Mat4 K → Mat4 K) : ExternMath K :=
  { PI := PI
    sin := sin
    cos := cos
    glm_perspective := cglm_perspective tan
    glm_lookat := cglm_lookat sqrt
    glm_mat4_inv := inv }

/-- The `float` nearest to pi, `0x40490FDB = 13176795 / 2 ^ 22`: the value a `float`
constant `PI` holds. -/
def PI_float : ℚ := 13176795 / 4194304

/-- The sample run environment over any field, for a given math library: stopping
`ASSERT`, the sample device, the dragon of one triangle and the sample stream
`1 / (n + 2)` for `random_float_min_max`. -/
def sample_env_of {K : Type} [Field K] (math : ExternMath K) : Env K :=
  { assert_stops := true
    math := math
    device := sample_device
    rand := fun n _ _ => 1 / ((n : K) + 2)
    dragon :=
      { positions_count := 3
        positions_data := fun i =>
          if i = 1 then ![1, 0, 0] else if i = 2 then ![0, 1, 0] else ![0, 0, 0]
        normals_count := 3
        normals_data := fun _ => ![0, 0, 1]
        uvs_count := 3
        uvs_data := fun i => if i = 1 then ![1, 0] else if i = 2 then ![0, 1] else ![0, 0]
        triangles_count := 1
        triangles_data := fun _ => ![0, 1, 2] }
    STANFORD_DRAGON_POSITION_COUNT_RES_4 := 3 }

/-- A context for a surface of the given size at frame time `t`, not paused, nothing
logged. -/
def surface_context {K : Type} (width height : Nat) (t : K) : Context K :=
  { context_at t with surface_width := width, surface_height := height }

/-! ## Reference notions for the uploads of `prepare_lights` -/

/-- The buffer and the floats of an effect that unmaps a buffer filled with floats. -/
def Effect.floats_unmapped? {K : Type} : Effect K → Option (Handle × Mapping K)
  | .unmap_floats buffer contents => some (buffer, contents)
  | _ => none

/-- The sample run once `prepare_lights` has returned, from the initial state. -/
def sample_lit : Context ℚ × State ℚ :=
  match prepare_lights sample_env (sample_context, State.initial) with
  | .ok cs => cs
  | .error _ => (sample_context, State.initial)

end DeferredRendering

/-!
# The OpenGL/SDL game renderer (`src/Project/src/engine/Renderer.cpp`)

A shallow embedding of the class `Renderer`: its sprite list, its mesh component
list, its caches of textures, meshes and shaders, the map from shaders to the mesh
components drawn with them, and the frame function `Draw`.

Conventions of the embedding.

* The header `Renderer.h` is not part of the sources. The members are taken with the
  types their uses fix: `mSprites` and `mMeshComponents` are vectors of pointers,
  `mTextures`, `mMeshes` and `mShaders` map a file name to a pointer, and
  `mShaderMeshCompMap` maps a shader pointer to a vector of mesh component pointers.
* A non-null pointer is a natural number; a pointer that may be `nullptr` is an
  `Option`.
* A map is the list of its entries, with at most one entry for a key in use; the
  order in which C++ iterates a map is not fixed by the sources, and the list order
  stands for it.
* The classes behind the pointers (`SpriteComponent`, `MeshComponent`, `Texture`,
  `Mesh`, `Shader`, `VertexArray`, `Matrix4`) and OpenGL and SDL are outside the
  sources: what they answer is a parameter, and every call made on them is appended
  to a log kept with the renderer.
-/

namespace Project

/-- A non-null pointer to an object on the heap. -/
abbrev Ptr := Nat

/-- The struct `DirectionalLight`, the three fields `SetLightUniforms` reads. -/
structure DirectionalLight (Vec : Type) where
  mDirection : Vec
  mDiffuseColor : Vec
  mSpecColor : Vec

/-- A call on OpenGL, on SDL or on one of the objects behind the pointers, with its
arguments (and, for a load, its result). -/
inductive Event (Mat Vec : Type)
  | glClearColor (red green blue alpha : ℚ)
  | glClear (mask : List String)
  | glEnable (cap : String)
  | glDisable (cap : String)
  | glBlendEquationSeparate (modeRGB modeAlpha : String)
  | glBlendFuncSeparate (srcRGB dstRGB srcAlpha dstAlpha : String)
  | Shader_SetActive (shader : Ptr)
  | Shader_SetMatrixUniform (shader : Ptr) (name : String) (m : Mat)
  | Shader_SetVectorUniform (shader : Ptr) (name : String) (v : Vec)
  | MeshComponent_Draw (meshComp : Ptr) (shader : Ptr)
  | VertexArray_SetActive (vertexArray : Ptr)
  | SpriteComponent_Draw (sprite : Ptr) (shader : Ptr)
  | SDL_GL_SwapWindow
  | SDL_Log (message : String)
  | new_Texture (tex : Ptr)
  | new_Mesh (m : Ptr)
  | new_Shader (sh : Ptr)
  | delete (p : Ptr)
  | Texture_Load (tex : Ptr) (fileName : String) (result : Bool)
  | Mesh_Load (m : Ptr) (fileName : String) (result : Bool)
  | Shader_Load (sh : Ptr) (vertName fragName : String) (result : Bool)

/-- The members of the class `Renderer` that the embedded member functions read or
write, with the number of objects created by `new` so far and the log of calls. -/
structure Renderer (Mat Vec : Type) where
  /-- Member `mSprites`, a vector of `SpriteComponent*`. -/
  mSprites : List Ptr
  /-- Member `mMeshComponents`, a vector of `MeshComponent*`. -/
  mMeshComponents : List Ptr
  /-- Member `mTextures`, a map from file name to `Texture*`. -/
  mTextures : List (String × Ptr)
  /-- Member `mMeshes`, a map from file name to `Mesh*`. -/
  mMeshes : List (String × Ptr)
  /-- Member `mShaders`, a map from file name to `Shader*`. -/
  mShaders : List (String × Ptr)
  /-- Member `mShaderMeshCompMap`, a map from `Shader*` to a vector of
  `MeshComponent*`. -/
  mShaderMeshCompMap : List (Ptr × List Ptr)
  /-- Member `mSpriteShader`. -/
  mSpriteShader : Option Ptr
  /-- Member `mSpriteVerts`. -/
  mSpriteVerts : Option Ptr
  /-- Member `mView`. -/
  mView : Mat
  /-- Member `mProjection`. -/
  mProjection : Mat
  /-- Member `mAmbientLight`. -/
  mAmbientLight : Vec
  /-- Member `mDirectionalLight`. -/
  mDirectionalLight : DirectionalLight Vec
  /-- Member `mScreenWidth`. -/
  mScreenWidth : ℚ
  /-- Member `mScreenHeight`. -/
  mScreenHeight : ℚ
  /-- How many objects `new` has created so far. -/
  news : Nat
  /-- The calls made so far. -/
  log : List (Event Mat Vec)

/-- What the classes outside the sources answer. -/
structure Classes (Mat Vec : Type) where
  /-- Result of `sprite->GetDrawOrder()`. -/
  GetDrawOrder : Ptr → Int
  /-- The pointer `new` returns for the object created after `n` others. -/
  alloc : Nat → Ptr
  /-- Result of `tex->Load(fileName)`. -/
  Texture_Load : Ptr → String → Bool
  /-- Result of `m->Load(fileName, this)` and what the call, which is handed the
  renderer, does to it. -/
  Mesh_Load : Ptr → String → Renderer Mat Vec → Bool × Renderer Mat Vec
  /-- Result of `sh->Load(vertName, fragName)`. -/
  Shader_Load : Ptr → String → String → Bool
  /-- The product `a * b` of `Matrix4`. -/
  Matrix4_mul : Mat → Mat → Mat
  /-- The matrix `Matrix4::CreateLookAt(Vector3::Zero, Vector3::UnitX, Vector3::UnitZ)`. -/
  CreateLookAt : Mat
  /-- The matrix `Matrix4::CreatePerspectiveFOV(Math::ToRadians(fov), width, height,
  near, far)`, from `fov` in degrees and the other four arguments. -/
  CreatePerspectiveFOV : ℚ → ℚ → ℚ → ℚ → ℚ → Mat
  /-- The vector `m.GetTranslation()` of a matrix `m` after `m.Invert()`. -/
  inverted_translation : Mat → Vec

/-- Appends a call to the log. -/
def Renderer.call {Mat Vec : Type} (r : Renderer Mat Vec) (e : Event Mat Vec) :
    Renderer Mat Vec :=
  { r with log := r.log ++ [e] }

/-! ## Vectors and maps of the standard library -/

/-- The call `v.insert(iter, x)` of a vector, with the iterator as a position: `x`
is placed in front of the element at that position. -/
def vector_insert {α : Type} (v : List α) (iter : Nat) (x : α) : List α :=
  v.take iter ++ x :: v.drop iter

/-- The call `std::find(v.begin(), v.end(), x)`, with the iterator as a position: the
position of the first element equal to `x`, the length of the vector (`v.end()`) when
there is none. -/
def std_find {α : Type} [DecidableEq α] : List α → α → Nat
  | [], _ => 0
  | y :: ys, x => if y = x then 0 else std_find ys x + 1

/-- The call `v.erase(iter)` of a vector for an iterator that points at an element;
for `v.end()` the behaviour is undefined, which is `none`. -/
def vector_erase {α : Type} (v : List α) (iter : Nat) : Option (List α) :=
  if iter < v.length then some (v.eraseIdx iter) else none

/-- The call `m.find(key)` of a map: the value stored for the key, `none` for
`m.end()`. -/
def map_find {κ ν : Type} [DecidableEq κ] : List (κ × ν) → κ → Option ν
  | [], _ => none
  | (k, v) :: m, key => if k = key then some v else map_find m key

/-- The call `m.emplace(key, value)` of a map: a new entry when the key is not in use,
no change when it is. -/
def map_emplace {κ ν : Type} [DecidableEq κ] (m : List (κ × ν)) (key : κ) (value : ν) :
    List (κ × ν) :=
  if (map_find m key).isSome then m else m ++ [(key, value)]

/-- A change of the value `iter->second` of the entry `m.find(key)` points at. -/
def map_update_second {κ ν : Type} [DecidableEq κ] (f : ν → ν) :
    List (κ × ν) → κ → List (κ × ν)
  | [], _ => []
  | (k, v) :: m, key =>
    if k = key then (k, f v) :: m else (k, v) :: map_update_second f m key

/-! ## Sprites -/

/-- The loop of `AddSprite` that looks for the insertion point: the position of the
first sprite whose draw order is greater than `drawOrder`, the length of the vector
when there is none. -/
def AddSprite_iter {Mat Vec : Type} (env : Classes Mat Vec) (drawOrder : Int) : List Ptr → Nat
  | [] => 0
  | x :: xs =>
    if drawOrder < env.GetDrawOrder x then 0 else AddSprite_iter env drawOrder xs + 1

/-- The member function `Renderer::AddSprite(sprite)`. -/
def AddSprite {Mat Vec : Type} (env : Classes Mat Vec) (r : Renderer Mat Vec) (sprite : Ptr) :
    Renderer Mat Vec :=
  -- Find insertion point in sorted vector
  let drawOrder := env.GetDrawOrder sprite
  let iter := AddSprite_iter env drawOrder r.mSprites
  { r with mSprites := vector_insert r.mSprites iter sprite }

/-- The member function `Renderer::RemoveSprite(sprite)`. -/
def RemoveSprite {Mat Vec : Type} (r : Renderer Mat Vec) (sprite : Ptr) : Renderer Mat Vec :=
  let iter := std_find r.mSprites sprite
  if iter ≠ r.mSprites.length then { r with mSprites := r.mSprites.eraseIdx iter } else r

/-! ## Mesh components -/

/-- The member function `Renderer::AddMeshComponent(mesh)`. -/
def AddMeshComponent {Mat Vec : Type} (r : Renderer Mat Vec) (mesh : Ptr) : Renderer Mat Vec :=
  { r with mMeshComponents := r.mMeshComponents ++ [mesh] }

/-- The member function `Renderer::RemoveMeshComponent(mesh)`: the result of
`std::find` is erased unchecked, so the behaviour is undefined, `none`, when the
component is not in the vector. -/
def RemoveMeshComponent {Mat Vec : Type} (r : Renderer Mat Vec) (mesh : Ptr) :
    Option (Renderer Mat Vec) :=
  let iter := std_find r.mMeshComponents mesh
  (vector_erase r.mMeshComponents iter).map fun v => { r with mMeshComponents := v }

/-! ## Caches -/

/-- The expression `new T()`: the next object of the allocator. -/
def Renderer.new_object {Mat Vec : Type} (env : Classes Mat Vec) (r : Renderer Mat Vec) :
    Ptr × Renderer Mat Vec :=
  (env.alloc r.news, { r with news := r.news + 1 })

/-- The member function `Renderer::GetTexture(fileName)`: the result and the renderer
after the call. -/
def GetTexture {Mat Vec : Type} (env : Classes Mat Vec) (r : Renderer Mat Vec)
    (fileName : String) : Option Ptr × Renderer Mat Vec :=
  match map_find r.mTextures fileName with
  | some tex => (some tex, r)
  | none =>
    let a := r.new_object env
    let tex : Ptr := a.1
    let r : Renderer Mat Vec := a.2.call (.new_Texture tex)
    let loaded := env.Texture_Load tex fileName
    let r : Renderer Mat Vec := r.call (.Texture_Load tex fileName loaded)
    if loaded then
      (some tex, { r with mTextures := map_emplace r.mTextures fileName tex })
    else
      (none, r.call (.delete tex))

/-- The member function `Renderer::GetMesh(fileName)`: the result and the renderer
after the call. -/
def GetMesh {Mat Vec : Type} (env : Classes Mat Vec) (r : Renderer Mat Vec)
    (fileName : String) : Option Ptr × Renderer Mat Vec :=
  match map_find r.mMeshes fileName with
  | some m => (some m, r)
  | none =>
    let a := r.new_object env
    let m : Ptr := a.1
    let r : Renderer Mat Vec := a.2.call (.new_Mesh m)
    let l := env.Mesh_Load m fileName r
    let r : Renderer Mat Vec := l.2.call (.Mesh_Load m fileName l.1)
    if l.1 then
      (some m, { r with mMeshes := map_emplace r.mMeshes fileName m })
    else
      (none, r.call (.delete m))

/-- The member function `Renderer::LoadShader(sh)`. -/
def LoadShader {Mat Vec : Type} (env : Classes Mat Vec) (r : Renderer Mat Vec) (sh : Ptr) :
    Renderer Mat Vec :=
  let r : Renderer Mat Vec := r.call (.Shader_SetActive sh)
  let r : Renderer Mat Vec := { r with mView := env.CreateLookAt }
  let r : Renderer Mat Vec :=
    { r with mProjection :=
        env.CreatePerspectiveFOV 70 r.mScreenWidth r.mScreenHeight 25 10000 }
  r.call (.Shader_SetMatrixUniform sh "uViewProj" (env.Matrix4_mul r.mView r.mProjection))

/-- The member function `Renderer::GetShader(fileName)`: the result and the renderer
after the call. -/
def GetShader {Mat Vec : Type} (env : Classes Mat Vec) (r : Renderer Mat Vec)
    (fileName : String) : Option Ptr × Renderer Mat Vec :=
  match map_find r.mShaders fileName with
  | some sh => (some sh, r)
  | none =>
    let a := r.new_object env
    let sh : Ptr := a.1
    let r : Renderer Mat Vec := a.2.call (.new_Shader sh)
    let loaded := env.Shader_Load sh (fileName ++ ".vert") (fileName ++ ".frag")
    let r : Renderer Mat Vec :=
      r.call (.Shader_Load sh (fileName ++ ".vert") (fileName ++ ".frag") loaded)
    if loaded then
      let r : Renderer Mat Vec := { r with mShaders := map_emplace r.mShaders fileName sh }
      (some sh, LoadShader env r sh)
    else
      let r : Renderer Mat Vec := r.call (.SDL_Log ("Could not find shader " ++ fileName ++ "."))
      (none, r.call (.delete sh))

/-- The member function `Renderer::LinkShaderToMeshComp(fileName, meshComp)`. -/
def LinkShaderToMeshComp {Mat Vec : Type} (env : Classes Mat Vec) (r : Renderer Mat Vec)
    (fileName : String) (meshComp : Ptr) : Renderer Mat Vec :=
  let g := GetShader env r fileName
  let r : Renderer Mat Vec := g.2
  match g.1 with
  | none => r
  | some shader =>
    match map_find r.mShaderMeshCompMap shader with
    | some _ =>
      { r with mShaderMeshCompMap :=
          map_update_second (fun vec => vec ++ [meshComp]) r.mShaderMeshCompMap shader }
    | none =>
      let vec : List Ptr := [meshComp]
      { r with mShaderMeshCompMap := map_emplace r.mShaderMeshCompMap shader vec }

/-! ## The frame -/

/-- The member function `Renderer::SetLightUniforms(shader)`. -/
def SetLightUniforms {Mat Vec : Type} (env : Classes Mat Vec) (r : Renderer Mat Vec)
    (shader : Ptr) : Renderer Mat Vec :=
  let invertedView := r.mView
  let r : Renderer Mat Vec :=
    r.call (.Shader_SetVectorUniform shader "uCameraPos" (env.inverted_translation invertedView))
  let r : Renderer Mat Vec :=
    r.call (.Shader_SetVectorUniform shader "uAmbientLight" r.mAmbientLight)
  let r : Renderer Mat Vec :=
    r.call (.Shader_SetVectorUniform shader "uDirLight.mDirection" r.mDirectionalLight.mDirection)
  let r : Renderer Mat Vec :=
    r.call (.Shader_SetVectorUniform shader "uDirLight.mDiffuseColor"
      r.mDirectionalLight.mDiffuseColor)
  r.call (.Shader_SetVectorUniform shader "uDirLight.mSpecColor" r.mDirectionalLight.mSpecColor)

/-- Body of the loop of `Draw` over `mShaderMeshCompMap`, for one entry of the map. -/
def Draw_mesh_entry {Mat Vec : Type} (env : Classes Mat Vec) (r : Renderer Mat Vec)
    (pair : Ptr × List Ptr) : Renderer Mat Vec :=
  let r : Renderer Mat Vec := r.call (.Shader_SetActive pair.1)
  let r : Renderer Mat Vec :=
    r.call (.Shader_SetMatrixUniform pair.1 "uViewProj" (env.Matrix4_mul r.mView r.mProjection))
  let r : Renderer Mat Vec := SetLightUniforms env r pair.1
  pair.2.foldl (fun r meshComp => r.call (.MeshComponent_Draw meshComp pair.1)) r

/-- The member function `Renderer::Draw()`. Calling through `mSpriteShader` or
`mSpriteVerts` while it is `nullptr` is undefined behaviour, `none`. -/
def Draw {Mat Vec : Type} (env : Classes Mat Vec) (r : Renderer Mat Vec) :
    Option (Renderer Mat Vec) :=
  -- set color to grey
  let r : Renderer Mat Vec := r.call (.glClearColor (83 / 100) (83 / 100) (83 / 100) 1)
  -- clear color and depth buffers
  let r : Renderer Mat Vec := r.call (.glClear ["GL_COLOR_BUFFER_BIT", "GL_DEPTH_BUFFER_BIT"])
  -- Mesh components
  let r : Renderer Mat Vec := r.call (.glEnable "GL_DEPTH_TEST")
  let r : Renderer Mat Vec := r.call (.glDisable "GL_BLEND")
  let r : Renderer Mat Vec := r.mShaderMeshCompMap.foldl (Draw_mesh_entry env) r
  -- Sprite components
  let r : Renderer Mat Vec := r.call (.glDisable "GL_DEPTH_TEST")
  let r : Renderer Mat Vec := r.call (.glEnable "GL_BLEND")
  let r : Renderer Mat Vec := r.call (.glBlendEquationSeparate "GL_FUNC_ADD" "GL_FUNC_ADD")
  let r : Renderer Mat Vec :=
    r.call (.glBlendFuncSeparate "GL_SRC_ALPHA" "GL_ONE_MINUS_SRC_ALPHA" "GL_ONE" "GL_ZERO")
  match r.mSpriteShader, r.mSpriteVerts with
  | some spriteShader, some spriteVerts =>
    let r : Renderer Mat Vec := r.call (.Shader_SetActive spriteShader)
    let r : Renderer Mat Vec := r.call (.VertexArray_SetActive spriteVerts)
    let r : Renderer Mat Vec :=
      r.mSprites.foldl (fun r sprite => r.call (.SpriteComponent_Draw sprite spriteShader)) r
    some (r.call .SDL_GL_SwapWindow)
  | _, _ => none

/-! ## Reference notions and a concrete renderer -/

/-- The sprite list is in non-decreasing draw order. -/
def sprites_sorted {Mat Vec : Type} (env : Classes Mat Vec) (sprites : List Ptr) : Prop :=
  sprites.Pairwise fun a b => env.GetDrawOrder a ≤ env.GetDrawOrder b

/-- The mesh component and shader of a call `meshComp->Draw(shader)`. -/
def Event.mesh_draw? {Mat Vec : Type} : Event Mat Vec → Option (Ptr × Ptr)
  | .MeshComponent_Draw meshComp shader => some (meshComp, shader)
  | _ => none

/-- The links of `mShaderMeshCompMap` in the order `Draw` visits them: each mesh
component with the shader it is listed under. -/
def linked_draws (m : List (Ptr × List Ptr)) : List (Ptr × Ptr) :=
  m.flatMap fun pair => pair.2.map fun meshComp => (meshComp, pair.1)

/-- What a call may do without touching the data of the renderer: only the log and
the count of created objects differ. -/
def same_data {Mat Vec : Type} (r r' : Renderer Mat Vec) : Prop :=
  r' = { r with log := r'.log, news := r'.news }

/-- The call `m->Load(fileName, this)` that `GetMesh` makes when the mesh is not
cached: its result and the renderer it leaves, for the mesh just created. -/
def GetMesh_load {Mat Vec : Type} (env : Classes Mat Vec) (r : Renderer Mat Vec)
    (fileName : String) : Bool × Renderer Mat Vec :=
  env.Mesh_Load (env.alloc r.news) fileName
    ((r.new_object env).2.call (.new_Mesh (env.alloc r.news)))

/-- Classes for which the draw order of a sprite is ten times its pointer
value minus 20, objects are allocated from 100 on, a texture and a shader load when
the file name is not empty, and a mesh loads when the file name is not empty and
leaves the renderer alone. -/
def sample_classes : Classes Unit Unit :=
  { GetDrawOrder := fun p => 10 * (p : Int) - 20
    alloc := fun n => 100 + n
    Texture_Load := fun _ fileName => fileName ≠ ""
    Mesh_Load := fun _ fileName r => (fileName ≠ "", r)
    Shader_Load := fun _ vertName _ => vertName ≠ ".vert"
    Matrix4_mul := fun _ _ => ()
    CreateLookAt := ()
    CreatePerspectiveFOV := fun _ _ _ _ _ => ()
    inverted_translation := fun _ => () }

/-- A renderer with the sprites 1, 3, 3, 5 (draw orders -10, 10, 10, 30), the mesh
components 7, 8, one cached texture, one cached shader 50 that the components 7 and 8
are linked to, and a sprite shader and sprite vertex array. -/
def sample_renderer : Renderer Unit Unit :=
  { mSprites := [1, 3, 3, 5]
    mMeshComponents := [7, 8]
    mTextures := [("a.png", 40)]
    mMeshes := []
    mShaders := [("Phong", 50)]
    mShaderMeshCompMap := [(50, [7, 8])]
    mSpriteShader := some 60
    mSpriteVerts := some 61
    mView := ()
    mProjection := ()
    mAmbientLight := ()
    mDirectionalLight := { mDirection := (), mDiffuseColor := (), mSpecColor := () }
    mScreenWidth := 1024
    mScreenHeight := 768
    news := 0
    log := [] }

end Project

/-! # Theorems -/

namespace DeferredRendering

theorem prepare_lights_body_calls {K : Type} [Field K] (rand : RandomFloat K)
    (extent : Vec3 K) (st : LightFill K) (i : Nat) :
    (prepare_lights_body rand extent st i).calls = st.calls + 6 := by
  simp [prepare_lights_body, prepare_lights_position]

theorem prepare_lights_body_data {K : Type} [Field K] (rand : RandomFloat K)
    (extent : Vec3 K) (st : LightFill K) (i : Nat) (hi : 8 * i < 2 ^ 32) (k : Nat) :
    (prepare_lights_body rand extent st i).light_data k =
      if 8 * i ≤ k ∧ k < 8 * i + 8 then (light_record rand extent st.calls)[k - 8 * i]?
      else st.light_data k := by
  have hoff : (light_data_stride * i) % 2 ^ 32 = 8 * i := by
    rw [light_data_stride]; exact Nat.mod_eq_of_lt hi
  have s3 : Fin.succ (2 : Fin 3) = (3 : Fin 4) := rfl
  have c2 : Fin.castSucc (2 : Fin 3) = (2 : Fin 4) := rfl
  simp only [prepare_lights_body, hoff, memcpy, List.length_ofFn]
  by_cases h1 : 8 * i + 4 ≤ k ∧ k < 8 * i + 4 + 4
  · rw [if_pos h1, if_pos (by omega)]
    obtain ⟨d, rfl⟩ : ∃ d, k = 8 * i + 4 + d := ⟨k - (8 * i + 4), by omega⟩
    have hd : d < 4 := by omega
    have e1 : 8 * i + 4 + d - (8 * i + 4) = d := by omega
    have e2 : 8 * i + 4 + d - 8 * i = d + 4 := by omega
    rw [e1, e2]
    interval_cases d <;> simp [light_record, prepare_lights_position, Function.update, s3, c2]
  · rw [if_neg h1]
    by_cases h2 : 8 * i ≤ k ∧ k < 8 * i + 4
    · rw [if_pos h2, if_pos (by omega)]
      obtain ⟨d, rfl⟩ : ∃ d, k = 8 * i + d := ⟨k - 8 * i, by omega⟩
      have hd : d < 4 := by omega
      have e1 : 8 * i + d - 8 * i = d := by omega
      rw [e1]
      interval_cases d <;> simp [light_record, prepare_lights_position, Function.update, s3, c2]
    · rw [if_neg h2, if_neg (by omega)]
      simp [prepare_lights_position]

theorem prepare_lights_loop_calls {K : Type} [Field K] (rand : RandomFloat K)
    (extent : Vec3 K) (n : Nat) (st : LightFill K) :
    (prepare_lights_loop rand extent n st).calls = st.calls + 6 * n := by
  induction n with
  | zero => simp [prepare_lights_loop]
  | succ n ih =>
    have hstep : prepare_lights_loop rand extent (n + 1) st
        = prepare_lights_body rand extent (prepare_lights_loop rand extent n st) n := by
      simp [prepare_lights_loop, List.range_succ, List.foldl_append]
    rw [hstep, prepare_lights_body_calls, ih]
    ring

theorem prepare_lights_loop_data {K : Type} [Field K] (rand : RandomFloat K)
    (extent : Vec3 K) (n : Nat) (hn : 8 * n ≤ 2 ^ 32) (st : LightFill K) (k : Nat) :
    (prepare_lights_loop rand extent n st).light_data k =
      if k < 8 * n then (light_record rand extent (st.calls + 6 * (k / 8)))[k % 8]?
      else st.light_data k := by
  induction n with
  | zero => simp [prepare_lights_loop]
  | succ n ih =>
    have hstep : prepare_lights_loop rand extent (n + 1) st
        = prepare_lights_body rand extent (prepare_lights_loop rand extent n st) n := by
      simp [prepare_lights_loop, List.range_succ, List.foldl_append]
    rw [hstep, prepare_lights_body_data rand extent _ n (by omega) k,
      prepare_lights_loop_calls, ih (by omega)]
    by_cases h1 : 8 * n ≤ k ∧ k < 8 * n + 8
    · have hq : k / 8 = n := by omega
      have hr : k - 8 * n = k % 8 := by omega
      rw [if_pos h1, if_pos (by omega), hq, hr]
    · rw [if_neg h1]
      by_cases h2 : k < 8 * n
      · rw [if_pos h2, if_pos (by omega)]
      · rw [if_neg h2, if_neg (by omega)]

/-- The mapped range after `prepare_lights`: float `k` of the first `8 * 1024` floats
holds entry `k % 8` of the record of light `k / 8`, whose six random samples are calls
`6 * (k / 8)` to `6 * (k / 8) + 5`; nothing else is written. -/
theorem prepare_lights_data_eq {K : Type} [Field K] (rand : RandomFloat K) (k : Nat) :
    prepare_lights_data rand k =
      if k < 8 * 1024 then
        (light_record rand (glm_vec3_sub light_extent_max light_extent_min) (6 * (k / 8)))[k % 8]?
      else none := by
  have h := prepare_lights_loop_data rand (glm_vec3_sub light_extent_max light_extent_min)
    1024 (by norm_num) { light_data := Mapping.fresh, tmp_vec4 := fun _ => 0, calls := 0 } k
  simpa [prepare_lights_data, max_num_lights, MAX_NUM_LIGHTS, Mapping.fresh] using h

theorem light_update_workgroups_eq : light_update_workgroups = 16 := by
  have h : ((max_num_lights : ℚ) / 64) = ((16 : ℕ) : ℚ) := by
    norm_num [max_num_lights, MAX_NUM_LIGHTS]
  rw [light_update_workgroups, h, Nat.ceil_natCast]
  rfl

theorem record_cmd_enc {K : Type} (ctx : Context K) (c : Cmd) :
    (ctx.record c).cmd_enc = ctx.cmd_enc ++ [c] := rfl
theorem record_frame_buffer {K : Type} (ctx : Context K) (c : Cmd) :
    (ctx.record c).swap_chain_frame_buffer = ctx.swap_chain_frame_buffer := rfl
theorem record_log {K : Type} (ctx : Context K) (c : Cmd) :
    (ctx.record c).log = ctx.log := rfl
theorem record_paused {K : Type} (ctx : Context K) (c : Cmd) :
    (ctx.record c).paused = ctx.paused := rfl

theorem draw_ui_cmd_enc {K : Type} (ui : Overlay) (cs : Context K × State K) :
    (draw_ui ui cs).1.cmd_enc = cs.1.cmd_enc ++ (if ui.shown then ui.draw else []) := by
  unfold draw_ui example_on_update_ui_overlay Context.emit
  by_cases hs : ui.shown = true <;> by_cases hh : ui.header = true <;>
    simp [hs, hh]
  split_ifs <;> rfl

theorem keeps_record {K : Type} {a b : Context K} (c : Cmd)
    (h : b = { a with cmd_enc := b.cmd_enc }) :
    b.record c = { a with cmd_enc := (b.record c).cmd_enc } := by
  rw [Context.record, h]

theorem record_passes_eq {K : Type} (ctx : Context K) (s : State K) :
    record_passes (ctx, s) = passes_recorded ctx s := by
  unfold record_passes passes_recorded recorded_composite_pass
  simp only []
  by_cases hm : s.settings.current_render_mode = RenderMode_GBuffer_View
  · rw [if_pos hm, if_pos hm]
    refine Prod.ext ?_ ?_
    · generalize hc : Context.record _ Cmd.RenderPassEnd = c1
      have hk : c1 = { ctx with cmd_enc := c1.cmd_enc } := by
        rw [← hc]
        repeat apply keeps_record
        rfl
      show c1 = _
      rw [hk, ← hc]
      simp only [record_cmd_enc, record_frame_buffer, light_update_workgroups_eq,
        recorded_gbuffer_pass, recorded_light_pass, recorded_debug_view_pass, quad_pass_info,
        List.nil_append, List.cons_append, List.append_assoc]
    · simp only [record_frame_buffer]
  · rw [if_neg hm, if_neg hm]
    refine Prod.ext ?_ ?_
    · generalize hc : Context.record _ Cmd.RenderPassEnd = c1
      have hk : c1 = { ctx with cmd_enc := c1.cmd_enc } := by
        rw [← hc]
        repeat apply keeps_record
        rfl
      show c1 = _
      rw [hk, ← hc]
      simp only [record_cmd_enc, record_frame_buffer, light_update_workgroups_eq,
        recorded_gbuffer_pass, recorded_light_pass, recorded_deferred_pass, quad_pass_info,
        List.nil_append, List.cons_append, List.append_assoc]
    · simp only [record_frame_buffer]

theorem passesAux_append (a b : List Cmd) (cur : Option (List Cmd)) :
    passesAux cur (a ++ b)
      = passesAux cur a ++ passesAux (a.foldl (fun cur c =>
          match cur with
          | none => if c.isBegin then some [c] else none
          | some p => if c.isEnd then none else some (p ++ [c])) cur) b := by
  induction a generalizing cur with
  | nil => simp [passesAux]
  | cons c a ih =>
    cases cur with
    | none =>
      by_cases hc : c.isBegin = true
      · simp [passesAux, hc, ih]
      · simp [passesAux, hc, ih]
    | some p =>
      by_cases hc : c.isEnd = true
      · simp [passesAux, hc, ih]
      · simp [passesAux, hc, ih]

theorem passes_three_append {K : Type} (fb : Handle) (s : State K) (l : List Cmd) :
    passes (recorded_three_passes fb s ++ l)
      = [recorded_gbuffer_pass s, recorded_light_pass s, recorded_composite_pass fb s]
          ++ passes l := by
  unfold passes recorded_three_passes
  rw [passesAux_append]
  unfold recorded_composite_pass
  by_cases hm : s.settings.current_render_mode = RenderMode_GBuffer_View
  · rw [if_pos hm]; rfl
  · rw [if_neg hm]; rfl

theorem passes_three {K : Type} (fb : Handle) (s : State K) :
    passes (recorded_three_passes fb s)
      = [recorded_gbuffer_pass s, recorded_light_pass s, recorded_composite_pass fb s] := by
  have h := passes_three_append fb s []
  rw [List.append_nil] at h
  rw [h]
  rfl

theorem ASSERT_eq {K : Type} (env : Env K) (expr : Bool) (what : String) :
    ASSERT env expr what
      = if expr || !env.assert_stops then .ok () else .error (.assertion what) := rfl

/-- The calls a frame leaves in its command buffer: the three passes, then what the
overlay records when it is shown. -/
theorem build_command_buffer_unfold {K : Type} (env : Env K) (inp : FrameInput)
    (ctx : Context K) (s : State K) :
    build_command_buffer env inp (ctx, s)
      = if inp.finished || !env.assert_stops then
          .ok (wgpu_get_command_buffer inp
                (draw_ui inp.overlay (passes_recorded
                  (({ ctx with cmd_enc_handle := inp.command_encoder }).emit
                    (.create_command_encoder inp.command_encoder)) s)).1,
               release_command_encoder
                (draw_ui inp.overlay (passes_recorded
                  (({ ctx with cmd_enc_handle := inp.command_encoder }).emit
                    (.create_command_encoder inp.command_encoder)) s)).1,
               (draw_ui inp.overlay (passes_recorded
                  (({ ctx with cmd_enc_handle := inp.command_encoder }).emit
                    (.create_command_encoder inp.command_encoder)) s)).2)
        else .error (.assertion "command_buffer != NULL") := by
  unfold build_command_buffer
  simp only []
  rw [record_passes_eq, ASSERT_eq]
  have hsome : (wgpu_get_command_buffer inp
      (draw_ui inp.overlay (passes_recorded
        (({ ctx with cmd_enc_handle := inp.command_encoder }).emit
          (.create_command_encoder inp.command_encoder)) s)).1).isSome = inp.finished := by
    unfold wgpu_get_command_buffer
    cases inp.finished <;> rfl
  rw [hsome]
  by_cases hc : (inp.finished || !env.assert_stops) = true
  · rw [if_pos hc, if_pos hc]
    rfl
  · rw [if_neg hc, if_neg hc]
    rfl

/-- The calls `build_command_buffer` records itself, before the overlay draws. -/
theorem frame_calls_eq {K : Type} (inp : FrameInput) (ctx : Context K) (s : State K) :
    (draw_ui inp.overlay (passes_recorded
        (({ ctx with cmd_enc_handle := inp.command_encoder }).emit
          (.create_command_encoder inp.command_encoder)) s)).1.cmd_enc
      = recorded_three_passes ctx.swap_chain_frame_buffer s ++ inp.overlay.recorded := by
  rw [draw_ui_cmd_enc]
  rfl

/-- When `wgpu_get_command_buffer` returns a command buffer, `build_command_buffer`
returns it, and it holds the three passes and then what the overlay records. -/
theorem build_command_buffer_eq {K : Type} (env : Env K) (inp : FrameInput)
    (ctx : Context K) (s : State K) (hfin : inp.finished = true) :
    ∃ ctx' s', build_command_buffer env inp (ctx, s)
      = .ok (some (recorded_three_passes ctx.swap_chain_frame_buffer s
              ++ inp.overlay.recorded), ctx', s') := by
  refine ⟨?_, ?_, ?_⟩
  pick_goal 3
  · rw [build_command_buffer_unfold, hfin]
    simp only [Bool.true_or, if_true]
    unfold wgpu_get_command_buffer
    rw [hfin, if_pos rfl, frame_calls_eq]
    exact rfl

/-- What `build_command_buffer` returns, read off a run that returned. -/
theorem build_command_buffer_ok {K : Type} {env : Env K} {inp : FrameInput}
    {ctx : Context K} {s : State K} {r : Option CommandBuffer × Context K × State K}
    (h : build_command_buffer env inp (ctx, s) = .ok r) :
    (inp.finished = true ∨ env.assert_stops = false)
      ∧ r.1 = (if inp.finished then
                some (recorded_three_passes ctx.swap_chain_frame_buffer s
                  ++ inp.overlay.recorded)
               else none)
      ∧ r.2.1 = release_command_encoder
          (draw_ui inp.overlay (passes_recorded
            (({ ctx with cmd_enc_handle := inp.command_encoder }).emit
              (.create_command_encoder inp.command_encoder)) s)).1
      ∧ r.2.2 = (draw_ui inp.overlay (passes_recorded
            (({ ctx with cmd_enc_handle := inp.command_encoder }).emit
              (.create_command_encoder inp.command_encoder)) s)).2 := by
  rw [build_command_buffer_unfold] at h
  by_cases hc : (inp.finished || !env.assert_stops) = true
  · rw [if_pos hc] at h
    cases h
    refine ⟨?_, ?_, rfl, rfl⟩
    · cases hf : inp.finished
      · rw [hf] at hc
        right
        simpa using hc
      · exact Or.inl rfl
    · show wgpu_get_command_buffer inp _ = _
      unfold wgpu_get_command_buffer
      rw [frame_calls_eq]
  · rw [if_neg hc] at h
    cases h

/-- When `wgpu_get_command_buffer` returns `NULL`: a stopping `ASSERT` ends the run,
a reporting one lets `build_command_buffer` return `NULL`. -/
theorem build_command_buffer_unfinished {K : Type} (env : Env K) (inp : FrameInput)
    (ctx : Context K) (s : State K) (hfin : inp.finished = false) :
    (env.assert_stops = true →
        build_command_buffer env inp (ctx, s) = .error (.assertion "command_buffer != NULL"))
      ∧ (env.assert_stops = false →
          ∃ ctx' s', build_command_buffer env inp (ctx, s) = .ok (none, ctx', s')) := by
  rw [build_command_buffer_unfold, hfin]
  refine ⟨fun h => ?_, fun h => ⟨?_, ?_, ?_⟩⟩
  · rw [h]; rfl
  pick_goal 3
  · rw [h]
    simp only [Bool.not_false, Bool.or_true, if_true]
    unfold wgpu_get_command_buffer
    rw [hfin, if_neg (by decide)]
    exact rfl

theorem recorded_composite_pass_cases {K : Type} (fb : Handle) (s : State K) :
    recorded_composite_pass fb s = recorded_debug_view_pass fb s
      ∨ recorded_composite_pass fb s = recorded_deferred_pass fb s := by
  unfold recorded_composite_pass
  by_cases hm : s.settings.current_render_mode = RenderMode_GBuffer_View
  · rw [if_pos hm]; exact Or.inl rfl
  · rw [if_neg hm]; exact Or.inr rfl

/-- The three passes recorded before the overlay draws: their calls by position. -/
theorem recorded_passes_calls {K : Type} (fb : Handle) (s : State K) (l : List Cmd) :
    (recorded_three_passes fb s ++ l)[10]?
        = some (Cmd.ComputePassDispatchWorkgroups 16 1 1)
      ∧ (recorded_three_passes fb s ++ l)[12]?
          = some (Cmd.BeginRenderPass (quad_pass_info fb s))
      ∧ (recorded_three_passes fb s ++ l).take 12
          = recorded_gbuffer_pass s ++ recorded_light_pass s := by
  unfold recorded_three_passes
  refine ⟨rfl, ?_, ?_⟩
  · rcases recorded_composite_pass_cases fb s with h | h <;> rw [h] <;> rfl
  · rw [List.append_assoc _ (recorded_composite_pass _ _) _,
      List.take_append_of_le_length (by simp [recorded_gbuffer_pass, recorded_light_pass])]
    exact List.take_of_length_le (by simp [recorded_gbuffer_pass, recorded_light_pass])

/-- C4. Render-mode independence: two runs of `build_command_buffer` from states that
differ only in `settings.current_render_mode` return, when `wgpu_get_command_buffer`
returns a command buffer, command buffers with the same first twelve calls, which are
the G-buffer write pass and the light-update compute pass (same pipelines, bind
groups, buffers, draw and dispatch arguments); the command buffers differ at most in
the third, composite pass. -/
theorem build_command_buffer_render_mode_independent {K : Type} (env : Env K)
    (inp : FrameInput) (ctx : Context K) (s : State K) (mode : Int)
    (hfin : inp.finished = true) :
    ∃ (cb cbm : List Cmd) (ctx1 ctx2 : Context K) (s1 s2 : State K),
      build_command_buffer env inp (ctx, s) = .ok (some cb, ctx1, s1)
      ∧ build_command_buffer env inp
          (ctx, { s with settings := { s.settings with current_render_mode := mode } })
          = .ok (some cbm, ctx2, s2)
      ∧ cbm.take 12 = cb.take 12
      ∧ cb.take 12 = recorded_gbuffer_pass s ++ recorded_light_pass s
      ∧ (passes cbm).take 2 = (passes cb).take 2
      ∧ (passes cb).take 2 = [recorded_gbuffer_pass s, recorded_light_pass s]
      ∧ cb = recorded_gbuffer_pass s ++ recorded_light_pass s
            ++ recorded_composite_pass ctx.swap_chain_frame_buffer s
            ++ inp.overlay.recorded
      ∧ cbm = recorded_gbuffer_pass s ++ recorded_light_pass s
            ++ recorded_composite_pass ctx.swap_chain_frame_buffer
                { s with settings := { s.settings with current_render_mode := mode } }
            ++ inp.overlay.recorded := by
  obtain ⟨ctx1, s1, h1⟩ := build_command_buffer_eq env inp ctx s hfin
  obtain ⟨ctx2, s2, h2⟩ := build_command_buffer_eq env inp ctx
    { s with settings := { s.settings with current_render_mode := mode } } hfin
  have e1 := (recorded_passes_calls ctx.swap_chain_frame_buffer s inp.overlay.recorded).2.2
  have e2 := (recorded_passes_calls ctx.swap_chain_frame_buffer
    { s with settings := { s.settings with current_render_mode := mode } }
    inp.overlay.recorded).2.2
  have p1 := passes_three_append ctx.swap_chain_frame_buffer s inp.overlay.recorded
  have p2 := passes_three_append ctx.swap_chain_frame_buffer
    { s with settings := { s.settings with current_render_mode := mode } }
    inp.overlay.recorded
  refine ⟨_, _, ctx1, ctx2, s1, s2, h1, h2, e2.trans e1.symm, e1, ?_, ?_, rfl, rfl⟩
  · rw [p1, p2]; rfl
  · rw [p1]; rfl

/-- C4, in the sample run: the frame after setup in rendering mode and the same frame
in G-buffer view mode return command buffers with the same first twelve calls. -/
theorem build_command_buffer_render_mode_independent_witness :
    ∃ (cb cbm : List Cmd) (ctx1 ctx2 : Context ℚ) (s1 s2 : State ℚ),
      build_command_buffer sample_env sample_frame sample_ready = .ok (some cb, ctx1, s1)
      ∧ build_command_buffer sample_env sample_frame
          (sample_ready.1, { sample_ready.2 with
            settings := { sample_ready.2.settings with
              current_render_mode := RenderMode_GBuffer_View } })
          = .ok (some cbm, ctx2, s2)
      ∧ cbm.take 12 = cb.take 12
      ∧ cbm ≠ cb := by
  obtain ⟨cb, cbm, ctx1, ctx2, s1, s2, h1, h2, h3, _, _, _, h7, h8⟩ :=
    build_command_buffer_render_mode_independent sample_env sample_frame sample_ready.1
      sample_ready.2 RenderMode_GBuffer_View rfl
  refine ⟨cb, cbm, ctx1, ctx2, s1, s2, h1, h2, h3, ?_⟩
  rw [h7, h8]
  decide

theorem quad_pass_info_of_ready {K : Type} (fb : Handle) (s : State K)
    (hptr : s.texture_quad_pass.descriptor.colorAttachments = true)
    (hcount : s.texture_quad_pass.descriptor.colorAttachmentCount = 1) :
    quad_pass_info fb s
      = { colorAttachments := [{ s.texture_quad_pass.color_attachments_0 with view := fb }]
          depthStencilAttachment := none } := by
  simp [quad_pass_info, TextureQuadPass.info, hptr, hcount]

/-- C5. The composite pass is selected by the render mode. In `RenderMode_GBuffer_View`
it sets `gbuffers_debug_view_pipeline` and binds only the G-buffer textures bind group,
at slot 0; in every other mode it sets `deferred_render_pipeline` and binds the G-buffer
textures bind group at slot 0 and the lights bind group at slot 1. Either way it is the
third pass of the command buffer that `build_command_buffer` returns and the only pass
`build_command_buffer` records after the first two (the passes after it are those of
the overlay), and once `setup_render_passes` has pointed the quad pass descriptor at
its one colour attachment, that attachment views the current swap-chain frame
buffer. -/
theorem build_command_buffer_composite_pass {K : Type} (env : Env K) (inp : FrameInput)
    (ctx : Context K) (s : State K)
    (hptr : s.texture_quad_pass.descriptor.colorAttachments = true)
    (hcount : s.texture_quad_pass.descriptor.colorAttachmentCount = 1)
    (hfin : inp.finished = true) :
    ∃ (cb : List Cmd) (ctx' : Context K) (s' : State K),
      build_command_buffer env inp (ctx, s) = .ok (some cb, ctx', s')
      ∧ (s.settings.current_render_mode = RenderMode_GBuffer_View →
          (passes cb).drop 2
            = [[Cmd.BeginRenderPass (quad_pass_info ctx.swap_chain_frame_buffer s),
                Cmd.RenderPassSetPipeline s.gbuffers_debug_view_pipeline,
                Cmd.RenderPassSetBindGroup 0 s.gbuffer_textures_bind_group 0,
                Cmd.RenderPassDraw 6 1 0 0,
                Cmd.RenderPassEnd]] ++ passes inp.overlay.recorded)
      ∧ (s.settings.current_render_mode ≠ RenderMode_GBuffer_View →
          (passes cb).drop 2
            = [[Cmd.BeginRenderPass (quad_pass_info ctx.swap_chain_frame_buffer s),
                Cmd.RenderPassSetPipeline s.deferred_render_pipeline,
                Cmd.RenderPassSetBindGroup 0 s.gbuffer_textures_bind_group 0,
                Cmd.RenderPassSetBindGroup 1 s.lights.buffer_bind_group 0,
                Cmd.RenderPassDraw 6 1 0 0,
                Cmd.RenderPassEnd]] ++ passes inp.overlay.recorded)
      ∧ (passes (recorded_three_passes ctx.swap_chain_frame_buffer s)).drop 2
          = [recorded_composite_pass ctx.swap_chain_frame_buffer s]
      ∧ cb = recorded_three_passes ctx.swap_chain_frame_buffer s ++ inp.overlay.recorded
      ∧ (quad_pass_info ctx.swap_chain_frame_buffer s).colorAttachments.map
            (fun a => a.view)
          = [ctx.swap_chain_frame_buffer]
      ∧ (quad_pass_info ctx.swap_chain_frame_buffer s).depthStencilAttachment = none := by
  obtain ⟨ctx', s', h⟩ := build_command_buffer_eq env inp ctx s hfin
  have hp := passes_three_append ctx.swap_chain_frame_buffer s inp.overlay.recorded
  refine ⟨_, ctx', s', h, ?_, ?_, ?_, rfl, ?_, ?_⟩
  · intro hm
    rw [hp]
    simp only [recorded_composite_pass, recorded_debug_view_pass]
    rw [if_pos hm]; rfl
  · intro hm
    rw [hp]
    simp only [recorded_composite_pass, recorded_deferred_pass]
    rw [if_neg hm]; rfl
  · rw [passes_three]; rfl
  · rw [quad_pass_info_of_ready _ _ hptr hcount]; rfl
  · rw [quad_pass_info_of_ready _ _ hptr hcount]

/-- C5, in the sample run: after `example_initialize` the state is in rendering mode,
so with frame buffer 100 the third pass is the deferred pass, drawing into view 100
with the deferred pipeline and both bind groups; the pass after it is the one the
sample overlay records. -/
theorem build_command_buffer_composite_pass_witness :
    ∃ (cb : List Cmd) (ctx' : Context ℚ) (s' : State ℚ),
      build_command_buffer sample_env sample_frame
          ({ sample_ready.1 with swap_chain_frame_buffer := some 100 }, sample_ready.2)
        = .ok (some cb, ctx', s')
      ∧ (passes cb).drop 2
        = [[Cmd.BeginRenderPass
              { colorAttachments :=
                  [{ view := some 100, loadOp := .Clear, storeOp := .Store,
                     clearValue := { r := 0, g := 0, b := 0, a := 1 } }]
                depthStencilAttachment := none },
            Cmd.RenderPassSetPipeline (some 26),
            Cmd.RenderPassSetBindGroup 0 (some 33) 0,
            Cmd.RenderPassSetBindGroup 1 (some 40) 0,
            Cmd.RenderPassDraw 6 1 0 0,
            Cmd.RenderPassEnd],
           sample_overlay.draw] := by
  obtain ⟨cb, ctx', s', h, _, h2, _⟩ := build_command_buffer_composite_pass sample_env
    sample_frame { sample_ready.1 with swap_chain_frame_buffer := some 100 } sample_ready.2
    (by rfl) (by rfl) rfl
  refine ⟨cb, ctx', s', h, ?_⟩
  rw [h2 (by decide)]
  decide

/-- C6. The light-update pass dispatches `ceil(1024 / 64) = 16` workgroups in x and 1
in y and z; 16 is the least `n` with `64 * n ≥ 1024`, so every light index below 1024
falls in one of the 16 groups of 64; the dispatch is the same call whatever the module
state holds, in particular whatever `settings.num_lights` and the render mode are: it
is the only dispatch among the calls that `build_command_buffer` records, and so the
first dispatch of the command buffer it returns. -/
theorem light_update_dispatch_covers_capacity {K : Type} (env : Env K) (inp : FrameInput)
    (ctx : Context K) (s : State K) (hfin : inp.finished = true) :
    light_update_workgroups = ⌈((max_num_lights : ℕ) : ℚ) / 64⌉₊
      ∧ max_num_lights = 1024
      ∧ light_update_workgroups = 16
      ∧ 1024 ≤ 64 * light_update_workgroups
      ∧ (∀ n : Nat, 1024 ≤ 64 * n → light_update_workgroups ≤ n)
      ∧ (∀ i : Nat, i < 1024 → i / 64 < light_update_workgroups)
      ∧ (recorded_three_passes ctx.swap_chain_frame_buffer s).filter Cmd.isDispatch
          = [Cmd.ComputePassDispatchWorkgroups light_update_workgroups 1 1]
      ∧ ∃ (cb : List Cmd) (ctx' : Context K) (s' : State K),
          build_command_buffer env inp (ctx, s) = .ok (some cb, ctx', s')
          ∧ cb.filter Cmd.isDispatch
              = [Cmd.ComputePassDispatchWorkgroups light_update_workgroups 1 1]
                ++ inp.overlay.recorded.filter Cmd.isDispatch := by
  have h16 := light_update_workgroups_eq
  have hf : (recorded_three_passes ctx.swap_chain_frame_buffer s).filter Cmd.isDispatch
      = [Cmd.ComputePassDispatchWorkgroups light_update_workgroups 1 1] := by
    rw [h16]
    unfold recorded_three_passes
    rcases recorded_composite_pass_cases ctx.swap_chain_frame_buffer s with h | h <;>
      rw [h] <;> rfl
  obtain ⟨ctx', s', h⟩ := build_command_buffer_eq env inp ctx s hfin
  refine ⟨?_, by decide, h16, by rw [h16], ?_, ?_, hf, _, ctx', s', h, ?_⟩
  · have h : ((max_num_lights : ℚ) / 64) = ((16 : ℕ) : ℚ) := by
      norm_num [max_num_lights, MAX_NUM_LIGHTS]
    rw [h16, h, Nat.ceil_natCast]
  · intro n hn; rw [h16]; omega
  · intro i hi; rw [h16]; omega
  · rw [List.filter_append, hf]

/-- C6, in the sample run: the command buffer of the frame after setup has the one
dispatch of 16 workgroups. -/
theorem light_update_dispatch_covers_capacity_witness :
    ∃ (cb : List Cmd) (ctx' : Context ℚ) (s' : State ℚ),
      build_command_buffer sample_env sample_frame sample_ready = .ok (some cb, ctx', s')
      ∧ cb.filter Cmd.isDispatch = [Cmd.ComputePassDispatchWorkgroups 16 1 1] := by
  obtain ⟨cb, ctx', s', h, h2⟩ := (light_update_dispatch_covers_capacity sample_env
    sample_frame sample_ready.1 sample_ready.2 rfl).2.2.2.2.2.2.2
  refine ⟨cb, ctx', s', h, ?_⟩
  rw [h2, light_update_workgroups_eq]
  decide

/-! ### The setup path, step by step -/

theorem bind_ok {ε α β : Type} {x : Except ε α} {f : α → Except ε β} {r : β}
    (h : (x >>= f) = .ok r) : ∃ a, x = .ok a ∧ f a = .ok r := by
  cases x with
  | error e => cases h
  | ok a => exact ⟨a, rfl, h⟩

theorem ASSERT_bind_ok {K α : Type} {env : Env K} {b : Bool} {w : String}
    {f : Unit → Except Abort α} {r : α} (h : (ASSERT env b w >>= f) = .ok r) :
    (b = true ∨ env.assert_stops = false) ∧ f () = .ok r := by
  unfold ASSERT at h
  by_cases hb : (b || !env.assert_stops) = true
  · rw [if_pos hb] at h
    refine ⟨?_, h⟩
    cases b <;> simp_all
  · rw [if_neg hb] at h
    cases h

theorem deref_bind_ok {α : Type} {m : Handle} {w : String}
    {f : Unit → Except Abort α} {r : α} (h : (deref m w >>= f) = .ok r) :
    m.isSome = true ∧ f () = .ok r := by
  unfold deref at h
  by_cases hb : m.isSome = true
  · rw [if_pos hb] at h; exact ⟨hb, h⟩
  · rw [if_neg hb] at h; cases h

theorem prepare_vertex_and_index_buffers_state {K : Type} [Field K] {env : Env K}
    {cs cs' : Context K × State K} (h : prepare_vertex_and_index_buffers env cs = .ok cs') :
    cs'.2 = { cs.2 with
      vertex_buffer := env.device .vertex_buffer
      index_count := ((cs.2.stanford_dragon_mesh.triangles_count + 2) * 3) % 2 ^ 32
      index_buffer := env.device .index_buffer } := by
  unfold prepare_vertex_and_index_buffers at h
  replace h := (ASSERT_bind_ok h).2
  replace h := (ASSERT_bind_ok h).2
  replace h := (deref_bind_ok h).2
  replace h := (ASSERT_bind_ok h).2
  replace h := (ASSERT_bind_ok h).2
  replace h := (deref_bind_ok h).2
  cases h
  rfl

theorem prepare_gbuffer_texture_render_targets_state {K : Type} {env : Env K}
    {cs cs' : Context K × State K}
    (h : prepare_gbuffer_texture_render_targets env cs = .ok cs') :
    cs'.2 = { cs.2 with
      gbuffer :=
        { texture_2d_float16 := env.device .texture_2d_float16
          texture_albedo := env.device .texture_albedo
          texture_depth := env.device .texture_depth
          texture_views :=
            Function.update
              (Function.update
                (Function.update cs.2.gbuffer.texture_views 0 (env.device .texture_view_0))
                1 (env.device .texture_view_1))
              2 (env.device .texture_view_2) } } := by
  unfold prepare_gbuffer_texture_render_targets at h
  replace h := (ASSERT_bind_ok h).2
  replace h := (ASSERT_bind_ok h).2
  replace h := (ASSERT_bind_ok h).2
  replace h := (ASSERT_bind_ok h).2
  replace h := (ASSERT_bind_ok h).2
  replace h := (ASSERT_bind_ok h).2
  cases h
  rfl

theorem prepare_bind_group_layouts_state {K : Type} {env : Env K}
    {cs cs' : Context K × State K} (h : prepare_bind_group_layouts env cs = .ok cs') :
    cs'.2 = { cs.2 with
      gbuffer_textures_bind_group_layout := env.device .gbuffer_textures_bind_group_layout
      scene_uniform_bind_group_layout := env.device .scene_uniform_bind_group_layout
      lights := { cs.2.lights with
        buffer_bind_group_layout := env.device .lights_buffer_bind_group_layout
        buffer_compute_bind_group_layout :=
          env.device .lights_buffer_compute_bind_group_layout } } := by
  unfold prepare_bind_group_layouts at h
  replace h := (ASSERT_bind_ok h).2
  replace h := (ASSERT_bind_ok h).2
  replace h := (ASSERT_bind_ok h).2
  replace h := (ASSERT_bind_ok h).2
  cases h
  rfl

theorem prepare_render_pipeline_layouts_state {K : Type} {env : Env K}
    {cs cs' : Context K × State K} (h : prepare_render_pipeline_layouts env cs = .ok cs') :
    cs'.2 = { cs.2 with
      write_gbuffers_pipeline_layout := env.device .write_gbuffers_pipeline_layout
      gbuffers_debug_view_pipeline_layout := env.device .gbuffers_debug_view_pipeline_layout
      deferred_render_pipeline_layout := env.device .deferred_render_pipeline_layout } := by
  unfold prepare_render_pipeline_layouts at h
  replace h := (ASSERT_bind_ok h).2
  replace h := (ASSERT_bind_ok h).2
  replace h := (ASSERT_bind_ok h).2
  cases h
  rfl

theorem prepare_write_gbuffers_pipeline_state {K : Type} {env : Env K}
    {cs cs' : Context K × State K} (h : prepare_write_gbuffers_pipeline env cs = .ok cs') :
    cs'.2 = { cs.2 with write_gbuffers_pipeline := env.device .write_gbuffers_pipeline } := by
  unfold prepare_write_gbuffers_pipeline at h
  cases h
  rfl

theorem prepare_gbuffers_debug_view_pipeline_state {K : Type} {env : Env K}
    {cs cs' : Context K × State K}
    (h : prepare_gbuffers_debug_view_pipeline env cs = .ok cs') :
    cs'.2 = { cs.2 with
      gbuffers_debug_view_pipeline := env.device .gbuffers_debug_view_pipeline } := by
  unfold prepare_gbuffers_debug_view_pipeline at h
  cases h
  rfl

theorem prepare_deferred_render_pipeline_state {K : Type} {env : Env K}
    {cs cs' : Context K × State K} (h : prepare_deferred_render_pipeline env cs = .ok cs') :
    cs'.2 = { cs.2 with deferred_render_pipeline := env.device .deferred_render_pipeline } := by
  unfold prepare_deferred_render_pipeline at h
  cases h
  rfl

theorem setup_render_passes_state {K : Type} {env : Env K}
    {cs cs' : Context K × State K} (h : setup_render_passes env cs = .ok cs') :
    cs'.2 = { cs.2 with
      write_gbuffer_pass :=
        { color_attachments_0 :=
            { view := cs.2.gbuffer.texture_views 0, loadOp := .Clear, storeOp := .Store,
              clearValue := { r := 0, g := 0, b := 1, a := 1 } }
          color_attachments_1 :=
            { view := cs.2.gbuffer.texture_views 1, loadOp := .Clear, storeOp := .Store,
              clearValue := { r := 0, g := 0, b := 0, a := 1 } }
          depth_stencil_attachment :=
            { view := cs.2.gbuffer.texture_views 2, depthLoadOp := .Clear,
              depthStoreOp := .Store, depthClearValue := 1, stencilClearValue := 1 }
          descriptor :=
            { colorAttachmentCount := 2, colorAttachments := true,
              depthStencilAttachment := true } }
      texture_quad_pass :=
        { color_attachments_0 :=
            { view := none, loadOp := .Clear, storeOp := .Store,
              clearValue := { r := 0, g := 0, b := 0, a := 1 } }
          descriptor :=
            { colorAttachmentCount := 1, colorAttachments := true,
              depthStencilAttachment := false } } } := by
  unfold setup_render_passes at h
  cases h
  rfl

theorem prepare_uniform_buffers_state {K : Type} {env : Env K}
    {cs cs' : Context K × State K} (h : prepare_uniform_buffers env cs = .ok cs') :
    cs'.2 = { cs.2 with
      model_uniform_buffer :=
        { buffer := env.device .model_uniform_buffer, size := sizeof_mat4 * 2 }
      camera_uniform_buffer :=
        { buffer := env.device .camera_uniform_buffer, size := sizeof_mat4 * 2 }
      scene_uniform_bind_group := env.device .scene_uniform_bind_group
      gbuffer_textures_bind_group := env.device .gbuffer_textures_bind_group
      lights := { cs.2.lights with
        config_uniform_buffer_size := sizeof_float
        config_uniform_buffer := env.device .config_uniform_buffer } } := by
  unfold prepare_uniform_buffers at h
  obtain ⟨cs1, h1, h⟩ := bind_ok h
  obtain ⟨cs2, h2, h⟩ := bind_ok h
  unfold prepare_config_uniform_buffer at h1
  replace h1 := (ASSERT_bind_ok h1).2
  replace h1 := (ASSERT_bind_ok h1).2
  replace h1 := (deref_bind_ok h1).2
  cases h1
  unfold prepare_model_camera_uniform_buffers at h2
  replace h2 := (ASSERT_bind_ok h2).2
  replace h2 := (ASSERT_bind_ok h2).2
  cases h2
  unfold prepare_uniform_bind_groups at h
  replace h := (ASSERT_bind_ok h).2
  replace h := (ASSERT_bind_ok h).2
  cases h
  rfl

theorem prepare_compute_pipeline_layout_state {K : Type} {env : Env K}
    {cs cs' : Context K × State K} (h : prepare_compute_pipeline_layout env cs = .ok cs') :
    cs'.2 = { cs.2 with
      light_update_compute_pipeline_layout :=
        env.device .light_update_compute_pipeline_layout } := by
  unfold prepare_compute_pipeline_layout at h
  replace h := (ASSERT_bind_ok h).2
  cases h
  rfl

theorem prepare_light_update_compute_pipeline_state {K : Type} {env : Env K}
    {cs cs' : Context K × State K}
    (h : prepare_light_update_compute_pipeline env cs = .ok cs') :
    cs'.2 = { cs.2 with
      light_update_compute_pipeline := env.device .light_update_compute_pipeline } := by
  unfold prepare_light_update_compute_pipeline at h
  cases h
  rfl

theorem prepare_lights_state {K : Type} [Field K] {env : Env K}
    {cs cs' : Context K × State K} (h : prepare_lights env cs = .ok cs') :
    cs'.2 = { cs.2 with
      lights := { cs.2.lights with
        buffer_size := lights_buffer_size
        buffer := env.device .lights_buffer
        extent_buffer_size := 4 * 8
        extent_buffer := env.device .lights_extent_buffer
        buffer_bind_group := env.device .lights_buffer_bind_group
        buffer_compute_bind_group := env.device .lights_buffer_compute_bind_group } } := by
  unfold prepare_lights at h
  obtain ⟨cs1, h1, h⟩ := bind_ok h
  obtain ⟨cs2, h2, h⟩ := bind_ok h
  unfold prepare_lights_buffer at h1
  replace h1 := (ASSERT_bind_ok h1).2
  replace h1 := (ASSERT_bind_ok h1).2
  replace h1 := (deref_bind_ok h1).2
  cases h1
  unfold prepare_lights_extent_buffer at h2
  cases h2
  unfold prepare_lights_bind_groups at h
  replace h := (ASSERT_bind_ok h).2
  replace h := (ASSERT_bind_ok h).2
  cases h
  rfl

theorem prepare_view_matrices_state {K : Type} [Field K] {env : Env K}
    {cs cs' : Context K × State K} (h : prepare_view_matrices env cs = .ok cs') :
    cs'.2 = { cs.2 with
      view_matrices :=
        { up_vector := ![0, 1, 0]
          origin := ![0, 0, 0]
          projection_matrix :=
            env.math.glm_perspective ((2 * env.math.PI) / 5)
              ((cs.1.surface_width : K) / (cs.1.surface_height : K)) 1 2000
          view_proj_matrix := cs.2.view_matrices.view_proj_matrix } } := by
  unfold prepare_view_matrices at h
  cases h
  rfl

/-! ### What the setup steps do to the context -/

theorem emit_log {K : Type} (ctx : Context K) (e : Effect K) :
    (ctx.emit e).log = ctx.log ++ [e] := rfl

theorem release_shader_module_sites {K : Type} (ctx : Context K) (m : Handle) :
    (release_shader_module ctx m).log.filterMap Effect.site? = ctx.log.filterMap Effect.site?
      ∧ (release_shader_module ctx m).log.filterMap Effect.released?
          = ctx.log.filterMap Effect.released?
      ∧ release_shader_module ctx m = { ctx with log := (release_shader_module ctx m).log } := by
  unfold release_shader_module
  by_cases hm : m.isSome = true
  · rw [if_pos hm]
    simp [emit_log, List.filterMap_append, Effect.site?, Effect.released?, Context.emit]
  · rw [if_neg hm]
    simp

theorem keeps_refl {K : Type} (ctx : Context K) : ctx = { ctx with log := ctx.log } := rfl

theorem keeps_emit {K : Type} {a b : Context K} (e : Effect K)
    (h : b = { a with log := b.log }) : b.emit e = { a with log := (b.emit e).log } := by
  rw [Context.emit, h]

theorem keeps_release_shader {K : Type} {a b : Context K} (m : Handle)
    (h : b = { a with log := b.log }) :
    release_shader_module b m = { a with log := (release_shader_module b m).log } := by
  rw [(release_shader_module_sites b m).2.2, h]

theorem StepLog.trans {K : Type} {a b c : Context K × State K} {l1 l2 : List Site}
    (h1 : StepLog a b l1) (h2 : StepLog b c l2) : StepLog a c (l1 ++ l2) := by
  obtain ⟨h1a, h1b, h1c⟩ := h1
  obtain ⟨h2a, h2b, h2c⟩ := h2
  refine ⟨?_, ?_, ?_⟩
  · rw [h2a, h1a]
  · rw [h2b, h1b, List.append_assoc]
  · rw [h2c, h1c]

theorem stanford_dragon_mesh_init_log {K : Type} {env : Env K}
    {cs cs' : Context K × State K} (h : stanford_dragon_mesh_init env cs = .ok cs') :
    StepLog cs cs' [] ∧ cs'.2 = { cs.2 with stanford_dragon_mesh := env.dragon } := by
  unfold stanford_dragon_mesh_init at h
  cases h
  exact ⟨⟨rfl, by simp, rfl⟩, rfl⟩

theorem prepare_vertex_and_index_buffers_log {K : Type} [Field K] {env : Env K}
    {cs cs' : Context K × State K} (h : prepare_vertex_and_index_buffers env cs = .ok cs') :
    StepLog cs cs'
      [.vertex_buffer, .vertex_buffer_mapping, .index_buffer, .index_buffer_mapping] := by
  unfold prepare_vertex_and_index_buffers at h
  replace h := (ASSERT_bind_ok h).2
  replace h := (ASSERT_bind_ok h).2
  replace h := (deref_bind_ok h).2
  replace h := (ASSERT_bind_ok h).2
  replace h := (ASSERT_bind_ok h).2
  replace h := (deref_bind_ok h).2
  cases h
  refine ⟨?_, ?_, ?_⟩
  · repeat apply keeps_emit
    exact keeps_refl _
  · simp [emit_log, List.filterMap_append, Effect.site?, Effect.released?]
  · simp [emit_log, List.filterMap_append, Effect.site?, Effect.released?]

theorem prepare_gbuffer_texture_render_targets_log {K : Type} {env : Env K}
    {cs cs' : Context K × State K}
    (h : prepare_gbuffer_texture_render_targets env cs = .ok cs') :
    StepLog cs cs'
      [.texture_2d_float16, .texture_albedo, .texture_depth,
       .texture_view_0, .texture_view_1, .texture_view_2] := by
  unfold prepare_gbuffer_texture_render_targets at h
  replace h := (ASSERT_bind_ok h).2
  replace h := (ASSERT_bind_ok h).2
  replace h := (ASSERT_bind_ok h).2
  replace h := (ASSERT_bind_ok h).2
  replace h := (ASSERT_bind_ok h).2
  replace h := (ASSERT_bind_ok h).2
  cases h
  refine ⟨?_, ?_, ?_⟩
  · repeat apply keeps_emit
    exact keeps_refl _
  · simp [emit_log, List.filterMap_append, Effect.site?, Effect.released?]
  · simp [emit_log, List.filterMap_append, Effect.site?, Effect.released?]

theorem prepare_bind_group_layouts_log {K : Type} {env : Env K}
    {cs cs' : Context K × State K} (h : prepare_bind_group_layouts env cs = .ok cs') :
    StepLog cs cs'
      [.gbuffer_textures_bind_group_layout, .lights_buffer_bind_group_layout,
       .scene_uniform_bind_group_layout, .lights_buffer_compute_bind_group_layout] := by
  unfold prepare_bind_group_layouts at h
  replace h := (ASSERT_bind_ok h).2
  replace h := (ASSERT_bind_ok h).2
  replace h := (ASSERT_bind_ok h).2
  replace h := (ASSERT_bind_ok h).2
  cases h
  refine ⟨?_, ?_, ?_⟩
  · repeat apply keeps_emit
    exact keeps_refl _
  · simp [emit_log, List.filterMap_append, Effect.site?, Effect.released?]
  · simp [emit_log, List.filterMap_append, Effect.site?, Effect.released?]

theorem prepare_render_pipeline_layouts_log {K : Type} {env : Env K}
    {cs cs' : Context K × State K} (h : prepare_render_pipeline_layouts env cs = .ok cs') :
    StepLog cs cs'
      [.write_gbuffers_pipeline_layout, .gbuffers_debug_view_pipeline_layout,
       .deferred_render_pipeline_layout] := by
  unfold prepare_render_pipeline_layouts at h
  replace h := (ASSERT_bind_ok h).2
  replace h := (ASSERT_bind_ok h).2
  replace h := (ASSERT_bind_ok h).2
  cases h
  refine ⟨?_, ?_, ?_⟩
  · repeat apply keeps_emit
    exact keeps_refl _
  · simp [emit_log, List.filterMap_append, Effect.site?, Effect.released?]
  · simp [emit_log, List.filterMap_append, Effect.site?, Effect.released?]

theorem prepare_write_gbuffers_pipeline_log {K : Type} {env : Env K}
    {cs cs' : Context K × State K} (h : prepare_write_gbuffers_pipeline env cs = .ok cs') :
    StepLog cs cs'
      [.write_gbuffers_vertex_shader, .write_gbuffers_fragment_shader,
       .write_gbuffers_pipeline] := by
  unfold prepare_write_gbuffers_pipeline at h
  cases h
  refine ⟨?_, ?_, ?_⟩
  · apply keeps_release_shader
    apply keeps_release_shader
    repeat apply keeps_emit
    exact keeps_refl _
  · simp only []
    rw [(release_shader_module_sites _ _).1, (release_shader_module_sites _ _).1]
    simp [emit_log, List.filterMap_append, Effect.site?]
  · simp only []
    rw [(release_shader_module_sites _ _).2.1, (release_shader_module_sites _ _).2.1]
    simp [emit_log, List.filterMap_append, Effect.released?]

theorem prepare_gbuffers_debug_view_pipeline_log {K : Type} {env : Env K}
    {cs cs' : Context K × State K}
    (h : prepare_gbuffers_debug_view_pipeline env cs = .ok cs') :
    StepLog cs cs'
      [.gbuffers_debug_view_vertex_shader, .gbuffers_debug_view_fragment_shader,
       .gbuffers_debug_view_pipeline] := by
  unfold prepare_gbuffers_debug_view_pipeline at h
  cases h
  refine ⟨?_, ?_, ?_⟩
  · apply keeps_release_shader
    apply keeps_release_shader
    repeat apply keeps_emit
    exact keeps_refl _
  · simp only []
    rw [(release_shader_module_sites _ _).1, (release_shader_module_sites _ _).1]
    simp [emit_log, List.filterMap_append, Effect.site?]
  · simp only []
    rw [(release_shader_module_sites _ _).2.1, (release_shader_module_sites _ _).2.1]
    simp [emit_log, List.filterMap_append, Effect.released?]

theorem prepare_deferred_render_pipeline_log {K : Type} {env : Env K}
    {cs cs' : Context K × State K} (h : prepare_deferred_render_pipeline env cs = .ok cs') :
    StepLog cs cs'
      [.deferred_render_vertex_shader, .deferred_render_fragment_shader,
       .deferred_render_pipeline] := by
  unfold prepare_deferred_render_pipeline at h
  cases h
  refine ⟨?_, ?_, ?_⟩
  · apply keeps_release_shader
    apply keeps_release_shader
    repeat apply keeps_emit
    exact keeps_refl _
  · simp only []
    rw [(release_shader_module_sites _ _).1, (release_shader_module_sites _ _).1]
    simp [emit_log, List.filterMap_append, Effect.site?]
  · simp only []
    rw [(release_shader_module_sites _ _).2.1, (release_shader_module_sites _ _).2.1]
    simp [emit_log, List.filterMap_append, Effect.released?]

theorem setup_render_passes_log {K : Type} {env : Env K}
    {cs cs' : Context K × State K} (h : setup_render_passes env cs = .ok cs') :
    StepLog cs cs' [] := by
  unfold setup_render_passes at h
  cases h
  exact ⟨rfl, by simp, rfl⟩

theorem prepare_uniform_buffers_log {K : Type} {env : Env K}
    {cs cs' : Context K × State K} (h : prepare_uniform_buffers env cs = .ok cs') :
    StepLog cs cs'
      [.config_uniform_buffer, .config_uniform_buffer_mapping,
       .model_uniform_buffer, .camera_uniform_buffer,
       .write_gbuffers_pipeline_bind_group_layout_0, .scene_uniform_bind_group,
       .gbuffer_textures_bind_group] := by
  unfold prepare_uniform_buffers at h
  obtain ⟨cs1, h1, h⟩ := bind_ok h
  obtain ⟨cs2, h2, h⟩ := bind_ok h
  unfold prepare_config_uniform_buffer at h1
  replace h1 := (ASSERT_bind_ok h1).2
  replace h1 := (ASSERT_bind_ok h1).2
  replace h1 := (deref_bind_ok h1).2
  cases h1
  unfold prepare_model_camera_uniform_buffers at h2
  replace h2 := (ASSERT_bind_ok h2).2
  replace h2 := (ASSERT_bind_ok h2).2
  cases h2
  unfold prepare_uniform_bind_groups at h
  replace h := (ASSERT_bind_ok h).2
  replace h := (ASSERT_bind_ok h).2
  cases h
  refine ⟨?_, ?_, ?_⟩
  · simp only [wgpu_create_buffer]
    repeat apply keeps_emit
    exact keeps_refl _
  · simp [emit_log, wgpu_create_buffer, List.filterMap_append, Effect.site?, Effect.released?]
  · simp [emit_log, wgpu_create_buffer, List.filterMap_append, Effect.site?, Effect.released?]

theorem prepare_compute_pipeline_layout_log {K : Type} {env : Env K}
    {cs cs' : Context K × State K} (h : prepare_compute_pipeline_layout env cs = .ok cs') :
    StepLog cs cs' [.light_update_compute_pipeline_layout] := by
  unfold prepare_compute_pipeline_layout at h
  replace h := (ASSERT_bind_ok h).2
  cases h
  refine ⟨?_, ?_, ?_⟩
  · repeat apply keeps_emit
    exact keeps_refl _
  · simp [emit_log, List.filterMap_append, Effect.site?, Effect.released?]
  · simp [emit_log, List.filterMap_append, Effect.site?, Effect.released?]

theorem prepare_light_update_compute_pipeline_log {K : Type} {env : Env K}
    {cs cs' : Context K × State K}
    (h : prepare_light_update_compute_pipeline env cs = .ok cs') :
    StepLog cs cs' [.light_update_compute_shader, .light_update_compute_pipeline] := by
  unfold prepare_light_update_compute_pipeline at h
  cases h
  refine ⟨?_, ?_, ?_⟩
  · apply keeps_release_shader
    repeat apply keeps_emit
    exact keeps_refl _
  · simp only []
    rw [(release_shader_module_sites _ _).1]
    simp [emit_log, List.filterMap_append, Effect.site?]
  · simp only []
    rw [(release_shader_module_sites _ _).2.1]
    simp [emit_log, List.filterMap_append, Effect.released?]

theorem prepare_lights_log {K : Type} [Field K] {env : Env K}
    {cs cs' : Context K × State K} (h : prepare_lights env cs = .ok cs') :
    StepLog cs cs'
      [.lights_buffer, .lights_buffer_mapping, .lights_extent_buffer,
       .lights_buffer_bind_group,
       .light_update_compute_pipeline_bind_group_layout_0,
       .lights_buffer_compute_bind_group] := by
  unfold prepare_lights at h
  obtain ⟨cs1, h1, h⟩ := bind_ok h
  obtain ⟨cs2, h2, h⟩ := bind_ok h
  unfold prepare_lights_buffer at h1
  replace h1 := (ASSERT_bind_ok h1).2
  replace h1 := (ASSERT_bind_ok h1).2
  replace h1 := (deref_bind_ok h1).2
  cases h1
  unfold prepare_lights_extent_buffer at h2
  cases h2
  unfold prepare_lights_bind_groups at h
  replace h := (ASSERT_bind_ok h).2
  replace h := (ASSERT_bind_ok h).2
  cases h
  refine ⟨?_, ?_, ?_⟩
  · repeat apply keeps_emit
    exact keeps_refl _
  · simp [emit_log, List.filterMap_append, Effect.site?, Effect.released?]
  · simp [emit_log, List.filterMap_append, Effect.site?, Effect.released?]

theorem prepare_view_matrices_log {K : Type} [Field K] {env : Env K}
    {cs cs' : Context K × State K} (h : prepare_view_matrices env cs = .ok cs') :
    StepLog cs cs' [] := by
  unfold prepare_view_matrices at h
  cases h
  refine ⟨?_, ?_, ?_⟩
  · repeat apply keeps_emit
    exact keeps_refl _
  · simp [emit_log, List.filterMap_append, Effect.site?, Effect.released?]
  · simp [emit_log, List.filterMap_append, Effect.site?, Effect.released?]

/-! ### The whole setup path -/

theorem example_initialize_null {K : Type} [Field K] (env : Env K) (s : State K) :
    example_initialize env none s = .ok (1, none, s) := rfl

theorem map_bind_except {ε α β γ : Type} (x : Except ε α) (f : α → Except ε β) (g : β → γ) :
    (x >>= f).map g = x >>= fun a => (f a).map g := by
  cases x <;> rfl

theorem example_initialize_steps {K : Type} [Field K] (env : Env K) (ctx : Context K)
    (s : State K) :
    example_initialize env (some ctx) s
      = (stanford_dragon_mesh_init env (ctx, s) >>= run_steps env setup_steps).map
          fun cs => (0, some cs.1, { cs.2 with prepared := true }) := by
  simp only [run_steps, setup_steps, map_bind_except]
  rfl

theorem example_initialize_ok {K : Type} [Field K] {env : Env K} {ctx : Context K}
    {s s' : State K} {r : Int} {c : Option (Context K)}
    (h : example_initialize env (some ctx) s = .ok (r, c, s')) :
    r = 0 ∧ s' = initialized_state env ctx s
      ∧ ∃ ctx', c = some ctx' ∧ StepLog (ctx, s) (ctx', s') creation_order := by
  unfold example_initialize at h
  simp only [] at h
  obtain ⟨cs0, h0, h⟩ := bind_ok h
  obtain ⟨cs1, h1, h⟩ := bind_ok h
  obtain ⟨cs2, h2, h⟩ := bind_ok h
  obtain ⟨cs3, h3, h⟩ := bind_ok h
  obtain ⟨cs4, h4, h⟩ := bind_ok h
  obtain ⟨cs5, h5, h⟩ := bind_ok h
  obtain ⟨cs6, h6, h⟩ := bind_ok h
  obtain ⟨cs7, h7, h⟩ := bind_ok h
  obtain ⟨cs8, h8, h⟩ := bind_ok h
  obtain ⟨cs9, h9, h⟩ := bind_ok h
  obtain ⟨cs10, h10, h⟩ := bind_ok h
  obtain ⟨cs11, h11, h⟩ := bind_ok h
  obtain ⟨cs12, h12, h⟩ := bind_ok h
  obtain ⟨cs13, h13, h⟩ := bind_ok h
  cases h
  have l0 := stanford_dragon_mesh_init_log h0
  have e1 := prepare_vertex_and_index_buffers_state h1
  have e2 := prepare_gbuffer_texture_render_targets_state h2
  have e3 := prepare_bind_group_layouts_state h3
  have e4 := prepare_render_pipeline_layouts_state h4
  have e5 := prepare_write_gbuffers_pipeline_state h5
  have e6 := prepare_gbuffers_debug_view_pipeline_state h6
  have e7 := prepare_deferred_render_pipeline_state h7
  have e8 := setup_render_passes_state h8
  have e9 := prepare_uniform_buffers_state h9
  have e10 := prepare_compute_pipeline_layout_state h10
  have e11 := prepare_light_update_compute_pipeline_state h11
  have e12 := prepare_lights_state h12
  have e13 := prepare_view_matrices_state h13
  have l := (((((((((((((l0.1.trans (prepare_vertex_and_index_buffers_log h1)).trans
    (prepare_gbuffer_texture_render_targets_log h2)).trans
    (prepare_bind_group_layouts_log h3)).trans
    (prepare_render_pipeline_layouts_log h4)).trans
    (prepare_write_gbuffers_pipeline_log h5)).trans
    (prepare_gbuffers_debug_view_pipeline_log h6)).trans
    (prepare_deferred_render_pipeline_log h7)).trans
    (setup_render_passes_log h8)).trans
    (prepare_uniform_buffers_log h9)).trans
    (prepare_compute_pipeline_layout_log h10)).trans
    (prepare_light_update_compute_pipeline_log h11)).trans
    (prepare_lights_log h12)).trans
    (prepare_view_matrices_log h13))
  have hsurf : cs12.1.surface_width = ctx.surface_width
      ∧ cs12.1.surface_height = ctx.surface_height := by
    have l12 := (((((((((((((l0.1.trans (prepare_vertex_and_index_buffers_log h1)).trans
      (prepare_gbuffer_texture_render_targets_log h2)).trans
      (prepare_bind_group_layouts_log h3)).trans
      (prepare_render_pipeline_layouts_log h4)).trans
      (prepare_write_gbuffers_pipeline_log h5)).trans
      (prepare_gbuffers_debug_view_pipeline_log h6)).trans
      (prepare_deferred_render_pipeline_log h7)).trans
      (setup_render_passes_log h8)).trans
      (prepare_uniform_buffers_log h9)).trans
      (prepare_compute_pipeline_layout_log h10)).trans
      (prepare_light_update_compute_pipeline_log h11)).trans
      (prepare_lights_log h12))).1
    rw [l12]
    exact ⟨rfl, rfl⟩
  refine ⟨rfl, ?_, cs13.1, rfl, ?_⟩
  · rw [e13, e12, e11, e10, e9, e8, e7, e6, e5, e4, e3, e2, e1, l0.2, hsurf.1, hsurf.2]
    simp [initialized_state]
  · refine ⟨l.1, l.2.1, l.2.2⟩

/-! ### What a frame does to the context and the module state -/

theorem overlay_effect {K : Type} (ui : Overlay) (cs : Context K × State K) :
    (example_on_update_ui_overlay ui cs).1
        = { cs.1 with paused := (example_on_update_ui_overlay ui cs).1.paused
                      log := (example_on_update_ui_overlay ui cs).1.log }
      ∧ (example_on_update_ui_overlay ui cs).2
          = { cs.2 with settings := (example_on_update_ui_overlay ui cs).2.settings }
      ∧ ((example_on_update_ui_overlay ui cs).1.log = cs.1.log
          ∨ (example_on_update_ui_overlay ui cs).1.log
              = cs.1.log ++ [Effect.queue_write_uint32 cs.2.lights.config_uniform_buffer 0
                  [((example_on_update_ui_overlay ui cs).2.settings.num_lights % 2 ^ 32).toNat]
                  sizeof_float]) := by
  unfold example_on_update_ui_overlay
  by_cases hh : ui.header = true
  · rw [if_pos hh]
    simp only []
    by_cases hc : (ui.combo_box cs.2.settings.current_render_mode).1 = true
    · rw [if_pos hc]
      by_cases hsl : (ui.slider_int cs.2.settings.num_lights 1 max_num_lights).1 = true
      · rw [if_pos hsl]
        exact ⟨rfl, rfl, Or.inr rfl⟩
      · rw [if_neg hsl]
        exact ⟨rfl, rfl, Or.inl rfl⟩
    · rw [if_neg hc]
      by_cases hsl : (ui.slider_int cs.2.settings.num_lights 1 max_num_lights).1 = true
      · rw [if_pos hsl]
        exact ⟨rfl, rfl, Or.inr rfl⟩
      · rw [if_neg hsl]
        exact ⟨rfl, rfl, Or.inl rfl⟩
  · rw [if_neg hh]
    exact ⟨rfl, rfl, Or.inl rfl⟩

theorem overlay_settings_eq {K : Type} (ui : Overlay) (cs : Context K × State K) :
    (example_on_update_ui_overlay ui cs).2.settings = overlay_settings ui cs.2.settings := by
  unfold example_on_update_ui_overlay overlay_settings
  by_cases hh : ui.header = true
  · rw [if_pos hh, if_pos hh]
    simp only []
    by_cases hc : (ui.combo_box cs.2.settings.current_render_mode).1 = true
    · rw [if_pos hc, if_pos hc]
    · rw [if_neg hc, if_neg hc]
  · rw [if_neg hh, if_neg hh]

theorem overlay_paused_eq {K : Type} (ui : Overlay) (cs : Context K × State K) :
    (example_on_update_ui_overlay ui cs).1.paused = overlay_paused ui cs.1.paused := by
  have h := (overlay_effect ui cs).1
  unfold example_on_update_ui_overlay overlay_paused
  by_cases hh : ui.header = true
  · rw [if_pos hh, if_pos hh]
    simp only []
    split_ifs <;> rfl
  · rw [if_neg hh, if_neg hh]

theorem draw_ui_effect {K : Type} (ui : Overlay) (cs : Context K × State K) :
    (draw_ui ui cs).1
        = { cs.1 with cmd_enc := (draw_ui ui cs).1.cmd_enc
                      paused := (draw_ui ui cs).1.paused
                      log := (draw_ui ui cs).1.log }
      ∧ (draw_ui ui cs).2 = { cs.2 with settings := (draw_ui ui cs).2.settings }
      ∧ ((draw_ui ui cs).1.log = cs.1.log
          ∨ (draw_ui ui cs).1.log
              = cs.1.log ++ [Effect.queue_write_uint32 cs.2.lights.config_uniform_buffer 0
                  [((draw_ui ui cs).2.settings.num_lights % 2 ^ 32).toNat] sizeof_float]) := by
  have h := overlay_effect ui cs
  unfold draw_ui
  by_cases hs : ui.shown = true
  · rw [if_pos hs]
    simp only []
    refine ⟨?_, h.2.1, h.2.2⟩
    rw [h.1]
  · rw [if_neg hs]
    exact ⟨rfl, rfl, Or.inl rfl⟩

theorem draw_ui_settings_eq {K : Type} (ui : Overlay) (cs : Context K × State K) :
    (draw_ui ui cs).2.settings = overlay_settings_shown ui cs.2.settings := by
  unfold draw_ui overlay_settings_shown
  by_cases hsh : ui.shown = true
  · rw [if_pos hsh, if_pos hsh]
    exact overlay_settings_eq ui cs
  · rw [if_neg hsh, if_neg hsh]

theorem draw_ui_paused_eq {K : Type} (ui : Overlay) (cs : Context K × State K) :
    (draw_ui ui cs).1.paused = overlay_paused_shown ui cs.1.paused := by
  unfold draw_ui overlay_paused_shown
  by_cases hsh : ui.shown = true
  · rw [if_pos hsh, if_pos hsh]
    exact overlay_paused_eq ui cs
  · rw [if_neg hsh, if_neg hsh]

/-- The log entry of the release of the encoder: none for a `NULL` encoder. -/
theorem release_command_encoder_eq {K : Type} (ctx : Context K) :
    release_command_encoder ctx
      = { ctx with
          cmd_enc_handle := none
          cmd_enc := []
          log := ctx.log ++ (if ctx.cmd_enc_handle.isSome then
                  [Effect.release_command_encoder ctx.cmd_enc_handle] else []) } := by
  unfold release_command_encoder
  by_cases h : ctx.cmd_enc_handle.isSome = true
  · rw [if_pos h, if_pos h]
    rfl
  · rw [if_neg h, if_neg h, List.append_nil]

theorem build_command_buffer_effect {K : Type} {env : Env K} {inp : FrameInput}
    {ctx : Context K} {s : State K} {r : Option CommandBuffer × Context K × State K}
    (h : build_command_buffer env inp (ctx, s) = .ok r) :
    r.2.1
        = { ctx with cmd_enc_handle := none
                     cmd_enc := []
                     paused := overlay_paused_shown inp.overlay ctx.paused
                     log := r.2.1.log }
      ∧ r.2.2
          = { s with
              settings := overlay_settings_shown inp.overlay s.settings
              texture_quad_pass := { s.texture_quad_pass with
                color_attachments_0 := { s.texture_quad_pass.color_attachments_0 with
                  view := ctx.swap_chain_frame_buffer } } }
      ∧ ∃ ws : List (Effect K),
          r.2.1.log
              = ctx.log ++ [Effect.create_command_encoder inp.command_encoder] ++ ws
                  ++ (if inp.command_encoder.isSome then
                        [Effect.release_command_encoder inp.command_encoder] else [])
            ∧ (ws = []
                ∨ ws = [Effect.queue_write_uint32 s.lights.config_uniform_buffer 0
                    [((overlay_settings_shown inp.overlay s.settings).num_lights
                        % 2 ^ 32).toNat] sizeof_float]) := by
  obtain ⟨_, _, h1, h2⟩ := build_command_buffer_ok h
  generalize hc0 : (({ ctx with cmd_enc_handle := inp.command_encoder }).emit
      (.create_command_encoder inp.command_encoder) : Context K) = c0 at h1 h2
  have d := draw_ui_effect inp.overlay (passes_recorded c0 s)
  have hp := draw_ui_paused_eq inp.overlay (passes_recorded c0 s)
  have hs := draw_ui_settings_eq inp.overlay (passes_recorded c0 s)
  have hh : (draw_ui inp.overlay (passes_recorded c0 s)).1.cmd_enc_handle
      = inp.command_encoder := by
    rw [d.1, ← hc0]
    rfl
  have hlog0 : c0.log = ctx.log ++ [Effect.create_command_encoder inp.command_encoder] := by
    rw [← hc0]
    rfl
  refine ⟨?_, ?_, ?_⟩
  · rw [h1, release_command_encoder_eq, d.1, hp, ← hc0]
    rfl
  · rw [h2, d.2.1, hs, ← hc0]
    rfl
  · rw [h1, release_command_encoder_eq, hh]
    rcases d.2.2 with h3 | h3
    · refine ⟨[], ?_, Or.inl rfl⟩
      show (draw_ui inp.overlay (passes_recorded c0 s)).1.log ++ _ = _
      rw [h3]
      show c0.log ++ _ = _
      rw [hlog0, List.append_nil]
    · refine ⟨_, ?_, Or.inr rfl⟩
      show (draw_ui inp.overlay (passes_recorded c0 s)).1.log ++ _ = _
      rw [h3, hs]
      show c0.log ++ _ ++ _ = _
      rw [hlog0]
      rfl

theorem example_draw_bind {K : Type} (env : Env K) (inp : FrameInput) (ctx : Context K)
    (s : State K) :
    example_draw env inp (ctx, s)
      = (build_command_buffer env inp (prepare_frame inp ctx, s)).bind fun b =>
          .ok (EXIT_SUCCESS,
            submit_frame (submit_command_buffers
              { b.2.1 with submit_info_command_buffers := [b.1] }),
            b.2.2) := rfl

theorem example_draw_ok {K : Type} {env : Env K} {inp : FrameInput} {ctx : Context K}
    {s : State K} {r : Int × Context K × State K}
    (h : example_draw env inp (ctx, s) = .ok r) :
    ∃ b, build_command_buffer env inp (prepare_frame inp ctx, s) = .ok b
      ∧ r = (EXIT_SUCCESS,
          submit_frame (submit_command_buffers
            { b.2.1 with submit_info_command_buffers := [b.1] }),
          b.2.2) := by
  rw [example_draw_bind] at h
  cases hb : build_command_buffer env inp (prepare_frame inp ctx, s) with
  | error e => rw [hb] at h; cases h
  | ok b =>
    rw [hb] at h
    cases h
    exact ⟨b, rfl, rfl⟩

/-- The frame returns when `wgpu_get_command_buffer` returns a command buffer, and
also when it returns `NULL` and `ASSERT` only reports. -/
theorem example_draw_returns {K : Type} (env : Env K) (inp : FrameInput) (ctx : Context K)
    (s : State K) (hc : inp.finished = true ∨ env.assert_stops = false) :
    ∃ d, example_draw env inp (ctx, s) = .ok d := by
  rw [example_draw_bind, build_command_buffer_unfold]
  have hc' : (inp.finished || !env.assert_stops) = true := by
    rcases hc with h | h <;> simp [h]
  rw [if_pos hc']
  exact ⟨_, rfl⟩

/-- The frame stops at the `ASSERT` when `wgpu_get_command_buffer` returns `NULL` and
`ASSERT` is a macro that stops. -/
theorem example_draw_stops {K : Type} (env : Env K) (inp : FrameInput) (ctx : Context K)
    (s : State K) (hfin : inp.finished = false) (hstop : env.assert_stops = true) :
    example_draw env inp (ctx, s) = .error (.assertion "command_buffer != NULL") := by
  rw [example_draw_bind, build_command_buffer_unfold, hfin, hstop]
  rfl

theorem example_draw_effect {K : Type} {env : Env K} {inp : FrameInput} {ctx : Context K}
    {s : State K} {r : Int × Context K × State K}
    (h : example_draw env inp (ctx, s) = .ok r) :
    r.1 = EXIT_SUCCESS
      ∧ r.2.2
          = { s with
              settings := overlay_settings_shown inp.overlay s.settings
              texture_quad_pass := { s.texture_quad_pass with
                color_attachments_0 := { s.texture_quad_pass.color_attachments_0 with
                  view := inp.frame_buffer } } }
      ∧ r.2.1
          = { ctx with
              swap_chain_frame_buffer := inp.frame_buffer
              cmd_enc_handle := none
              cmd_enc := []
              submit_info_command_buffers :=
                [if inp.finished then
                  some (recorded_three_passes inp.frame_buffer s ++ inp.overlay.recorded)
                 else none]
              paused := overlay_paused_shown inp.overlay ctx.paused
              log := r.2.1.log }
      ∧ ∃ ws : List (Effect K),
          r.2.1.log
              = ctx.log ++ [Effect.prepare_frame inp.frame_buffer,
                            Effect.create_command_encoder inp.command_encoder] ++ ws
                  ++ (if inp.command_encoder.isSome then
                        [Effect.release_command_encoder inp.command_encoder] else [])
                  ++ [Effect.submit
                        [if inp.finished then
                          some (recorded_three_passes inp.frame_buffer s
                            ++ inp.overlay.recorded)
                         else none],
                      Effect.submit_frame]
            ∧ (ws = []
                ∨ ws = [Effect.queue_write_uint32 s.lights.config_uniform_buffer 0
                    [((overlay_settings_shown inp.overlay s.settings).num_lights
                        % 2 ^ 32).toNat] sizeof_float]) := by
  obtain ⟨b, hb, rfl⟩ := example_draw_ok h
  have e := build_command_buffer_effect hb
  obtain ⟨_, hcb, _, _⟩ := build_command_buffer_ok hb
  have hcb' : b.1 = if inp.finished then
      some (recorded_three_passes inp.frame_buffer s ++ inp.overlay.recorded) else none := hcb
  obtain ⟨ws, hl, hws⟩ := e.2.2
  refine ⟨rfl, ?_, ?_, ws, ?_, hws⟩
  · show b.2.2 = _
    rw [e.2.1]
    rfl
  · unfold submit_frame submit_command_buffers
    simp only []
    rw [Context.emit, Context.emit, e.1, hcb']
    rfl
  · unfold submit_frame submit_command_buffers
    simp only [emit_log]
    rw [hl, hcb']
    show (ctx.log ++ [Effect.prepare_frame inp.frame_buffer]) ++ _ ++ _ ++ _ ++ _ ++ _ = _
    simp only [List.append_assoc, List.singleton_append, List.cons_append, List.nil_append]

theorem example_render_ok {K : Type} [Field K] {env : Env K} {inp : FrameInput}
    {cs : Context K × State K} {r : Int × Context K × State K}
    (h : example_render env inp cs = .ok r) :
    (cs.2.prepared = false ∧ r = (EXIT_FAILURE, cs.1, cs.2))
      ∨ (cs.2.prepared = true
          ∧ ∃ d, example_draw env inp cs = .ok d ∧ r.1 = d.1
              ∧ r.2 = if d.2.1.paused then d.2 else update_uniform_buffers env.math d.2) := by
  unfold example_render at h
  by_cases hp : cs.2.prepared = true
  · right
    refine ⟨hp, ?_⟩
    simp only [hp, Bool.not_true, Bool.false_eq_true, if_false] at h
    obtain ⟨d, hd, h⟩ := bind_ok h
    cases h
    refine ⟨d, hd, rfl, ?_⟩
    by_cases hq : d.2.1.paused = true
    · simp only [hq, Bool.not_true, Bool.false_eq_true, if_false, if_true]
    · rw [Bool.not_eq_true] at hq
      simp only [hq, Bool.not_false, if_true, Bool.false_eq_true, if_false]
  · left
    rw [Bool.not_eq_true] at hp
    rw [hp] at h
    cases h
    exact ⟨hp, rfl⟩

theorem example_render_of_draw {K : Type} [Field K] {env : Env K} {inp : FrameInput}
    {cs : Context K × State K} {d : Int × Context K × State K}
    (hp : cs.2.prepared = true) (hd : example_draw env inp cs = .ok d) :
    example_render env inp cs
      = .ok (d.1, (if d.2.1.paused then d.2 else update_uniform_buffers env.math d.2).1,
          (if d.2.1.paused then d.2 else update_uniform_buffers env.math d.2).2) := by
  unfold example_render
  simp only [hp, Bool.not_true, Bool.false_eq_true, if_false]
  rw [hd]
  show Except.ok _ = _
  by_cases hq : d.2.1.paused = true
  · simp only [hq, if_true, Bool.not_true, Bool.false_eq_true, if_false]
  · rw [Bool.not_eq_true] at hq
    simp only [hq, Bool.false_eq_true, if_false, Bool.not_false, if_true]

theorem example_render_returns {K : Type} [Field K] (env : Env K) (inp : FrameInput)
    (cs : Context K × State K) (hc : inp.finished = true ∨ env.assert_stops = false) :
    ∃ r, example_render env inp cs = .ok r := by
  by_cases hp : cs.2.prepared = true
  · obtain ⟨d, hd⟩ := example_draw_returns env inp cs.1 cs.2 hc
    exact ⟨_, example_render_of_draw hp hd⟩
  · rw [Bool.not_eq_true] at hp
    refine ⟨(EXIT_FAILURE, cs.1, cs.2), ?_⟩
    unfold example_render
    rw [hp]
    rfl

/-- C7. Nothing is rendered before setup has completed. `prepared` is `false` in the
initial state; while it is `false`, `example_render` returns `EXIT_FAILURE` and leaves
the context (its log of submissions and buffer writes included) and the module state
as they were; `example_initialize` with a `NULL` context returns 1 and changes nothing;
with a context it is the mesh load followed by the thirteen setup steps, none of
which touches `prepared`, and only then sets `prepared` and returns 0. -/
theorem example_render_requires_prepared {K : Type} [Field K] (env : Env K)
    (inp : FrameInput) (ctx : Context K) (s : State K) (hs : s.prepared = false) :
    (State.initial : State K).prepared = false
      ∧ example_render env inp (ctx, s) = .ok (EXIT_FAILURE, ctx, s)
      ∧ EXIT_FAILURE = 1
      ∧ example_initialize env none s = .ok (1, none, s)
      ∧ example_initialize env (some ctx) s
          = (stanford_dragon_mesh_init env (ctx, s) >>= run_steps env setup_steps).map
              (fun cs => (0, some cs.1, { cs.2 with prepared := true }))
      ∧ (setup_steps : List (SetupStep K)).length = 13
      ∧ (∀ (n : Nat) (cs' : Context K × State K),
          (stanford_dragon_mesh_init env (ctx, s) >>= run_steps env (setup_steps.take n))
              = .ok cs' → cs'.2.prepared = false)
      ∧ (∀ (r : Int) (c : Option (Context K)) (s' : State K),
          example_initialize env (some ctx) s = .ok (r, c, s') →
            r = 0 ∧ s'.prepared = true) := by
  have hstep : ∀ f ∈ (setup_steps : List (SetupStep K)), ∀ a b : Context K × State K,
      f env a = .ok b → b.2.prepared = a.2.prepared := by
    intro f hf a b hab
    simp only [setup_steps, List.mem_cons, List.mem_singleton, List.not_mem_nil,
      or_false] at hf
    rcases hf with rfl | rfl | rfl | rfl | rfl | rfl | rfl | rfl | rfl | rfl | rfl | rfl | rfl
    · rw [prepare_vertex_and_index_buffers_state hab]
    · rw [prepare_gbuffer_texture_render_targets_state hab]
    · rw [prepare_bind_group_layouts_state hab]
    · rw [prepare_render_pipeline_layouts_state hab]
    · rw [prepare_write_gbuffers_pipeline_state hab]
    · rw [prepare_gbuffers_debug_view_pipeline_state hab]
    · rw [prepare_deferred_render_pipeline_state hab]
    · rw [setup_render_passes_state hab]
    · rw [prepare_uniform_buffers_state hab]
    · rw [prepare_compute_pipeline_layout_state hab]
    · rw [prepare_light_update_compute_pipeline_state hab]
    · rw [prepare_lights_state hab]
    · rw [prepare_view_matrices_state hab]
  have hrun : ∀ (fs : List (SetupStep K)), (∀ f ∈ fs, f ∈ (setup_steps : List (SetupStep K))) →
      ∀ a b : Context K × State K, run_steps env fs a = .ok b →
        b.2.prepared = a.2.prepared := by
    intro fs
    induction fs with
    | nil => intro _ a b hab; cases hab; rfl
    | cons f fs ih =>
      intro hmem a b hab
      obtain ⟨m, h1, h2⟩ := bind_ok hab
      rw [ih (fun g hg => hmem g (List.mem_cons_of_mem _ hg)) m b h2,
        hstep f (hmem f (List.mem_cons_self _ _)) a m h1]
  refine ⟨rfl, ?_, rfl, rfl, example_initialize_steps env ctx s, rfl, ?_, ?_⟩
  · unfold example_render
    simp only [hs]
    rfl
  · intro n cs' h
    obtain ⟨m, h1, h2⟩ := bind_ok h
    rw [hrun _ (fun g hg => List.mem_of_mem_take hg) m cs' h2,
      (stanford_dragon_mesh_init_log h1).2]
    exact hs
  · intro r c s' h
    obtain ⟨h1, h2, _⟩ := example_initialize_ok h
    exact ⟨h1, by rw [h2]; rfl⟩

/-- C7, in the sample run: before setup, `example_render` fails and changes nothing. -/
theorem example_render_requires_prepared_witness :
    example_render sample_env sample_frame (sample_context, State.initial)
      = .ok (EXIT_FAILURE, sample_context, State.initial) :=
  (example_render_requires_prepared sample_env sample_frame sample_context State.initial
    rfl).2.1

/-- C8, the failing run. On a device whose only failure is a `NULL` deferred render
pipeline, `example_initialize` still returns 0 with `prepared = true`, whether a failed
`ASSERT` stops the program or not, and the next default-mode frame sets the `NULL`
pipeline in its composite pass. -/
theorem example_initialize_unchecked_pipeline :
    (∀ stops : Bool,
      ( example_initialize { sample_env with device := failing_device, assert_stops := stops }
          (some sample_context) State.initial).toOption.map
        (fun r => (r.1, r.2.2.prepared, r.2.2.deferred_render_pipeline,
          ((build_command_buffer
              { sample_env with device := failing_device, assert_stops := stops } sample_frame
              ({ sample_context with swap_chain_frame_buffer := some 100 },
                r.2.2)).toOption.bind fun b => b.1).bind
            fun cb => (passes cb)[2]?.map (fun p => p.take 2)))
        = some (0, true, none,
            some [Cmd.BeginRenderPass
                    { colorAttachments :=
                        [{ view := some 100, loadOp := .Clear, storeOp := .Store,
                           clearValue := { r := 0, g := 0, b := 0, a := 1 } }]
                      depthStencilAttachment := none },
                  Cmd.RenderPassSetPipeline none]))
      ∧ failing_device .deferred_render_pipeline = none := by
  refine ⟨?_, rfl⟩
  intro stops
  cases stops <;> rfl

/-- C9. In the prepared state `example_render` draws one frame first: whenever it
returns, `example_draw` has returned `EXIT_SUCCESS` and the log has grown by the frame
acquisition, the creation of the encoder, at most one write of the 4-byte config
buffer made by the overlay, the release of the encoder, the submission of the one
command buffer and the presentation, with `view_matrices` and the camera uniform
buffer as before. Then, reading `paused` as it stands after the draw: when paused
nothing more happens, so the camera uniform buffer and `view_matrices` are as before
the call; when not paused exactly two writes of `sizeof(mat4) = 64` bytes follow, the
view-projection matrix at offset 0 and `glm_mat4_inv` of it at offset 64 of the camera
uniform buffer. The result is the draw result either way. The call returns when
`wgpu_get_command_buffer` returns a command buffer, and also when it returns `NULL`
and `ASSERT` only reports; with `NULL` and an `ASSERT` that stops, the program stops
in the draw, before anything is submitted or updated. -/
theorem example_render_draws_then_updates {K : Type} [Field K] (env : Env K)
    (inp : FrameInput) (ctx : Context K) (s : State K) (hs : s.prepared = true) :
    (∀ r, example_render env inp (ctx, s) = .ok r →
      ∃ d, example_draw env inp (ctx, s) = .ok d
        ∧ r.1 = d.1
        ∧ d.1 = EXIT_SUCCESS
        ∧ d.2.2.view_matrices = s.view_matrices
        ∧ d.2.2.camera_uniform_buffer = s.camera_uniform_buffer
        ∧ (∃ ws : List (Effect K),
            d.2.1.log
                = ctx.log ++ [Effect.prepare_frame inp.frame_buffer,
                              Effect.create_command_encoder inp.command_encoder] ++ ws
                    ++ (if inp.command_encoder.isSome then
                          [Effect.release_command_encoder inp.command_encoder] else [])
                    ++ [Effect.submit
                          [if inp.finished then
                            some (recorded_three_passes inp.frame_buffer s
                              ++ inp.overlay.recorded)
                           else none],
                        Effect.submit_frame]
              ∧ (ws = []
                  ∨ ws = [Effect.queue_write_uint32 s.lights.config_uniform_buffer 0
                      [((overlay_settings_shown inp.overlay s.settings).num_lights
                          % 2 ^ 32).toNat] sizeof_float]))
        ∧ (d.2.1.paused = true → r = d)
        ∧ (d.2.1.paused = false →
            r.2.1.log
                = d.2.1.log
                    ++ [Effect.queue_write_floats s.camera_uniform_buffer.buffer 0
                          (mat4_floats (get_camera_view_proj_matrix env.math d.2.1 d.2.2).1)
                          sizeof_mat4,
                        Effect.queue_write_floats s.camera_uniform_buffer.buffer 64
                          (mat4_floats (env.math.glm_mat4_inv
                            (get_camera_view_proj_matrix env.math d.2.1 d.2.2).1))
                          sizeof_mat4]
              ∧ r.2.2.view_matrices.view_proj_matrix
                  = (get_camera_view_proj_matrix env.math d.2.1 d.2.2).1
              ∧ r.2.2 = (get_camera_view_proj_matrix env.math d.2.1 d.2.2).2))
      ∧ ((inp.finished = true ∨ env.assert_stops = false) →
          ∃ r, example_render env inp (ctx, s) = .ok r)
      ∧ (inp.finished = false → env.assert_stops = true →
          example_draw env inp (ctx, s) = .error (.assertion "command_buffer != NULL")
            ∧ example_render env inp (ctx, s)
                = .error (.assertion "command_buffer != NULL"))
      ∧ sizeof_mat4 = 64 := by
  refine ⟨?_, example_render_returns env inp (ctx, s), ?_, rfl⟩
  · intro r hr
    rcases example_render_ok hr with ⟨hp, _⟩ | ⟨_, d, hd, h1, h2⟩
    · rw [hs] at hp
      cases hp
    · have e := example_draw_effect hd
      have hcam : d.2.2.camera_uniform_buffer = s.camera_uniform_buffer := by rw [e.2.1]
      refine ⟨d, hd, h1, e.1, by rw [e.2.1], hcam, e.2.2.2, ?_, ?_⟩
      · intro hp
        rw [hp, if_pos rfl] at h2
        exact Prod.ext h1 h2
      · intro hp
        rw [hp, if_neg (by decide)] at h2
        rw [h2]
        refine ⟨?_, rfl, rfl⟩
        unfold update_uniform_buffers
        simp only [emit_log, List.append_assoc, List.singleton_append]
        rw [← hcam]
        rfl
  · intro hfin hstop
    have hd := example_draw_stops env inp ctx s hfin hstop
    refine ⟨hd, ?_⟩
    unfold example_render
    simp only [hs, Bool.not_true, Bool.false_eq_true, if_false]
    rw [hd]
    rfl

/-- C9, in the sample run: the frame after setup returns and is not paused, so its
log ends with the two camera writes, 64 bytes each, at offsets 0 and 64; the same
frame with a `NULL` command buffer stops at the `ASSERT`. -/
theorem example_render_draws_then_updates_witness :
    sample_ready.2.prepared = true
      ∧ (∃ r, example_render sample_env sample_frame sample_ready = .ok r
          ∧ r.1 = EXIT_SUCCESS
          ∧ (r.2.1.log.drop 62).map
              (fun e => match e with
                | .queue_write_floats b off data size => some (b, off, data.length, size)
                | _ => none)
            = [some (some 30, 0, 16, 64), some (some 30, 64, 16, 64)])
      ∧ example_render sample_env unfinished_frame sample_ready
          = .error (.assertion "command_buffer != NULL") := by
  have h := example_render_draws_then_updates sample_env sample_frame sample_ready.1
    sample_ready.2 (by rfl)
  have h' := example_render_draws_then_updates sample_env unfinished_frame sample_ready.1
    sample_ready.2 (by rfl)
  obtain ⟨r, hr⟩ := h.2.1 (Or.inl rfl)
  obtain ⟨d, _, h1, h2, _⟩ := h.1 r hr
  refine ⟨by rfl, ⟨r, hr, h1.trans h2, ?_⟩, (h'.2.2.1 rfl rfl).2⟩
  have hc : ((example_render sample_env sample_frame sample_ready).toOption.map fun r =>
      (r.2.1.log.drop 62).map
        (fun e => match e with
          | .queue_write_floats b off data size => some (b, off, data.length, size)
          | _ => none))
      = some [some (some 30, 0, 16, 64), some (some 30, 64, 16, 64)] := by
    decide
  rw [hr] at hc
  exact Option.some.inj hc

/-! ### Camera -/

theorem camera_eye_position_eq {K : Type} [Field K] (M : ExternMath K) (ctx : Context K)
    (s : State K) (horigin : s.view_matrices.origin = ![0, 0, 0]) :
    camera_eye_position M ctx s
      = ![-100 * M.sin (M.PI * ctx.frame_timestamp_millis / 5000), 50,
          -100 * M.cos (M.PI * ctx.frame_timestamp_millis / 5000)] := by
  unfold camera_eye_position glm_vec3_rotate_y
  rw [horigin, mul_div_assoc]
  funext j
  fin_cases j <;> simp

/-- C11, counterexample. With `sin`, `cos`, `PI` read as the real functions and
constant and the origin `(0,0,0)`: at `t = 0` the eye is `(0, 50, -100)`, at
`t = 5000` it is `(0, 50, 100)`, so the eye at `t + 5000` is not the eye at `t`. -/
theorem camera_eye_position_not_periodic_5000 :
    camera_eye_position
        ({ PI := Real.pi, sin := Real.sin, cos := Real.cos,
           glm_perspective := fun _ _ _ _ => glm_mat4_identity,
           glm_lookat := fun _ _ _ => glm_mat4_identity,
           glm_mat4_inv := fun m => m } : ExternMath ℝ)
        (context_at (0 + 5000)) (camera_state glm_mat4_identity)
      ≠ camera_eye_position
        ({ PI := Real.pi, sin := Real.sin, cos := Real.cos,
           glm_perspective := fun _ _ _ _ => glm_mat4_identity,
           glm_lookat := fun _ _ _ => glm_mat4_identity,
           glm_mat4_inv := fun m => m } : ExternMath ℝ)
        (context_at 0) (camera_state glm_mat4_identity) := by
  rw [camera_eye_position_eq _ _ _ rfl, camera_eye_position_eq _ _ _ rfl]
  intro h
  have h2 := congrFun h 2
  have e1 : Real.pi * (context_at ((0 : ℝ) + 5000)).frame_timestamp_millis / 5000 = Real.pi := by
    show Real.pi * (0 + 5000) / 5000 = Real.pi
    ring
  have e0 : Real.pi * (context_at (0 : ℝ)).frame_timestamp_millis / 5000 = 0 := by
    show Real.pi * 0 / 5000 = 0
    ring
  simp only [e1, e0, Real.cos_pi, Real.cos_zero] at h2
  norm_num at h2

/-- C11, amended. Over exact real arithmetic, with `sin`, `cos`, `PI` read as the
real functions and constant, and with the origin `(0,0,0)` that `prepare_view_matrices`
stores: for every frame time `t`, the angle `PI * ((t + 5000) / 5000)` is the angle for
`t` advanced by `pi`, half a turn, and the eye computed for `t + 5000` is the eye
computed for `t` with its x and z coordinates negated and its height unchanged; it is
never the eye computed for `t`. -/
theorem camera_eye_position_half_turn (M : ExternMath ℝ) (ctx : Context ℝ) (s : State ℝ)
    (hpi : M.PI = Real.pi) (hsin : M.sin = Real.sin) (hcos : M.cos = Real.cos)
    (horigin : s.view_matrices.origin = ![0, 0, 0]) :
    M.PI * ((ctx.frame_timestamp_millis + 5000) / 5000)
        = M.PI * (ctx.frame_timestamp_millis / 5000) + Real.pi
      ∧ camera_eye_position M
          { ctx with frame_timestamp_millis := ctx.frame_timestamp_millis + 5000 } s
        = ![-(camera_eye_position M ctx s 0), camera_eye_position M ctx s 1,
            -(camera_eye_position M ctx s 2)]
      ∧ camera_eye_position M
          { ctx with frame_timestamp_millis := ctx.frame_timestamp_millis + 5000 } s
        ≠ camera_eye_position M ctx s := by
  have ha : Real.pi * (ctx.frame_timestamp_millis + 5000) / 5000
      = Real.pi * ctx.frame_timestamp_millis / 5000 + Real.pi := by ring
  have hturn : camera_eye_position M
        { ctx with frame_timestamp_millis := ctx.frame_timestamp_millis + 5000 } s
      = ![-(camera_eye_position M ctx s 0), camera_eye_position M ctx s 1,
          -(camera_eye_position M ctx s 2)] := by
    rw [camera_eye_position_eq M _ s horigin, camera_eye_position_eq M ctx s horigin,
      hpi, hsin, hcos]
    show ![-100 * Real.sin (Real.pi * (ctx.frame_timestamp_millis + 5000) / 5000), 50,
        -100 * Real.cos (Real.pi * (ctx.frame_timestamp_millis + 5000) / 5000)] = _
    rw [ha, Real.sin_add_pi, Real.cos_add_pi]
    funext j
    fin_cases j <;> simp
  refine ⟨by rw [hpi]; ring, hturn, ?_⟩
  rw [hturn]
  intro h
  have h0 := congrFun h 0
  have h2 := congrFun h 2
  rw [camera_eye_position_eq M ctx s horigin, hpi, hsin, hcos] at h0 h2
  simp only [Matrix.cons_val_zero, Matrix.cons_val_two, Matrix.tail_cons, Matrix.head_cons,
    Matrix.cons_val_one] at h0 h2
  have hs0 : Real.sin (Real.pi * ctx.frame_timestamp_millis / 5000) = 0 := by linarith
  have hc0 : Real.cos (Real.pi * ctx.frame_timestamp_millis / 5000) = 0 := by linarith
  have hone := Real.sin_sq_add_cos_sq (Real.pi * ctx.frame_timestamp_millis / 5000)
  rw [hs0, hc0] at hone
  norm_num at hone

/-- C11, amended, at a concrete input: the eye for `t = 2500 + 5000` is `(100, 50, 0)`,
the eye `(-100, 50, 0)` for `t = 2500` with x and z negated. -/
theorem camera_eye_position_half_turn_witness :
    camera_eye_position
        ({ PI := Real.pi, sin := Real.sin, cos := Real.cos,
           glm_perspective := fun _ _ _ _ => glm_mat4_identity,
           glm_lookat := fun _ _ _ => glm_mat4_identity,
           glm_mat4_inv := fun m => m } : ExternMath ℝ)
        { context_at (2500 : ℝ) with
          frame_timestamp_millis := (context_at (2500 : ℝ)).frame_timestamp_millis + 5000 }
        (camera_state glm_mat4_identity)
      = ![100, 50, 0] := by
  have h := (camera_eye_position_half_turn
    ({ PI := Real.pi, sin := Real.sin, cos := Real.cos,
       glm_perspective := fun _ _ _ _ => glm_mat4_identity,
       glm_lookat := fun _ _ _ => glm_mat4_identity,
       glm_mat4_inv := fun m => m } : ExternMath ℝ)
    (context_at 2500) (camera_state glm_mat4_identity) rfl rfl rfl rfl).2.1
  rw [h, camera_eye_position_eq _ _ _ rfl]
  have e : Real.pi * (context_at (2500 : ℝ)).frame_timestamp_millis / 5000 = Real.pi / 2 := by
    show Real.pi * 2500 / 5000 = Real.pi / 2
    ring
  simp only [e, Real.sin_pi_div_two, Real.cos_pi_div_two]
  funext j
  fin_cases j <;> simp

/-! ### What the view-projection matrix depends on -/

theorem update_uniform_buffers_state {K : Type} [Field K] (M : ExternMath K)
    (cs : Context K × State K) :
    (update_uniform_buffers M cs).2 = (get_camera_view_proj_matrix M cs.1 cs.2).2 := rfl

theorem example_render_view_matrices {K : Type} [Field K] {env : Env K}
    {inp : FrameInput} {cs : Context K × State K} {r : Int × Context K × State K}
    (h : example_render env inp cs = .ok r) :
    r.2.2.view_matrices.origin = cs.2.view_matrices.origin
      ∧ r.2.2.view_matrices.up_vector = cs.2.view_matrices.up_vector
      ∧ r.2.2.view_matrices.projection_matrix = cs.2.view_matrices.projection_matrix := by
  rcases example_render_ok h with ⟨_, rfl⟩ | ⟨_, d, hd, _, h2⟩
  · exact ⟨rfl, rfl, rfl⟩
  · have e := (@example_draw_effect _ _ _ cs.1 cs.2 _ hd).2.1
    by_cases hq : d.2.1.paused = true
    · rw [hq, if_pos rfl] at h2
      rw [h2, e]
      exact ⟨rfl, rfl, rfl⟩
    · rw [Bool.not_eq_true] at hq
      rw [hq, if_neg (by decide)] at h2
      rw [h2, update_uniform_buffers_state]
      show (get_camera_view_proj_matrix env.math d.2.1 d.2.2).2.view_matrices.origin = _
        ∧ (get_camera_view_proj_matrix env.math d.2.1 d.2.2).2.view_matrices.up_vector = _
        ∧ (get_camera_view_proj_matrix env.math d.2.1 d.2.2).2.view_matrices.projection_matrix
            = _
      show d.2.2.view_matrices.origin = _ ∧ d.2.2.view_matrices.up_vector = _
        ∧ d.2.2.view_matrices.projection_matrix = _
      rw [e]
      exact ⟨rfl, rfl, rfl⟩

theorem sample_run_returns {K : Type} [Field K] (math : ExternMath K) (ctx : Context K) :
    ∃ c, example_initialize (sample_env_of math) (some ctx) State.initial
          = .ok (0, some c, initialized_state (sample_env_of math) ctx State.initial)
      ∧ c = { ctx with log := c.log } := by
  have h : ∃ c s, example_initialize (sample_env_of math) (some ctx) State.initial
      = .ok (0, some c, s) := ⟨_, _, rfl⟩
  obtain ⟨c, s, h⟩ := h
  obtain ⟨_, hs, c', hc, hl⟩ := example_initialize_ok h
  cases hc
  subst hs
  exact ⟨c, h, hl.1⟩

/-- cglm's `glm_lookat` from the eye `(0, 50, -100)` to the origin with the up vector
`(0, 1, 0)`: the first entry of the view matrix is `-1`. -/
theorem cglm_lookat_at_start :
    cglm_lookat Real.sqrt ![0, 50, -100] ![0, 0, 0] ![0, 1, 0] 0 0 = -1 := by
  have hL : 0 < Real.sqrt 12500 := Real.sqrt_pos.2 (by norm_num)
  have hd : glm_vec3_dot (glm_vec3_sub ![0, 0, 0] ![(0 : ℝ), 50, -100])
      (glm_vec3_sub ![0, 0, 0] ![(0 : ℝ), 50, -100]) = 12500 := by
    simp [glm_vec3_dot, glm_vec3_sub]
    norm_num
  have hf : glm_vec3_normalize Real.sqrt (glm_vec3_sub ![0, 0, 0] ![(0 : ℝ), 50, -100])
      = ![0, -50 / Real.sqrt 12500, 100 / Real.sqrt 12500] := by
    funext j
    unfold glm_vec3_normalize
    rw [hd]
    fin_cases j <;> simp [glm_vec3_sub] <;> ring
  have hc : cross_product ![(0 : ℝ), -50 / Real.sqrt 12500, 100 / Real.sqrt 12500] ![0, 1, 0]
      = ![-(100 / Real.sqrt 12500), 0, 0] := by
    funext j
    fin_cases j <;> simp [cross_product]
  have hd2 : glm_vec3_dot ![-(100 / Real.sqrt 12500), (0 : ℝ), 0]
      ![-(100 / Real.sqrt 12500), 0, 0] = (100 / Real.sqrt 12500) ^ 2 := by
    simp [glm_vec3_dot]
    ring
  show glm_vec3_normalize Real.sqrt
    (cross_product (glm_vec3_normalize Real.sqrt (glm_vec3_sub ![0, 0, 0] ![0, 50, -100]))
      ![0, 1, 0]) 0 = -1
  rw [hf, hc]
  unfold glm_vec3_normalize
  rw [hd2, Real.sqrt_sq (by positivity)]
  have hne : (100 / Real.sqrt 12500) ≠ 0 := by positivity
  simp only [Matrix.cons_val_zero]
  field_simp
  ring

/-- With cglm's functions and the real `sin`, `cos`, `sqrt`: at frame time 0, from a
state with the origin and up vector that `prepare_view_matrices` stores and a
projection matrix of `glm_perspective`, the first entry of the view-projection matrix
is minus the first entry of the projection matrix. -/
theorem cglm_view_proj_at_start (PI : ℝ) (tan : ℝ → ℝ) (inv : Mat4 ℝ → Mat4 ℝ)
    (ctx : Context ℝ) (s : State ℝ) (fovy aspect nearZ farZ : ℝ)
    (ht : ctx.frame_timestamp_millis = 0)
    (ho : s.view_matrices.origin = ![0, 0, 0]) (hu : s.view_matrices.up_vector = ![0, 1, 0])
    (hp : s.view_matrices.projection_matrix = cglm_perspective tan fovy aspect nearZ farZ) :
    (get_camera_view_proj_matrix (cglm_math PI Real.sin Real.cos tan Real.sqrt inv) ctx s).1
        0 0
      = -(1 / tan (fovy * (1 / 2)) / aspect) := by
  have he := camera_eye_position_eq (cglm_math PI Real.sin Real.cos tan Real.sqrt inv) ctx s ho
  have he' : camera_eye_position (cglm_math PI Real.sin Real.cos tan Real.sqrt inv) ctx s
      = ![0, 50, -100] := by
    rw [he, ht]
    show ![-100 * Real.sin (PI * 0 / 5000), 50, -100 * Real.cos (PI * 0 / 5000)] = _
    rw [mul_zero, zero_div, Real.sin_zero, Real.cos_zero]
    norm_num
  show glm_mat4_mul s.view_matrices.projection_matrix
    (cglm_lookat Real.sqrt
      (camera_eye_position (cglm_math PI Real.sin Real.cos tan Real.sqrt inv) ctx s)
      s.view_matrices.origin s.view_matrices.up_vector) 0 0 = _
  rw [he', ho, hu, hp]
  unfold glm_mat4_mul
  rw [cglm_lookat_at_start]
  have p0 : cglm_perspective tan fovy aspect nearZ farZ 0 0
      = 1 / tan (fovy * (1 / 2)) / aspect := rfl
  have p1 : cglm_perspective tan fovy aspect nearZ farZ 1 0 = 0 := rfl
  have p2 : cglm_perspective tan fovy aspect nearZ farZ 2 0 = 0 := rfl
  have p3 : cglm_perspective tan fovy aspect nearZ farZ 3 0 = 0 := rfl
  rw [p0, p1, p2, p3]
  ring

/-- C13, counterexample. Two runs of `example_initialize` on the same device, one for a
surface of 1280 x 720 and one for a surface of 800 x 600, with cglm's `glm_perspective`
and `glm_lookat`, the `float` value of `PI` and the real `sin`, `cos`, `tan`, `sqrt`:
both return, and at the same frame timestamp 0 `get_camera_view_proj_matrix` returns
different matrices in the two states, because the stored projection matrix depends on
the aspect ratio of the surface. -/
theorem get_camera_view_proj_matrix_reads_state :
    ∃ (c1 c2 : Context ℝ) (s1 s2 : State ℝ),
      example_initialize
          (sample_env_of (cglm_math ((PI_float : ℚ) : ℝ) Real.sin Real.cos Real.tan Real.sqrt
            (fun m c r => (Mat4.toMatrix m)⁻¹ r c)))
          (some (surface_context 1280 720 0)) State.initial = .ok (0, some c1, s1)
      ∧ example_initialize
          (sample_env_of (cglm_math ((PI_float : ℚ) : ℝ) Real.sin Real.cos Real.tan Real.sqrt
            (fun m c r => (Mat4.toMatrix m)⁻¹ r c)))
          (some (surface_context 800 600 0)) State.initial = .ok (0, some c2, s2)
      ∧ c1.frame_timestamp_millis = c2.frame_timestamp_millis
      ∧ (get_camera_view_proj_matrix
          (cglm_math ((PI_float : ℚ) : ℝ) Real.sin Real.cos Real.tan Real.sqrt
            (fun m c r => (Mat4.toMatrix m)⁻¹ r c)) c1 s1).1
        ≠ (get_camera_view_proj_matrix
          (cglm_math ((PI_float : ℚ) : ℝ) Real.sin Real.cos Real.tan Real.sqrt
            (fun m c r => (Mat4.toMatrix m)⁻¹ r c)) c2 s2).1 := by
  obtain ⟨c1, h1, k1⟩ := sample_run_returns
    (cglm_math ((PI_float : ℚ) : ℝ) Real.sin Real.cos Real.tan Real.sqrt
      (fun m c r => (Mat4.toMatrix m)⁻¹ r c)) (surface_context 1280 720 0)
  obtain ⟨c2, h2, k2⟩ := sample_run_returns
    (cglm_math ((PI_float : ℚ) : ℝ) Real.sin Real.cos Real.tan Real.sqrt
      (fun m c r => (Mat4.toMatrix m)⁻¹ r c)) (surface_context 800 600 0)
  have t1 : c1.frame_timestamp_millis = 0 := by rw [k1]; rfl
  have t2 : c2.frame_timestamp_millis = 0 := by rw [k2]; rfl
  refine ⟨c1, c2, _, _, h1, h2, t1.trans t2.symm, ?_⟩
  intro h
  have e := congrFun (congrFun h 0) 0
  rw [cglm_view_proj_at_start _ _ _ c1 _ _ _ _ _ t1 rfl rfl rfl,
    cglm_view_proj_at_start _ _ _ c2 _ _ _ _ _ t2 rfl rfl rfl] at e
  have hpi : (3 : ℝ) < Real.pi := Real.pi_gt_three
  have hq : (((PI_float : ℚ) : ℝ)) = 13176795 / 4194304 := by
    unfold PI_float
    norm_num
  have htan : 0 < Real.tan (2 * ((PI_float : ℚ) : ℝ) / 5 * (1 / 2)) := by
    apply Real.tan_pos_of_pos_of_lt_pi_div_two
    · rw [hq]; norm_num
    · rw [hq]
      have : (2 * (13176795 / 4194304 : ℝ) / 5 * (1 / 2)) < 3 / 2 := by norm_num
      linarith
  have hne : Real.tan (2 * ((PI_float : ℚ) : ℝ) / 5 * (1 / 2)) ≠ 0 := ne_of_gt htan
  have e' : (1 / Real.tan (2 * ((PI_float : ℚ) : ℝ) / 5 * (1 / 2))
        / (((1280 : ℕ) : ℝ) / ((720 : ℕ) : ℝ)))
      = 1 / Real.tan (2 * ((PI_float : ℚ) : ℝ) / 5 * (1 / 2))
        / (((800 : ℕ) : ℝ) / ((600 : ℕ) : ℝ)) := neg_injective e
  generalize Real.tan (2 * ((PI_float : ℚ) : ℝ) / 5 * (1 / 2)) = T at e' hne
  have c1 : (((1280 : ℕ) : ℝ) / ((720 : ℕ) : ℝ)) = 16 / 9 := by norm_num
  have c2 : (((800 : ℕ) : ℝ) / ((600 : ℕ) : ℝ)) = 4 / 3 := by norm_num
  rw [c1, c2] at e'
  field_simp at e'
  exact hne (by linarith)

/-- C13, amended. The matrix `get_camera_view_proj_matrix` returns is determined by
the frame timestamp together with the stored `view_matrices.origin`, `up_vector` and
`projection_matrix`: two calls whose contexts agree on the timestamp and whose states
agree on these three fields return the same matrix, whatever else differs. The call
writes `view_proj_matrix` only, so a repeated call returns the same matrix again, and
`example_render` leaves the three fields as it found them. -/
theorem get_camera_view_proj_matrix_determined {K : Type} [Field K] (env : Env K)
    (inp : FrameInput) (ctx1 ctx2 : Context K) (s1 s2 : State K)
    (ht : ctx1.frame_timestamp_millis = ctx2.frame_timestamp_millis)
    (ho : s1.view_matrices.origin = s2.view_matrices.origin)
    (hu : s1.view_matrices.up_vector = s2.view_matrices.up_vector)
    (hp : s1.view_matrices.projection_matrix = s2.view_matrices.projection_matrix) :
    (get_camera_view_proj_matrix env.math ctx1 s1).1
        = (get_camera_view_proj_matrix env.math ctx2 s2).1
      ∧ (get_camera_view_proj_matrix env.math ctx1
            (get_camera_view_proj_matrix env.math ctx1 s1).2).1
          = (get_camera_view_proj_matrix env.math ctx1 s1).1
      ∧ ∀ r, example_render env inp (ctx1, s1) = .ok r →
          (get_camera_view_proj_matrix env.math ctx2 r.2.2).1
            = (get_camera_view_proj_matrix env.math ctx2 s2).1 := by
  have key : ∀ (c c' : Context K) (s s' : State K),
      c.frame_timestamp_millis = c'.frame_timestamp_millis →
      s.view_matrices.origin = s'.view_matrices.origin →
      s.view_matrices.up_vector = s'.view_matrices.up_vector →
      s.view_matrices.projection_matrix = s'.view_matrices.projection_matrix →
      (get_camera_view_proj_matrix env.math c s).1
        = (get_camera_view_proj_matrix env.math c' s').1 := by
    intro c c' s s' h1 h2 h3 h4
    show glm_mat4_mulN [s.view_matrices.projection_matrix,
        env.math.glm_lookat (glm_vec3_rotate_y env.math ![0, 50, -100] s.view_matrices.origin
          (env.math.PI * (c.frame_timestamp_millis / 5000)))
          s.view_matrices.origin s.view_matrices.up_vector] =
      glm_mat4_mulN [s'.view_matrices.projection_matrix,
        env.math.glm_lookat (glm_vec3_rotate_y env.math ![0, 50, -100] s'.view_matrices.origin
          (env.math.PI * (c'.frame_timestamp_millis / 5000)))
          s'.view_matrices.origin s'.view_matrices.up_vector]
    rw [h1, h2, h3, h4]
  refine ⟨key _ _ _ _ ht ho hu hp, key _ _ _ _ rfl rfl rfl rfl, ?_⟩
  intro r hr
  have r' := example_render_view_matrices hr
  exact key _ _ _ _ rfl (r'.1.trans ho) (r'.2.1.trans hu) (r'.2.2.trans hp)

/-- C13, amended, in the sample run: the frame after setup returns, and the state
after setup and the state after that frame return the same matrix for the same
timestamp. -/
theorem get_camera_view_proj_matrix_determined_witness :
    ∃ r, example_render sample_env sample_frame sample_ready = .ok r
      ∧ (get_camera_view_proj_matrix sample_math sample_context r.2.2).1
        = (get_camera_view_proj_matrix sample_math sample_context sample_ready.2).1 := by
  obtain ⟨r, hr⟩ := example_render_returns sample_env sample_frame sample_ready (Or.inl rfl)
  exact ⟨r, hr, (get_camera_view_proj_matrix_determined sample_env sample_frame
    sample_ready.1 sample_context sample_ready.2 sample_ready.2 rfl rfl rfl rfl).2.2 r hr⟩

/-! ### The `uint32_t` writes of the setup path -/

theorem release_shader_module_writes {K : Type} (ctx : Context K) (m : Handle) :
    (release_shader_module ctx m).log.filterMap Effect.uint32_write?
      = ctx.log.filterMap Effect.uint32_write? := by
  unfold release_shader_module
  by_cases hm : m.isSome = true
  · rw [if_pos hm]
    simp [emit_log, List.filterMap_append, Effect.uint32_write?]
  · rw [if_neg hm]

theorem step_writes_trans {K : Type} {a b c : Context K × State K}
    {l1 l2 : List (Handle × Nat)} (h1 : StepWrites a b l1) (h2 : StepWrites b c l2) :
    StepWrites a c (l1 ++ l2) := by
  unfold StepWrites at *
  rw [h2, h1, List.append_assoc]

theorem stanford_dragon_mesh_init_writes {K : Type} {env : Env K}
    {cs cs' : Context K × State K} (h : stanford_dragon_mesh_init env cs = .ok cs') :
    StepWrites cs cs' [] := by
  unfold stanford_dragon_mesh_init at h
  cases h
  simp [StepWrites]

theorem prepare_vertex_and_index_buffers_writes {K : Type} [Field K] {env : Env K}
    {cs cs' : Context K × State K} (h : prepare_vertex_and_index_buffers env cs = .ok cs') :
    StepWrites cs cs' [] := by
  unfold prepare_vertex_and_index_buffers at h
  replace h := (ASSERT_bind_ok h).2
  replace h := (ASSERT_bind_ok h).2
  replace h := (deref_bind_ok h).2
  replace h := (ASSERT_bind_ok h).2
  replace h := (ASSERT_bind_ok h).2
  replace h := (deref_bind_ok h).2
  cases h
  simp [StepWrites, emit_log, List.filterMap_append, Effect.uint32_write?]

theorem prepare_gbuffer_texture_render_targets_writes {K : Type} {env : Env K}
    {cs cs' : Context K × State K}
    (h : prepare_gbuffer_texture_render_targets env cs = .ok cs') :
    StepWrites cs cs' [] := by
  unfold prepare_gbuffer_texture_render_targets at h
  replace h := (ASSERT_bind_ok h).2
  replace h := (ASSERT_bind_ok h).2
  replace h := (ASSERT_bind_ok h).2
  replace h := (ASSERT_bind_ok h).2
  replace h := (ASSERT_bind_ok h).2
  replace h := (ASSERT_bind_ok h).2
  cases h
  simp [StepWrites, emit_log, List.filterMap_append, Effect.uint32_write?]

theorem prepare_bind_group_layouts_writes {K : Type} {env : Env K}
    {cs cs' : Context K × State K} (h : prepare_bind_group_layouts env cs = .ok cs') :
    StepWrites cs cs' [] := by
  unfold prepare_bind_group_layouts at h
  replace h := (ASSERT_bind_ok h).2
  replace h := (ASSERT_bind_ok h).2
  replace h := (ASSERT_bind_ok h).2
  replace h := (ASSERT_bind_ok h).2
  cases h
  simp [StepWrites, emit_log, List.filterMap_append, Effect.uint32_write?]

theorem prepare_render_pipeline_layouts_writes {K : Type} {env : Env K}
    {cs cs' : Context K × State K} (h : prepare_render_pipeline_layouts env cs = .ok cs') :
    StepWrites cs cs' [] := by
  unfold prepare_render_pipeline_layouts at h
  replace h := (ASSERT_bind_ok h).2
  replace h := (ASSERT_bind_ok h).2
  replace h := (ASSERT_bind_ok h).2
  cases h
  simp [StepWrites, emit_log, List.filterMap_append, Effect.uint32_write?]

theorem prepare_write_gbuffers_pipeline_writes {K : Type} {env : Env K}
    {cs cs' : Context K × State K} (h : prepare_write_gbuffers_pipeline env cs = .ok cs') :
    StepWrites cs cs' [] := by
  unfold prepare_write_gbuffers_pipeline at h
  cases h
  unfold StepWrites
  simp only []
  rw [release_shader_module_writes, release_shader_module_writes]
  simp [emit_log, List.filterMap_append, Effect.uint32_write?]

theorem prepare_gbuffers_debug_view_pipeline_writes {K : Type} {env : Env K}
    {cs cs' : Context K × State K}
    (h : prepare_gbuffers_debug_view_pipeline env cs = .ok cs') :
    StepWrites cs cs' [] := by
  unfold prepare_gbuffers_debug_view_pipeline at h
  cases h
  unfold StepWrites
  simp only []
  rw [release_shader_module_writes, release_shader_module_writes]
  simp [emit_log, List.filterMap_append, Effect.uint32_write?]

theorem prepare_deferred_render_pipeline_writes {K : Type} {env : Env K}
    {cs cs' : Context K × State K} (h : prepare_deferred_render_pipeline env cs = .ok cs') :
    StepWrites cs cs' [] := by
  unfold prepare_deferred_render_pipeline at h
  cases h
  unfold StepWrites
  simp only []
  rw [release_shader_module_writes, release_shader_module_writes]
  simp [emit_log, List.filterMap_append, Effect.uint32_write?]

theorem setup_render_passes_writes {K : Type} {env : Env K}
    {cs cs' : Context K × State K} (h : setup_render_passes env cs = .ok cs') :
    StepWrites cs cs' [] := by
  unfold setup_render_passes at h
  cases h
  simp [StepWrites]

theorem prepare_uniform_buffers_writes {K : Type} {env : Env K}
    {cs cs' : Context K × State K} (h : prepare_uniform_buffers env cs = .ok cs') :
    StepWrites cs cs'
      [(env.device .config_uniform_buffer, (cs.2.settings.num_lights % 2 ^ 32).toNat)] := by
  unfold prepare_uniform_buffers at h
  obtain ⟨cs1, h1, h⟩ := bind_ok h
  obtain ⟨cs2, h2, h⟩ := bind_ok h
  unfold prepare_config_uniform_buffer at h1
  replace h1 := (ASSERT_bind_ok h1).2
  replace h1 := (ASSERT_bind_ok h1).2
  replace h1 := (deref_bind_ok h1).2
  cases h1
  unfold prepare_model_camera_uniform_buffers at h2
  replace h2 := (ASSERT_bind_ok h2).2
  replace h2 := (ASSERT_bind_ok h2).2
  cases h2
  unfold prepare_uniform_bind_groups at h
  replace h := (ASSERT_bind_ok h).2
  replace h := (ASSERT_bind_ok h).2
  cases h
  simp [StepWrites, emit_log, wgpu_create_buffer, List.filterMap_append,
    Effect.uint32_write?, memcpy]

theorem prepare_compute_pipeline_layout_writes {K : Type} {env : Env K}
    {cs cs' : Context K × State K} (h : prepare_compute_pipeline_layout env cs = .ok cs') :
    StepWrites cs cs' [] := by
  unfold prepare_compute_pipeline_layout at h
  replace h := (ASSERT_bind_ok h).2
  cases h
  simp [StepWrites, emit_log, List.filterMap_append, Effect.uint32_write?]

theorem prepare_light_update_compute_pipeline_writes {K : Type} {env : Env K}
    {cs cs' : Context K × State K}
    (h : prepare_light_update_compute_pipeline env cs = .ok cs') :
    StepWrites cs cs' [] := by
  unfold prepare_light_update_compute_pipeline at h
  cases h
  unfold StepWrites
  simp only []
  rw [release_shader_module_writes]
  simp [emit_log, List.filterMap_append, Effect.uint32_write?]

theorem prepare_lights_writes {K : Type} [Field K] {env : Env K}
    {cs cs' : Context K × State K} (h : prepare_lights env cs = .ok cs') :
    StepWrites cs cs' [] := by
  unfold prepare_lights at h
  obtain ⟨cs1, h1, h⟩ := bind_ok h
  obtain ⟨cs2, h2, h⟩ := bind_ok h
  unfold prepare_lights_buffer at h1
  replace h1 := (ASSERT_bind_ok h1).2
  replace h1 := (ASSERT_bind_ok h1).2
  replace h1 := (deref_bind_ok h1).2
  cases h1
  unfold prepare_lights_extent_buffer at h2
  cases h2
  unfold prepare_lights_bind_groups at h
  replace h := (ASSERT_bind_ok h).2
  replace h := (ASSERT_bind_ok h).2
  cases h
  simp [StepWrites, emit_log, List.filterMap_append, Effect.uint32_write?]

theorem prepare_view_matrices_writes {K : Type} [Field K] {env : Env K}
    {cs cs' : Context K × State K} (h : prepare_view_matrices env cs = .ok cs') :
    StepWrites cs cs' [] := by
  unfold prepare_view_matrices at h
  cases h
  simp [StepWrites, emit_log, List.filterMap_append, Effect.uint32_write?]

theorem example_initialize_writes {K : Type} [Field K] {env : Env K} {ctx ctx' : Context K}
    {s s' : State K} {r : Int}
    (h : example_initialize env (some ctx) s = .ok (r, some ctx', s')) :
    StepWrites (ctx, s) (ctx', s')
      [(env.device .config_uniform_buffer, (s.settings.num_lights % 2 ^ 32).toNat)] := by
  unfold example_initialize at h
  simp only [] at h
  obtain ⟨cs0, h0, h⟩ := bind_ok h
  obtain ⟨cs1, h1, h⟩ := bind_ok h
  obtain ⟨cs2, h2, h⟩ := bind_ok h
  obtain ⟨cs3, h3, h⟩ := bind_ok h
  obtain ⟨cs4, h4, h⟩ := bind_ok h
  obtain ⟨cs5, h5, h⟩ := bind_ok h
  obtain ⟨cs6, h6, h⟩ := bind_ok h
  obtain ⟨cs7, h7, h⟩ := bind_ok h
  obtain ⟨cs8, h8, h⟩ := bind_ok h
  obtain ⟨cs9, h9, h⟩ := bind_ok h
  obtain ⟨cs10, h10, h⟩ := bind_ok h
  obtain ⟨cs11, h11, h⟩ := bind_ok h
  obtain ⟨cs12, h12, h⟩ := bind_ok h
  obtain ⟨cs13, h13, h⟩ := bind_ok h
  cases h
  have hset : cs8.2.settings = s.settings := by
    rw [setup_render_passes_state h8, prepare_deferred_render_pipeline_state h7,
      prepare_gbuffers_debug_view_pipeline_state h6, prepare_write_gbuffers_pipeline_state h5,
      prepare_render_pipeline_layouts_state h4, prepare_bind_group_layouts_state h3,
      prepare_gbuffer_texture_render_targets_state h2,
      prepare_vertex_and_index_buffers_state h1, (stanford_dragon_mesh_init_log h0).2]
  have w9 := prepare_uniform_buffers_writes h9
  rw [hset] at w9
  have w1 := step_writes_trans (stanford_dragon_mesh_init_writes h0)
    (prepare_vertex_and_index_buffers_writes h1)
  have w2 := step_writes_trans w1 (prepare_gbuffer_texture_render_targets_writes h2)
  have w3 := step_writes_trans w2 (prepare_bind_group_layouts_writes h3)
  have w4 := step_writes_trans w3 (prepare_render_pipeline_layouts_writes h4)
  have w5 := step_writes_trans w4 (prepare_write_gbuffers_pipeline_writes h5)
  have w6 := step_writes_trans w5 (prepare_gbuffers_debug_view_pipeline_writes h6)
  have w7 := step_writes_trans w6 (prepare_deferred_render_pipeline_writes h7)
  have w8 := step_writes_trans w7 (setup_render_passes_writes h8)
  have w9' := step_writes_trans w8 w9
  have w10 := step_writes_trans w9' (prepare_compute_pipeline_layout_writes h10)
  have w11 := step_writes_trans w10 (prepare_light_update_compute_pipeline_writes h11)
  have w12 := step_writes_trans w11 (prepare_lights_writes h12)
  have w13 := step_writes_trans w12 (prepare_view_matrices_writes h13)
  exact w13

/-! ### The active light count -/

theorem example_render_settings {K : Type} [Field K] {env : Env K} {inp : FrameInput}
    {cs : Context K × State K} {r : Int × Context K × State K}
    (h : example_render env inp cs = .ok r) :
    r.2.2.settings
      = if cs.2.prepared then overlay_settings_shown inp.overlay cs.2.settings
        else cs.2.settings := by
  rcases example_render_ok h with ⟨hp, rfl⟩ | ⟨hp, d, hd, _, h2⟩
  · rw [hp]
    rfl
  · have e := (@example_draw_effect _ _ _ cs.1 cs.2 _ hd).2.1
    rw [hp, if_pos rfl]
    by_cases hq : d.2.1.paused = true
    · rw [hq, if_pos rfl] at h2
      rw [h2, e]
    · rw [Bool.not_eq_true] at hq
      rw [hq, if_neg (by decide)] at h2
      rw [h2, update_uniform_buffers_state]
      show d.2.2.settings = _
      rw [e]

theorem run_frames_cons_ok {K : Type} [Field K] {env : Env K} {f : K × FrameInput}
    {frames : List (K × FrameInput)} {cs cs' : Context K × State K}
    (h : run_frames env (f :: frames) cs = .ok cs') :
    ∃ r, example_render env f.2 ({ cs.1 with frame_timestamp_millis := f.1 }, cs.2) = .ok r
      ∧ run_frames env frames r.2 = .ok cs' := by
  unfold run_frames at h
  obtain ⟨r, h1, h2⟩ := bind_ok h
  exact ⟨r, h1, h2⟩

/-- A run of frames returns when in each frame `wgpu_get_command_buffer` returns a
command buffer, and also when `ASSERT` only reports. -/
theorem run_frames_returns {K : Type} [Field K] (env : Env K)
    (frames : List (K × FrameInput))
    (hc : ∀ f ∈ frames, f.2.finished = true ∨ env.assert_stops = false)
    (cs : Context K × State K) : ∃ cs', run_frames env frames cs = .ok cs' := by
  induction frames generalizing cs with
  | nil => exact ⟨cs, rfl⟩
  | cons f frames ih =>
    obtain ⟨r, hr⟩ := example_render_returns env f.2
      ({ cs.1 with frame_timestamp_millis := f.1 }, cs.2) (hc f (List.mem_cons_self _ _))
    obtain ⟨cs', h'⟩ := ih (fun g hg => hc g (List.mem_cons_of_mem _ hg)) r.2
    refine ⟨cs', ?_⟩
    unfold run_frames
    rw [hr]
    exact h'

theorem overlay_settings_within_bounds (ui : Overlay) (st : Settings)
    (hui : ui.slider_within_bounds)
    (h : 1 ≤ st.num_lights ∧ st.num_lights ≤ max_num_lights) :
    1 ≤ (overlay_settings ui st).num_lights
      ∧ (overlay_settings ui st).num_lights ≤ max_num_lights := by
  unfold overlay_settings
  by_cases hh : ui.header = true
  · rw [if_pos hh]
    exact hui st.num_lights h.1 h.2
  · rw [if_neg hh]
    exact h

theorem overlay_settings_shown_within_bounds (ui : Overlay) (st : Settings)
    (hui : ui.slider_within_bounds)
    (h : 1 ≤ st.num_lights ∧ st.num_lights ≤ max_num_lights) :
    1 ≤ (overlay_settings_shown ui st).num_lights
      ∧ (overlay_settings_shown ui st).num_lights ≤ max_num_lights := by
  unfold overlay_settings_shown
  by_cases hh : ui.shown = true
  · rw [if_pos hh]
    exact overlay_settings_within_bounds ui st hui h
  · rw [if_neg hh]
    exact h

theorem run_overlay_within_bounds {K : Type} (uis : List Overlay)
    (huis : ∀ ui ∈ uis, ui.slider_within_bounds) (cs : Context K × State K)
    (h : 1 ≤ cs.2.settings.num_lights ∧ cs.2.settings.num_lights ≤ max_num_lights) :
    1 ≤ (run_overlay uis cs).2.settings.num_lights
      ∧ (run_overlay uis cs).2.settings.num_lights ≤ max_num_lights := by
  induction uis generalizing cs with
  | nil => exact h
  | cons ui uis ih =>
    show 1 ≤ (run_overlay uis (example_on_update_ui_overlay ui cs)).2.settings.num_lights ∧ _
    apply ih (fun u hu => huis u (List.mem_cons_of_mem _ hu))
    rw [overlay_settings_eq]
    exact overlay_settings_within_bounds ui _ (huis ui (List.mem_cons_self _ _)) h

theorem run_frames_within_bounds {K : Type} [Field K] (env : Env K)
    (frames : List (K × FrameInput))
    (hframes : ∀ f ∈ frames, f.2.overlay.slider_within_bounds) (cs cs' : Context K × State K)
    (hrun : run_frames env frames cs = .ok cs')
    (h : 1 ≤ cs.2.settings.num_lights ∧ cs.2.settings.num_lights ≤ max_num_lights) :
    1 ≤ cs'.2.settings.num_lights ∧ cs'.2.settings.num_lights ≤ max_num_lights := by
  induction frames generalizing cs with
  | nil =>
    cases hrun
    exact h
  | cons f frames ih =>
    obtain ⟨r, h1, h2⟩ := run_frames_cons_ok hrun
    apply ih (fun u hu => hframes u (List.mem_cons_of_mem _ hu)) r.2 h2
    rw [example_render_settings h1]
    by_cases hp : cs.2.prepared = true
    · rw [if_pos hp]
      exact overlay_settings_shown_within_bounds f.2.overlay _
        (hframes f (List.mem_cons_self _ _)) h
    · rw [if_neg hp]
      exact h

theorem uint32_of_num_lights (n : Int) (h : 1 ≤ n ∧ n ≤ max_num_lights) :
    (((n % 2 ^ 32).toNat : Nat) : Int) = n := by
  have h2 : n ≤ 1024 := h.2
  have h3 : n % 2 ^ 32 = n := Int.emod_eq_of_lt (by omega) (by omega)
  rw [h3]
  exact Int.toNat_of_nonneg (by omega)

theorem sample_overlay_within_bounds : sample_overlay.slider_within_bounds := by
  intro v _ _
  show (1 : Int) ≤ 256 ∧ (256 : Int) ≤ ((max_num_lights : Nat) : Int)
  exact ⟨by norm_num, by decide⟩

/-- C14. The active light count stays within `[1, 1024]`. `settings.num_lights` starts
at 128 and `max_num_lights` is 1024; `example_initialize` leaves it at 128; assuming
that the overlay slider, called with the bounds 1 and `max_num_lights`, leaves a value
within them, the count is within `[1, 1024]` after any sequence of frames and of
overlay updates that follows setup (the frames return when `wgpu_get_command_buffer`
returns a command buffer in each). In every state with the count within the bounds,
the `uint32_t` that the config buffer receives at creation and the one the overlay
callback writes are the count itself (the conversion does not wrap), and the callback
writes nothing else. -/
theorem num_lights_within_bounds {K : Type} [Field K] (env : Env K) (ctx ctx' : Context K)
    (s' : State K) (r : Int) (frames : List (K × FrameInput)) (uis : List Overlay)
    (hinit : example_initialize env (some ctx) State.initial = .ok (r, some ctx', s'))
    (hframes : ∀ f ∈ frames, f.2.overlay.slider_within_bounds)
    (huis : ∀ ui ∈ uis, ui.slider_within_bounds) :
    (State.initial : State K).settings.num_lights = 128
      ∧ max_num_lights = 1024
      ∧ s'.settings.num_lights = 128
      ∧ (∀ cs1, run_frames env frames (ctx', s') = .ok cs1 →
          1 ≤ (run_overlay uis cs1).2.settings.num_lights
            ∧ (run_overlay uis cs1).2.settings.num_lights ≤ 1024)
      ∧ ((∀ f ∈ frames, f.2.finished = true ∨ env.assert_stops = false) →
          ∃ cs1, run_frames env frames (ctx', s') = .ok cs1)
      ∧ (∀ cs cs' : Context K × State K,
          1 ≤ cs.2.settings.num_lights → cs.2.settings.num_lights ≤ 1024 →
          prepare_uniform_buffers env cs = .ok cs' →
          ∃ v : Nat, (v : Int) = cs'.2.settings.num_lights
            ∧ cs'.1.log.filterMap Effect.uint32_write?
                = cs.1.log.filterMap Effect.uint32_write?
                    ++ [(cs'.2.lights.config_uniform_buffer, v)])
      ∧ (∀ (ui : Overlay) (cs : Context K × State K), ui.slider_within_bounds →
          1 ≤ cs.2.settings.num_lights → cs.2.settings.num_lights ≤ 1024 →
          (example_on_update_ui_overlay ui cs).1.log = cs.1.log
            ∨ ∃ v : Nat, (v : Int) = (example_on_update_ui_overlay ui cs).2.settings.num_lights
                ∧ (example_on_update_ui_overlay ui cs).1.log
                    = cs.1.log ++ [Effect.queue_write_uint32
                        cs.2.lights.config_uniform_buffer 0 [v] sizeof_float]) := by
  have hs' : s'.settings.num_lights = 128 := by
    rw [(example_initialize_ok hinit).2.1]
    rfl
  have hb : 1 ≤ s'.settings.num_lights ∧ s'.settings.num_lights ≤ max_num_lights := by
    rw [hs']
    exact ⟨by norm_num, by decide⟩
  refine ⟨rfl, rfl, hs', ?_, fun hc => run_frames_returns env frames hc (ctx', s'), ?_, ?_⟩
  · intro cs1 hrun
    exact run_overlay_within_bounds uis huis _
      (run_frames_within_bounds env frames hframes (ctx', s') cs1 hrun hb)
  · intro cs cs' h1 h2 hok
    have hst := prepare_uniform_buffers_state hok
    have hn : cs'.2.settings.num_lights = cs.2.settings.num_lights := by rw [hst]
    have hc : cs'.2.lights.config_uniform_buffer = env.device .config_uniform_buffer := by
      rw [hst]
    refine ⟨(cs.2.settings.num_lights % 2 ^ 32).toNat, ?_, ?_⟩
    · rw [hn]
      exact uint32_of_num_lights _ ⟨h1, h2⟩
    · rw [hc]
      exact prepare_uniform_buffers_writes hok
  · intro ui cs hui h1 h2
    have hn := overlay_settings_within_bounds ui cs.2.settings hui ⟨h1, h2⟩
    rw [← overlay_settings_eq ui cs] at hn
    rcases (overlay_effect ui cs).2.2 with h | h
    · exact Or.inl h
    · exact Or.inr ⟨_, uint32_of_num_lights _ hn, h⟩

/-- C14, in the sample run: setup, one frame and one further overlay update in which
the slider is moved to 256 return, and the count is then 256. -/
theorem num_lights_within_bounds_witness :
    ∃ cs1, run_frames sample_env [(0, sample_frame)] sample_ready = .ok cs1
      ∧ (run_overlay [sample_overlay] cs1).2.settings.num_lights = 256
      ∧ 1 ≤ (run_overlay [sample_overlay] cs1).2.settings.num_lights
      ∧ (run_overlay [sample_overlay] cs1).2.settings.num_lights ≤ 1024 := by
  have h := num_lights_within_bounds sample_env sample_context sample_ready.1 sample_ready.2 0
    [(0, sample_frame)] [sample_overlay] (by rfl)
    (by
      intro f hf
      rw [List.mem_singleton] at hf
      subst hf
      exact sample_overlay_within_bounds)
    (by
      intro ui hu
      rw [List.mem_singleton] at hu
      subst hu
      exact sample_overlay_within_bounds)
  obtain ⟨cs1, h1⟩ := h.2.2.2.2.1 (by
    intro f hf
    rw [List.mem_singleton] at hf
    subst hf
    exact Or.inl rfl)
  have hb := h.2.2.2.1 cs1 h1
  refine ⟨cs1, h1, ?_, hb.1, hb.2⟩
  have hc : ((run_frames sample_env [(0, sample_frame)] sample_ready).toOption.map fun cs =>
      (run_overlay [sample_overlay] cs).2.settings.num_lights) = some 256 := by rfl
  rw [h1] at hc
  exact Option.some.inj hc

/-! ### The content of the config uniform buffer -/

theorem uint32_content_of_write {K : Type} (log log' : List (Effect K)) (b : Handle) (v : Nat)
    (h : log'.filterMap Effect.uint32_write? = log.filterMap Effect.uint32_write? ++ [(b, v)]) :
    uint32_content log' b = some v := by
  unfold uint32_content
  rw [h, List.filter_append]
  simp

theorem uint32_content_of_same {K : Type} (log log' : List (Effect K)) (b : Handle)
    (h : log'.filterMap Effect.uint32_write? = log.filterMap Effect.uint32_write?) :
    uint32_content log' b = uint32_content log b := by
  unfold uint32_content
  rw [h]

/-- What a step does to the config buffer and the count: it keeps the buffer handle,
and either writes nothing and keeps the count, or writes the new count to the
buffer. -/
theorem holds_of_step {K : Type} (cs cs' : Context K × State K)
    (hc : cs'.2.lights.config_uniform_buffer = cs.2.lights.config_uniform_buffer)
    (hw : (cs'.1.log.filterMap Effect.uint32_write? = cs.1.log.filterMap Effect.uint32_write?
            ∧ cs'.2.settings.num_lights = cs.2.settings.num_lights)
          ∨ cs'.1.log.filterMap Effect.uint32_write?
              = cs.1.log.filterMap Effect.uint32_write?
                  ++ [(cs.2.lights.config_uniform_buffer,
                       (cs'.2.settings.num_lights % 2 ^ 32).toNat)])
    (h : config_holds_num_lights cs) : config_holds_num_lights cs' := by
  unfold config_holds_num_lights at *
  rw [hc]
  rcases hw with ⟨h1, h2⟩ | h1
  · rw [uint32_content_of_same _ _ _ h1, h2]
    exact h
  · exact uint32_content_of_write _ _ _ _ h1

theorem overlay_writes {K : Type} (ui : Overlay) (cs : Context K × State K)
    (hui : ui.slider_reports_change) :
    ((example_on_update_ui_overlay ui cs).1.log = cs.1.log
        ∧ (example_on_update_ui_overlay ui cs).2.settings.num_lights
            = cs.2.settings.num_lights)
      ∨ (example_on_update_ui_overlay ui cs).1.log
          = cs.1.log ++ [Effect.queue_write_uint32 cs.2.lights.config_uniform_buffer 0
              [((example_on_update_ui_overlay ui cs).2.settings.num_lights % 2 ^ 32).toNat]
              sizeof_float] := by
  unfold example_on_update_ui_overlay
  by_cases hh : ui.header = true
  · rw [if_pos hh]
    simp only []
    by_cases hc : (ui.combo_box cs.2.settings.current_render_mode).1 = true
    · rw [if_pos hc]
      by_cases hsl : (ui.slider_int cs.2.settings.num_lights 1 max_num_lights).1 = true
      · rw [if_pos hsl]
        exact Or.inr rfl
      · rw [if_neg hsl]
        rw [Bool.not_eq_true] at hsl
        exact Or.inl ⟨rfl, hui _ _ _ hsl⟩
    · rw [if_neg hc]
      by_cases hsl : (ui.slider_int cs.2.settings.num_lights 1 max_num_lights).1 = true
      · rw [if_pos hsl]
        exact Or.inr rfl
      · rw [if_neg hsl]
        rw [Bool.not_eq_true] at hsl
        exact Or.inl ⟨rfl, hui _ _ _ hsl⟩
  · rw [if_neg hh]
    exact Or.inl ⟨rfl, rfl⟩

theorem overlay_holds {K : Type} (ui : Overlay) (cs : Context K × State K)
    (hui : ui.slider_reports_change) (h : config_holds_num_lights cs) :
    config_holds_num_lights (example_on_update_ui_overlay ui cs) := by
  have hst := (overlay_effect ui cs).2.1
  refine holds_of_step cs _ (by rw [hst]) ?_ h
  rcases overlay_writes ui cs hui with ⟨h1, h2⟩ | h1
  · exact Or.inl ⟨by rw [h1], h2⟩
  · refine Or.inr ?_
    rw [h1, List.filterMap_append]
    simp [Effect.uint32_write?]

theorem draw_ui_holds {K : Type} (ui : Overlay) (cs : Context K × State K)
    (hui : ui.slider_reports_change) (h : config_holds_num_lights cs) :
    config_holds_num_lights (draw_ui ui cs) := by
  unfold draw_ui
  by_cases hs : ui.shown = true
  · rw [if_pos hs]
    exact overlay_holds ui cs hui h
  · rw [if_neg hs]
    exact h

theorem example_draw_holds {K : Type} {env : Env K} {inp : FrameInput}
    {cs : Context K × State K} {d : Int × Context K × State K}
    (hd : example_draw env inp cs = .ok d)
    (hui : inp.overlay.slider_reports_change) (h : config_holds_num_lights cs) :
    config_holds_num_lights d.2 := by
  obtain ⟨ctx, s⟩ := cs
  obtain ⟨b, hb, rfl⟩ := example_draw_ok hd
  obtain ⟨_, _, h1, h2⟩ := build_command_buffer_ok hb
  generalize hc0 : (({ prepare_frame inp ctx with cmd_enc_handle := inp.command_encoder }).emit
      (.create_command_encoder inp.command_encoder) : Context K) = c0 at h1 h2
  have k1 : config_holds_num_lights (passes_recorded c0 s) := by
    refine holds_of_step (ctx, s) _ rfl (Or.inl ⟨?_, rfl⟩) h
    show c0.log.filterMap Effect.uint32_write? = _
    rw [← hc0]
    show ((ctx.log ++ [Effect.prepare_frame inp.frame_buffer]
      ++ [Effect.create_command_encoder inp.command_encoder]).filterMap
      Effect.uint32_write?) = _
    simp [List.filterMap_append, Effect.uint32_write?]
  have k2 := draw_ui_holds inp.overlay _ hui k1
  have hl : (submit_frame (submit_command_buffers
        { b.2.1 with submit_info_command_buffers := [b.1] })).log
      = (draw_ui inp.overlay (passes_recorded c0 s)).1.log
          ++ (if (draw_ui inp.overlay (passes_recorded c0 s)).1.cmd_enc_handle.isSome then
                [Effect.release_command_encoder
                  (draw_ui inp.overlay (passes_recorded c0 s)).1.cmd_enc_handle] else [])
          ++ [Effect.submit [b.1], Effect.submit_frame] := by
    unfold submit_frame submit_command_buffers
    simp only [emit_log, List.append_assoc, List.singleton_append]
    rw [h1, release_command_encoder_eq]
    simp only [List.append_assoc]
  refine holds_of_step _ _ (by show b.2.2.lights.config_uniform_buffer = _; rw [h2])
    (Or.inl ⟨?_, by show b.2.2.settings.num_lights = _; rw [h2]⟩) k2
  show (submit_frame (submit_command_buffers
    { b.2.1 with submit_info_command_buffers := [b.1] })).log.filterMap _ = _
  rw [hl]
  split_ifs <;> simp [List.filterMap_append, Effect.uint32_write?]

theorem update_uniform_buffers_holds {K : Type} [Field K] (M : ExternMath K)
    (cs : Context K × State K) (h : config_holds_num_lights cs) :
    config_holds_num_lights (update_uniform_buffers M cs) := by
  refine holds_of_step cs _ rfl (Or.inl ⟨?_, rfl⟩) h
  unfold update_uniform_buffers
  simp [emit_log, List.filterMap_append, Effect.uint32_write?]

theorem example_render_holds {K : Type} [Field K] {env : Env K} {inp : FrameInput}
    {cs : Context K × State K} {r : Int × Context K × State K}
    (hr : example_render env inp cs = .ok r) (hui : inp.overlay.slider_reports_change)
    (h : config_holds_num_lights cs) :
    config_holds_num_lights r.2 := by
  rcases example_render_ok hr with ⟨_, rfl⟩ | ⟨_, d, hd, _, h2⟩
  · exact h
  · have k := example_draw_holds hd hui h
    rw [h2]
    by_cases hq : d.2.1.paused = true
    · rw [hq, if_pos rfl]
      exact k
    · rw [Bool.not_eq_true] at hq
      rw [hq, if_neg (by decide)]
      exact update_uniform_buffers_holds env.math _ k

theorem run_frames_holds {K : Type} [Field K] (env : Env K)
    (frames : List (K × FrameInput))
    (hframes : ∀ f ∈ frames, f.2.overlay.slider_reports_change) (cs cs' : Context K × State K)
    (hrun : run_frames env frames cs = .ok cs')
    (h : config_holds_num_lights cs) : config_holds_num_lights cs' := by
  induction frames generalizing cs with
  | nil =>
    cases hrun
    exact h
  | cons f frames ih =>
    obtain ⟨r, h1, h2⟩ := run_frames_cons_ok hrun
    apply ih (fun u hu => hframes u (List.mem_cons_of_mem _ hu)) r.2 h2
    exact example_render_holds h1 (hframes f (List.mem_cons_self _ _)) h

theorem prepare_uniform_buffers_holds {K : Type} {env : Env K}
    {cs cs' : Context K × State K} (h : prepare_uniform_buffers env cs = .ok cs') :
    config_holds_num_lights cs' := by
  have hst := prepare_uniform_buffers_state h
  have hn : cs'.2.settings.num_lights = cs.2.settings.num_lights := by rw [hst]
  have hc : cs'.2.lights.config_uniform_buffer = env.device .config_uniform_buffer := by
    rw [hst]
  unfold config_holds_num_lights
  rw [hn, hc]
  exact uint32_content_of_write _ _ _ _ (prepare_uniform_buffers_writes h)

theorem example_initialize_holds {K : Type} [Field K] {env : Env K} {ctx ctx' : Context K}
    {s s' : State K} {r : Int}
    (h : example_initialize env (some ctx) s = .ok (r, some ctx', s')) :
    config_holds_num_lights (ctx', s') := by
  have hst := (example_initialize_ok h).2.1
  have hn : s'.settings.num_lights = s.settings.num_lights := by rw [hst]; rfl
  have hc : s'.lights.config_uniform_buffer = env.device .config_uniform_buffer := by
    rw [hst]; rfl
  unfold config_holds_num_lights
  show uint32_content ctx'.log s'.lights.config_uniform_buffer = _
  rw [hn, hc]
  exact uint32_content_of_write _ _ _ _ (example_initialize_writes h)

theorem prepare_lights_bind_groups_created {K : Type} [Field K] {env : Env K}
    {cs cs' : Context K × State K} (h : prepare_lights env cs = .ok cs') :
    Effect.create_bind_group .lights_buffer_bind_group cs'.2.lights.buffer_bind_group_layout
        (lights_buffer_bind_group_entries cs'.2) cs'.2.lights.buffer_bind_group ∈ cs'.1.log
      ∧ Effect.create_bind_group .lights_buffer_compute_bind_group
          (env.device .light_update_compute_pipeline_bind_group_layout_0)
          (lights_buffer_compute_bind_group_entries cs'.2)
          cs'.2.lights.buffer_compute_bind_group ∈ cs'.1.log := by
  unfold prepare_lights at h
  obtain ⟨cs1, h1, h⟩ := bind_ok h
  obtain ⟨cs2, h2, h⟩ := bind_ok h
  unfold prepare_lights_buffer at h1
  replace h1 := (ASSERT_bind_ok h1).2
  replace h1 := (ASSERT_bind_ok h1).2
  replace h1 := (deref_bind_ok h1).2
  cases h1
  unfold prepare_lights_extent_buffer at h2
  cases h2
  unfold prepare_lights_bind_groups at h
  replace h := (ASSERT_bind_ok h).2
  replace h := (ASSERT_bind_ok h).2
  cases h
  simp [emit_log, lights_buffer_bind_group_entries, lights_buffer_compute_bind_group_entries]

theorem example_initialize_bind_groups {K : Type} [Field K] {env : Env K}
    {ctx ctx' : Context K} {s s' : State K} {r : Int}
    (h : example_initialize env (some ctx) s = .ok (r, some ctx', s')) :
    Effect.create_bind_group .lights_buffer_bind_group s'.lights.buffer_bind_group_layout
        (lights_buffer_bind_group_entries s') s'.lights.buffer_bind_group ∈ ctx'.log
      ∧ Effect.create_bind_group .lights_buffer_compute_bind_group
          (env.device .light_update_compute_pipeline_bind_group_layout_0)
          (lights_buffer_compute_bind_group_entries s')
          s'.lights.buffer_compute_bind_group ∈ ctx'.log := by
  unfold example_initialize at h
  simp only [] at h
  obtain ⟨cs0, h0, h⟩ := bind_ok h
  obtain ⟨cs1, h1, h⟩ := bind_ok h
  obtain ⟨cs2, h2, h⟩ := bind_ok h
  obtain ⟨cs3, h3, h⟩ := bind_ok h
  obtain ⟨cs4, h4, h⟩ := bind_ok h
  obtain ⟨cs5, h5, h⟩ := bind_ok h
  obtain ⟨cs6, h6, h⟩ := bind_ok h
  obtain ⟨cs7, h7, h⟩ := bind_ok h
  obtain ⟨cs8, h8, h⟩ := bind_ok h
  obtain ⟨cs9, h9, h⟩ := bind_ok h
  obtain ⟨cs10, h10, h⟩ := bind_ok h
  obtain ⟨cs11, h11, h⟩ := bind_ok h
  obtain ⟨cs12, h12, h⟩ := bind_ok h
  obtain ⟨cs13, h13, h⟩ := bind_ok h
  cases h
  have hb := prepare_lights_bind_groups_created h12
  have hst := prepare_view_matrices_state h13
  have hlog : ∀ e, e ∈ cs12.1.log → e ∈ cs13.1.log := by
    intro e he
    unfold prepare_view_matrices at h13
    cases h13
    simp only [emit_log, List.mem_append]
    exact Or.inl (Or.inl he)
  refine ⟨?_, ?_⟩
  · have := hlog _ hb.1
    rw [hst]
    exact this
  · have := hlog _ hb.2
    rw [hst]
    exact this

theorem sample_overlay_reports_change : sample_overlay.slider_reports_change := by
  intro v lo hi h
  cases h

/-- C15. The active count is one 4-byte scalar read by both consumers. When
`prepare_uniform_buffers` returns, and so when `example_initialize` returns, the
`uint32_t` at offset 0 of `lights.config_uniform_buffer` is `settings.num_lights`
(converted to `uint32_t`), and the buffer is 4 bytes long. Assuming that the overlay
slider returns `true` whenever it changes the value, this still holds after every call
of `example_on_update_ui_overlay` and after every frame of `example_render` (a frame
returns when `wgpu_get_command_buffer` returns a command buffer). The bind group the
fragment stage reads and the compute bind group are both created with
`lights.config_uniform_buffer`, 4 bytes, at binding 1. -/
theorem config_uniform_buffer_holds_num_lights {K : Type} [Field K] (env : Env K)
    (ctx ctx' : Context K) (s s' : State K) (r : Int) (frames : List (K × FrameInput))
    (ui : Overlay)
    (hinit : example_initialize env (some ctx) s = .ok (r, some ctx', s'))
    (hframes : ∀ f ∈ frames, f.2.overlay.slider_reports_change)
    (hui : ui.slider_reports_change) :
    (∀ cs cs' : Context K × State K, prepare_uniform_buffers env cs = .ok cs' →
        config_holds_num_lights cs' ∧ cs'.2.lights.config_uniform_buffer_size = 4)
      ∧ config_holds_num_lights (ctx', s')
      ∧ (∀ cs : Context K × State K, config_holds_num_lights cs →
          config_holds_num_lights (example_on_update_ui_overlay ui cs)
            ∧ (example_on_update_ui_overlay ui cs).2.lights.config_uniform_buffer
                = cs.2.lights.config_uniform_buffer)
      ∧ (∀ cs1, run_frames env frames (ctx', s') = .ok cs1 →
          config_holds_num_lights cs1
            ∧ config_holds_num_lights (example_on_update_ui_overlay ui cs1))
      ∧ (∀ (inp : FrameInput) (cs : Context K × State K) (r1 : Int × Context K × State K),
          inp.overlay.slider_reports_change → config_holds_num_lights cs →
          example_render env inp cs = .ok r1 → config_holds_num_lights r1.2)
      ∧ ((∀ f ∈ frames, f.2.finished = true ∨ env.assert_stops = false) →
          ∃ cs1, run_frames env frames (ctx', s') = .ok cs1)
      ∧ (lights_buffer_bind_group_entries s')[1]?
          = some { binding := 1, buffer := s'.lights.config_uniform_buffer, size := 4,
                   textureView := none }
      ∧ (lights_buffer_compute_bind_group_entries s')[1]?
          = some { binding := 1, buffer := s'.lights.config_uniform_buffer, size := 4,
                   textureView := none }
      ∧ Effect.create_bind_group .lights_buffer_bind_group s'.lights.buffer_bind_group_layout
          (lights_buffer_bind_group_entries s') s'.lights.buffer_bind_group ∈ ctx'.log
      ∧ Effect.create_bind_group .lights_buffer_compute_bind_group
          (env.device .light_update_compute_pipeline_bind_group_layout_0)
          (lights_buffer_compute_bind_group_entries s')
          s'.lights.buffer_compute_bind_group ∈ ctx'.log := by
  have hst := (example_initialize_ok hinit).2.1
  have h0 := example_initialize_holds hinit
  have hb := example_initialize_bind_groups hinit
  have hsize : s'.lights.config_uniform_buffer_size = 4 := by rw [hst]; rfl
  refine ⟨?_, h0, ?_, ?_, ?_, fun hc => run_frames_returns env frames hc (ctx', s'),
    ?_, ?_, hb.1, hb.2⟩
  · intro cs cs' h
    refine ⟨prepare_uniform_buffers_holds h, ?_⟩
    rw [prepare_uniform_buffers_state h]
    rfl
  · intro cs h
    refine ⟨overlay_holds ui cs hui h, ?_⟩
    rw [(overlay_effect ui cs).2.1]
  · intro cs1 hrun
    have hf := run_frames_holds env frames hframes (ctx', s') cs1 hrun h0
    exact ⟨hf, overlay_holds ui _ hui hf⟩
  · intro inp cs r1 hi hc hr
    exact example_render_holds hr hi hc
  · simp [lights_buffer_bind_group_entries, hsize]
  · simp [lights_buffer_compute_bind_group_entries, hsize]

/-- C15, in the sample run: setup and a frame in which the slider is moved to 256
return, and the config buffer then holds 256, the new count. -/
theorem config_uniform_buffer_holds_num_lights_witness :
    ∃ cs1, run_frames sample_env [(0, sample_frame)] sample_ready = .ok cs1
      ∧ cs1.2.settings.num_lights = 256
      ∧ uint32_content cs1.1.log cs1.2.lights.config_uniform_buffer = some 256 := by
  have h := config_uniform_buffer_holds_num_lights sample_env sample_context sample_ready.1
    State.initial sample_ready.2 0 [(0, sample_frame)] sample_overlay (by rfl)
    (by
      intro f hf
      rw [List.mem_singleton] at hf
      subst hf
      exact sample_overlay_reports_change)
    sample_overlay_reports_change
  obtain ⟨cs1, h1⟩ := h.2.2.2.2.2.1 (by
    intro f hf
    rw [List.mem_singleton] at hf
    subst hf
    exact Or.inl rfl)
  have hn : cs1.2.settings.num_lights = 256 := by
    have hc : ((run_frames sample_env [(0, sample_frame)] sample_ready).toOption.map fun cs =>
        cs.2.settings.num_lights) = some 256 := by rfl
    rw [h1] at hc
    exact Option.some.inj hc
  have hh : config_holds_num_lights cs1 := (h.2.2.2.1 cs1 h1).1
  refine ⟨cs1, h1, hn, ?_⟩
  unfold config_holds_num_lights at hh
  rw [hh, hn]
  rfl

/-! ### What a frame creates, releases and keeps -/

theorem example_render_state {K : Type} [Field K] {env : Env K} {inp : FrameInput}
    {cs : Context K × State K} {r : Int × Context K × State K}
    (h : example_render env inp cs = .ok r) :
    r.2.2
      = { cs.2 with
          settings := r.2.2.settings
          texture_quad_pass := r.2.2.texture_quad_pass
          view_matrices := r.2.2.view_matrices } := by
  rcases example_render_ok h with ⟨_, rfl⟩ | ⟨_, d, hd, _, h2⟩
  · rfl
  · have e := (@example_draw_effect _ _ _ cs.1 cs.2 _ hd).2.1
    by_cases hq : d.2.1.paused = true
    · rw [hq, if_pos rfl] at h2
      rw [h2, e]
    · rw [Bool.not_eq_true] at hq
      rw [hq, if_neg (by decide)] at h2
      rw [h2, update_uniform_buffers_state]
      show (get_camera_view_proj_matrix env.math d.2.1 d.2.2).2 = _
      rw [e]
      rfl

theorem example_render_sites {K : Type} [Field K] {env : Env K} {inp : FrameInput}
    {cs : Context K × State K} {r : Int × Context K × State K}
    (h : example_render env inp cs = .ok r) :
    r.2.1.log.filterMap Effect.site? = cs.1.log.filterMap Effect.site?
      ∧ r.2.1.log.filterMap Effect.released? = cs.1.log.filterMap Effect.released? := by
  rcases example_render_ok h with ⟨_, rfl⟩ | ⟨_, d, hd, _, h2⟩
  · exact ⟨rfl, rfl⟩
  · obtain ⟨ws, hl, hws⟩ := (@example_draw_effect _ _ _ cs.1 cs.2 _ hd).2.2.2
    have hdl : d.2.1.log.filterMap Effect.site? = cs.1.log.filterMap Effect.site?
        ∧ d.2.1.log.filterMap Effect.released? = cs.1.log.filterMap Effect.released? := by
      rw [hl]
      rcases hws with h | h <;> rw [h] <;> split_ifs <;>
        simp [List.filterMap_append, Effect.site?, Effect.released?]
    by_cases hq : d.2.1.paused = true
    · rw [hq, if_pos rfl] at h2
      rw [h2]
      exact hdl
    · rw [Bool.not_eq_true] at hq
      rw [hq, if_neg (by decide)] at h2
      rw [h2, ← hdl.1, ← hdl.2]
      unfold update_uniform_buffers
      simp [emit_log, List.filterMap_append, Effect.site?, Effect.released?]

theorem run_frames_keeps {K : Type} [Field K] (env : Env K)
    (frames : List (K × FrameInput)) (cs cs' : Context K × State K)
    (hrun : run_frames env frames cs = .ok cs') :
    cs'.2
        = { cs.2 with
            settings := cs'.2.settings
            texture_quad_pass := cs'.2.texture_quad_pass
            view_matrices := cs'.2.view_matrices }
      ∧ cs'.1.log.filterMap Effect.site? = cs.1.log.filterMap Effect.site?
      ∧ cs'.1.log.filterMap Effect.released? = cs.1.log.filterMap Effect.released? := by
  induction frames generalizing cs with
  | nil =>
    cases hrun
    exact ⟨rfl, rfl, rfl⟩
  | cons f frames ih =>
    obtain ⟨r, hr, h2⟩ := run_frames_cons_ok hrun
    have h1 := example_render_state hr
    have h2' := example_render_sites hr
    have h3 := ih r.2 h2
    refine ⟨?_, ?_, ?_⟩
    · rw [h3.1, h1]
    · exact h3.2.1.trans h2'.1
    · exact h3.2.2.trans h2'.2

theorem example_initialize_after_lights {K : Type} [Field K] {env : Env K}
    {ctx ctx' : Context K} {s s' : State K} {r : Int}
    (h : example_initialize env (some ctx) s = .ok (r, some ctx', s')) :
    ∃ cs11 cs12 : Context K × State K, prepare_lights env cs11 = .ok cs12
      ∧ (∀ e, e ∈ cs12.1.log → e ∈ ctx'.log)
      ∧ s'.lights = cs12.2.lights := by
  unfold example_initialize at h
  simp only [] at h
  obtain ⟨cs0, h0, h⟩ := bind_ok h
  obtain ⟨cs1, h1, h⟩ := bind_ok h
  obtain ⟨cs2, h2, h⟩ := bind_ok h
  obtain ⟨cs3, h3, h⟩ := bind_ok h
  obtain ⟨cs4, h4, h⟩ := bind_ok h
  obtain ⟨cs5, h5, h⟩ := bind_ok h
  obtain ⟨cs6, h6, h⟩ := bind_ok h
  obtain ⟨cs7, h7, h⟩ := bind_ok h
  obtain ⟨cs8, h8, h⟩ := bind_ok h
  obtain ⟨cs9, h9, h⟩ := bind_ok h
  obtain ⟨cs10, h10, h⟩ := bind_ok h
  obtain ⟨cs11, h11, h⟩ := bind_ok h
  obtain ⟨cs12, h12, h⟩ := bind_ok h
  obtain ⟨cs13, h13, h⟩ := bind_ok h
  cases h
  have hst := prepare_view_matrices_state h13
  refine ⟨cs11, cs12, h12, ?_, by rw [hst]⟩
  intro e he
  unfold prepare_view_matrices at h13
  cases h13
  simp only [emit_log, List.mem_append]
  exact Or.inl (Or.inl he)

theorem prepare_lights_buffer_created {K : Type} [Field K] {env : Env K}
    {cs cs' : Context K × State K} (h : prepare_lights env cs = .ok cs') :
    Effect.create_buffer .lights_buffer lights_buffer_size true cs'.2.lights.buffer
      ∈ cs'.1.log := by
  unfold prepare_lights at h
  obtain ⟨cs1, h1, h⟩ := bind_ok h
  obtain ⟨cs2, h2, h⟩ := bind_ok h
  unfold prepare_lights_buffer at h1
  replace h1 := (ASSERT_bind_ok h1).2
  replace h1 := (ASSERT_bind_ok h1).2
  replace h1 := (deref_bind_ok h1).2
  cases h1
  unfold prepare_lights_extent_buffer at h2
  cases h2
  unfold prepare_lights_bind_groups at h
  replace h := (ASSERT_bind_ok h).2
  replace h := (ASSERT_bind_ok h).2
  cases h
  simp [emit_log]

/-- C16. The light capacity is static. The lights storage buffer is created once, by
setup, with `sizeof(float) * light_data_stride * max_num_lights = 4 * 8 * 1024 = 32768`
bytes, whatever `settings.num_lights` is; no sequence of frames changes its handle or
its recorded size or creates any object of the module (a frame creates and releases
its command encoder only). For every value of the count and every overlay input,
`example_on_update_ui_overlay` leaves the `lights` variables as they are and either
writes nothing or makes exactly one queue write: 4 bytes at offset 0 of the config
uniform buffer. -/
theorem lights_buffer_capacity_static {K : Type} [Field K] (env : Env K)
    (ctx ctx' : Context K) (s s' : State K) (r : Int) (frames : List (K × FrameInput))
    (hinit : example_initialize env (some ctx) s = .ok (r, some ctx', s')) :
    lights_buffer_size = 4 * 8 * 1024
      ∧ lights_buffer_size = 32768
      ∧ s'.lights.buffer_size = 32768
      ∧ s'.lights.buffer = env.device .lights_buffer
      ∧ Effect.create_buffer .lights_buffer 32768 true s'.lights.buffer ∈ ctx'.log
      ∧ (∀ cs1, run_frames env frames (ctx', s') = .ok cs1 →
          cs1.2.lights = s'.lights
            ∧ cs1.1.log.filterMap Effect.site? = ctx'.log.filterMap Effect.site?)
      ∧ ((∀ f ∈ frames, f.2.finished = true ∨ env.assert_stops = false) →
          ∃ cs1, run_frames env frames (ctx', s') = .ok cs1)
      ∧ (∀ (ui : Overlay) (cs : Context K × State K),
          (example_on_update_ui_overlay ui cs).2.lights = cs.2.lights
            ∧ ((example_on_update_ui_overlay ui cs).1.log = cs.1.log
                ∨ (example_on_update_ui_overlay ui cs).1.log
                    = cs.1.log ++ [Effect.queue_write_uint32
                        cs.2.lights.config_uniform_buffer 0
                        [((example_on_update_ui_overlay ui cs).2.settings.num_lights
                            % 2 ^ 32).toNat] 4])) := by
  have hst := (example_initialize_ok hinit).2.1
  obtain ⟨cs11, cs12, h12, hmem, hl⟩ := example_initialize_after_lights hinit
  refine ⟨rfl, rfl, by rw [hst]; rfl, by rw [hst]; rfl, ?_, ?_,
    fun hc => run_frames_returns env frames hc (ctx', s'), ?_⟩
  · have := hmem _ (prepare_lights_buffer_created h12)
    rw [hl]
    exact this
  · intro cs1 hrun
    have hk := run_frames_keeps env frames (ctx', s') cs1 hrun
    exact ⟨by rw [hk.1], hk.2.1⟩
  · intro ui cs
    exact ⟨by rw [(overlay_effect ui cs).2.1], (overlay_effect ui cs).2.2⟩

/-- C16, in the sample run: setup and a frame in which the slider is moved from 128 to
256 return, and the lights buffer is then the one setup created, with 32768 bytes. -/
theorem lights_buffer_capacity_static_witness :
    ∃ cs1, run_frames sample_env [(0, sample_frame)] sample_ready = .ok cs1
      ∧ cs1.2.lights.buffer_size = 32768
      ∧ cs1.2.lights.buffer = sample_ready.2.lights.buffer
      ∧ sample_ready.2.settings.num_lights = 128
      ∧ cs1.2.settings.num_lights = 256 := by
  have h := lights_buffer_capacity_static sample_env sample_context sample_ready.1
    State.initial sample_ready.2 0 [(0, sample_frame)] (by rfl)
  obtain ⟨cs1, h1⟩ := h.2.2.2.2.2.2.1 (by
    intro f hf
    rw [List.mem_singleton] at hf
    subst hf
    exact Or.inl rfl)
  have h5 : cs1.2.lights = sample_ready.2.lights := (h.2.2.2.2.2.1 cs1 h1).1
  have hn : cs1.2.settings.num_lights = 256 := by
    have hc : ((run_frames sample_env [(0, sample_frame)] sample_ready).toOption.map fun cs =>
        cs.2.settings.num_lights) = some 256 := by rfl
    rw [h1] at hc
    exact Option.some.inj hc
  refine ⟨cs1, h1, ?_, by rw [h5], by rfl, hn⟩
  rw [h5]
  exact h.2.2.1

/-! ### Sequences of `memcpy` calls into a mapped range -/

theorem countP_one_unique {α : Type} (q : α → Bool) (l : List α) (a b : α)
    (h : l.countP q = 1) (ha : a ∈ l) (hqa : q a = true) (hb : b ∈ l) (hqb : q b = true) :
    a = b := by
  induction l with
  | nil => cases ha
  | cons x l ih =>
    rw [List.countP_cons] at h
    rcases List.mem_cons.1 ha with rfl | ha' <;> rcases List.mem_cons.1 hb with rfl | hb'
    · rfl
    · have hpos : 0 < l.countP q := List.countP_pos_iff.2 ⟨b, hb', hqb⟩
      rw [if_pos hqa] at h
      omega
    · have hpos : 0 < l.countP q := List.countP_pos_iff.2 ⟨a, ha', hqa⟩
      rw [if_pos hqb] at h
      omega
    · by_cases hx : q x = true
      · have hpos : 0 < l.countP q := List.countP_pos_iff.2 ⟨a, ha', hqa⟩
        rw [if_pos hx] at h
        omega
      · rw [if_neg hx] at h
        exact ih h ha' hb'

theorem apply_writes_cons {α : Type} (w : Write α) (ws : List (Write α)) (m : Mapping α) :
    apply_writes (w :: ws) m = apply_writes ws (memcpy m w.1 w.2) := rfl

theorem memcpy_covers {α : Type} (m : Mapping α) (w : Write α) (p : Nat)
    (h : w.covers p = true) : memcpy m w.1 w.2 p = w.2[p - w.1]? := by
  unfold Write.covers at h
  unfold memcpy
  rw [if_pos (of_decide_eq_true h)]

theorem memcpy_not_covers {α : Type} (m : Mapping α) (w : Write α) (p : Nat)
    (h : ¬ w.covers p = true) : memcpy m w.1 w.2 p = m p := by
  unfold Write.covers at h
  unfold memcpy
  rw [if_neg (fun hc => h (decide_eq_true hc))]

theorem apply_writes_of_unique {α : Type} (ws : List (Write α)) (m : Mapping α) (p : Nat)
    (v : Option α) (hall : ∀ w ∈ ws, w.covers p = true → w.2[p - w.1]? = v)
    (hex : (∃ w ∈ ws, w.covers p = true) ∨ m p = v) : apply_writes ws m p = v := by
  induction ws generalizing m with
  | nil =>
    rcases hex with ⟨w, hw, _⟩ | h
    · cases hw
    · exact h
  | cons w ws ih =>
    rw [apply_writes_cons]
    apply ih _ (fun w' hw' => hall w' (List.mem_cons_of_mem _ hw'))
    by_cases hc : w.covers p = true
    · by_cases hex' : ∃ w' ∈ ws, w'.covers p = true
      · exact Or.inl hex'
      · refine Or.inr ?_
        rw [memcpy_covers m w p hc]
        exact hall w (List.mem_cons_self _ _) hc
    · rcases hex with ⟨w', hw', hc'⟩ | h
      · rcases List.mem_cons.1 hw' with rfl | hw''
        · exact absurd hc' hc
        · exact Or.inl ⟨w', hw'', hc'⟩
      · refine Or.inr ?_
        rw [memcpy_not_covers m w p hc]
        exact h

theorem apply_writes_single {α : Type} (ws : List (Write α)) (m : Mapping α) (p : Nat)
    (w : Write α) (hcount : write_count ws p = 1) (hw : w ∈ ws) (hc : w.covers p = true) :
    apply_writes ws m p = w.2[p - w.1]? := by
  apply apply_writes_of_unique
  · intro w' hw' hc'
    rw [countP_one_unique _ ws w w' hcount hw hc hw' hc']
  · exact Or.inl ⟨w, hw, hc⟩

theorem apply_writes_none {α : Type} (ws : List (Write α)) (m : Mapping α) (p : Nat)
    (hcount : write_count ws p = 0) : apply_writes ws m p = m p := by
  apply apply_writes_of_unique
  · intro w hw hc
    have hpos : 0 < ws.countP fun w => w.covers p := List.countP_pos_iff.2 ⟨w, hw, hc⟩
    unfold write_count at hcount
    omega
  · exact Or.inr rfl

theorem write_count_append {α : Type} (ws1 ws2 : List (Write α)) (p : Nat) :
    write_count (ws1 ++ ws2) p = write_count ws1 p + write_count ws2 p := by
  unfold write_count
  rw [List.countP_append]

/-! ### The vertex buffer -/

theorem vertex_copy_body_count {K : Type} (d : StanfordDragonMesh K) (i p : Nat)
    (hi : 8 * i + 8 < 2 ^ 64) :
    write_count (vertex_copy_body d i) p = if 8 * i ≤ p ∧ p < 8 * i + 8 then 1 else 0 := by
  have h0 : (8 * i) % 2 ^ 64 = 8 * i := Nat.mod_eq_of_lt (by omega)
  have h3 : (8 * i + 3) % 2 ^ 64 = 8 * i + 3 := Nat.mod_eq_of_lt (by omega)
  have h6 : (8 * i + 6) % 2 ^ 64 = 8 * i + 6 := Nat.mod_eq_of_lt (by omega)
  unfold write_count vertex_copy_body vertex_stride
  rw [h0, h3, h6]
  simp only [List.countP_cons, List.countP_nil, Write.covers, List.length_ofFn,
    decide_eq_true_eq]
  split_ifs <;> omega

theorem ground_plane_vertex_body_count {K : Type} [Field K] (n p : Nat) (k : Fin 4)
    (hn : 8 * n + 32 < 2 ^ 64) :
    write_count (ground_plane_vertex_body ((n * vertex_stride) % 2 ^ 64) k : List (Write K)) p
      = if 8 * (n + k) ≤ p ∧ p < 8 * (n + k) + 8 then 1 else 0 := by
  have hk : (k : Nat) < 4 := k.isLt
  have hoff : (n * vertex_stride) % 2 ^ 64 = 8 * n := by
    unfold vertex_stride
    rw [Nat.mod_eq_of_lt (by omega)]
    omega
  have h0 : (8 * n + 8 * (k : Nat)) % 2 ^ 64 = 8 * (n + k) := by
    rw [Nat.mod_eq_of_lt (by omega)]
    omega
  have h3 : (8 * n + 8 * (k : Nat) + 3) % 2 ^ 64 = 8 * (n + k) + 3 := by
    rw [Nat.mod_eq_of_lt (by omega)]
    omega
  have h6 : (8 * n + 8 * (k : Nat) + 6) % 2 ^ 64 = 8 * (n + k) + 6 := by
    rw [Nat.mod_eq_of_lt (by omega)]
    omega
  unfold write_count ground_plane_vertex_body
  rw [hoff]
  unfold vertex_stride
  rw [h0, h3, h6]
  simp only [List.countP_cons, List.countP_nil, Write.covers, List.length_ofFn,
    decide_eq_true_eq]
  split_ifs <;> omega

theorem dragon_writes_count {K : Type} (d : StanfordDragonMesh K) (n p : Nat)
    (hn : 8 * n < 2 ^ 64) :
    write_count ((List.range n).flatMap (vertex_copy_body d)) p = if p < 8 * n then 1 else 0 := by
  induction n with
  | zero => simp [write_count]
  | succ n ih =>
    rw [List.range_succ, List.flatMap_append, write_count_append, ih (by omega)]
    simp only [List.flatMap_cons, List.flatMap_nil, List.append_nil]
    rw [vertex_copy_body_count d n p (by omega)]
    split_ifs <;> omega

theorem ground_writes_count {K : Type} [Field K] (n p : Nat) (hn : 8 * n + 32 < 2 ^ 64) :
    write_count (([0, 1, 2, 3] : List (Fin 4)).flatMap
        (ground_plane_vertex_body ((n * vertex_stride) % 2 ^ 64)) : List (Write K)) p
      = if 8 * n ≤ p ∧ p < 8 * n + 32 then 1 else 0 := by
  simp only [List.flatMap_cons, List.flatMap_nil, List.append_nil, write_count_append]
  rw [ground_plane_vertex_body_count n p 0 hn, ground_plane_vertex_body_count n p 1 hn,
    ground_plane_vertex_body_count n p 2 hn, ground_plane_vertex_body_count n p 3 hn]
  simp only [Fin.val_zero, Fin.val_one, Fin.val_two, show ((3 : Fin 4) : Nat) = 3 from rfl]
  split_ifs <;> omega

theorem vertex_buffer_writes_count {K : Type} [Field K] (d : StanfordDragonMesh K) (p : Nat)
    (hN : (d.positions_count + 4) * 8 * 4 < 2 ^ 64) :
    write_count (vertex_buffer_writes d) p
      = if p < (d.positions_count + 4) * 8 then 1 else 0 := by
  unfold vertex_buffer_writes
  rw [write_count_append, dragon_writes_count d _ p (by omega),
    ground_writes_count _ p (by omega)]
  split_ifs <;> omega

theorem ofFn_getElem? {α : Type} {n : Nat} (f : Fin n → α) (j : Fin n) (k : Nat)
    (hk : k = j) : (List.ofFn f)[k]? = some (f j) := by
  subst hk
  rw [List.getElem?_eq_getElem (by rw [List.length_ofFn]; exact j.isLt), List.getElem_ofFn]

theorem vertex_buffer_data_at {K : Type} [Field K] (d : StanfordDragonMesh K) (p : Nat)
    (w : Write K) (hN : (d.positions_count + 4) * 8 * 4 < 2 ^ 64)
    (hw : w ∈ vertex_buffer_writes d) (hc : w.covers p = true)
    (hp : p < (d.positions_count + 4) * 8) :
    vertex_buffer_data d p = w.2[p - w.1]? := by
  unfold vertex_buffer_data
  apply apply_writes_single _ _ _ _ _ hw hc
  rw [vertex_buffer_writes_count d p hN, if_pos hp]

theorem vertex_copy_body_mem {K : Type} [Field K] (d : StanfordDragonMesh K) (i : Nat)
    (hN : (d.positions_count + 4) * 8 * 4 < 2 ^ 64) (hi : i < d.positions_count) :
    ((8 * i, List.ofFn (d.positions_data i)) : Write K) ∈ vertex_buffer_writes d
      ∧ ((8 * i + 3, List.ofFn (d.normals_data i)) : Write K) ∈ vertex_buffer_writes d
      ∧ ((8 * i + 6, List.ofFn (d.uvs_data i)) : Write K) ∈ vertex_buffer_writes d := by
  have h0 : (8 * i) % 2 ^ 64 = 8 * i := Nat.mod_eq_of_lt (by omega)
  have h3 : (8 * i + 3) % 2 ^ 64 = 8 * i + 3 := Nat.mod_eq_of_lt (by omega)
  have h6 : (8 * i + 6) % 2 ^ 64 = 8 * i + 6 := Nat.mod_eq_of_lt (by omega)
  have hb : ∀ w ∈ vertex_copy_body d i, w ∈ vertex_buffer_writes d := by
    intro w hw
    unfold vertex_buffer_writes
    exact List.mem_append_left _ (List.mem_flatMap.2 ⟨i, List.mem_range.2 hi, hw⟩)
  refine ⟨hb _ ?_, hb _ ?_, hb _ ?_⟩ <;>
    · unfold vertex_copy_body vertex_stride
      rw [h0, h3, h6]
      simp

theorem ground_plane_vertex_body_mem {K : Type} [Field K] (d : StanfordDragonMesh K)
    (k : Fin 4) (hN : (d.positions_count + 4) * 8 * 4 < 2 ^ 64) :
    ((8 * (d.positions_count + k), List.ofFn (ground_plane_positions k)) : Write K)
        ∈ vertex_buffer_writes d
      ∧ ((8 * (d.positions_count + k) + 3, List.ofFn (ground_plane_normals k)) : Write K)
        ∈ vertex_buffer_writes d
      ∧ ((8 * (d.positions_count + k) + 6, List.ofFn (ground_plane_uvs k)) : Write K)
        ∈ vertex_buffer_writes d := by
  have hk : (k : Nat) < 4 := k.isLt
  have hoff : (d.positions_count * vertex_stride) % 2 ^ 64 = 8 * d.positions_count := by
    unfold vertex_stride
    rw [Nat.mod_eq_of_lt (by omega)]
    omega
  have h0 : (8 * d.positions_count + 8 * (k : Nat)) % 2 ^ 64 = 8 * (d.positions_count + k) := by
    rw [Nat.mod_eq_of_lt (by omega)]
    omega
  have h3 : (8 * d.positions_count + 8 * (k : Nat) + 3) % 2 ^ 64
      = 8 * (d.positions_count + k) + 3 := by
    rw [Nat.mod_eq_of_lt (by omega)]
    omega
  have h6 : (8 * d.positions_count + 8 * (k : Nat) + 6) % 2 ^ 64
      = 8 * (d.positions_count + k) + 6 := by
    rw [Nat.mod_eq_of_lt (by omega)]
    omega
  have hb : ∀ w ∈ (ground_plane_vertex_body
      ((d.positions_count * vertex_stride) % 2 ^ 64) k : List (Write K)),
      w ∈ vertex_buffer_writes d := by
    intro w hw
    unfold vertex_buffer_writes
    refine List.mem_append_right _ (List.mem_flatMap.2 ⟨k, ?_, hw⟩)
    fin_cases k <;> simp
  refine ⟨hb _ ?_, hb _ ?_, hb _ ?_⟩ <;>
    · unfold ground_plane_vertex_body
      rw [hoff]
      unfold vertex_stride
      rw [h0, h3, h6]
      simp

theorem covers_of_le {α : Type} (o : Nat) (l : List α) (p : Nat) (h1 : o ≤ p)
    (h2 : p < o + l.length) : Write.covers ((o, l) : Write α) p = true := by
  unfold Write.covers
  exact decide_eq_true ⟨h1, h2⟩

theorem vertex_buffer_data_record {K : Type} [Field K] (d : StanfordDragonMesh K)
    (hN : (d.positions_count + 4) * 8 * 4 < 2 ^ 64) (o : Nat) {n : Nat} (f : Fin n → K)
    (hw : ((o, List.ofFn f) : Write K) ∈ vertex_buffer_writes d)
    (ho : o + n ≤ (d.positions_count + 4) * 8) (j : Fin n) :
    vertex_buffer_data d (o + j) = some (f j) := by
  have hj : (j : Nat) < n := j.isLt
  rw [vertex_buffer_data_at d (o + j) _ hN hw
    (covers_of_le _ _ _ (by omega) (by rw [List.length_ofFn]; omega)) (by omega)]
  exact ofFn_getElem? f j _ (by simp)

theorem prepare_vertex_and_index_buffers_effects {K : Type} [Field K] {env : Env K}
    {cs cs' : Context K × State K} (h : prepare_vertex_and_index_buffers env cs = .ok cs') :
    cs'.1.log = cs.1.log ++
      [Effect.create_buffer .vertex_buffer
          (((cs.2.stanford_dragon_mesh.positions_count + 4) * vertex_stride * sizeof_float)
            % 2 ^ 64) true (env.device .vertex_buffer),
       Effect.get_mapped_range .vertex_buffer_mapping (env.device .vertex_buffer) 0
          (((cs.2.stanford_dragon_mesh.positions_count + 4) * vertex_stride * sizeof_float)
            % 2 ^ 64) (env.device .vertex_buffer_mapping),
       Effect.unmap_floats (env.device .vertex_buffer)
          (vertex_buffer_data cs.2.stanford_dragon_mesh),
       Effect.create_buffer .index_buffer
          (((((cs.2.stanford_dragon_mesh.triangles_count + 2) * 3) % 2 ^ 32) * sizeof_uint16)
            % 2 ^ 64) true (env.device .index_buffer),
       Effect.get_mapped_range .index_buffer_mapping (env.device .index_buffer) 0
          (((((cs.2.stanford_dragon_mesh.triangles_count + 2) * 3) % 2 ^ 32) * sizeof_uint16)
            % 2 ^ 64) (env.device .index_buffer_mapping),
       Effect.unmap_uint16 (env.device .index_buffer)
          (index_buffer_data env.STANFORD_DRAGON_POSITION_COUNT_RES_4
            cs.2.stanford_dragon_mesh)] := by
  unfold prepare_vertex_and_index_buffers at h
  replace h := (ASSERT_bind_ok h).2
  replace h := (ASSERT_bind_ok h).2
  replace h := (deref_bind_ok h).2
  replace h := (ASSERT_bind_ok h).2
  replace h := (ASSERT_bind_ok h).2
  replace h := (deref_bind_ok h).2
  cases h
  simp only [emit_log, List.append_assoc, List.singleton_append]
  rfl

/-- C17. Vertex packing. For a dragon mesh with `N = positions.count` vertices (the
loop reads position, normal and uv `i` for each `i < N`), with the byte size
`(N + 4) * 8 * 4` within `uint64_t`: `prepare_vertex_and_index_buffers`, when it
returns, has created the vertex buffer with `(N + 4) * 8 * 4` bytes, which is
`(N + 4) * 8` floats, and unmapped it with the floats its `memcpy` calls left. For
`i < N` floats `8i .. 8i+2` are position `i`, `8i+3 .. 8i+5` normal `i` and
`8i+6, 8i+7` uv `i`; for `k < 4` the record at `8 * (N + k)` holds ground-plane
position, normal and uv `k`. Every float below `(N + 4) * 8` is written by exactly
one `memcpy` and no `memcpy` writes a float at or beyond `(N + 4) * 8`. -/
theorem vertex_buffer_packing {K : Type} [Field K] (env : Env K)
    (cs cs' : Context K × State K)
    (hN : (cs.2.stanford_dragon_mesh.positions_count + 4) * 8 * 4 < 2 ^ 64)
    (h : prepare_vertex_and_index_buffers env cs = .ok cs') :
    Effect.create_buffer .vertex_buffer
        ((cs.2.stanford_dragon_mesh.positions_count + 4) * 8 * 4) true cs'.2.vertex_buffer
        ∈ cs'.1.log
      ∧ Effect.unmap_floats cs'.2.vertex_buffer (vertex_buffer_data cs.2.stanford_dragon_mesh)
        ∈ cs'.1.log
      ∧ (∀ i, i < cs.2.stanford_dragon_mesh.positions_count →
          (∀ j : Fin 3, vertex_buffer_data cs.2.stanford_dragon_mesh (8 * i + j)
              = some (cs.2.stanford_dragon_mesh.positions_data i j))
            ∧ (∀ j : Fin 3, vertex_buffer_data cs.2.stanford_dragon_mesh (8 * i + 3 + j)
              = some (cs.2.stanford_dragon_mesh.normals_data i j))
            ∧ (∀ j : Fin 2, vertex_buffer_data cs.2.stanford_dragon_mesh (8 * i + 6 + j)
              = some (cs.2.stanford_dragon_mesh.uvs_data i j)))
      ∧ (∀ k : Fin 4,
          (∀ j : Fin 3, vertex_buffer_data cs.2.stanford_dragon_mesh
              (8 * (cs.2.stanford_dragon_mesh.positions_count + k) + j)
              = some (ground_plane_positions k j))
            ∧ (∀ j : Fin 3, vertex_buffer_data cs.2.stanford_dragon_mesh
              (8 * (cs.2.stanford_dragon_mesh.positions_count + k) + 3 + j)
              = some (ground_plane_normals k j))
            ∧ (∀ j : Fin 2, vertex_buffer_data cs.2.stanford_dragon_mesh
              (8 * (cs.2.stanford_dragon_mesh.positions_count + k) + 6 + j)
              = some (ground_plane_uvs k j)))
      ∧ (∀ p, p < (cs.2.stanford_dragon_mesh.positions_count + 4) * 8 →
          write_count (vertex_buffer_writes cs.2.stanford_dragon_mesh) p = 1)
      ∧ (∀ p, (cs.2.stanford_dragon_mesh.positions_count + 4) * 8 ≤ p →
          write_count (vertex_buffer_writes cs.2.stanford_dragon_mesh) p = 0
            ∧ vertex_buffer_data cs.2.stanford_dragon_mesh p = none) := by
  have hlog := prepare_vertex_and_index_buffers_effects h
  have hst := prepare_vertex_and_index_buffers_state h
  have hvb : cs'.2.vertex_buffer = env.device .vertex_buffer := by rw [hst]
  have hsize : ((cs.2.stanford_dragon_mesh.positions_count + 4) * vertex_stride * sizeof_float)
      % 2 ^ 64 = (cs.2.stanford_dragon_mesh.positions_count + 4) * 8 * 4 :=
    Nat.mod_eq_of_lt hN
  rw [hsize] at hlog
  refine ⟨?_, ?_, ?_, ?_, ?_, ?_⟩
  · rw [hlog, hvb]
    simp
  · rw [hlog, hvb]
    simp
  · intro i hi
    have hm := vertex_copy_body_mem cs.2.stanford_dragon_mesh i hN hi
    exact ⟨vertex_buffer_data_record _ hN _ _ hm.1 (by omega),
      vertex_buffer_data_record _ hN _ _ hm.2.1 (by omega),
      vertex_buffer_data_record _ hN _ _ hm.2.2 (by omega)⟩
  · intro k
    have hk : (k : Nat) < 4 := k.isLt
    have hm := ground_plane_vertex_body_mem cs.2.stanford_dragon_mesh k hN
    exact ⟨vertex_buffer_data_record _ hN _ _ hm.1 (by omega),
      vertex_buffer_data_record _ hN _ _ hm.2.1 (by omega),
      vertex_buffer_data_record _ hN _ _ hm.2.2 (by omega)⟩
  · intro p hp
    rw [vertex_buffer_writes_count _ p hN, if_pos hp]
  · intro p hp
    have hc : write_count (vertex_buffer_writes cs.2.stanford_dragon_mesh) p = 0 := by
      rw [vertex_buffer_writes_count _ p hN, if_neg (by omega)]
    refine ⟨hc, ?_⟩
    unfold vertex_buffer_data
    rw [apply_writes_none _ _ _ hc]
    rfl

/-- C17, in the sample run: the dragon of three vertices and the ground plane give a
vertex buffer of `(3 + 4) * 8 = 56` floats; float 8 is the x coordinate of dragon
position 1 and float 25 the y coordinate of ground-plane position 0. -/
theorem vertex_buffer_packing_witness :
    vertex_buffer_data sample_dragon 8 = some 1
      ∧ vertex_buffer_data sample_dragon 25 = some 20
      ∧ write_count (vertex_buffer_writes sample_dragon) 55 = 1
      ∧ write_count (vertex_buffer_writes sample_dragon) 56 = 0 := by
  have h := vertex_buffer_packing sample_env sample_loaded sample_buffers
    (by decide) (by rfl)
  exact ⟨(h.2.2.1 1 (by decide)).1 0, (h.2.2.2.1 0).1 1, h.2.2.2.2.1 55 (by decide),
    (h.2.2.2.2.2 56 (by decide)).1⟩

/-! ### The index buffer and the indexed draw -/

theorem index_dragon_writes_count {K : Type} (d : StanfordDragonMesh K) (n p : Nat)
    (hn : 3 * n < 2 ^ 64) :
    write_count ((List.range n).map
        (fun i => (((3 * i) % 2 ^ 64, List.ofFn (d.triangles_data i)) : Write Nat))) p
      = if p < 3 * n then 1 else 0 := by
  induction n with
  | zero => simp [write_count]
  | succ n ih =>
    rw [List.range_succ, List.map_append, write_count_append, ih (by omega)]
    have h0 : (3 * n) % 2 ^ 64 = 3 * n := Nat.mod_eq_of_lt (by omega)
    simp only [List.map_cons, List.map_nil]
    rw [h0]
    simp only [write_count, List.countP_cons, List.countP_nil, Write.covers, List.length_ofFn,
      decide_eq_true_eq]
    split_ifs <;> omega

theorem index_ground_writes_count (P t p : Nat) (ht : 3 * t + 6 < 2 ^ 64) :
    write_count (([0, 1] : List (Fin 2)).map
        (fun (i : Fin 2) =>
          ((((t * 3) % 2 ^ 64 + 3 * i) % 2 ^ 64, List.ofFn (ground_plane_indices P i))
            : Write Nat))) p
      = if 3 * t ≤ p ∧ p < 3 * t + 6 then 1 else 0 := by
  have hoff : (t * 3) % 2 ^ 64 = 3 * t := by
    rw [Nat.mod_eq_of_lt (by omega)]
    omega
  have h0 : (3 * t + 3 * ((0 : Fin 2) : Nat)) % 2 ^ 64 = 3 * t := by
    rw [Nat.mod_eq_of_lt (by simp; omega)]
    simp
  have h1 : (3 * t + 3 * ((1 : Fin 2) : Nat)) % 2 ^ 64 = 3 * t + 3 := by
    rw [Nat.mod_eq_of_lt (by simp; omega)]
    simp
  simp only [List.map_cons, List.map_nil]
  rw [hoff, h0, h1]
  simp only [write_count, List.countP_cons, List.countP_nil, Write.covers, List.length_ofFn,
    decide_eq_true_eq]
  split_ifs <;> omega

theorem index_buffer_writes_count {K : Type} (P : Nat) (d : StanfordDragonMesh K) (p : Nat)
    (hT : (d.triangles_count + 2) * 3 < 2 ^ 32) :
    write_count (index_buffer_writes P d) p
      = if p < 3 * (d.triangles_count + 2) then 1 else 0 := by
  unfold index_buffer_writes
  rw [write_count_append, index_dragon_writes_count d _ p (by omega),
    index_ground_writes_count P _ p (by omega)]
  split_ifs <;> omega

theorem index_buffer_writes_mem {K : Type} (P : Nat) (d : StanfordDragonMesh K)
    (hT : (d.triangles_count + 2) * 3 < 2 ^ 32) :
    (∀ i, i < d.triangles_count →
        ((3 * i, List.ofFn (d.triangles_data i)) : Write Nat) ∈ index_buffer_writes P d)
      ∧ ∀ k : Fin 2,
        ((3 * d.triangles_count + 3 * k, List.ofFn (ground_plane_indices P k)) : Write Nat)
          ∈ index_buffer_writes P d := by
  refine ⟨?_, ?_⟩
  · intro i hi
    unfold index_buffer_writes
    refine List.mem_append_left _ (List.mem_map.2 ⟨i, List.mem_range.2 hi, ?_⟩)
    rw [Nat.mod_eq_of_lt (by omega)]
  · intro k
    have hk : (k : Nat) < 2 := k.isLt
    unfold index_buffer_writes
    refine List.mem_append_right _ (List.mem_map.2 ⟨k, by fin_cases k <;> simp, ?_⟩)
    have hoff : (d.triangles_count * 3) % 2 ^ 64 = 3 * d.triangles_count := by
      rw [Nat.mod_eq_of_lt (by omega)]
      omega
    rw [hoff, Nat.mod_eq_of_lt (by omega)]

theorem index_buffer_data_record {K : Type} (P : Nat) (d : StanfordDragonMesh K)
    (hT : (d.triangles_count + 2) * 3 < 2 ^ 32) (o : Nat) (f : Fin 3 → Nat)
    (hw : ((o, List.ofFn f) : Write Nat) ∈ index_buffer_writes P d)
    (ho : o + 3 ≤ 3 * (d.triangles_count + 2)) (j : Fin 3) :
    index_buffer_data P d (o + j) = some (f j) := by
  have hj : (j : Nat) < 3 := j.isLt
  unfold index_buffer_data
  rw [apply_writes_single _ _ (o + j) _
    (by rw [index_buffer_writes_count P d _ hT, if_pos (by omega)]) hw
    (covers_of_le _ _ _ (by omega) (by rw [List.length_ofFn]; omega))]
  exact ofFn_getElem? f j _ (by simp)

theorem recorded_three_passes_draw_indexed {K : Type} (fb : Handle) (s : State K) :
    (recorded_three_passes fb s).filter Cmd.isDrawIndexed
      = [Cmd.RenderPassDrawIndexed s.index_count 1 0 0 0] := by
  unfold recorded_three_passes
  rcases recorded_composite_pass_cases fb s with h | h <;> rw [h] <;> rfl

/-- C18. The G-buffer pass draws the full indexed mesh once. For a dragon mesh with
`T = triangles.count` triangles, with `3 * (T + 2)` within `uint32_t`:
`prepare_vertex_and_index_buffers`, when it returns, has set
`index_count = 3 * (T + 2)`, created the index buffer with `index_count * 2` bytes
(`index_count` values of type `uint16_t`) and unmapped it holding, for `i < T`, the
three indices of dragon triangle `i` at `3i .. 3i+2`, then the six ground-plane
indices at `3T .. 3T+5`; each of these `index_count` values is written exactly once
and nothing is written beyond them. The calls `build_command_buffer` records hold
exactly one indexed draw, in the first pass of the command buffer it returns:
`DrawIndexed(index_count, 1, 0, 0, 0)`; any other indexed draw of the command buffer
is one the overlay records. -/
theorem gbuffer_pass_draws_indexed_mesh {K : Type} [Field K] (env : Env K)
    (cs cs' : Context K × State K) (inp : FrameInput) (ctx : Context K)
    (hT : (cs.2.stanford_dragon_mesh.triangles_count + 2) * 3 < 2 ^ 32)
    (h : prepare_vertex_and_index_buffers env cs = .ok cs')
    (hfin : inp.finished = true) :
    cs'.2.index_count = 3 * (cs.2.stanford_dragon_mesh.triangles_count + 2)
      ∧ Effect.create_buffer .index_buffer (cs'.2.index_count * 2) true cs'.2.index_buffer
          ∈ cs'.1.log
      ∧ Effect.unmap_uint16 cs'.2.index_buffer
          (index_buffer_data env.STANFORD_DRAGON_POSITION_COUNT_RES_4
            cs.2.stanford_dragon_mesh) ∈ cs'.1.log
      ∧ (∀ i, i < cs.2.stanford_dragon_mesh.triangles_count → ∀ j : Fin 3,
          index_buffer_data env.STANFORD_DRAGON_POSITION_COUNT_RES_4
              cs.2.stanford_dragon_mesh (3 * i + j)
            = some (cs.2.stanford_dragon_mesh.triangles_data i j))
      ∧ (∀ (k : Fin 2) (j : Fin 3),
          index_buffer_data env.STANFORD_DRAGON_POSITION_COUNT_RES_4
              cs.2.stanford_dragon_mesh
              (3 * cs.2.stanford_dragon_mesh.triangles_count + 3 * k + j)
            = some (ground_plane_indices env.STANFORD_DRAGON_POSITION_COUNT_RES_4 k j))
      ∧ (∀ p, p < cs'.2.index_count →
          write_count (index_buffer_writes env.STANFORD_DRAGON_POSITION_COUNT_RES_4
            cs.2.stanford_dragon_mesh) p = 1)
      ∧ (∀ p, cs'.2.index_count ≤ p →
          index_buffer_data env.STANFORD_DRAGON_POSITION_COUNT_RES_4
            cs.2.stanford_dragon_mesh p = none)
      ∧ (recorded_three_passes ctx.swap_chain_frame_buffer cs'.2).filter Cmd.isDrawIndexed
          = [Cmd.RenderPassDrawIndexed cs'.2.index_count 1 0 0 0]
      ∧ (recorded_gbuffer_pass cs'.2)[5]?
          = some (Cmd.RenderPassDrawIndexed cs'.2.index_count 1 0 0 0)
      ∧ ∃ (cb : List Cmd) (ctx2 : Context K) (s2 : State K),
          build_command_buffer env inp (ctx, cs'.2) = .ok (some cb, ctx2, s2)
          ∧ cb = recorded_three_passes ctx.swap_chain_frame_buffer cs'.2
                  ++ inp.overlay.recorded
          ∧ cb.filter Cmd.isDrawIndexed
              = [Cmd.RenderPassDrawIndexed cs'.2.index_count 1 0 0 0]
                ++ inp.overlay.recorded.filter Cmd.isDrawIndexed
          ∧ (passes cb)[0]? = some (recorded_gbuffer_pass cs'.2) := by
  have hlog := prepare_vertex_and_index_buffers_effects h
  have hst := prepare_vertex_and_index_buffers_state h
  have hib : cs'.2.index_buffer = env.device .index_buffer := by rw [hst]
  have hic : cs'.2.index_count = 3 * (cs.2.stanford_dragon_mesh.triangles_count + 2) := by
    rw [hst]
    show ((cs.2.stanford_dragon_mesh.triangles_count + 2) * 3) % 2 ^ 32 = _
    rw [Nat.mod_eq_of_lt hT]
    omega
  have hsize : ((((cs.2.stanford_dragon_mesh.triangles_count + 2) * 3) % 2 ^ 32)
      * sizeof_uint16) % 2 ^ 64 = cs'.2.index_count * 2 := by
    rw [hic, Nat.mod_eq_of_lt hT]
    show ((cs.2.stanford_dragon_mesh.triangles_count + 2) * 3 * 2) % 2 ^ 64 = _
    rw [Nat.mod_eq_of_lt (by omega)]
    omega
  rw [hsize] at hlog
  have hm := index_buffer_writes_mem env.STANFORD_DRAGON_POSITION_COUNT_RES_4
    cs.2.stanford_dragon_mesh hT
  obtain ⟨ctx2, s2, hb⟩ := build_command_buffer_eq env inp ctx cs'.2 hfin
  refine ⟨hic, ?_, ?_, ?_, ?_, ?_, ?_,
    recorded_three_passes_draw_indexed ctx.swap_chain_frame_buffer cs'.2, rfl,
    _, ctx2, s2, hb, rfl, ?_, ?_⟩
  · rw [hlog, hib]
    simp
  · rw [hlog, hib]
    simp
  · intro i hi j
    exact index_buffer_data_record _ _ hT _ _ (hm.1 i hi) (by omega) j
  · intro k j
    have hk : (k : Nat) < 2 := k.isLt
    exact index_buffer_data_record _ _ hT _ _ (hm.2 k) (by omega) j
  · intro p hp
    rw [index_buffer_writes_count _ _ p hT, if_pos (by omega)]
  · intro p hp
    unfold index_buffer_data
    rw [apply_writes_none _ _ _
      (by rw [index_buffer_writes_count _ _ p hT, if_neg (by omega)])]
    rfl
  · rw [List.filter_append, recorded_three_passes_draw_indexed]
  · rw [passes_three_append]
    rfl

/-- C18, in the sample run: the dragon of one triangle gives `index_count = 9`; the
index buffer holds the triangle `0, 1, 2` and then the ground-plane indices
`3, 5, 4, 3, 4, 6`, and the frame draws 9 indices once. -/
theorem gbuffer_pass_draws_indexed_mesh_witness :
    sample_buffers.2.index_count = 9
      ∧ (List.range 10).map (index_buffer_data 3 sample_dragon)
          = [some 0, some 1, some 2, some 3, some 5, some 4, some 3, some 4, some 6, none]
      ∧ ∃ (cb : List Cmd) (ctx2 : Context ℚ) (s2 : State ℚ),
          build_command_buffer sample_env sample_frame (sample_context, sample_buffers.2)
            = .ok (some cb, ctx2, s2)
          ∧ cb.filter Cmd.isDrawIndexed = [Cmd.RenderPassDrawIndexed 9 1 0 0 0] := by
  have h := gbuffer_pass_draws_indexed_mesh sample_env sample_loaded sample_buffers
    sample_frame sample_context (by decide) (by rfl) rfl
  obtain ⟨cb, ctx2, s2, h1, _, h3, _⟩ := h.2.2.2.2.2.2.2.2.2
  refine ⟨h.1, by decide, cb, ctx2, s2, h1, ?_⟩
  rw [h3, h.1]
  rfl

/-! ### The composite pass draw -/

/-- C21, counterexample. In the sample run, a default-mode frame: the draws of the
composite pass, the third pass of the command buffer, are the single call
`Draw(6, 1, 0, 0)`, six vertices and not three. -/
theorem composite_pass_draws_six_vertices :
    (((build_command_buffer sample_env sample_frame
        ({ sample_ready.1 with swap_chain_frame_buffer := some 100 },
          sample_ready.2)).toOption.bind fun b => b.1).bind fun cb =>
          (passes cb)[2]?.map (fun p => p.filter Cmd.isDraw))
        = some [Cmd.RenderPassDraw 6 1 0 0]
      ∧ Cmd.RenderPassDraw 6 1 0 0 ≠ Cmd.RenderPassDraw 3 1 0 0 := by
  refine ⟨by decide, by decide⟩

/-- C21, amended. In both render modes the composite pass, the third pass of the
command buffer that `build_command_buffer` returns, issues exactly one draw, the
non-indexed `Draw(6, 1, 0, 0)`: six vertices (the two triangles of a full-screen
quad), one instance, first vertex and first instance 0. The pass makes no indexed draw
and binds no vertex buffer. -/
theorem composite_pass_draws_quad {K : Type} (env : Env K) (inp : FrameInput)
    (ctx : Context K) (s : State K) (hfin : inp.finished = true) :
    (∃ (cb : List Cmd) (ctx' : Context K) (s' : State K),
        build_command_buffer env inp (ctx, s) = .ok (some cb, ctx', s')
        ∧ (passes cb)[2]? = some (recorded_composite_pass ctx.swap_chain_frame_buffer s))
      ∧ (recorded_composite_pass ctx.swap_chain_frame_buffer s).filter Cmd.isDraw
          = [Cmd.RenderPassDraw 6 1 0 0]
      ∧ (recorded_composite_pass ctx.swap_chain_frame_buffer s).filter Cmd.isDrawIndexed = []
      ∧ (recorded_composite_pass ctx.swap_chain_frame_buffer s).filter Cmd.isSetVertexBuffer
          = []
      ∧ (s.settings.current_render_mode = RenderMode_GBuffer_View →
          recorded_composite_pass ctx.swap_chain_frame_buffer s
            = recorded_debug_view_pass ctx.swap_chain_frame_buffer s)
      ∧ (s.settings.current_render_mode ≠ RenderMode_GBuffer_View →
          recorded_composite_pass ctx.swap_chain_frame_buffer s
            = recorded_deferred_pass ctx.swap_chain_frame_buffer s) := by
  obtain ⟨ctx', s', hb⟩ := build_command_buffer_eq env inp ctx s hfin
  refine ⟨⟨_, ctx', s', hb, ?_⟩, ?_, ?_, ?_, ?_, ?_⟩
  · rw [passes_three_append]
    simp
  · rcases recorded_composite_pass_cases ctx.swap_chain_frame_buffer s with h | h <;>
      rw [h] <;> rfl
  · rcases recorded_composite_pass_cases ctx.swap_chain_frame_buffer s with h | h <;>
      rw [h] <;> rfl
  · rcases recorded_composite_pass_cases ctx.swap_chain_frame_buffer s with h | h <;>
      rw [h] <;> rfl
  · intro hm
    unfold recorded_composite_pass
    rw [if_pos hm]
  · intro hm
    unfold recorded_composite_pass
    rw [if_neg hm]

/-- C21, amended, in the sample run: in G-buffer view mode the frame after setup
returns a command buffer whose third pass is the debug view pass, with the one draw
`Draw(6, 1, 0, 0)`. -/
theorem composite_pass_draws_quad_witness :
    ∃ (cb : List Cmd) (ctx' : Context ℚ) (s' : State ℚ),
      build_command_buffer sample_env sample_frame
          (sample_ready.1, { sample_ready.2 with
            settings := { sample_ready.2.settings with
              current_render_mode := RenderMode_GBuffer_View } })
        = .ok (some cb, ctx', s')
      ∧ (passes cb)[2]?.map (fun p => p.filter Cmd.isDraw)
          = some [Cmd.RenderPassDraw 6 1 0 0] := by
  have h := composite_pass_draws_quad sample_env sample_frame sample_ready.1
    { sample_ready.2 with
      settings := { sample_ready.2.settings with
        current_render_mode := RenderMode_GBuffer_View } } rfl
  obtain ⟨cb, ctx', s', h1, h2⟩ := h.1
  refine ⟨cb, ctx', s', h1, ?_⟩
  rw [h2, Option.map_some', h.2.1]

/-! ### Teardown -/

theorem handle_set_handle {K : Type} (s : State K) (a b : Site) (h : Handle)
    (ha : a ∈ destroy_order) :
    (s.set_handle a h).handle b = if b = a then h else s.handle b := by
  cases a <;> first
    | exact absurd ha (by decide)
    | (cases b <;> rfl)

theorem release_variable_state {K : Type} (cs : Context K × State K) (a : Site) :
    (release_variable cs a).2 = cs.2.set_handle a none := by
  unfold release_variable WGPU_RELEASE_RESOURCE
  by_cases h : (cs.2.handle a).isSome = true
  · rw [if_pos h]
  · rw [if_neg h]
    rw [Bool.not_eq_true, Option.not_isSome, Option.isNone_iff_eq_none] at h
    simp only []
    rw [h]

theorem release_variable_log {K : Type} (cs : Context K × State K) (a : Site) :
    (release_variable cs a).1.log
      = cs.1.log ++ (if (cs.2.handle a).isSome then [Effect.release a (cs.2.handle a)]
                     else []) := by
  unfold release_variable WGPU_RELEASE_RESOURCE
  by_cases h : (cs.2.handle a).isSome = true
  · rw [if_pos h, if_pos h]
    rfl
  · rw [if_neg h, if_neg h]
    simp

theorem release_variable_keeps {K : Type} (cs : Context K × State K) (a : Site) :
    (release_variable cs a).1 = { cs.1 with log := (release_variable cs a).1.log } := by
  unfold release_variable WGPU_RELEASE_RESOURCE
  by_cases h : (cs.2.handle a).isSome = true
  · rw [if_pos h]
    rfl
  · rw [if_neg h]

theorem release_variables {K : Type} (l : List Site) (hl : l.Nodup)
    (hsub : ∀ a ∈ l, a ∈ destroy_order) (cs : Context K × State K) :
    (l.foldl release_variable cs).1.log
        = cs.1.log ++ releases_of cs.2 l
      ∧ ∀ b, (l.foldl release_variable cs).2.handle b
          = if b ∈ l then none else cs.2.handle b := by
  induction l generalizing cs with
  | nil => exact ⟨by simp [releases_of], fun b => by simp⟩
  | cons a l ih =>
    have hnd := List.nodup_cons.1 hl
    have hstep : ∀ b, (release_variable cs a).2.handle b
        = if b = a then none else cs.2.handle b := by
      intro b
      rw [release_variable_state, handle_set_handle _ _ _ _ (hsub a (List.mem_cons_self _ _))]
    have hkeep : ∀ x ∈ l, (release_variable cs a).2.handle x = cs.2.handle x := by
      intro x hx
      rw [hstep x, if_neg]
      rintro rfl
      exact hnd.1 hx
    obtain ⟨ih1, ih2⟩ := ih hnd.2 (fun x hx => hsub x (List.mem_cons_of_mem _ hx))
      (release_variable cs a)
    refine ⟨?_, ?_⟩
    · rw [List.foldl_cons, ih1, release_variable_log]
      unfold releases_of
      have hf : (l.filter fun x => ((release_variable cs a).2.handle x).isSome)
          = l.filter fun x => (cs.2.handle x).isSome := by
        apply List.filter_congr
        intro x hx
        rw [hkeep x hx]
      have hmap : ((l.filter fun x => (cs.2.handle x).isSome).map
            fun x => Effect.release x ((release_variable cs a).2.handle x))
          = (l.filter fun x => (cs.2.handle x).isSome).map
            fun x => (Effect.release x (cs.2.handle x) : Effect K) := by
        apply List.map_congr_left
        intro x hx
        rw [hkeep x (List.mem_of_mem_filter hx)]
      rw [hf, hmap, List.filter_cons]
      by_cases h : (cs.2.handle a).isSome = true
      · rw [if_pos h, if_pos h]
        simp
      · rw [if_neg h, if_neg h]
        simp
    · intro b
      rw [List.foldl_cons, ih2 b, hstep b]
      by_cases hb : b = a
      · subst hb
        simp
      · simp [hb]

theorem destroy_order_nodup : destroy_order.Nodup := by decide

theorem example_destroy_effect {K : Type} (cs : Context K × State K) :
    (example_destroy cs).1.log
        = cs.1.log ++ releases_of cs.2 destroy_order
      ∧ ∀ b, (example_destroy cs).2.handle b = none := by
  have h := release_variables destroy_order destroy_order_nodup (fun a ha => ha) cs
  refine ⟨h.1, ?_⟩
  intro b
  show (destroy_order.foldl release_variable cs).2.handle b = none
  rw [h.2 b]
  by_cases hb : b ∈ destroy_order
  · rw [if_pos hb]
  · rw [if_neg hb]
    revert hb
    cases b <;> first | (intro hb; exact absurd (by decide) hb) | (intro _; rfl)

theorem initialized_state_handle {K : Type} [Field K] (env : Env K) (ctx : Context K)
    (s : State K) (a : Site) (ha : a ∈ destroy_order) :
    (initialized_state env ctx s).handle a = env.device a := by
  cases a <;> first
    | exact absurd ha (by decide)
    | rfl

theorem releases_of_released {K : Type} (s : State K) (l : List Site) :
    (releases_of s l : List (Effect K)).filterMap Effect.released?
      = l.filter fun a => (s.handle a).isSome := by
  unfold releases_of
  rw [List.filterMap_map]
  have h : (Effect.released? ∘ fun a => (Effect.release a (s.handle a) : Effect K))
      = fun a => some a := rfl
  rw [h, List.filterMap_some]

theorem releases_of_count {K : Type} (s : State K) (a : Site) (ha : a ∈ destroy_order) :
    ((releases_of s destroy_order : List (Effect K)).filterMap Effect.released?).count a
      = if (s.handle a).isSome then 1 else 0 := by
  rw [releases_of_released]
  by_cases h : (s.handle a).isSome = true
  · rw [if_pos h]
    exact List.count_eq_one_of_mem (destroy_order_nodup.filter _)
      (List.mem_filter.2 ⟨ha, by simpa using h⟩)
  · rw [if_neg h]
    apply List.count_eq_zero_of_not_mem
    intro hm
    exact h (by simpa using (List.mem_filter.1 hm).2)

theorem keeps_handles_trans {K : Type} {a b c : Context K × State K}
    (h1 : keeps_handles a b) (h2 : keeps_handles b c) : keeps_handles a c :=
  ⟨fun x => (h2.1 x).trans (h1.1 x), h2.2.1.trans h1.2.1, h2.2.2.trans h1.2.2⟩

theorem example_render_keeps_handles {K : Type} [Field K] {env : Env K}
    {inp : FrameInput} {cs : Context K × State K} {r : Int × Context K × State K}
    (h : example_render env inp cs = .ok r) : keeps_handles cs r.2 := by
  have h1 := example_render_state h
  have h2 := example_render_sites h
  refine ⟨?_, h2.1, h2.2⟩
  intro a
  rw [h1]
  cases a <;> rfl

theorem run_frames_keeps_handles {K : Type} [Field K] (env : Env K)
    (frames : List (K × FrameInput)) (cs cs' : Context K × State K)
    (hrun : run_frames env frames cs = .ok cs') : keeps_handles cs cs' := by
  have h := run_frames_keeps env frames cs cs' hrun
  refine ⟨?_, h.2.1, h.2.2⟩
  intro a
  rw [h.1]
  cases a <;> rfl

theorem build_command_buffer_keeps_handles {K : Type} {env : Env K} {inp : FrameInput}
    {cs : Context K × State K} {r : Option CommandBuffer × Context K × State K}
    (hb : build_command_buffer env inp cs = .ok r) : keeps_handles cs r.2 := by
  obtain ⟨ctx, s⟩ := cs
  have h := build_command_buffer_effect hb
  obtain ⟨ws, hl, hws⟩ := h.2.2
  refine ⟨?_, ?_, ?_⟩
  · intro a
    rw [h.2.1]
    cases a <;> rfl
  · rw [hl]
    rcases hws with h3 | h3 <;> rw [h3] <;> split_ifs <;>
      simp [List.filterMap_append, Effect.site?]
  · rw [hl]
    rcases hws with h3 | h3 <;> rw [h3] <;> split_ifs <;>
      simp [List.filterMap_append, Effect.released?]

theorem update_uniform_buffers_keeps_handles {K : Type} [Field K] (M : ExternMath K)
    (cs : Context K × State K) : keeps_handles cs (update_uniform_buffers M cs) := by
  refine ⟨?_, ?_, ?_⟩
  · intro a
    rw [update_uniform_buffers_state]
    cases a <;> rfl
  · unfold update_uniform_buffers
    simp [emit_log, List.filterMap_append, Effect.site?]
  · unfold update_uniform_buffers
    simp [emit_log, List.filterMap_append, Effect.released?]

theorem overlay_keeps_handles {K : Type} (ui : Overlay) (cs : Context K × State K) :
    keeps_handles cs (example_on_update_ui_overlay ui cs) := by
  have h := overlay_effect ui cs
  refine ⟨?_, ?_, ?_⟩
  · intro a
    rw [h.2.1]
    cases a <;> rfl
  · rcases h.2.2 with h3 | h3
    · rw [h3]
    · rw [h3]
      simp [List.filterMap_append, Effect.site?]
  · rcases h.2.2 with h3 | h3
    · rw [h3]
    · rw [h3]
      simp [List.filterMap_append, Effect.released?]

/-- C19, counterexample. In the sample run setup creates its objects in the order
`creation_order` and `example_destroy` then releases the module objects in the order
`destroy_order`: the vertex buffer is created before the index buffer and is also
released before it, not after it. -/
theorem example_destroy_not_reverse_order :
    sample_ready.1.log.filterMap Effect.site? = creation_order
      ∧ (example_destroy sample_ready).1.log.filterMap Effect.released? = destroy_order
      ∧ creation_order.indexOf Site.vertex_buffer < creation_order.indexOf Site.index_buffer
      ∧ destroy_order.indexOf Site.vertex_buffer < destroy_order.indexOf Site.index_buffer := by
  refine ⟨by decide, by decide, by decide, by decide⟩

/-- C19, amended. `example_destroy` releases the module objects in the order of its
release statements (`destroy_order`: vertex and index buffer, the three textures, the
three views, the model and camera uniform buffers, the lights, extent and config
buffers, the four bind groups, the four bind group layouts, the four pipelines, the
four pipeline layouts), skipping the variables that are `NULL`, whatever the order of
creation was; it does nothing else to the context, and leaves every module handle
`NULL`. -/
theorem example_destroy_release_order {K : Type} (cs : Context K × State K) :
    (example_destroy cs).1.log = cs.1.log ++ releases_of cs.2 destroy_order
      ∧ (example_destroy cs).1.log.filterMap Effect.released?
          = cs.1.log.filterMap Effect.released?
              ++ destroy_order.filter (fun a => (cs.2.handle a).isSome)
      ∧ ((∀ a ∈ destroy_order, (cs.2.handle a).isSome) →
          (example_destroy cs).1.log.filterMap Effect.released?
            = cs.1.log.filterMap Effect.released? ++ destroy_order)
      ∧ ∀ a, (example_destroy cs).2.handle a = none := by
  have h := example_destroy_effect cs
  have h2 : (example_destroy cs).1.log.filterMap Effect.released?
      = cs.1.log.filterMap Effect.released?
          ++ destroy_order.filter (fun a => (cs.2.handle a).isSome) := by
    rw [h.1, List.filterMap_append, releases_of_released]
  refine ⟨h.1, h2, ?_, h.2⟩
  intro hall
  rw [h2, List.filter_eq_self.2 hall]

/-- C20. Whole-program ownership. After `example_initialize` has returned, each of the
29 module variables that `example_destroy` names holds what the device returned for
it. No frame releases or recreates any of them: `example_render`, and so any sequence
of frames, as well as `build_command_buffer`, `update_uniform_buffers` and the overlay
callback on their own, leave every module handle as it is and log no creation and no
release of a module object. `example_destroy` then releases every module handle that
is not `NULL` exactly once (a `NULL` one not at all) and leaves all of them `NULL`. -/
theorem module_handles_released_once {K : Type} [Field K] (env : Env K)
    (ctx ctx' : Context K) (s s' : State K) (r : Int) (frames : List (K × FrameInput))
    (hinit : example_initialize env (some ctx) s = .ok (r, some ctx', s')) :
    destroy_order.length = 29
      ∧ destroy_order.Nodup
      ∧ (∀ a ∈ destroy_order, s'.handle a = env.device a)
      ∧ (∀ cs1, run_frames env frames (ctx', s') = .ok cs1 →
          keeps_handles (ctx', s') cs1
            ∧ (example_destroy cs1).1.log = cs1.1.log ++ releases_of s' destroy_order
            ∧ ∀ a, (example_destroy cs1).2.handle a = none)
      ∧ ((∀ f ∈ frames, f.2.finished = true ∨ env.assert_stops = false) →
          ∃ cs1, run_frames env frames (ctx', s') = .ok cs1)
      ∧ (∀ (inp : FrameInput) (ui : Overlay) (cs : Context K × State K),
          (∀ r1, example_render env inp cs = .ok r1 → keeps_handles cs r1.2)
            ∧ (∀ b, build_command_buffer env inp cs = .ok b → keeps_handles cs b.2)
            ∧ keeps_handles cs (update_uniform_buffers env.math cs)
            ∧ keeps_handles cs (example_on_update_ui_overlay ui cs))
      ∧ (∀ a ∈ destroy_order,
          ((releases_of s' destroy_order : List (Effect K)).filterMap
              Effect.released?).count a
            = if (env.device a).isSome then 1 else 0) := by
  have hst := (example_initialize_ok hinit).2.1
  have hh : ∀ a ∈ destroy_order, s'.handle a = env.device a := by
    intro a ha
    rw [hst]
    exact initialized_state_handle env ctx s a ha
  refine ⟨rfl, destroy_order_nodup, hh, ?_,
    fun hc => run_frames_returns env frames hc (ctx', s'), ?_, ?_⟩
  · intro cs1 hrun
    have hk := run_frames_keeps_handles env frames (ctx', s') cs1 hrun
    have hd := example_destroy_effect cs1
    have hrel : releases_of cs1.2 destroy_order
        = (releases_of s' destroy_order : List (Effect K)) := by
      unfold releases_of
      simp only [hk.1]
    refine ⟨hk, ?_, hd.2⟩
    rw [hd.1, hrel]
  · intro inp ui cs
    exact ⟨fun r1 h1 => example_render_keeps_handles h1,
      fun b hb => build_command_buffer_keeps_handles hb,
      update_uniform_buffers_keeps_handles env.math cs, overlay_keeps_handles ui cs⟩
  · intro a ha
    rw [releases_of_count s' a ha, hh a ha]

/-- C20, in the sample run: setup and one frame return, and after teardown the
releases are the 29 module variables, each once, and every module handle is `NULL`. -/
theorem module_handles_released_once_witness :
    ∃ cs1, run_frames sample_env [(0, sample_frame)] sample_ready = .ok cs1
      ∧ (example_destroy cs1).1.log = cs1.1.log ++ releases_of sample_ready.2 destroy_order
      ∧ ((releases_of sample_ready.2 destroy_order : List (Effect ℚ)).filterMap
            Effect.released?) = destroy_order
      ∧ ∀ a, (example_destroy cs1).2.handle a = none := by
  have h := module_handles_released_once sample_env sample_context sample_ready.1
    State.initial sample_ready.2 0 [(0, sample_frame)] (by rfl)
  obtain ⟨cs1, h1⟩ := h.2.2.2.2.1 (by
    intro f hf
    rw [List.mem_singleton] at hf
    subst hf
    exact Or.inl rfl)
  have h4 := h.2.2.2.1 cs1 h1
  exact ⟨cs1, h1, h4.2.1, by decide, h4.2.2⟩

/-! ### Index validity -/

theorem apply_writes_some {α : Type} (ws : List (Write α)) (m : Mapping α) (p : Nat) (v : α)
    (h : apply_writes ws m p = some v) : (∃ w ∈ ws, v ∈ w.2) ∨ m p = some v := by
  induction ws generalizing m with
  | nil => exact Or.inr h
  | cons w ws ih =>
    rw [apply_writes_cons] at h
    rcases ih _ h with ⟨w', hw', hv⟩ | h'
    · exact Or.inl ⟨w', List.mem_cons_of_mem _ hw', hv⟩
    · by_cases hc : w.covers p = true
      · rw [memcpy_covers m w p hc] at h'
        exact Or.inl ⟨w, List.mem_cons_self _ _, List.getElem?_mem h'⟩
      · rw [memcpy_not_covers m w p hc] at h'
        exact Or.inr h'

theorem ground_plane_indices_eq (P : Nat) (hP : P + 3 < 65536) :
    ground_plane_indices P = ![![P, P + 2, P + 1], ![P, P + 1, P + 3]] := by
  unfold ground_plane_indices
  rw [Nat.mod_eq_of_lt (show P < 2 ^ 16 by omega), Nat.mod_eq_of_lt (show P + 1 < 2 ^ 16 by omega),
    Nat.mod_eq_of_lt (show P + 2 < 2 ^ 16 by omega),
    Nat.mod_eq_of_lt (show P + 3 < 2 ^ 16 by omega)]

theorem ground_plane_indices_range (P : Nat) (hP : P + 3 < 65536) (k : Fin 2) (j : Fin 3) :
    P ≤ ground_plane_indices P k j ∧ ground_plane_indices P k j < P + 4 := by
  rw [ground_plane_indices_eq P hP]
  fin_cases k <;> fin_cases j <;> simp

theorem index_buffer_writes_valid {K : Type} (P : Nat) (d : StanfordDragonMesh K)
    (htri : ∀ i, i < d.triangles_count → ∀ j : Fin 3, d.triangles_data i j < P)
    (hP : P + 3 < 65536) (w : Write Nat) (hw : w ∈ index_buffer_writes P d) (v : Nat)
    (hv : v ∈ w.2) : v < P + 4 := by
  unfold index_buffer_writes at hw
  rcases List.mem_append.1 hw with h | h
  · obtain ⟨i, hi, rfl⟩ := List.mem_map.1 h
    have hv' : v ∈ List.ofFn (d.triangles_data i) := hv
    obtain ⟨j, rfl⟩ := (List.mem_ofFn _ _).1 hv'
    have := htri i (List.mem_range.1 hi) j
    omega
  · obtain ⟨k, _, rfl⟩ := List.mem_map.1 h
    have hv' : v ∈ List.ofFn (ground_plane_indices P k) := hv
    obtain ⟨j, rfl⟩ := (List.mem_ofFn _ _).1 hv'
    exact (ground_plane_indices_range P hP k j).2

theorem index_buffer_writes_length {K : Type} (P : Nat) (d : StanfordDragonMesh K) :
    ((index_buffer_writes P d).flatMap fun w => w.2).length = 3 * (d.triangles_count + 2) := by
  unfold index_buffer_writes
  rw [List.flatMap_append, List.length_append]
  have h1 : ∀ n : Nat, (((List.range n).map
      (fun i => (((3 * i) % 2 ^ 64, List.ofFn (d.triangles_data i)) : Write Nat))).flatMap
        fun w => w.2).length = 3 * n := by
    intro n
    induction n with
    | zero => rfl
    | succ n ih =>
      rw [List.range_succ, List.map_append, List.flatMap_append, List.length_append, ih]
      simp
      omega
  rw [h1]
  simp
  omega

/-- C22. Index validity. Writing `P` for `STANFORD_DRAGON_POSITION_COUNT_RES_4`: if the
dragon mesh has `positions.count = P`, every dragon triangle index is below `P` and
`P + 3 < 65536`, then the `memcpy` calls into the index buffer write `3 * (T + 2)`
values in all, every value written, and so every value the index buffer holds, is
below `P + 4`, the number of vertices of the vertex buffer, and the six ground-plane
indices are `P, P+2, P+1, P, P+1, P+3` as `uint16_t`, each in `[P, P + 4)`. -/
theorem index_buffer_indices_valid {K : Type} (env : Env K) (d : StanfordDragonMesh K)
    (hcount : d.positions_count = env.STANFORD_DRAGON_POSITION_COUNT_RES_4)
    (htri : ∀ i, i < d.triangles_count → ∀ j : Fin 3,
      d.triangles_data i j < env.STANFORD_DRAGON_POSITION_COUNT_RES_4)
    (hP : env.STANFORD_DRAGON_POSITION_COUNT_RES_4 + 3 < 65536) :
    ((index_buffer_writes env.STANFORD_DRAGON_POSITION_COUNT_RES_4 d).flatMap
        fun w => w.2).length = 3 * (d.triangles_count + 2)
      ∧ (∀ v ∈ (index_buffer_writes env.STANFORD_DRAGON_POSITION_COUNT_RES_4 d).flatMap
          (fun w => w.2), v < d.positions_count + 4)
      ∧ (∀ p v, index_buffer_data env.STANFORD_DRAGON_POSITION_COUNT_RES_4 d p = some v →
          v < d.positions_count + 4)
      ∧ ground_plane_indices env.STANFORD_DRAGON_POSITION_COUNT_RES_4
          = ![![env.STANFORD_DRAGON_POSITION_COUNT_RES_4,
                env.STANFORD_DRAGON_POSITION_COUNT_RES_4 + 2,
                env.STANFORD_DRAGON_POSITION_COUNT_RES_4 + 1],
              ![env.STANFORD_DRAGON_POSITION_COUNT_RES_4,
                env.STANFORD_DRAGON_POSITION_COUNT_RES_4 + 1,
                env.STANFORD_DRAGON_POSITION_COUNT_RES_4 + 3]]
      ∧ (∀ (k : Fin 2) (j : Fin 3),
          env.STANFORD_DRAGON_POSITION_COUNT_RES_4
              ≤ ground_plane_indices env.STANFORD_DRAGON_POSITION_COUNT_RES_4 k j
            ∧ ground_plane_indices env.STANFORD_DRAGON_POSITION_COUNT_RES_4 k j
              < env.STANFORD_DRAGON_POSITION_COUNT_RES_4 + 4) := by
  refine ⟨index_buffer_writes_length _ d, ?_, ?_, ground_plane_indices_eq _ hP,
    ground_plane_indices_range _ hP⟩
  · intro v hv
    obtain ⟨w, hw, hvw⟩ := List.mem_flatMap.1 hv
    rw [hcount]
    exact index_buffer_writes_valid _ d htri hP w hw v hvw
  · intro p v h
    unfold index_buffer_data at h
    rw [hcount]
    rcases apply_writes_some _ _ p v h with ⟨w, hw, hvw⟩ | h'
    · exact index_buffer_writes_valid _ d htri hP w hw v hvw
    · cases h'

/-- C22, in the sample run: the dragon has three positions, `P = 3`, and the nine
indices written, `0, 1, 2, 3, 5, 4, 3, 4, 6`, are all below `7`. -/
theorem index_buffer_indices_valid_witness :
    (index_buffer_writes 3 sample_dragon).flatMap (fun w => w.2) = [0, 1, 2, 3, 5, 4, 3, 4, 6]
      ∧ ∀ v ∈ (index_buffer_writes 3 sample_dragon).flatMap (fun w => w.2), v < 3 + 4 :=
  ⟨by decide,
    (index_buffer_indices_valid sample_env sample_dragon rfl
      (by
        intro i hi j
        have hi0 : i = 0 := by
          have : i < 1 := hi
          omega
        subst hi0
        fin_cases j <;> decide)
      (by decide)).2.1⟩

/-! ### The ground-plane triangles -/

theorem ground_plane_corner_eq (P : Nat) (hP : P + 3 < 65536) :
    (∀ j : Fin 3, ground_plane_corner P 0 j = ![0, 2, 1] j)
      ∧ ∀ j : Fin 3, ground_plane_corner P 1 j = ![0, 1, 3] j := by
  unfold ground_plane_corner
  rw [ground_plane_indices_eq P hP]
  refine ⟨?_, ?_⟩ <;> intro j <;> fin_cases j <;> simp

/-- C23. The two ground-plane triangles are consistently wound and agree with their
normals. With `P + 3 < 65536`, the index table makes the triangles the corners
`(0, 2, 1)` and `(0, 1, 3)` of the ground plane, whose positions are
`v0 = (-100,20,-100)`, `v1 = (100,20,100)`, `v2 = (-100,20,100)`, `v3 = (100,20,-100)`.
For both triangles `(b - a) x (c - a) = (0, 40000, 0)`, which is `40000` times the
normal `(0, 1, 0)` stored for every ground-plane vertex, and `40000 > 0`. The corners
the two triangles have in common are exactly `0` and `1`, and together they use all
four corners. -/
theorem ground_plane_triangles_wound {K : Type} [LinearOrderedField K] (P : Nat)
    (hP : P + 3 < 65536) :
    (List.ofFn (ground_plane_corner P 0) = [0, 2, 1]
        ∧ List.ofFn (ground_plane_corner P 1) = [0, 1, 3])
      ∧ (ground_plane_positions : Fin 4 → Vec3 K)
          = ![![-100, 20, -100], ![100, 20, 100], ![-100, 20, 100], ![100, 20, -100]]
      ∧ (∀ k : Fin 2, (ground_plane_winding P k : Vec3 K) = ![0, 40000, 0])
      ∧ (∀ (k : Fin 2) (i : Fin 4),
          (ground_plane_winding P k : Vec3 K) = fun c => 40000 * ground_plane_normals i c)
      ∧ (0 : K) < 40000
      ∧ (List.ofFn (ground_plane_corner P 0)).filter
            (fun c => decide (c ∈ List.ofFn (ground_plane_corner P 1))) = [0, 1]
      ∧ (∀ c, c < 4 → c ∈ List.ofFn (ground_plane_corner P 0)
            ∨ c ∈ List.ofFn (ground_plane_corner P 1)) := by
  obtain ⟨h0, h1⟩ := ground_plane_corner_eq P hP
  have l0 : List.ofFn (ground_plane_corner P 0) = [0, 2, 1] := by
    simp [List.ofFn_succ, h0]
  have l1 : List.ofFn (ground_plane_corner P 1) = [0, 1, 3] := by
    simp [List.ofFn_succ, h1]
  have hw : ∀ k : Fin 2, (ground_plane_winding P k : Vec3 K) = ![0, 40000, 0] := by
    intro k
    unfold ground_plane_winding
    fin_cases k
    · have e : (ground_plane_winding P 0 : Vec3 K)
          = cross_product
              (glm_vec3_sub (ground_plane_positions 2) (ground_plane_positions 0))
              (glm_vec3_sub (ground_plane_positions 1) (ground_plane_positions 0)) := by
        unfold ground_plane_winding
        rw [h0 0, h0 1, h0 2]
        rfl
      show (ground_plane_winding P 0 : Vec3 K) = _
      rw [e]
      funext c
      fin_cases c <;>
        norm_num [cross_product, glm_vec3_sub, ground_plane_positions, Matrix.vecHead,
          Matrix.vecTail]
    · have e : (ground_plane_winding P 1 : Vec3 K)
          = cross_product
              (glm_vec3_sub (ground_plane_positions 1) (ground_plane_positions 0))
              (glm_vec3_sub (ground_plane_positions 3) (ground_plane_positions 0)) := by
        unfold ground_plane_winding
        rw [h1 0, h1 1, h1 2]
        rfl
      show (ground_plane_winding P 1 : Vec3 K) = _
      rw [e]
      funext c
      fin_cases c <;>
        norm_num [cross_product, glm_vec3_sub, ground_plane_positions, Matrix.vecHead,
          Matrix.vecTail]
  refine ⟨⟨l0, l1⟩, rfl, hw, ?_, by norm_num, ?_, ?_⟩
  · intro k i
    rw [hw k]
    funext c
    fin_cases i <;> fin_cases c <;>
      norm_num [ground_plane_normals, Matrix.vecHead, Matrix.vecTail]
  · rw [l0, l1]
    decide
  · intro c hc
    rw [l0, l1]
    interval_cases c <;> simp

/-- C23, at `P = 3`, the sample dragon: both triangles have winding vector
`(0, 40000, 0)`. -/
theorem ground_plane_triangles_wound_witness :
    (ground_plane_winding 3 0 : Vec3 ℚ) = ![0, 40000, 0]
      ∧ (ground_plane_winding 3 1 : Vec3 ℚ) = ![0, 40000, 0] :=
  ⟨(ground_plane_triangles_wound 3 (by decide)).2.2.1 0,
    (ground_plane_triangles_wound 3 (by decide)).2.2.1 1⟩

/-! ### The rotation about the vertical axis -/

theorem glm_vec3_rotate_y_apply {K : Type} [Field K] (M : ExternMath K) (a b : Vec3 K)
    (rad : K) :
    glm_vec3_rotate_y M a b rad
      = ![(a 2 - b 2) * M.sin rad + (a 0 - b 0) * M.cos rad + b 0, a 1 - b 1 + b 1,
          (a 2 - b 2) * M.cos rad - (a 0 - b 0) * M.sin rad + b 2] := by
  unfold glm_vec3_rotate_y
  funext j
  fin_cases j <;> simp

/-- C24. The function `glm_vec3_rotate_y` is a rigid rotation about the vertical axis
through `b`. With `sin` and `cos` read as the real functions: for all points `a`,
pivots `b` and angles `rad`, the result has the y coordinate of `a` and the horizontal
distance to `b` that `a` has, and `rad = 0` returns `a`. So, with the origin
`(0,0,0)` that `prepare_view_matrices` stores, the camera eye is at height 50 and at
horizontal distance 100 from the origin for every frame time, and the direction from
the origin to the eye is never parallel to the up vector `(0,1,0)`: their cross
product is not zero. -/
theorem glm_vec3_rotate_y_rigid (M : ExternMath ℝ) (hsin : M.sin = Real.sin)
    (hcos : M.cos = Real.cos) :
    (∀ (a b : Vec3 ℝ) (rad : ℝ),
        glm_vec3_rotate_y M a b rad 1 = a 1
          ∧ (glm_vec3_rotate_y M a b rad 0 - b 0) ^ 2
              + (glm_vec3_rotate_y M a b rad 2 - b 2) ^ 2
            = (a 0 - b 0) ^ 2 + (a 2 - b 2) ^ 2
          ∧ glm_vec3_rotate_y M a b 0 = a)
      ∧ ∀ (ctx : Context ℝ) (s : State ℝ), s.view_matrices.origin = ![0, 0, 0] →
          camera_eye_position M ctx s 1 = 50
            ∧ (camera_eye_position M ctx s 0) ^ 2 + (camera_eye_position M ctx s 2) ^ 2
                = 100 ^ 2
            ∧ cross_product (glm_vec3_sub (camera_eye_position M ctx s) ![0, 0, 0])
                ![0, 1, 0] ≠ ![0, 0, 0] := by
  have hrig : ∀ (a b : Vec3 ℝ) (rad : ℝ),
      glm_vec3_rotate_y M a b rad 1 = a 1
        ∧ (glm_vec3_rotate_y M a b rad 0 - b 0) ^ 2
            + (glm_vec3_rotate_y M a b rad 2 - b 2) ^ 2
          = (a 0 - b 0) ^ 2 + (a 2 - b 2) ^ 2
        ∧ glm_vec3_rotate_y M a b 0 = a := by
    intro a b rad
    rw [glm_vec3_rotate_y_apply, glm_vec3_rotate_y_apply, hsin, hcos]
    refine ⟨by simp, ?_, ?_⟩
    · simp only [Matrix.cons_val_zero, Matrix.cons_val_two, Matrix.tail_cons,
        Matrix.head_cons]
      have h := Real.sin_sq_add_cos_sq rad
      nlinarith [h]
    · funext j
      fin_cases j <;> simp
  refine ⟨hrig, ?_⟩
  intro ctx s horigin
  have he : camera_eye_position M ctx s
      = glm_vec3_rotate_y M ![0, 50, -100] ![0, 0, 0]
          (M.PI * (ctx.frame_timestamp_millis / 5000)) := by
    unfold camera_eye_position
    rw [horigin]
  obtain ⟨h1, h2, _⟩ := hrig ![0, 50, -100] ![0, 0, 0]
    (M.PI * (ctx.frame_timestamp_millis / 5000))
  rw [← he] at h1 h2
  have h2' : (camera_eye_position M ctx s 0) ^ 2 + (camera_eye_position M ctx s 2) ^ 2
      = 100 ^ 2 := by
    have := h2
    simp only [Matrix.cons_val_zero, Matrix.cons_val_two, Matrix.tail_cons,
      Matrix.head_cons, sub_zero] at this
    rw [this]
    norm_num
  refine ⟨by rw [h1]; simp, h2', ?_⟩
  intro hc
  have c0 := congrFun hc 0
  have c2 := congrFun hc 2
  simp [cross_product, glm_vec3_sub] at c0 c2
  rw [c0, c2] at h2'
  norm_num at h2'

/-- C24, at a concrete input: rotating `(3, 7, 4)` about the pivot `(1, 2, 1)` keeps the
height 7 and the squared horizontal distance `2^2 + 3^2 = 13`. -/
theorem glm_vec3_rotate_y_rigid_witness :
    glm_vec3_rotate_y
        ({ PI := Real.pi, sin := Real.sin, cos := Real.cos,
           glm_perspective := fun _ _ _ _ => glm_mat4_identity,
           glm_lookat := fun _ _ _ => glm_mat4_identity,
           glm_mat4_inv := fun m => m } : ExternMath ℝ) ![3, 7, 4] ![1, 2, 1] 1 1 = 7
      ∧ (glm_vec3_rotate_y
          ({ PI := Real.pi, sin := Real.sin, cos := Real.cos,
             glm_perspective := fun _ _ _ _ => glm_mat4_identity,
             glm_lookat := fun _ _ _ => glm_mat4_identity,
             glm_mat4_inv := fun m => m } : ExternMath ℝ) ![3, 7, 4] ![1, 2, 1] 1 0 - 1) ^ 2
          + (glm_vec3_rotate_y
          ({ PI := Real.pi, sin := Real.sin, cos := Real.cos,
             glm_perspective := fun _ _ _ _ => glm_mat4_identity,
             glm_lookat := fun _ _ _ => glm_mat4_identity,
             glm_mat4_inv := fun m => m } : ExternMath ℝ) ![3, 7, 4] ![1, 2, 1] 1 2 - 1) ^ 2
        = 13 := by
  have h := (glm_vec3_rotate_y_rigid
    ({ PI := Real.pi, sin := Real.sin, cos := Real.cos,
       glm_perspective := fun _ _ _ _ => glm_mat4_identity,
       glm_lookat := fun _ _ _ => glm_mat4_identity,
       glm_mat4_inv := fun m => m } : ExternMath ℝ) rfl rfl).1 ![3, 7, 4] ![1, 2, 1] 1
  refine ⟨by rw [h.1]; simp, ?_⟩
  have h2 := h.2.1
  simp only [Matrix.cons_val_zero, Matrix.cons_val_two, Matrix.tail_cons,
    Matrix.head_cons] at h2
  rw [h2]
  norm_num

/-! ### The period of the camera orbit -/

/-- With the real `sin` and a rational value of `PI` other than 0, the angle `2 * PI`
that the orbit reaches after 10000 ms is no multiple of `pi`: its sine is not 0. -/
theorem sin_two_rational_ne_zero (q : ℚ) (hq : q ≠ 0) : Real.sin (2 * (q : ℝ)) ≠ 0 := by
  intro h
  obtain ⟨n, hn⟩ := Real.sin_eq_zero_iff.1 h
  have hn0 : n ≠ 0 := by
    rintro rfl
    have hq' : (q : ℝ) ≠ 0 := by exact_mod_cast hq
    have : (2 : ℝ) * (q : ℝ) = 0 := by
      rw [← hn]
      simp
    exact hq' (by linarith)
  have hirr := (irrational_pi.int_mul hn0).ne_rat (2 * q)
  apply hirr
  rw [hn]
  push_cast
  ring

/-- C25, counterexample. A run of `example_initialize` with the `float` value of `PI`
and the real `sin` and `cos` (cglm's `glm_perspective` and `glm_lookat`, the real
`tan` and `sqrt`): it returns, and in the state it leaves the eye position computed for
`t = 0 + 10000` is not the eye position computed for `t = 0`, because the angle has
advanced by `2 * PI`, which is not `2 * pi`. -/
theorem camera_orbit_not_periodic_float_pi :
    ∃ (c : Context ℝ) (s : State ℝ),
      example_initialize
          (sample_env_of (cglm_math ((PI_float : ℚ) : ℝ) Real.sin Real.cos Real.tan Real.sqrt
            (fun m c r => (Mat4.toMatrix m)⁻¹ r c)))
          (some (surface_context 1280 720 0)) State.initial = .ok (0, some c, s)
      ∧ c.frame_timestamp_millis = 0
      ∧ camera_eye_position
          (cglm_math ((PI_float : ℚ) : ℝ) Real.sin Real.cos Real.tan Real.sqrt
            (fun m c r => (Mat4.toMatrix m)⁻¹ r c))
          { c with frame_timestamp_millis := c.frame_timestamp_millis + 10000 } s
        ≠ camera_eye_position
          (cglm_math ((PI_float : ℚ) : ℝ) Real.sin Real.cos Real.tan Real.sqrt
            (fun m c r => (Mat4.toMatrix m)⁻¹ r c)) c s := by
  obtain ⟨c, h1, k1⟩ := sample_run_returns
    (cglm_math ((PI_float : ℚ) : ℝ) Real.sin Real.cos Real.tan Real.sqrt
      (fun m c r => (Mat4.toMatrix m)⁻¹ r c)) (surface_context 1280 720 0)
  have t1 : c.frame_timestamp_millis = 0 := by rw [k1]; rfl
  refine ⟨c, _, h1, t1, ?_⟩
  rw [camera_eye_position_eq _ _ _ rfl, camera_eye_position_eq _ _ _ rfl]
  intro h
  have h0 := congrFun h 0
  simp only [Matrix.cons_val_zero] at h0
  rw [t1] at h0
  have e1 : (cglm_math ((PI_float : ℚ) : ℝ) Real.sin Real.cos Real.tan Real.sqrt
      (fun m c r => (Mat4.toMatrix m)⁻¹ r c)).sin = Real.sin := rfl
  have e2 : (cglm_math ((PI_float : ℚ) : ℝ) Real.sin Real.cos Real.tan Real.sqrt
      (fun m c r => (Mat4.toMatrix m)⁻¹ r c)).PI = ((PI_float : ℚ) : ℝ) := rfl
  rw [e1, e2] at h0
  have a1 : ((PI_float : ℚ) : ℝ) * (0 + 10000) / 5000 = 2 * ((PI_float : ℚ) : ℝ) := by ring
  have a0 : ((PI_float : ℚ) : ℝ) * 0 / 5000 = 0 := by ring
  rw [a1, a0, Real.sin_zero, mul_zero] at h0
  have hs : Real.sin (2 * ((PI_float : ℚ) : ℝ)) = 0 := by linarith
  exact sin_two_rational_ne_zero PI_float (by unfold PI_float; norm_num) hs

/-- C25, amended. Over exact real arithmetic the camera orbit has period 10000 ms.
With `sin`, `cos`, `PI` read as the real functions and constant: for every frame time
`t` and every module state, the angle `PI * ((t + 10000) / 5000)` is the angle for `t`
advanced by `2 * pi`, so the eye position computed for `t + 10000` is the one computed
for `t`, and with it the view matrix `glm_lookat` is given, the view-projection matrix
returned and the state left behind. -/
theorem camera_orbit_period (M : ExternMath ℝ) (ctx : Context ℝ) (s : State ℝ)
    (hpi : M.PI = Real.pi) (hsin : M.sin = Real.sin) (hcos : M.cos = Real.cos) :
    M.PI * ((ctx.frame_timestamp_millis + 10000) / 5000)
        = M.PI * (ctx.frame_timestamp_millis / 5000) + 2 * Real.pi
      ∧ camera_eye_position M
          { ctx with frame_timestamp_millis := ctx.frame_timestamp_millis + 10000 } s
        = camera_eye_position M ctx s
      ∧ get_camera_view_proj_matrix M
          { ctx with frame_timestamp_millis := ctx.frame_timestamp_millis + 10000 } s
        = get_camera_view_proj_matrix M ctx s := by
  have ha : M.PI * ((ctx.frame_timestamp_millis + 10000) / 5000)
      = M.PI * (ctx.frame_timestamp_millis / 5000) + 2 * Real.pi := by
    rw [hpi]
    ring
  have he : camera_eye_position M
      { ctx with frame_timestamp_millis := ctx.frame_timestamp_millis + 10000 } s
      = camera_eye_position M ctx s := by
    show glm_vec3_rotate_y M ![0, 50, -100] s.view_matrices.origin
        (M.PI * ((ctx.frame_timestamp_millis + 10000) / 5000))
      = glm_vec3_rotate_y M ![0, 50, -100] s.view_matrices.origin
        (M.PI * (ctx.frame_timestamp_millis / 5000))
    rw [ha, glm_vec3_rotate_y_apply, glm_vec3_rotate_y_apply, hsin, hcos,
      Real.sin_add_two_pi, Real.cos_add_two_pi]
  refine ⟨ha, he, ?_⟩
  unfold get_camera_view_proj_matrix
  rw [he]

/-- C25, amended, at a concrete input: the eye for `t = 2500 + 10000` is `(-100, 50, 0)`, the eye
for `t = 2500`. -/
theorem camera_orbit_period_witness :
    camera_eye_position
        ({ PI := Real.pi, sin := Real.sin, cos := Real.cos,
           glm_perspective := fun _ _ _ _ => glm_mat4_identity,
           glm_lookat := fun _ _ _ => glm_mat4_identity,
           glm_mat4_inv := fun m => m } : ExternMath ℝ)
        { context_at (2500 : ℝ) with
          frame_timestamp_millis := (context_at (2500 : ℝ)).frame_timestamp_millis + 10000 }
        (camera_state glm_mat4_identity)
      = ![-100, 50, 0] := by
  have h := (camera_orbit_period
    ({ PI := Real.pi, sin := Real.sin, cos := Real.cos,
       glm_perspective := fun _ _ _ _ => glm_mat4_identity,
       glm_lookat := fun _ _ _ => glm_mat4_identity,
       glm_mat4_inv := fun m => m } : ExternMath ℝ)
    (context_at 2500) (camera_state glm_mat4_identity) rfl rfl rfl).2.1
  rw [h, camera_eye_position_eq _ _ _ rfl]
  have e : Real.pi * (context_at (2500 : ℝ)).frame_timestamp_millis / 5000 = Real.pi / 2 := by
    show Real.pi * 2500 / 5000 = Real.pi / 2
    ring
  simp only [e, Real.sin_pi_div_two, Real.cos_pi_div_two]
  funext j
  fin_cases j <;> simp

/-! ### The log of the setup path only grows -/

theorem log_grows_refl {K : Type} (cs : Context K × State K) : log_grows cs cs :=
  ⟨[], by simp⟩

theorem log_grows_trans {K : Type} {a b c : Context K × State K}
    (h1 : log_grows a b) (h2 : log_grows b c) : log_grows a c := by
  obtain ⟨d1, e1⟩ := h1
  obtain ⟨d2, e2⟩ := h2
  exact ⟨d1 ++ d2, by rw [e2, e1, List.append_assoc]⟩

theorem log_grows_mem {K : Type} {a b : Context K × State K} (h : log_grows a b)
    (e : Effect K) (he : e ∈ a.1.log) : e ∈ b.1.log := by
  obtain ⟨d, hd⟩ := h
  rw [hd]
  exact List.mem_append_left _ he

theorem release_shader_module_grows {K : Type} (ctx : Context K) (m : Handle) :
    ∃ delta, (release_shader_module ctx m).log = ctx.log ++ delta := by
  unfold release_shader_module
  by_cases hm : m.isSome = true
  · rw [if_pos hm]
    exact ⟨_, rfl⟩
  · rw [if_neg hm]
    exact ⟨[], by simp⟩

theorem stanford_dragon_mesh_init_grows {K : Type} {env : Env K}
    {cs cs' : Context K × State K} (h : stanford_dragon_mesh_init env cs = .ok cs') :
    log_grows cs cs' := by
  unfold stanford_dragon_mesh_init at h
  cases h
  exact ⟨[], by simp⟩

theorem prepare_vertex_and_index_buffers_grows {K : Type} [Field K] {env : Env K}
    {cs cs' : Context K × State K} (h : prepare_vertex_and_index_buffers env cs = .ok cs') :
    log_grows cs cs' :=
  ⟨_, prepare_vertex_and_index_buffers_effects h⟩

theorem prepare_gbuffer_texture_render_targets_grows {K : Type} {env : Env K}
    {cs cs' : Context K × State K}
    (h : prepare_gbuffer_texture_render_targets env cs = .ok cs') :
    log_grows cs cs' := by
  unfold prepare_gbuffer_texture_render_targets at h
  replace h := (ASSERT_bind_ok h).2
  replace h := (ASSERT_bind_ok h).2
  replace h := (ASSERT_bind_ok h).2
  replace h := (ASSERT_bind_ok h).2
  replace h := (ASSERT_bind_ok h).2
  replace h := (ASSERT_bind_ok h).2
  cases h
  unfold log_grows
  simp only [emit_log, List.append_assoc]
  exact ⟨_, rfl⟩

theorem prepare_bind_group_layouts_grows {K : Type} {env : Env K}
    {cs cs' : Context K × State K} (h : prepare_bind_group_layouts env cs = .ok cs') :
    log_grows cs cs' := by
  unfold prepare_bind_group_layouts at h
  replace h := (ASSERT_bind_ok h).2
  replace h := (ASSERT_bind_ok h).2
  replace h := (ASSERT_bind_ok h).2
  replace h := (ASSERT_bind_ok h).2
  cases h
  unfold log_grows
  simp only [emit_log, List.append_assoc]
  exact ⟨_, rfl⟩

theorem prepare_render_pipeline_layouts_grows {K : Type} {env : Env K}
    {cs cs' : Context K × State K} (h : prepare_render_pipeline_layouts env cs = .ok cs') :
    log_grows cs cs' := by
  unfold prepare_render_pipeline_layouts at h
  replace h := (ASSERT_bind_ok h).2
  replace h := (ASSERT_bind_ok h).2
  replace h := (ASSERT_bind_ok h).2
  cases h
  unfold log_grows
  simp only [emit_log, List.append_assoc]
  exact ⟨_, rfl⟩

theorem grows_emit {K : Type} {a b : Context K} (e : Effect K)
    (h : ∃ delta, b.log = a.log ++ delta) : ∃ delta, (b.emit e).log = a.log ++ delta := by
  obtain ⟨d, hd⟩ := h
  exact ⟨d ++ [e], by rw [emit_log, hd, List.append_assoc]⟩

theorem grows_release_shader {K : Type} {a b : Context K} (m : Handle)
    (h : ∃ delta, b.log = a.log ++ delta) :
    ∃ delta, (release_shader_module b m).log = a.log ++ delta := by
  obtain ⟨d, hd⟩ := h
  obtain ⟨d2, hd2⟩ := release_shader_module_grows b m
  exact ⟨d ++ d2, by rw [hd2, hd, List.append_assoc]⟩

theorem grows_start {K : Type} (a : Context K) : ∃ delta, a.log = a.log ++ delta :=
  ⟨[], by simp⟩

theorem prepare_write_gbuffers_pipeline_grows {K : Type} {env : Env K}
    {cs cs' : Context K × State K} (h : prepare_write_gbuffers_pipeline env cs = .ok cs') :
    log_grows cs cs' := by
  unfold prepare_write_gbuffers_pipeline at h
  cases h
  unfold log_grows
  apply grows_release_shader
  apply grows_release_shader
  repeat apply grows_emit
  exact grows_start _

theorem prepare_gbuffers_debug_view_pipeline_grows {K : Type} {env : Env K}
    {cs cs' : Context K × State K}
    (h : prepare_gbuffers_debug_view_pipeline env cs = .ok cs') :
    log_grows cs cs' := by
  unfold prepare_gbuffers_debug_view_pipeline at h
  cases h
  unfold log_grows
  apply grows_release_shader
  apply grows_release_shader
  repeat apply grows_emit
  exact grows_start _

theorem prepare_deferred_render_pipeline_grows {K : Type} {env : Env K}
    {cs cs' : Context K × State K} (h : prepare_deferred_render_pipeline env cs = .ok cs') :
    log_grows cs cs' := by
  unfold prepare_deferred_render_pipeline at h
  cases h
  unfold log_grows
  apply grows_release_shader
  apply grows_release_shader
  repeat apply grows_emit
  exact grows_start _

theorem setup_render_passes_grows {K : Type} {env : Env K}
    {cs cs' : Context K × State K} (h : setup_render_passes env cs = .ok cs') :
    log_grows cs cs' := by
  unfold setup_render_passes at h
  cases h
  exact ⟨[], by simp⟩

theorem prepare_uniform_buffers_grows {K : Type} {env : Env K}
    {cs cs' : Context K × State K} (h : prepare_uniform_buffers env cs = .ok cs') :
    log_grows cs cs' := by
  unfold prepare_uniform_buffers at h
  obtain ⟨cs1, h1, h⟩ := bind_ok h
  obtain ⟨cs2, h2, h⟩ := bind_ok h
  unfold prepare_config_uniform_buffer at h1
  replace h1 := (ASSERT_bind_ok h1).2
  replace h1 := (ASSERT_bind_ok h1).2
  replace h1 := (deref_bind_ok h1).2
  cases h1
  unfold prepare_model_camera_uniform_buffers at h2
  replace h2 := (ASSERT_bind_ok h2).2
  replace h2 := (ASSERT_bind_ok h2).2
  cases h2
  unfold prepare_uniform_bind_groups at h
  replace h := (ASSERT_bind_ok h).2
  replace h := (ASSERT_bind_ok h).2
  cases h
  unfold log_grows
  simp only [wgpu_create_buffer]
  repeat apply grows_emit
  exact grows_start _

theorem prepare_compute_pipeline_layout_grows {K : Type} {env : Env K}
    {cs cs' : Context K × State K} (h : prepare_compute_pipeline_layout env cs = .ok cs') :
    log_grows cs cs' := by
  unfold prepare_compute_pipeline_layout at h
  replace h := (ASSERT_bind_ok h).2
  cases h
  unfold log_grows
  repeat apply grows_emit
  exact grows_start _

theorem prepare_light_update_compute_pipeline_grows {K : Type} {env : Env K}
    {cs cs' : Context K × State K}
    (h : prepare_light_update_compute_pipeline env cs = .ok cs') :
    log_grows cs cs' := by
  unfold prepare_light_update_compute_pipeline at h
  cases h
  unfold log_grows
  apply grows_release_shader
  repeat apply grows_emit
  exact grows_start _

theorem prepare_lights_grows {K : Type} [Field K] {env : Env K}
    {cs cs' : Context K × State K} (h : prepare_lights env cs = .ok cs') :
    log_grows cs cs' := by
  unfold prepare_lights at h
  obtain ⟨cs1, h1, h⟩ := bind_ok h
  obtain ⟨cs2, h2, h⟩ := bind_ok h
  unfold prepare_lights_buffer at h1
  replace h1 := (ASSERT_bind_ok h1).2
  replace h1 := (ASSERT_bind_ok h1).2
  replace h1 := (deref_bind_ok h1).2
  cases h1
  unfold prepare_lights_extent_buffer at h2
  cases h2
  unfold prepare_lights_bind_groups at h
  replace h := (ASSERT_bind_ok h).2
  replace h := (ASSERT_bind_ok h).2
  cases h
  unfold log_grows
  repeat apply grows_emit
  exact grows_start _

theorem prepare_view_matrices_grows {K : Type} [Field K] {env : Env K}
    {cs cs' : Context K × State K} (h : prepare_view_matrices env cs = .ok cs') :
    log_grows cs cs' := by
  unfold prepare_view_matrices at h
  cases h
  unfold log_grows
  repeat apply grows_emit
  exact grows_start _

/-! ### Minimum binding sizes -/

theorem prepare_bind_group_layouts_created {K : Type} {env : Env K}
    {cs cs' : Context K × State K} (h : prepare_bind_group_layouts env cs = .ok cs') :
    Effect.create_bind_group_layout .lights_buffer_bind_group_layout
        lights_buffer_layout_entries (env.device .lights_buffer_bind_group_layout)
        ∈ cs'.1.log
      ∧ Effect.create_bind_group_layout .lights_buffer_compute_bind_group_layout
          (lights_buffer_compute_layout_entries cs.2.camera_uniform_buffer_size)
          (env.device .lights_buffer_compute_bind_group_layout) ∈ cs'.1.log := by
  unfold prepare_bind_group_layouts at h
  replace h := (ASSERT_bind_ok h).2
  replace h := (ASSERT_bind_ok h).2
  replace h := (ASSERT_bind_ok h).2
  replace h := (ASSERT_bind_ok h).2
  cases h
  simp [emit_log, lights_buffer_layout_entries, lights_buffer_compute_layout_entries]

theorem prepare_compute_pipeline_layout_created {K : Type} {env : Env K}
    {cs cs' : Context K × State K} (h : prepare_compute_pipeline_layout env cs = .ok cs') :
    Effect.create_pipeline_layout .light_update_compute_pipeline_layout
        [cs.2.lights.buffer_compute_bind_group_layout]
        (env.device .light_update_compute_pipeline_layout) ∈ cs'.1.log := by
  unfold prepare_compute_pipeline_layout at h
  replace h := (ASSERT_bind_ok h).2
  cases h
  simp [emit_log]

theorem prepare_light_update_compute_pipeline_created {K : Type} {env : Env K}
    {cs cs' : Context K × State K}
    (h : prepare_light_update_compute_pipeline env cs = .ok cs') :
    Effect.create_compute_pipeline .light_update_compute_pipeline
        cs.2.light_update_compute_pipeline_layout (env.device .light_update_compute_shader)
        (env.device .light_update_compute_pipeline) ∈ cs'.1.log := by
  unfold prepare_light_update_compute_pipeline at h
  cases h
  simp only []
  obtain ⟨d, hd⟩ := release_shader_module_grows
    ((cs.1.emit (.create_shader .light_update_compute_shader
        "shaders/deferred_rendering/lightUpdate.wgsl"
        (env.device .light_update_compute_shader))).emit
      (.create_compute_pipeline .light_update_compute_pipeline
        cs.2.light_update_compute_pipeline_layout (env.device .light_update_compute_shader)
        (env.device .light_update_compute_pipeline)))
    (env.device .light_update_compute_shader)
  rw [hd]
  simp [emit_log]

theorem prepare_lights_layout_taken {K : Type} [Field K] {env : Env K}
    {cs cs' : Context K × State K} (h : prepare_lights env cs = .ok cs') :
    Effect.get_bind_group_layout .light_update_compute_pipeline_bind_group_layout_0
        cs.2.light_update_compute_pipeline 0
        (env.device .light_update_compute_pipeline_bind_group_layout_0) ∈ cs'.1.log := by
  unfold prepare_lights at h
  obtain ⟨cs1, h1, h⟩ := bind_ok h
  obtain ⟨cs2, h2, h⟩ := bind_ok h
  unfold prepare_lights_buffer at h1
  replace h1 := (ASSERT_bind_ok h1).2
  replace h1 := (ASSERT_bind_ok h1).2
  replace h1 := (deref_bind_ok h1).2
  cases h1
  unfold prepare_lights_extent_buffer at h2
  cases h2
  unfold prepare_lights_bind_groups at h
  replace h := (ASSERT_bind_ok h).2
  replace h := (ASSERT_bind_ok h).2
  cases h
  simp [emit_log]

theorem example_initialize_layouts {K : Type} [Field K] {env : Env K}
    {ctx ctx' : Context K} {s s' : State K} {r : Int}
    (h : example_initialize env (some ctx) s = .ok (r, some ctx', s')) :
    Effect.create_bind_group_layout .lights_buffer_bind_group_layout
        lights_buffer_layout_entries (env.device .lights_buffer_bind_group_layout)
        ∈ ctx'.log
      ∧ Effect.create_bind_group_layout .lights_buffer_compute_bind_group_layout
          (lights_buffer_compute_layout_entries s.camera_uniform_buffer_size)
          (env.device .lights_buffer_compute_bind_group_layout) ∈ ctx'.log
      ∧ Effect.create_pipeline_layout .light_update_compute_pipeline_layout
          [env.device .lights_buffer_compute_bind_group_layout]
          (env.device .light_update_compute_pipeline_layout) ∈ ctx'.log
      ∧ Effect.create_compute_pipeline .light_update_compute_pipeline
          (env.device .light_update_compute_pipeline_layout)
          (env.device .light_update_compute_shader)
          (env.device .light_update_compute_pipeline) ∈ ctx'.log
      ∧ Effect.get_bind_group_layout .light_update_compute_pipeline_bind_group_layout_0
          (env.device .light_update_compute_pipeline) 0
          (env.device .light_update_compute_pipeline_bind_group_layout_0) ∈ ctx'.log := by
  unfold example_initialize at h
  simp only [] at h
  obtain ⟨cs0, h0, h⟩ := bind_ok h
  obtain ⟨cs1, h1, h⟩ := bind_ok h
  obtain ⟨cs2, h2, h⟩ := bind_ok h
  obtain ⟨cs3, h3, h⟩ := bind_ok h
  obtain ⟨cs4, h4, h⟩ := bind_ok h
  obtain ⟨cs5, h5, h⟩ := bind_ok h
  obtain ⟨cs6, h6, h⟩ := bind_ok h
  obtain ⟨cs7, h7, h⟩ := bind_ok h
  obtain ⟨cs8, h8, h⟩ := bind_ok h
  obtain ⟨cs9, h9, h⟩ := bind_ok h
  obtain ⟨cs10, h10, h⟩ := bind_ok h
  obtain ⟨cs11, h11, h⟩ := bind_ok h
  obtain ⟨cs12, h12, h⟩ := bind_ok h
  obtain ⟨cs13, h13, h⟩ := bind_ok h
  cases h
  have e0 := (stanford_dragon_mesh_init_log h0).2
  have e1 := prepare_vertex_and_index_buffers_state h1
  have e2 := prepare_gbuffer_texture_render_targets_state h2
  have e3 := prepare_bind_group_layouts_state h3
  have e4 := prepare_render_pipeline_layouts_state h4
  have e5 := prepare_write_gbuffers_pipeline_state h5
  have e6 := prepare_gbuffers_debug_view_pipeline_state h6
  have e7 := prepare_deferred_render_pipeline_state h7
  have e8 := setup_render_passes_state h8
  have e9 := prepare_uniform_buffers_state h9
  have e10 := prepare_compute_pipeline_layout_state h10
  have e11 := prepare_light_update_compute_pipeline_state h11
  have g13 := prepare_view_matrices_grows h13
  have g12 := log_grows_trans (prepare_lights_grows h12) g13
  have g11 := log_grows_trans (prepare_light_update_compute_pipeline_grows h11) g12
  have g10 := log_grows_trans (prepare_compute_pipeline_layout_grows h10) g11
  have g9 := log_grows_trans (prepare_uniform_buffers_grows h9) g10
  have g8 := log_grows_trans (setup_render_passes_grows h8) g9
  have g7 := log_grows_trans (prepare_deferred_render_pipeline_grows h7) g8
  have g6 := log_grows_trans (prepare_gbuffers_debug_view_pipeline_grows h6) g7
  have g5 := log_grows_trans (prepare_write_gbuffers_pipeline_grows h5) g6
  have g4 := log_grows_trans (prepare_render_pipeline_layouts_grows h4) g5
  have hsize : cs2.2.camera_uniform_buffer_size = s.camera_uniform_buffer_size := by
    rw [e2, e1, e0]
  have hlay : cs9.2.lights.buffer_compute_bind_group_layout
      = env.device .lights_buffer_compute_bind_group_layout := by
    rw [e9, e8, e7, e6, e5, e4, e3]
  have hpl : cs10.2.light_update_compute_pipeline_layout
      = env.device .light_update_compute_pipeline_layout := by
    rw [e10]
  have hp : cs11.2.light_update_compute_pipeline
      = env.device .light_update_compute_pipeline := by
    rw [e11]
  have c3 := prepare_bind_group_layouts_created h3
  have c10 := prepare_compute_pipeline_layout_created h10
  have c11 := prepare_light_update_compute_pipeline_created h11
  have c12 := prepare_lights_layout_taken h12
  rw [hsize] at c3
  rw [hlay] at c10
  rw [hpl] at c11
  rw [hp] at c12
  exact ⟨log_grows_mem g4 _ c3.1, log_grows_mem g4 _ c3.2, log_grows_mem g11 _ c10,
    log_grows_mem g12 _ c11, log_grows_mem g13 _ c12⟩

/-- C26. Every buffer bound in a lights bind group is at least as large as the minimum
binding size its layout declares. After `example_initialize` from the initial state,
where `camera_uniform_buffer_size` is 0 and is never assigned: the lights buffer bind
group layout is created with the minimum sizes 32768 (`4 * 8 * 1024`), 4 and 128
(`sizeof(mat4) * 2`) for the bindings 0, 1, 2, and the bind group created with this
layout binds 32768, 4 and 128 bytes (the lights, config and camera buffers). The
compute bind group layout is created with the minimum sizes 32768, 4 and
`camera_uniform_buffer_size = 0`; it is the one layout of the compute pipeline layout,
the bind group is created with the layout taken from group 0 of that pipeline and
binds 32768, 4 and 32 bytes (the lights, config and extent buffers). -/
theorem lights_bind_groups_fit {K : Type} [Field K] (env : Env K) (ctx ctx' : Context K)
    (s' : State K) (r : Int)
    (hinit : example_initialize env (some ctx) State.initial = .ok (r, some ctx', s')) :
    (Effect.create_bind_group_layout .lights_buffer_bind_group_layout
          lights_buffer_layout_entries s'.lights.buffer_bind_group_layout ∈ ctx'.log
        ∧ Effect.create_bind_group .lights_buffer_bind_group
            s'.lights.buffer_bind_group_layout (lights_buffer_bind_group_entries s')
            s'.lights.buffer_bind_group ∈ ctx'.log
        ∧ [0, 1, 2].map (min_binding_size lights_buffer_layout_entries)
            = [some 32768, some 4, some 128]
        ∧ (lights_buffer_bind_group_entries s').map (fun e => (e.binding, e.size))
            = [(0, 32768), (1, 4), (2, 128)]
        ∧ bindings_fit lights_buffer_layout_entries (lights_buffer_bind_group_entries s')
            = true)
      ∧ ((State.initial : State K).camera_uniform_buffer_size = 0
        ∧ s'.camera_uniform_buffer_size = 0
        ∧ Effect.create_bind_group_layout .lights_buffer_compute_bind_group_layout
            (lights_buffer_compute_layout_entries 0)
            s'.lights.buffer_compute_bind_group_layout ∈ ctx'.log
        ∧ Effect.create_pipeline_layout .light_update_compute_pipeline_layout
            [s'.lights.buffer_compute_bind_group_layout]
            s'.light_update_compute_pipeline_layout ∈ ctx'.log
        ∧ Effect.create_compute_pipeline .light_update_compute_pipeline
            s'.light_update_compute_pipeline_layout (env.device .light_update_compute_shader)
            s'.light_update_compute_pipeline ∈ ctx'.log
        ∧ Effect.get_bind_group_layout .light_update_compute_pipeline_bind_group_layout_0
            s'.light_update_compute_pipeline 0
            (env.device .light_update_compute_pipeline_bind_group_layout_0) ∈ ctx'.log
        ∧ Effect.create_bind_group .lights_buffer_compute_bind_group
            (env.device .light_update_compute_pipeline_bind_group_layout_0)
            (lights_buffer_compute_bind_group_entries s')
            s'.lights.buffer_compute_bind_group ∈ ctx'.log
        ∧ [0, 1, 2].map (min_binding_size (lights_buffer_compute_layout_entries 0))
            = [some 32768, some 4, some 0]
        ∧ (lights_buffer_compute_bind_group_entries s').map (fun e => (e.binding, e.size))
            = [(0, 32768), (1, 4), (2, 32)]
        ∧ bindings_fit (lights_buffer_compute_layout_entries 0)
            (lights_buffer_compute_bind_group_entries s') = true) := by
  have hst := (example_initialize_ok hinit).2.1
  have hl := example_initialize_layouts hinit
  have hb := example_initialize_bind_groups hinit
  have f1 : s'.lights.buffer_bind_group_layout = env.device .lights_buffer_bind_group_layout := by
    rw [hst]; rfl
  have f2 : s'.lights.buffer_compute_bind_group_layout
      = env.device .lights_buffer_compute_bind_group_layout := by rw [hst]; rfl
  have f3 : s'.light_update_compute_pipeline_layout
      = env.device .light_update_compute_pipeline_layout := by rw [hst]; rfl
  have f4 : s'.light_update_compute_pipeline = env.device .light_update_compute_pipeline := by
    rw [hst]; rfl
  have f5 : s'.camera_uniform_buffer_size = 0 := by rw [hst]; rfl
  have s1 : (lights_buffer_bind_group_entries s').map (fun e => (e.binding, e.size))
      = [(0, 32768), (1, 4), (2, 128)] := by rw [hst]; rfl
  have s2 : (lights_buffer_compute_bind_group_entries s').map (fun e => (e.binding, e.size))
      = [(0, 32768), (1, 4), (2, 32)] := by rw [hst]; rfl
  have b1 : bindings_fit lights_buffer_layout_entries (lights_buffer_bind_group_entries s')
      = true := by rw [hst]; rfl
  have b2 : bindings_fit (lights_buffer_compute_layout_entries 0)
      (lights_buffer_compute_bind_group_entries s') = true := by rw [hst]; rfl
  rw [f1, f2, f3, f4]
  rw [f1] at hb
  exact ⟨⟨hl.1, hb.1, by decide, s1, b1⟩,
    rfl, f5, hl.2.1, hl.2.2.1, hl.2.2.2.1, hl.2.2.2.2, hb.2, by decide, s2, b2⟩

/-- C26, in the sample run: both lights bind groups fit their layouts; the compute
group binds the 32-byte extent buffer at binding 2 against a minimum of 0. -/
theorem lights_bind_groups_fit_witness :
    bindings_fit lights_buffer_layout_entries (lights_buffer_bind_group_entries sample_ready.2)
        = true
      ∧ bindings_fit (lights_buffer_compute_layout_entries 0)
          (lights_buffer_compute_bind_group_entries sample_ready.2) = true
      ∧ (lights_buffer_compute_bind_group_entries sample_ready.2).map
          (fun e => (e.binding, e.size)) = [(0, 32768), (1, 4), (2, 32)] := by
  have h := lights_bind_groups_fit sample_env sample_context sample_ready.1 sample_ready.2 0
    (by rfl)
  exact ⟨h.1.2.2.2.2, h.2.2.2.2.2.2.2.2.2.2, h.2.2.2.2.2.2.2.2.2.1⟩

/-! ### What `prepare_lights` uploads -/

/-- When `prepare_lights` returns it has created the lights buffer with
`lights_buffer_size` bytes, mapped at creation, and has unmapped it holding the floats
its fill loop wrote; this is the only buffer of floats it unmaps. -/
theorem prepare_lights_upload {K : Type} [Field K] {env : Env K}
    {cs cs' : Context K × State K} (h : prepare_lights env cs = .ok cs') :
    Effect.create_buffer .lights_buffer lights_buffer_size true cs'.2.lights.buffer
        ∈ cs'.1.log
      ∧ Effect.unmap_floats cs'.2.lights.buffer (prepare_lights_data env.rand) ∈ cs'.1.log
      ∧ cs'.1.log.filterMap Effect.floats_unmapped?
          = cs.1.log.filterMap Effect.floats_unmapped?
              ++ [(cs'.2.lights.buffer, prepare_lights_data env.rand)]
      ∧ cs'.2.lights.buffer = env.device .lights_buffer
      ∧ cs'.2.lights.buffer_size = lights_buffer_size := by
  unfold prepare_lights at h
  obtain ⟨cs1, h1, h⟩ := bind_ok h
  obtain ⟨cs2, h2, h⟩ := bind_ok h
  unfold prepare_lights_buffer at h1
  replace h1 := (ASSERT_bind_ok h1).2
  replace h1 := (ASSERT_bind_ok h1).2
  replace h1 := (deref_bind_ok h1).2
  cases h1
  unfold prepare_lights_extent_buffer at h2
  cases h2
  unfold prepare_lights_bind_groups at h
  replace h := (ASSERT_bind_ok h).2
  replace h := (ASSERT_bind_ok h).2
  cases h
  refine ⟨?_, ?_, ?_, rfl, rfl⟩
  · simp [emit_log]
  · simp [emit_log]
  · simp [emit_log, List.filterMap_append, Effect.floats_unmapped?]

/-- C1. When `prepare_lights` returns, the floats it has written to the lights buffer
(the mapped range it unmaps, its only upload of floats) hold, for every light
`i < 1024` and component `j` of x, y, z, at offset `8 * i + j` the value
`r * (max_j - min_j) + min_j`, where `r` is the sample returned by call `6 * i + j` of
`random_float_min_max(0, 1)`; the extent box is `[-50,50] x [-30,30] x [-50,50]`, and
when `0 ≤ r ≤ 1` the position component lies in `[min_j, max_j]` (exact arithmetic in
an ordered field, the reals in particular). -/
theorem prepare_lights_position_within_extent {K : Type} [LinearOrderedField K]
    (env : Env K) (cs cs' : Context K × State K) (h : prepare_lights env cs = .ok cs')
    (i : Nat) (hi : i < 1024) (j : Fin 3) :
    Effect.unmap_floats cs'.2.lights.buffer (prepare_lights_data env.rand) ∈ cs'.1.log
      ∧ cs'.1.log.filterMap Effect.floats_unmapped?
          = cs.1.log.filterMap Effect.floats_unmapped?
              ++ [(cs'.2.lights.buffer, prepare_lights_data env.rand)]
      ∧ prepare_lights_data env.rand (8 * i + j)
          = some (env.rand (6 * i + j) 0 1 * (light_extent_max j - light_extent_min j)
                  + light_extent_min j)
      ∧ (light_extent_min : Vec3 K) = ![-50, -30, -50]
      ∧ (light_extent_max : Vec3 K) = ![50, 30, 50]
      ∧ (0 ≤ env.rand (6 * i + j) 0 1 → env.rand (6 * i + j) 0 1 ≤ 1 →
          light_extent_min j
              ≤ env.rand (6 * i + j) 0 1 * (light_extent_max j - light_extent_min j)
                + light_extent_min j
            ∧ env.rand (6 * i + j) 0 1 * (light_extent_max j - light_extent_min j)
                + light_extent_min j ≤ light_extent_max j) := by
  have hu := prepare_lights_upload h
  refine ⟨hu.2.1, hu.2.2.1, ?_, rfl, rfl, ?_⟩
  · have hj := j.isLt
    have hq : (8 * i + (j : Nat)) / 8 = i := by omega
    have hr : (8 * i + (j : Nat)) % 8 = j := by omega
    rw [prepare_lights_data_eq, if_pos (by omega), hq, hr]
    fin_cases j <;> simp [light_record, glm_vec3_sub]
  · intro h0 h1
    generalize env.rand (6 * i + j) 0 1 = r at h0 h1
    fin_cases j <;> simp [light_extent_min, light_extent_max] <;> constructor <;> linarith

/-- C1, in the sample run: `prepare_lights` returns and unmaps the lights buffer, handle
37, holding at float 25 (component y of light 3, call 19 of the sample stream
`1 / (n + 2)`) the value `1/21 * 60 - 30 = -190/7`, which lies in `[-30, 30]`. -/
theorem prepare_lights_position_within_extent_witness :
    prepare_lights sample_env (sample_context, State.initial) = .ok sample_lit
      ∧ Effect.unmap_floats (some 37) (prepare_lights_data sample_env.rand) ∈ sample_lit.1.log
      ∧ prepare_lights_data sample_env.rand 25 = some (-(190 / 7))
      ∧ (-30 : ℚ) ≤ -(190 / 7) ∧ (-(190 / 7) : ℚ) ≤ 30 := by
  have h := prepare_lights_position_within_extent sample_env (sample_context, State.initial)
    sample_lit (by rfl) 3 (by norm_num) 1
  have hr : sample_env.rand = fun (n : Nat) _ _ => 1 / ((n : ℚ) + 2) := rfl
  have hb : sample_lit.2.lights.buffer = some 37 := by rfl
  refine ⟨by rfl, hb ▸ h.1, ?_, by norm_num, by norm_num⟩
  have h1 := h.2.2.1
  rw [hr] at h1 ⊢
  norm_num [light_extent_min, light_extent_max] at h1
  simp only [one_div]
  exact h1

/-- C2. When `prepare_lights` returns, it has created the lights buffer with
`lights_buffer_size = 4 * (8 * 1024)` bytes and the floats it has written to it (the
mapped range it unmaps, its only upload of floats) hold, for every light `i < 1024`,
in the record at float offset `8 * i`: float 3 (position w) equal to 1, floats 4, 5, 6
(colour) equal to `r * 2` for the samples `r` of calls `6 * i + 3`, `6 * i + 4`,
`6 * i + 5` (hence in `[0, 2]` when `0 ≤ r ≤ 1`), and float 7 (radius) equal to 20; the
floats written are exactly those below `8 * 1024`, which is the whole buffer. -/
theorem prepare_lights_record_layout {K : Type} [LinearOrderedField K] (env : Env K)
    (cs cs' : Context K × State K) (h : prepare_lights env cs = .ok cs')
    (i : Nat) (hi : i < 1024) :
    Effect.create_buffer .lights_buffer lights_buffer_size true cs'.2.lights.buffer
        ∈ cs'.1.log
      ∧ Effect.unmap_floats cs'.2.lights.buffer (prepare_lights_data env.rand) ∈ cs'.1.log
      ∧ cs'.1.log.filterMap Effect.floats_unmapped?
          = cs.1.log.filterMap Effect.floats_unmapped?
              ++ [(cs'.2.lights.buffer, prepare_lights_data env.rand)]
      ∧ prepare_lights_data env.rand (8 * i + 3) = some 1
      ∧ (∀ c : Fin 3,
          prepare_lights_data env.rand (8 * i + 4 + c)
              = some (env.rand (6 * i + 3 + c) 0 1 * 2)
          ∧ (0 ≤ env.rand (6 * i + 3 + c) 0 1 → env.rand (6 * i + 3 + c) 0 1 ≤ 1 →
              0 ≤ env.rand (6 * i + 3 + c) 0 1 * 2 ∧ env.rand (6 * i + 3 + c) 0 1 * 2 ≤ 2))
      ∧ prepare_lights_data env.rand (8 * i + 7) = some 20
      ∧ (∀ k, (prepare_lights_data env.rand k).isSome = true ↔ k < 8 * 1024)
      ∧ lights_buffer_size = sizeof_float * (8 * 1024)
      ∧ max_num_lights = 1024 := by
  have hu := prepare_lights_upload h
  refine ⟨hu.1, hu.2.1, hu.2.2.1, ?_, ?_, ?_, ?_, by decide, by decide⟩
  · have hq : (8 * i + 3) / 8 = i := by omega
    have hr : (8 * i + 3) % 8 = 3 := by omega
    rw [prepare_lights_data_eq, if_pos (by omega), hq, hr]
    simp [light_record]
  · intro c
    constructor
    · have hc := c.isLt
      have hq : (8 * i + 4 + (c : Nat)) / 8 = i := by omega
      have hr : (8 * i + 4 + (c : Nat)) % 8 = 4 + c := by omega
      rw [prepare_lights_data_eq, if_pos (by omega), hq, hr]
      fin_cases c <;> simp [light_record]
    · intro h0 h1
      constructor <;> linarith
  · have hq : (8 * i + 7) / 8 = i := by omega
    have hr : (8 * i + 7) % 8 = 7 := by omega
    rw [prepare_lights_data_eq, if_pos (by omega), hq, hr]
    simp [light_record]
  · intro k
    rw [prepare_lights_data_eq]
    by_cases hk : k < 8 * 1024
    · have hlt : k % 8 < (light_record env.rand
          (glm_vec3_sub light_extent_max light_extent_min) (6 * (k / 8))).length := by
        simp only [light_record, List.length_cons, List.length_nil]; omega
      simp [hk, List.getElem?_eq_getElem hlt]
    · simp [hk]

/-- C2, in the sample run: `prepare_lights` returns and the floats it unmaps hold, for
light 3 of the sample stream `1 / (n + 2)`, w = 1, radius = 20 and green (float 29,
call 22) equal to `1/24 * 2`. -/
theorem prepare_lights_record_layout_witness :
    prepare_lights sample_env (sample_context, State.initial) = .ok sample_lit
      ∧ sample_lit.1.log.filterMap Effect.floats_unmapped?
          = [(some 37, prepare_lights_data sample_env.rand)]
      ∧ prepare_lights_data sample_env.rand 27 = some 1
      ∧ prepare_lights_data sample_env.rand 29 = some (1 / 12)
      ∧ prepare_lights_data sample_env.rand 31 = some 20 := by
  have h := prepare_lights_record_layout sample_env (sample_context, State.initial)
    sample_lit (by rfl) 3 (by norm_num)
  have hr : sample_env.rand = fun (n : Nat) _ _ => 1 / ((n : ℚ) + 2) := rfl
  have hb : sample_lit.2.lights.buffer = some 37 := by rfl
  have hl : (sample_context, (State.initial : State ℚ)).1.log.filterMap
      Effect.floats_unmapped? = [] := rfl
  have h2 := h.2.2.1
  rw [hl, hb, List.nil_append] at h2
  refine ⟨by rfl, h2, h.2.2.2.1, ?_, h.2.2.2.2.2.1⟩
  have h1 := (h.2.2.2.2.1 1).1
  rw [hr] at h1 ⊢
  norm_num at h1
  simp only [one_div]
  norm_num
  exact h1

end DeferredRendering

namespace Project

/-! ### Sprites -/

theorem AddSprite_iter_le {Mat Vec : Type} (env : Classes Mat Vec) (d : Int) (l : List Ptr) :
    AddSprite_iter env d l ≤ l.length := by
  induction l with
  | nil => exact Nat.le_refl _
  | cons x xs ih =>
    unfold AddSprite_iter
    by_cases h : d < env.GetDrawOrder x
    · rw [if_pos h]
      exact Nat.zero_le _
    · rw [if_neg h]
      exact Nat.succ_le_succ ih

theorem AddSprite_iter_before {Mat Vec : Type} (env : Classes Mat Vec) (d : Int) (l : List Ptr) :
    ∀ x ∈ l.take (AddSprite_iter env d l), env.GetDrawOrder x ≤ d := by
  induction l with
  | nil => intro x hx; cases hx
  | cons y ys ih =>
    intro x hx
    unfold AddSprite_iter at hx
    by_cases h : d < env.GetDrawOrder y
    · rw [if_pos h] at hx
      cases hx
    · rw [if_neg h, List.take_succ_cons] at hx
      rcases List.mem_cons.1 hx with rfl | hx'
      · exact not_lt.1 h
      · exact ih x hx'

theorem AddSprite_iter_after {Mat Vec : Type} (env : Classes Mat Vec) (d : Int) (l : List Ptr)
    (hs : sprites_sorted env l) :
    ∀ x ∈ l.drop (AddSprite_iter env d l), d < env.GetDrawOrder x := by
  induction l with
  | nil => intro x hx; cases hx
  | cons y ys ih =>
    intro x hx
    unfold AddSprite_iter at hx
    have hs' := List.pairwise_cons.1 hs
    by_cases h : d < env.GetDrawOrder y
    · rw [if_pos h, List.drop_zero] at hx
      rcases List.mem_cons.1 hx with rfl | hx'
      · exact h
      · exact lt_of_lt_of_le h (hs'.1 x hx')
    · rw [if_neg h, List.drop_succ_cons] at hx
      exact ih hs'.2 x hx

theorem vector_insert_sorted {Mat Vec : Type} (env : Classes Mat Vec) (l : List Ptr) (i : Nat)
    (s : Ptr) (hs : sprites_sorted env l)
    (hb : ∀ x ∈ l.take i, env.GetDrawOrder x ≤ env.GetDrawOrder s)
    (ha : ∀ x ∈ l.drop i, env.GetDrawOrder s ≤ env.GetDrawOrder x) :
    sprites_sorted env (vector_insert l i s) := by
  unfold sprites_sorted vector_insert at *
  have hl : l.take i ++ l.drop i = l := List.take_append_drop i l
  rw [← hl] at hs
  obtain ⟨h1, h2, h3⟩ := List.pairwise_append.1 hs
  refine List.pairwise_append.2 ⟨h1, List.pairwise_cons.2 ⟨ha, h2⟩, ?_⟩
  intro a ha' b hb'
  rcases List.mem_cons.1 hb' with rfl | hb''
  · exact hb a ha'
  · exact h3 a ha' b hb''

theorem vector_insert_sublist {α : Type} (l : List α) (i : Nat) (s : α) :
    l.Sublist (vector_insert l i s) := by
  unfold vector_insert
  have h : (l.take i ++ l.drop i).Sublist (l.take i ++ s :: l.drop i) :=
    List.Sublist.append (List.Sublist.refl _) (List.sublist_cons_self _ _)
  rwa [List.take_append_drop] at h

theorem vector_insert_length {α : Type} (l : List α) (i : Nat) (s : α) :
    (vector_insert l i s).length = l.length + 1 := by
  unfold vector_insert
  have h := congrArg List.length (List.take_append_drop i l)
  rw [List.length_append] at h
  rw [List.length_append, List.length_cons]
  omega

/-- C27. The function `Renderer::AddSprite` keeps the sprite list sorted and is
stable. If `mSprites` is in non-decreasing draw order, then after `AddSprite(s)` it
is again in non-decreasing draw order; it is the old list with `s` inserted at one
position `i`, so one longer and with the old list as a sublist (the other sprites
keep their relative order); every sprite in front of `s` has a draw order less than
or equal to that of `s` and every sprite behind `s` has a greater one, so `s` comes
after all existing sprites of equal order. No other member of the renderer
changes. -/
theorem AddSprite_keeps_sorted {Mat Vec : Type} (env : Classes Mat Vec) (r : Renderer Mat Vec)
    (s : Ptr) (hs : sprites_sorted env r.mSprites) :
    sprites_sorted env (AddSprite env r s).mSprites
      ∧ AddSprite_iter env (env.GetDrawOrder s) r.mSprites ≤ r.mSprites.length
      ∧ (AddSprite env r s).mSprites
          = r.mSprites.take (AddSprite_iter env (env.GetDrawOrder s) r.mSprites)
              ++ s :: r.mSprites.drop (AddSprite_iter env (env.GetDrawOrder s) r.mSprites)
      ∧ (AddSprite env r s).mSprites.length = r.mSprites.length + 1
      ∧ r.mSprites.Sublist (AddSprite env r s).mSprites
      ∧ (∀ x ∈ r.mSprites.take (AddSprite_iter env (env.GetDrawOrder s) r.mSprites),
          env.GetDrawOrder x ≤ env.GetDrawOrder s)
      ∧ (∀ x ∈ r.mSprites.drop (AddSprite_iter env (env.GetDrawOrder s) r.mSprites),
          env.GetDrawOrder s < env.GetDrawOrder x)
      ∧ AddSprite env r s = { r with mSprites := (AddSprite env r s).mSprites } := by
  have hb := AddSprite_iter_before env (env.GetDrawOrder s) r.mSprites
  have ha := AddSprite_iter_after env (env.GetDrawOrder s) r.mSprites hs
  refine ⟨?_, AddSprite_iter_le env _ _, rfl, vector_insert_length _ _ _,
    vector_insert_sublist _ _ _, hb, ha, rfl⟩
  exact vector_insert_sorted env _ _ s hs hb (fun x hx => le_of_lt (ha x hx))

/-- C27, on the sample renderer: adding sprite 3 (draw order 10) to the sprites
1, 3, 3, 5 (orders -10, 10, 10, 30) puts it behind the two sprites of order 10. -/
theorem AddSprite_keeps_sorted_witness :
    (AddSprite sample_classes sample_renderer 3).mSprites = [1, 3, 3, 3, 5]
      ∧ AddSprite_iter sample_classes (sample_classes.GetDrawOrder 3) sample_renderer.mSprites = 3
      ∧ sprites_sorted sample_classes (AddSprite sample_classes sample_renderer 3).mSprites :=
  ⟨by decide, by decide,
    (AddSprite_keeps_sorted sample_classes sample_renderer 3 (by
      unfold sprites_sorted
      decide)).1⟩

theorem std_find_le {α : Type} [DecidableEq α] (l : List α) (x : α) :
    std_find l x ≤ l.length := by
  induction l with
  | nil => exact Nat.le_refl _
  | cons y ys ih =>
    unfold std_find
    by_cases h : y = x
    · rw [if_pos h]
      exact Nat.zero_le _
    · rw [if_neg h]
      exact Nat.succ_le_succ ih

theorem std_find_eq_length {α : Type} [DecidableEq α] (l : List α) (x : α) :
    std_find l x = l.length ↔ x ∉ l := by
  induction l with
  | nil => simp [std_find]
  | cons y ys ih =>
    unfold std_find
    by_cases h : y = x
    · rw [if_pos h]
      simp [h]
    · rw [if_neg h]
      have hne : ¬ x = y := fun e => h e.symm
      simp [ih, hne]

theorem std_find_first {α : Type} [DecidableEq α] (l : List α) (x : α) (hx : x ∈ l) :
    l[std_find l x]? = some x ∧ x ∉ l.take (std_find l x) := by
  induction l with
  | nil => cases hx
  | cons y ys ih =>
    unfold std_find
    by_cases h : y = x
    · rw [if_pos h]
      simp [h]
    · rw [if_neg h]
      have hne : ¬ x = y := fun e => h e.symm
      rcases List.mem_cons.1 hx with e | hx'
      · exact absurd e hne
      · have := ih hx'
        simp [this.1, this.2, hne]

theorem eraseIdx_std_find {α : Type} [DecidableEq α] (l : List α) (x : α) :
    l.eraseIdx (std_find l x) = l.erase x := by
  induction l with
  | nil => rfl
  | cons y ys ih =>
    unfold std_find
    by_cases h : y = x
    · rw [if_pos h]
      simp [h]
    · rw [if_neg h, List.eraseIdx_cons_succ, ih, List.erase_cons_tail (by simpa using h)]

theorem RemoveSprite_mSprites {Mat Vec : Type} (r : Renderer Mat Vec) (s : Ptr) :
    (RemoveSprite r s).mSprites = r.mSprites.erase s := by
  unfold RemoveSprite
  by_cases h : std_find r.mSprites s ≠ r.mSprites.length
  · rw [if_pos h]
    exact eraseIdx_std_find _ _
  · rw [if_neg h]
    rw [not_not, std_find_eq_length] at h
    rw [List.erase_of_not_mem h]

theorem RemoveSprite_data {Mat Vec : Type} (r : Renderer Mat Vec) (s : Ptr) :
    RemoveSprite r s = { r with mSprites := r.mSprites.erase s } := by
  have h := RemoveSprite_mSprites r s
  unfold RemoveSprite at *
  by_cases hc : std_find r.mSprites s ≠ r.mSprites.length
  · rw [if_pos hc] at h ⊢
    rw [← h]
  · rw [if_neg hc] at h ⊢
    rw [← h]

/-- C28. The function `Renderer::RemoveSprite` removes the first occurrence of the
sprite and nothing else. If the sprite is not in `mSprites` the renderer is
unchanged. Otherwise `mSprites` loses exactly the element at the position
`std::find` returns, which holds the sprite and has no occurrence of it in front:
the list is one shorter. In both cases the new list is a sublist of the old one (the
remaining sprites keep their relative order), so a sorted list stays sorted, and no
other member of the renderer changes. For a sprite that is not in the list,
`AddSprite` followed by `RemoveSprite` gives back the renderer as it was. -/
theorem RemoveSprite_removes_first {Mat Vec : Type} (env : Classes Mat Vec)
    (r : Renderer Mat Vec) (s : Ptr) :
    (s ∉ r.mSprites → RemoveSprite r s = r)
      ∧ (s ∈ r.mSprites →
          r.mSprites[std_find r.mSprites s]? = some s
            ∧ s ∉ r.mSprites.take (std_find r.mSprites s)
            ∧ (RemoveSprite r s).mSprites
                = r.mSprites.take (std_find r.mSprites s)
                    ++ r.mSprites.drop (std_find r.mSprites s + 1)
            ∧ (RemoveSprite r s).mSprites.length + 1 = r.mSprites.length)
      ∧ (RemoveSprite r s).mSprites = r.mSprites.erase s
      ∧ (RemoveSprite r s).mSprites.Sublist r.mSprites
      ∧ (sprites_sorted env r.mSprites → sprites_sorted env (RemoveSprite r s).mSprites)
      ∧ RemoveSprite r s = { r with mSprites := (RemoveSprite r s).mSprites }
      ∧ (s ∉ r.mSprites → RemoveSprite (AddSprite env r s) s = r) := by
  have hm := RemoveSprite_mSprites r s
  have hsub : (RemoveSprite r s).mSprites.Sublist r.mSprites := by
    rw [hm]
    exact List.erase_sublist _ _
  refine ⟨?_, ?_, hm, hsub, ?_, ?_, ?_⟩
  · intro hs
    rw [RemoveSprite_data, List.erase_of_not_mem hs]
  · intro hs
    have hf := std_find_first r.mSprites s hs
    have hlt : std_find r.mSprites s < r.mSprites.length := by
      have h1 := std_find_le r.mSprites s
      have h2 : std_find r.mSprites s ≠ r.mSprites.length := by
        rw [Ne, std_find_eq_length]
        exact fun h => h hs
      omega
    refine ⟨hf.1, hf.2, ?_, ?_⟩
    · rw [hm, ← eraseIdx_std_find, List.eraseIdx_eq_take_drop_succ]
    · rw [hm, List.length_erase_of_mem hs]
      have : 0 < r.mSprites.length := List.length_pos_of_mem hs
      omega
  · intro hsorted
    exact List.Pairwise.sublist hsub hsorted
  · rw [RemoveSprite_data]
  · intro hs
    rw [RemoveSprite_data]
    have hnot : s ∉ r.mSprites.take (AddSprite_iter env (env.GetDrawOrder s) r.mSprites) :=
      fun h => hs (List.mem_of_mem_take h)
    have he : (AddSprite env r s).mSprites.erase s = r.mSprites := by
      show (vector_insert r.mSprites _ s).erase s = _
      unfold vector_insert
      rw [List.erase_append_right _ hnot, List.erase_cons_head, List.take_append_drop]
    rw [he]
    rfl

/-! ### Maps -/

theorem map_find_append {κ ν : Type} [DecidableEq κ] (m : List (κ × ν)) (k key : κ) (v : ν) :
    map_find (m ++ [(k, v)]) key
      = match map_find m key with
        | some x => some x
        | none => if k = key then some v else none := by
  induction m with
  | nil => rfl
  | cons e m ih =>
    obtain ⟨k0, v0⟩ := e
    show map_find ((k0, v0) :: (m ++ [(k, v)])) key = _
    unfold map_find
    by_cases h : k0 = key
    · rw [if_pos h, if_pos h]
    · rw [if_neg h, if_neg h]
      exact ih

theorem map_emplace_new {κ ν : Type} [DecidableEq κ] (m : List (κ × ν)) (k : κ) (v : ν)
    (h : map_find m k = none) :
    map_emplace m k v = m ++ [(k, v)] ∧ map_find (map_emplace m k v) k = some v := by
  have e : map_emplace m k v = m ++ [(k, v)] := by
    unfold map_emplace
    rw [h]
    rfl
  refine ⟨e, ?_⟩
  rw [e, map_find_append, h]
  simp

theorem map_emplace_other {κ ν : Type} [DecidableEq κ] (m : List (κ × ν)) (k key : κ) (v : ν)
    (hne : key ≠ k) : map_find (map_emplace m k v) key = map_find m key := by
  unfold map_emplace
  by_cases h : (map_find m k).isSome = true
  · rw [if_pos h]
  · rw [if_neg h, map_find_append]
    have hne' : ¬ k = key := fun e => hne e.symm
    cases map_find m key <;> simp [hne']

theorem map_emplace_keeps {κ ν : Type} [DecidableEq κ] (m : List (κ × ν)) (k key : κ) (v x : ν)
    (hx : map_find m key = some x) : map_find (map_emplace m k v) key = some x := by
  unfold map_emplace
  by_cases h : (map_find m k).isSome = true
  · rw [if_pos h]
    exact hx
  · rw [if_neg h, map_find_append, hx]

/-! ### The caches -/

theorem GetTexture_cached {Mat Vec : Type} (env : Classes Mat Vec) (r : Renderer Mat Vec)
    (fileName : String) (tex : Ptr) (h : map_find r.mTextures fileName = some tex) :
    GetTexture env r fileName = (some tex, r) := by
  unfold GetTexture
  rw [h]

theorem GetTexture_loaded {Mat Vec : Type} (env : Classes Mat Vec) (r : Renderer Mat Vec)
    (fileName : String) (h : map_find r.mTextures fileName = none)
    (hl : env.Texture_Load (env.alloc r.news) fileName = true) :
    GetTexture env r fileName
      = (some (env.alloc r.news),
         { r with
           mTextures := r.mTextures ++ [(fileName, env.alloc r.news)]
           news := r.news + 1
           log := r.log ++ [Event.new_Texture (env.alloc r.news),
                            Event.Texture_Load (env.alloc r.news) fileName true] }) := by
  unfold GetTexture
  rw [h]
  simp only [Renderer.new_object, Renderer.call, hl, if_true]
  have e : map_emplace r.mTextures fileName (env.alloc r.news)
      = r.mTextures ++ [(fileName, env.alloc r.news)] := (map_emplace_new _ _ _ h).1
  rw [e]
  simp

theorem GetTexture_failed {Mat Vec : Type} (env : Classes Mat Vec) (r : Renderer Mat Vec)
    (fileName : String) (h : map_find r.mTextures fileName = none)
    (hl : env.Texture_Load (env.alloc r.news) fileName = false) :
    GetTexture env r fileName
      = (none,
         { r with
           news := r.news + 1
           log := r.log ++ [Event.new_Texture (env.alloc r.news),
                            Event.Texture_Load (env.alloc r.news) fileName false,
                            Event.delete (env.alloc r.news)] }) := by
  unfold GetTexture
  rw [h]
  simp [Renderer.new_object, Renderer.call, hl]

theorem GetMesh_cached {Mat Vec : Type} (env : Classes Mat Vec) (r : Renderer Mat Vec)
    (fileName : String) (m : Ptr) (h : map_find r.mMeshes fileName = some m) :
    GetMesh env r fileName = (some m, r) := by
  unfold GetMesh
  rw [h]

theorem GetMesh_loaded {Mat Vec : Type} (env : Classes Mat Vec) (r : Renderer Mat Vec)
    (fileName : String) (h : map_find r.mMeshes fileName = none)
    (hl : (GetMesh_load env r fileName).1 = true) :
    GetMesh env r fileName
      = (some (env.alloc r.news),
         { (GetMesh_load env r fileName).2 with
           mMeshes := map_emplace (GetMesh_load env r fileName).2.mMeshes fileName
             (env.alloc r.news)
           log := (GetMesh_load env r fileName).2.log
             ++ [Event.Mesh_Load (env.alloc r.news) fileName true] }) := by
  unfold GetMesh
  rw [h]
  unfold GetMesh_load at hl
  simp only [Renderer.new_object, Renderer.call] at hl ⊢
  rw [hl]
  simp only [if_true]
  rfl

theorem GetMesh_failed {Mat Vec : Type} (env : Classes Mat Vec) (r : Renderer Mat Vec)
    (fileName : String) (h : map_find r.mMeshes fileName = none)
    (hl : (GetMesh_load env r fileName).1 = false) :
    GetMesh env r fileName
      = (none,
         { (GetMesh_load env r fileName).2 with
           log := (GetMesh_load env r fileName).2.log
             ++ [Event.Mesh_Load (env.alloc r.news) fileName false,
                 Event.delete (env.alloc r.news)] }) := by
  unfold GetMesh
  rw [h]
  unfold GetMesh_load at hl
  simp only [Renderer.new_object, Renderer.call] at hl ⊢
  rw [hl]
  simp [GetMesh_load, Renderer.new_object, Renderer.call]

/-- C29. The functions `Renderer::GetTexture` and `Renderer::GetMesh` are load-once
caches. If the name is cached, the cached pointer is returned and the renderer, its
log included, is unchanged: no object is created and no load attempted. If the name
is not cached and the load succeeds, the new object is returned and entered under the
name, so the next call with the name returns the same object and does nothing else.
If the load fails, `nullptr` is returned and the cache is as before (for
`GetTexture` only the log and the allocator have changed). A call never changes what
the cache holds for another name, and never changes an entry there is. For `GetMesh`
this is under the assumption that `Mesh::Load`, which is handed the renderer and lies
outside the sources, leaves `mMeshes` alone. -/
theorem caches_load_once {Mat Vec : Type} (env : Classes Mat Vec) (r : Renderer Mat Vec)
    (fileName : String)
    (hload : ∀ (p : Ptr) (f : String) (r0 : Renderer Mat Vec),
      (env.Mesh_Load p f r0).2.mMeshes = r0.mMeshes) :
    ((∀ tex, map_find r.mTextures fileName = some tex →
          GetTexture env r fileName = (some tex, r))
        ∧ (map_find r.mTextures fileName = none →
            env.Texture_Load (env.alloc r.news) fileName = true →
            (GetTexture env r fileName).1 = some (env.alloc r.news)
              ∧ (GetTexture env r fileName).2.mTextures
                  = r.mTextures ++ [(fileName, env.alloc r.news)]
              ∧ map_find (GetTexture env r fileName).2.mTextures fileName
                  = some (env.alloc r.news)
              ∧ GetTexture env (GetTexture env r fileName).2 fileName
                  = (some (env.alloc r.news), (GetTexture env r fileName).2))
        ∧ (map_find r.mTextures fileName = none →
            env.Texture_Load (env.alloc r.news) fileName = false →
            (GetTexture env r fileName).1 = none
              ∧ (GetTexture env r fileName).2.mTextures = r.mTextures
              ∧ same_data r (GetTexture env r fileName).2)
        ∧ (∀ other x, map_find r.mTextures other = some x →
            map_find (GetTexture env r fileName).2.mTextures other = some x)
        ∧ (∀ other, other ≠ fileName →
            map_find (GetTexture env r fileName).2.mTextures other
              = map_find r.mTextures other))
      ∧ ((∀ m, map_find r.mMeshes fileName = some m → GetMesh env r fileName = (some m, r))
        ∧ (map_find r.mMeshes fileName = none → (GetMesh_load env r fileName).1 = true →
            (GetMesh env r fileName).1 = some (env.alloc r.news)
              ∧ (GetMesh env r fileName).2.mMeshes
                  = r.mMeshes ++ [(fileName, env.alloc r.news)]
              ∧ map_find (GetMesh env r fileName).2.mMeshes fileName
                  = some (env.alloc r.news)
              ∧ GetMesh env (GetMesh env r fileName).2 fileName
                  = (some (env.alloc r.news), (GetMesh env r fileName).2))
        ∧ (map_find r.mMeshes fileName = none → (GetMesh_load env r fileName).1 = false →
            (GetMesh env r fileName).1 = none
              ∧ (GetMesh env r fileName).2.mMeshes = r.mMeshes)
        ∧ (∀ other x, map_find r.mMeshes other = some x →
            map_find (GetMesh env r fileName).2.mMeshes other = some x)
        ∧ (∀ other, other ≠ fileName →
            map_find (GetMesh env r fileName).2.mMeshes other = map_find r.mMeshes other)) := by
  have hin : (GetMesh_load env r fileName).2.mMeshes = r.mMeshes := by
    unfold GetMesh_load
    rw [hload]
    rfl
  have tcase : (∃ tex, map_find r.mTextures fileName = some tex
        ∧ GetTexture env r fileName = (some tex, r))
      ∨ (map_find r.mTextures fileName = none
          ∧ (GetTexture env r fileName).2.mTextures
              = r.mTextures ++ [(fileName, env.alloc r.news)])
      ∨ (map_find r.mTextures fileName = none
          ∧ (GetTexture env r fileName).2.mTextures = r.mTextures) := by
    cases h : map_find r.mTextures fileName with
    | some tex => exact Or.inl ⟨tex, rfl, GetTexture_cached env r fileName tex h⟩
    | none =>
      cases hl : env.Texture_Load (env.alloc r.news) fileName with
      | true => exact Or.inr (Or.inl ⟨rfl, by rw [GetTexture_loaded env r fileName h hl]⟩)
      | false => exact Or.inr (Or.inr ⟨rfl, by rw [GetTexture_failed env r fileName h hl]⟩)
  have mcase : (∃ m, map_find r.mMeshes fileName = some m
        ∧ GetMesh env r fileName = (some m, r))
      ∨ (map_find r.mMeshes fileName = none
          ∧ (GetMesh env r fileName).2.mMeshes = r.mMeshes ++ [(fileName, env.alloc r.news)])
      ∨ (map_find r.mMeshes fileName = none
          ∧ (GetMesh env r fileName).2.mMeshes = r.mMeshes) := by
    cases h : map_find r.mMeshes fileName with
    | some m => exact Or.inl ⟨m, rfl, GetMesh_cached env r fileName m h⟩
    | none =>
      cases hl : (GetMesh_load env r fileName).1 with
      | true =>
        refine Or.inr (Or.inl ⟨rfl, ?_⟩)
        rw [GetMesh_loaded env r fileName h hl]
        show map_emplace (GetMesh_load env r fileName).2.mMeshes fileName _ = _
        rw [hin]
        exact (map_emplace_new _ _ _ h).1
      | false =>
        refine Or.inr (Or.inr ⟨rfl, ?_⟩)
        rw [GetMesh_failed env r fileName h hl]
        exact hin
  refine ⟨⟨GetTexture_cached env r fileName, ?_, ?_, ?_, ?_⟩,
    ⟨GetMesh_cached env r fileName, ?_, ?_, ?_, ?_⟩⟩
  · intro h hl
    have e := GetTexture_loaded env r fileName h hl
    have hf : map_find (GetTexture env r fileName).2.mTextures fileName
        = some (env.alloc r.news) := by
      rw [e]
      show map_find (r.mTextures ++ [(fileName, env.alloc r.news)]) fileName = _
      rw [map_find_append, h]
      simp
    exact ⟨by rw [e], by rw [e], hf, GetTexture_cached env _ fileName _ hf⟩
  · intro h hl
    have e := GetTexture_failed env r fileName h hl
    refine ⟨by rw [e], by rw [e], ?_⟩
    unfold same_data
    rw [e]
  · intro other x hx
    rcases tcase with ⟨tex, _, e⟩ | ⟨h, e⟩ | ⟨_, e⟩
    · rw [e]
      exact hx
    · rw [e, map_find_append, hx]
    · rw [e]
      exact hx
  · intro other hne
    rcases tcase with ⟨tex, _, e⟩ | ⟨h, e⟩ | ⟨_, e⟩
    · rw [e]
    · rw [e, map_find_append]
      have hne' : ¬ fileName = other := fun e => hne e.symm
      cases map_find r.mTextures other <;> simp [hne']
    · rw [e]
  · intro h hl
    have e := GetMesh_loaded env r fileName h hl
    have hm : (GetMesh env r fileName).2.mMeshes
        = r.mMeshes ++ [(fileName, env.alloc r.news)] := by
      rw [e]
      show map_emplace (GetMesh_load env r fileName).2.mMeshes fileName _ = _
      rw [hin]
      exact (map_emplace_new _ _ _ h).1
    have hf : map_find (GetMesh env r fileName).2.mMeshes fileName
        = some (env.alloc r.news) := by
      rw [hm, map_find_append, h]
      simp
    exact ⟨by rw [e], hm, hf, GetMesh_cached env _ fileName _ hf⟩
  · intro h hl
    have e := GetMesh_failed env r fileName h hl
    exact ⟨by rw [e], by rw [e]; exact hin⟩
  · intro other x hx
    rcases mcase with ⟨m, _, e⟩ | ⟨h, e⟩ | ⟨_, e⟩
    · rw [e]
      exact hx
    · rw [e, map_find_append, hx]
    · rw [e]
      exact hx
  · intro other hne
    rcases mcase with ⟨m, _, e⟩ | ⟨h, e⟩ | ⟨_, e⟩
    · rw [e]
    · rw [e, map_find_append]
      have hne' : ¬ fileName = other := fun e => hne e.symm
      cases map_find r.mMeshes other <;> simp [hne']
    · rw [e]

/-- C29, on the sample renderer: the cached texture `a.png` is returned with the
renderer unchanged; `b.png` is loaded into the object 100, and asking again gives
100 with nothing more logged; the empty name fails to load and leaves the cache. -/
theorem caches_load_once_witness :
    GetTexture sample_classes sample_renderer "a.png" = (some 40, sample_renderer)
      ∧ (GetTexture sample_classes sample_renderer "b.png").1 = some 100
      ∧ (GetTexture sample_classes
          (GetTexture sample_classes sample_renderer "b.png").2 "b.png")
          = (some 100, (GetTexture sample_classes sample_renderer "b.png").2)
      ∧ (GetTexture sample_classes sample_renderer "").1 = none
      ∧ (GetTexture sample_classes sample_renderer "").2.mTextures
          = sample_renderer.mTextures
      ∧ (GetMesh sample_classes sample_renderer "m.gpmesh").1 = some 100 := by
  have h := caches_load_once sample_classes sample_renderer "b.png" (fun _ _ _ => rfl)
  have h0 := caches_load_once sample_classes sample_renderer "" (fun _ _ _ => rfl)
  have hm := caches_load_once sample_classes sample_renderer "m.gpmesh" (fun _ _ _ => rfl)
  have ha := caches_load_once sample_classes sample_renderer "a.png" (fun _ _ _ => rfl)
  have hb := h.1.2.1 (by decide) (by decide)
  have hz := h0.1.2.2.1 (by decide) (by decide)
  exact ⟨ha.1.1 40 (by decide), hb.1, hb.2.2.2, hz.1, hz.2.1,
    (hm.2.2.1 (by decide) (by decide)).1⟩

/-! ### Mesh components and the frame -/

theorem call_log {Mat Vec : Type} (r : Renderer Mat Vec) (e : Event Mat Vec) :
    (r.call e).log = r.log ++ [e] := rfl

theorem call_data {Mat Vec : Type} {a b : Renderer Mat Vec} (e : Event Mat Vec)
    (h : b = { a with log := b.log }) : b.call e = { a with log := (b.call e).log } := by
  rw [Renderer.call, h]

theorem foldl_call_data {Mat Vec : Type} {α : Type} (f : α → Event Mat Vec) (l : List α)
    (a b : Renderer Mat Vec) (h : b = { a with log := b.log }) :
    l.foldl (fun r x => r.call (f x)) b
        = { a with log := (l.foldl (fun r x => r.call (f x)) b).log }
      ∧ (l.foldl (fun r x => r.call (f x)) b).log = b.log ++ l.map f := by
  induction l generalizing b with
  | nil => exact ⟨h, by simp⟩
  | cons x xs ih =>
    have h' := ih (b.call (f x)) (call_data (f x) h)
    refine ⟨h'.1, ?_⟩
    rw [List.foldl_cons, h'.2, call_log]
    simp

theorem SetLightUniforms_data {Mat Vec : Type} (env : Classes Mat Vec) {a b : Renderer Mat Vec}
    (shader : Ptr) (h : b = { a with log := b.log }) :
    SetLightUniforms env b shader = { a with log := (SetLightUniforms env b shader).log }
      ∧ (SetLightUniforms env b shader).log.filterMap Event.mesh_draw?
          = b.log.filterMap Event.mesh_draw? := by
  unfold SetLightUniforms
  refine ⟨?_, ?_⟩
  · repeat apply call_data
    exact h
  · simp [call_log, List.filterMap_append, Event.mesh_draw?]

theorem Draw_mesh_entry_data {Mat Vec : Type} (env : Classes Mat Vec) (a b : Renderer Mat Vec)
    (pair : Ptr × List Ptr) (h : b = { a with log := b.log }) :
    Draw_mesh_entry env b pair = { a with log := (Draw_mesh_entry env b pair).log }
      ∧ (Draw_mesh_entry env b pair).log.filterMap Event.mesh_draw?
          = b.log.filterMap Event.mesh_draw? ++ pair.2.map fun meshComp => (meshComp, pair.1) := by
  unfold Draw_mesh_entry
  have h1 := SetLightUniforms_data env pair.1
    (call_data (Event.Shader_SetMatrixUniform pair.1 "uViewProj"
        (env.Matrix4_mul (b.call (Event.Shader_SetActive pair.1)).mView
          (b.call (Event.Shader_SetActive pair.1)).mProjection))
      (call_data (Event.Shader_SetActive pair.1) h))
  have h2 := foldl_call_data (fun meshComp => Event.MeshComponent_Draw meshComp pair.1)
    pair.2 a _ h1.1
  refine ⟨h2.1, ?_⟩
  rw [h2.2, List.filterMap_append, h1.2]
  simp [call_log, List.filterMap_append, Event.mesh_draw?, List.filterMap_map]
  induction pair.2 with
  | nil => rfl
  | cons x xs ih => simp [Event.mesh_draw?, ih]

theorem Draw_mesh_entries {Mat Vec : Type} (env : Classes Mat Vec) (m : List (Ptr × List Ptr))
    (a b : Renderer Mat Vec) (h : b = { a with log := b.log }) :
    m.foldl (Draw_mesh_entry env) b
        = { a with log := (m.foldl (Draw_mesh_entry env) b).log }
      ∧ (m.foldl (Draw_mesh_entry env) b).log.filterMap Event.mesh_draw?
          = b.log.filterMap Event.mesh_draw? ++ linked_draws m := by
  induction m generalizing b with
  | nil => exact ⟨h, by simp [linked_draws]⟩
  | cons pair m ih =>
    have h1 := Draw_mesh_entry_data env a b pair h
    have h2 := ih (Draw_mesh_entry env b pair) h1.1
    refine ⟨h2.1, ?_⟩
    rw [List.foldl_cons, h2.2, h1.2]
    simp [linked_draws]

theorem Draw_defined {Mat Vec : Type} (env : Classes Mat Vec) (r : Renderer Mat Vec)
    (spriteShader spriteVerts : Ptr) (hs : r.mSpriteShader = some spriteShader)
    (hv : r.mSpriteVerts = some spriteVerts) :
    ∃ r', Draw env r = some r' ∧ r' = { r with log := r'.log }
      ∧ r'.log.filterMap Event.mesh_draw?
          = r.log.filterMap Event.mesh_draw? ++ linked_draws r.mShaderMeshCompMap := by
  have k0 : ∀ x : Renderer Mat Vec, x = { x with log := x.log } := fun _ => rfl
  have h4 : (((r.call (.glClearColor (83 / 100) (83 / 100) (83 / 100) 1)).call
      (.glClear ["GL_COLOR_BUFFER_BIT", "GL_DEPTH_BUFFER_BIT"])).call
      (.glEnable "GL_DEPTH_TEST")).call (.glDisable "GL_BLEND")
      = { r with log := ((((r.call (.glClearColor (83 / 100) (83 / 100) (83 / 100) 1)).call
          (.glClear ["GL_COLOR_BUFFER_BIT", "GL_DEPTH_BUFFER_BIT"])).call
          (.glEnable "GL_DEPTH_TEST")).call (.glDisable "GL_BLEND")).log } := by
    repeat apply call_data
    exact k0 r
  have hm := Draw_mesh_entries env r.mShaderMeshCompMap r _ h4
  generalize hb : (((r.call (.glClearColor (83 / 100) (83 / 100) (83 / 100) 1)).call
      (.glClear ["GL_COLOR_BUFFER_BIT", "GL_DEPTH_BUFFER_BIT"])).call
      (.glEnable "GL_DEPTH_TEST")).call (.glDisable "GL_BLEND") = b at h4 hm
  have hblog : b.log.filterMap Event.mesh_draw? = r.log.filterMap Event.mesh_draw? := by
    rw [← hb]
    simp [call_log, List.filterMap_append, Event.mesh_draw?]
  have hbmap : b.mShaderMeshCompMap = r.mShaderMeshCompMap := by rw [h4]
  generalize hc : r.mShaderMeshCompMap.foldl (Draw_mesh_entry env) b = c at hm
  have h8 : (((c.call (.glDisable "GL_DEPTH_TEST")).call (.glEnable "GL_BLEND")).call
      (.glBlendEquationSeparate "GL_FUNC_ADD" "GL_FUNC_ADD")).call
      (.glBlendFuncSeparate "GL_SRC_ALPHA" "GL_ONE_MINUS_SRC_ALPHA" "GL_ONE" "GL_ZERO")
      = { r with log := ((((c.call (.glDisable "GL_DEPTH_TEST")).call
          (.glEnable "GL_BLEND")).call
          (.glBlendEquationSeparate "GL_FUNC_ADD" "GL_FUNC_ADD")).call
          (.glBlendFuncSeparate "GL_SRC_ALPHA" "GL_ONE_MINUS_SRC_ALPHA" "GL_ONE"
            "GL_ZERO")).log } := by
    repeat apply call_data
    exact hm.1
  generalize hd : (((c.call (.glDisable "GL_DEPTH_TEST")).call (.glEnable "GL_BLEND")).call
      (.glBlendEquationSeparate "GL_FUNC_ADD" "GL_FUNC_ADD")).call
      (.glBlendFuncSeparate "GL_SRC_ALPHA" "GL_ONE_MINUS_SRC_ALPHA" "GL_ONE" "GL_ZERO")
      = d at h8
  have hdlog : d.log.filterMap Event.mesh_draw? = c.log.filterMap Event.mesh_draw? := by
    rw [← hd]
    simp [call_log, List.filterMap_append, Event.mesh_draw?]
  have hds : d.mSpriteShader = some spriteShader := by rw [h8]; exact hs
  have hdv : d.mSpriteVerts = some spriteVerts := by rw [h8]; exact hv
  have h10 : (d.call (.Shader_SetActive spriteShader)).call (.VertexArray_SetActive spriteVerts)
      = { r with log := ((d.call (.Shader_SetActive spriteShader)).call
          (.VertexArray_SetActive spriteVerts)).log } := by
    repeat apply call_data
    exact h8
  have hsp := foldl_call_data (fun sprite => Event.SpriteComponent_Draw sprite spriteShader)
    ((d.call (.Shader_SetActive spriteShader)).call
      (.VertexArray_SetActive spriteVerts)).mSprites r _ h10
  have hdraw : Draw env r
      = some ((((d.call (.Shader_SetActive spriteShader)).call
          (.VertexArray_SetActive spriteVerts)).mSprites.foldl
            (fun r sprite => r.call (.SpriteComponent_Draw sprite spriteShader))
            ((d.call (.Shader_SetActive spriteShader)).call
              (.VertexArray_SetActive spriteVerts))).call .SDL_GL_SwapWindow) := by
    unfold Draw
    simp only []
    rw [hb, hbmap, hc, hd, hds, hdv]
  refine ⟨_, hdraw, call_data _ hsp.1, ?_⟩
  rw [call_log, hsp.2]
  simp only [call_log, List.filterMap_append, List.filterMap_map]
  rw [hdlog, hm.2, hblog]
  simp [Event.mesh_draw?]

theorem map_update_second_find {κ ν : Type} [DecidableEq κ] (f : ν → ν) (m : List (κ × ν))
    (k : κ) :
    map_find (map_update_second f m k) k = (map_find m k).map f
      ∧ (∀ key, key ≠ k → map_find (map_update_second f m k) key = map_find m key)
      ∧ (map_update_second f m k).map Prod.fst = m.map Prod.fst := by
  induction m with
  | nil => exact ⟨rfl, fun _ _ => rfl, rfl⟩
  | cons e m ih =>
    obtain ⟨k0, v0⟩ := e
    by_cases h : k0 = k
    · subst h
      refine ⟨?_, ?_, ?_⟩
      · simp [map_update_second, map_find]
      · intro key hne
        have hne' : ¬ k0 = key := fun e => hne e.symm
        simp [map_update_second, map_find, hne']
      · simp [map_update_second]
    · refine ⟨?_, ?_, ?_⟩
      · simp [map_update_second, map_find, h, ih.1]
      · intro key hne
        by_cases hk : k0 = key
        · subst hk
          simp [map_update_second, map_find, h]
        · simp [map_update_second, map_find, h, hk, ih.2.1 key hne]
      · simp [map_update_second, h, ih.2.2]

theorem map_find_none_iff {κ ν : Type} [DecidableEq κ] (m : List (κ × ν)) (k : κ) :
    map_find m k = none ↔ k ∉ m.map Prod.fst := by
  induction m with
  | nil => simp [map_find]
  | cons e m ih =>
    obtain ⟨k0, v0⟩ := e
    by_cases h : k0 = k
    · simp [map_find, h]
    · have hne : ¬ k = k0 := fun e => h e.symm
      simp [map_find, h, hne, ih]

theorem linked_draws_mem (m : List (Ptr × List Ptr)) (k : Ptr) (l : List Ptr)
    (h : map_find m k = some l) (c : Ptr) (hc : c ∈ l) : (c, k) ∈ linked_draws m := by
  induction m with
  | nil => cases h
  | cons e m ih =>
    obtain ⟨k0, v0⟩ := e
    unfold map_find at h
    by_cases hk : k0 = k
    · rw [if_pos hk] at h
      cases h
      subst hk
      simp [linked_draws, hc]
    · rw [if_neg hk] at h
      have := ih h
      simp only [linked_draws, List.flatMap_cons, List.mem_append] at this ⊢
      exact Or.inr this

theorem linked_draws_of_shader (m : List (Ptr × List Ptr)) (hn : (m.map Prod.fst).Nodup)
    (sh : Ptr) :
    (linked_draws m).filter (fun d => d.2 = sh)
      = ((map_find m sh).getD []).map fun c => (c, sh) := by
  induction m with
  | nil => rfl
  | cons e m ih =>
    obtain ⟨k0, v0⟩ := e
    have hn' := List.nodup_cons.1 hn
    have hrec := ih hn'.2
    simp only [linked_draws, List.flatMap_cons, List.filter_append] at hrec ⊢
    by_cases hk : k0 = sh
    · subst hk
      have hnone : map_find m k0 = none := (map_find_none_iff m k0).2 hn'.1
      rw [hnone] at hrec
      have hf : (List.map (fun meshComp => (meshComp, k0)) v0).filter (fun d => d.2 = k0)
          = List.map (fun meshComp => (meshComp, k0)) v0 := by
        rw [List.filter_eq_self]
        intro d hd
        obtain ⟨c, _, rfl⟩ := List.mem_map.1 hd
        simp
      have hfind : map_find ((k0, v0) :: m) k0 = some v0 := by simp [map_find]
      rw [hrec, hf, hfind]
      simp
    · have he : (List.map (fun meshComp => (meshComp, k0)) v0).filter (fun d => d.2 = sh)
          = [] := by
        rw [List.filter_eq_nil_iff]
        intro d hd
        obtain ⟨c, _, rfl⟩ := List.mem_map.1 hd
        simpa using hk
      have hfind : map_find ((k0, v0) :: m) sh = map_find m sh := by simp [map_find, hk]
      rw [hrec, he, hfind]
      simp

theorem RemoveMeshComponent_present {Mat Vec : Type} (r : Renderer Mat Vec) (mesh : Ptr)
    (h : mesh ∈ r.mMeshComponents) :
    RemoveMeshComponent r mesh
      = some { r with mMeshComponents := r.mMeshComponents.erase mesh } := by
  have hlt : std_find r.mMeshComponents mesh < r.mMeshComponents.length := by
    have h1 := std_find_le r.mMeshComponents mesh
    have h2 : std_find r.mMeshComponents mesh ≠ r.mMeshComponents.length := by
      rw [Ne, std_find_eq_length]
      exact fun hn => hn h
    omega
  unfold RemoveMeshComponent vector_erase
  simp only [hlt, if_true, Option.map_some', eraseIdx_std_find]

theorem RemoveMeshComponent_absent {Mat Vec : Type} (r : Renderer Mat Vec) (mesh : Ptr)
    (h : mesh ∉ r.mMeshComponents) : RemoveMeshComponent r mesh = none := by
  have he := (std_find_eq_length r.mMeshComponents mesh).2 h
  unfold RemoveMeshComponent vector_erase
  simp [he]

theorem LoadShader_data {Mat Vec : Type} (env : Classes Mat Vec) (r : Renderer Mat Vec)
    (sh : Ptr) :
    LoadShader env r sh
      = { r with mView := (LoadShader env r sh).mView
                 mProjection := (LoadShader env r sh).mProjection
                 log := (LoadShader env r sh).log } := rfl

theorem GetShader_cached {Mat Vec : Type} (env : Classes Mat Vec) (r : Renderer Mat Vec)
    (fileName : String) (sh : Ptr) (h : map_find r.mShaders fileName = some sh) :
    GetShader env r fileName = (some sh, r) := by
  unfold GetShader
  rw [h]

theorem GetShader_loaded {Mat Vec : Type} (env : Classes Mat Vec) (r : Renderer Mat Vec)
    (fileName : String) (h : map_find r.mShaders fileName = none)
    (hl : env.Shader_Load (env.alloc r.news) (fileName ++ ".vert") (fileName ++ ".frag")
      = true) :
    GetShader env r fileName
      = (some (env.alloc r.news),
         LoadShader env
           { r with
             mShaders := map_emplace r.mShaders fileName (env.alloc r.news)
             news := r.news + 1
             log := r.log ++ [Event.new_Shader (env.alloc r.news),
                              Event.Shader_Load (env.alloc r.news) (fileName ++ ".vert")
                                (fileName ++ ".frag") true] }
           (env.alloc r.news)) := by
  unfold GetShader
  rw [h]
  simp [Renderer.new_object, Renderer.call, hl]

theorem GetShader_failed {Mat Vec : Type} (env : Classes Mat Vec) (r : Renderer Mat Vec)
    (fileName : String) (h : map_find r.mShaders fileName = none)
    (hl : env.Shader_Load (env.alloc r.news) (fileName ++ ".vert") (fileName ++ ".frag")
      = false) :
    GetShader env r fileName
      = (none,
         { r with
           news := r.news + 1
           log := r.log ++ [Event.new_Shader (env.alloc r.news),
                            Event.Shader_Load (env.alloc r.news) (fileName ++ ".vert")
                              (fileName ++ ".frag") false,
                            Event.SDL_Log ("Could not find shader " ++ fileName ++ "."),
                            Event.delete (env.alloc r.news)] }) := by
  unfold GetShader
  rw [h]
  simp [Renderer.new_object, Renderer.call, hl]

theorem GetShader_cases {Mat Vec : Type} (env : Classes Mat Vec) (r : Renderer Mat Vec)
    (fileName : String) :
    (GetShader env r fileName).2.mShaderMeshCompMap = r.mShaderMeshCompMap
      ∧ (GetShader env r fileName).2.mMeshComponents = r.mMeshComponents
      ∧ ((GetShader env r fileName).1 = none → same_data r (GetShader env r fileName).2) := by
  cases h : map_find r.mShaders fileName with
  | some sh =>
    rw [GetShader_cached env r fileName sh h]
    exact ⟨rfl, rfl, fun hn => by cases hn⟩
  | none =>
    cases hl : env.Shader_Load (env.alloc r.news) (fileName ++ ".vert") (fileName ++ ".frag") with
    | true =>
      rw [GetShader_loaded env r fileName h hl]
      exact ⟨rfl, rfl, fun hn => by cases hn⟩
    | false =>
      rw [GetShader_failed env r fileName h hl]
      exact ⟨rfl, rfl, fun _ => rfl⟩

theorem map_emplace_keys {κ ν : Type} [DecidableEq κ] (m : List (κ × ν)) (k : κ) (v : ν)
    (h : map_find m k = none) (hn : (m.map Prod.fst).Nodup) :
    ((map_emplace m k v).map Prod.fst).Nodup := by
  have hk : k ∉ m.map Prod.fst := (map_find_none_iff m k).1 h
  unfold map_emplace
  rw [h]
  simp only [Option.isSome_none, Bool.false_eq_true, if_false, List.map_append, List.map_cons,
    List.map_nil]
  rw [List.nodup_append]
  refine ⟨hn, List.nodup_singleton _, ?_⟩
  intro a ha hb
  rw [List.mem_singleton] at hb
  subst hb
  exact hk ha

theorem LinkShaderToMeshComp_failed {Mat Vec : Type} (env : Classes Mat Vec)
    (r : Renderer Mat Vec) (fileName : String) (meshComp : Ptr)
    (h : (GetShader env r fileName).1 = none) :
    LinkShaderToMeshComp env r fileName meshComp = (GetShader env r fileName).2 := by
  unfold LinkShaderToMeshComp
  simp only [h]

theorem LinkShaderToMeshComp_linked {Mat Vec : Type} (env : Classes Mat Vec)
    (r : Renderer Mat Vec) (fileName : String) (meshComp : Ptr) (sh : Ptr)
    (h : (GetShader env r fileName).1 = some sh) :
    LinkShaderToMeshComp env r fileName meshComp
        = { (GetShader env r fileName).2 with
            mShaderMeshCompMap :=
              (LinkShaderToMeshComp env r fileName meshComp).mShaderMeshCompMap }
      ∧ map_find (LinkShaderToMeshComp env r fileName meshComp).mShaderMeshCompMap sh
          = some ((map_find r.mShaderMeshCompMap sh).getD [] ++ [meshComp])
      ∧ (∀ k, k ≠ sh →
          map_find (LinkShaderToMeshComp env r fileName meshComp).mShaderMeshCompMap k
            = map_find r.mShaderMeshCompMap k)
      ∧ ((r.mShaderMeshCompMap.map Prod.fst).Nodup →
          ((LinkShaderToMeshComp env r fileName meshComp).mShaderMeshCompMap.map
            Prod.fst).Nodup) := by
  have hmap := (GetShader_cases env r fileName).1
  generalize hg : GetShader env r fileName = g at h hmap
  obtain ⟨o, r1⟩ := g
  simp only at h hmap
  subst h
  unfold LinkShaderToMeshComp
  simp only [hg]
  rw [hmap]
  cases hm : map_find r.mShaderMeshCompMap sh with
  | some l =>
    have hu := map_update_second_find (fun vec => vec ++ [meshComp]) r.mShaderMeshCompMap sh
    refine ⟨rfl, ?_, ?_, ?_⟩
    · simp only [hu.1, hm, Option.map_some', Option.getD_some]
    · intro k hk
      exact hu.2.1 k hk
    · intro hn
      simp only [hu.2.2]
      exact hn
  | none =>
    refine ⟨rfl, ?_, ?_, ?_⟩
    · simp only [Option.getD_none, List.nil_append]
      exact (map_emplace_new r.mShaderMeshCompMap sh [meshComp] hm).2
    · intro k hk
      exact map_emplace_other r.mShaderMeshCompMap sh k [meshComp] hk
    · intro hn
      exact map_emplace_keys r.mShaderMeshCompMap sh [meshComp] hm hn

/-- C30. The mesh components `Draw` draws are the links of `mShaderMeshCompMap`,
each component once per link under its shader, and `Draw` changes no member.
`AddMeshComponent` changes `mMeshComponents` only, and so does
`RemoveMeshComponent` of a component that is in `mMeshComponents`, after which `Draw`
draws the same links as before. `LinkShaderToMeshComp` leaves every member as it was
when the shader cannot be loaded, and otherwise changes, after `GetShader`, only
`mShaderMeshCompMap`: the list of its shader gets the component at its end, a list
of one when the shader had none, and the lists of the other shaders stay. For a
component that is not in `mMeshComponents`, `RemoveMeshComponent` erases `end()`
unchecked, which is undefined, where `RemoveSprite` checks and leaves the renderer
alone. -/
theorem mesh_draws_follow_links {Mat Vec : Type} (env : Classes Mat Vec)
    (r : Renderer Mat Vec) (spriteShader spriteVerts : Ptr)
    (hs : r.mSpriteShader = some spriteShader) (hv : r.mSpriteVerts = some spriteVerts)
    (hn : (r.mShaderMeshCompMap.map Prod.fst).Nodup) :
    (∃ r', Draw env r = some r' ∧ r' = { r with log := r'.log }
        ∧ r'.log.filterMap Event.mesh_draw?
            = r.log.filterMap Event.mesh_draw? ++ linked_draws r.mShaderMeshCompMap)
      ∧ (∀ sh, (linked_draws r.mShaderMeshCompMap).filter (fun d => d.2 = sh)
            = ((map_find r.mShaderMeshCompMap sh).getD []).map fun c => (c, sh))
      ∧ (∀ mesh, AddMeshComponent r mesh
            = { r with mMeshComponents := r.mMeshComponents ++ [mesh] })
      ∧ (∀ mesh, mesh ∈ r.mMeshComponents →
          ∃ r1, RemoveMeshComponent r mesh = some r1
            ∧ r1 = { r with mMeshComponents := r.mMeshComponents.erase mesh }
            ∧ ∃ r2, Draw env r1 = some r2
                ∧ r2.log.filterMap Event.mesh_draw?
                    = r.log.filterMap Event.mesh_draw?
                      ++ linked_draws r.mShaderMeshCompMap)
      ∧ (∀ mesh, mesh ∉ r.mMeshComponents → RemoveMeshComponent r mesh = none)
      ∧ (∀ sprite, sprite ∉ r.mSprites → RemoveSprite r sprite = r)
      ∧ ∀ fileName meshComp,
          ((GetShader env r fileName).1 = none →
              LinkShaderToMeshComp env r fileName meshComp = (GetShader env r fileName).2
                ∧ same_data r (LinkShaderToMeshComp env r fileName meshComp))
            ∧ ∀ sh, (GetShader env r fileName).1 = some sh →
                LinkShaderToMeshComp env r fileName meshComp
                    = { (GetShader env r fileName).2 with
                        mShaderMeshCompMap :=
                          (LinkShaderToMeshComp env r fileName meshComp).mShaderMeshCompMap }
                  ∧ map_find
                      (LinkShaderToMeshComp env r fileName meshComp).mShaderMeshCompMap sh
                      = some ((map_find r.mShaderMeshCompMap sh).getD [] ++ [meshComp])
                  ∧ (∀ k, k ≠ sh →
                      map_find
                        (LinkShaderToMeshComp env r fileName meshComp).mShaderMeshCompMap k
                        = map_find r.mShaderMeshCompMap k)
                  ∧ (linked_draws
                      (LinkShaderToMeshComp env r fileName meshComp).mShaderMeshCompMap).filter
                        (fun d => d.2 = sh)
                      = (linked_draws r.mShaderMeshCompMap).filter (fun d => d.2 = sh)
                        ++ [(meshComp, sh)]
                  ∧ ∀ k, k ≠ sh →
                      (linked_draws
                        (LinkShaderToMeshComp env r fileName meshComp).mShaderMeshCompMap).filter
                          (fun d => d.2 = k)
                        = (linked_draws r.mShaderMeshCompMap).filter (fun d => d.2 = k) := by
  refine ⟨Draw_defined env r spriteShader spriteVerts hs hv,
    fun sh => linked_draws_of_shader r.mShaderMeshCompMap hn sh, fun _ => rfl, ?_,
    fun mesh h => RemoveMeshComponent_absent r mesh h, ?_, ?_⟩
  · intro mesh hmesh
    refine ⟨_, RemoveMeshComponent_present r mesh hmesh, rfl, ?_⟩
    obtain ⟨r2, h2, _, h3⟩ :=
      Draw_defined env { r with mMeshComponents := r.mMeshComponents.erase mesh }
        spriteShader spriteVerts hs hv
    exact ⟨r2, h2, h3⟩
  · intro sprite hsprite
    have he := (std_find_eq_length r.mSprites sprite).2 hsprite
    unfold RemoveSprite
    simp [he]
  · intro fileName meshComp
    refine ⟨fun h => ?_, fun sh h => ?_⟩
    · have e := LinkShaderToMeshComp_failed env r fileName meshComp h
      refine ⟨e, ?_⟩
      rw [e]
      exact (GetShader_cases env r fileName).2.2 h
    · obtain ⟨h1, h2, h3, h4⟩ := LinkShaderToMeshComp_linked env r fileName meshComp sh h
      have hn' := h4 hn
      refine ⟨h1, h2, h3, ?_, ?_⟩
      · rw [linked_draws_of_shader _ hn' sh, linked_draws_of_shader _ hn sh, h2]
        simp
      · intro k hk
        rw [linked_draws_of_shader _ hn' k, linked_draws_of_shader _ hn k, h3 k hk]

/-- The sample renderer: a frame draws the components 7 and 8 under the shader 50,
also after component 7 is removed; removing the component 9, which was never added,
is undefined; linking component 9 to the cached shader "Phong" makes the list of
shader 50 the components 7, 8, 9. -/
theorem mesh_draws_follow_links_witness :
    sample_renderer.mSpriteShader = some 60 ∧ sample_renderer.mSpriteVerts = some 61
      ∧ (sample_renderer.mShaderMeshCompMap.map Prod.fst).Nodup
      ∧ linked_draws sample_renderer.mShaderMeshCompMap = [(7, 50), (8, 50)]
      ∧ (∃ r1, RemoveMeshComponent sample_renderer 7 = some r1
          ∧ r1 = { sample_renderer with mMeshComponents := [8] }
          ∧ ∃ r2, Draw sample_classes r1 = some r2
              ∧ r2.log.filterMap Event.mesh_draw? = [(7, 50), (8, 50)])
      ∧ RemoveMeshComponent sample_renderer 9 = none
      ∧ RemoveSprite sample_renderer 9 = sample_renderer
      ∧ map_find (LinkShaderToMeshComp sample_classes sample_renderer "Phong"
          9).mShaderMeshCompMap 50 = some [7, 8, 9] :=
  have h := mesh_draws_follow_links sample_classes sample_renderer 60 61 rfl rfl (by decide)
  ⟨rfl, rfl, by decide, by decide, h.2.2.2.1 7 (by decide), h.2.2.2.2.1 9 (by decide),
    h.2.2.2.2.2.1 9 (by decide), ((h.2.2.2.2.2.2 "Phong" 9).2 50 rfl).2.1⟩

end Project
